import Mathlib

/-! PCISPH: the host side of the fluid engine.

A shallow embedding of `src/PCISPH/src/sim/Fluid.cpp` (class `sim::Fluid`) and of the
main loop of `src/PCISPH/src/main.cpp`.

* Machine integers (`cl_uint`, `std::uint32_t`, `unsigned int`) are `Nat` with explicit
  reduction modulo `2^32`; `std::size_t` is reduced modulo `2^64`.
* `float` arithmetic is taken through a record `Arith F` of operations on a carrier `F`,
  so that statements about control flow hold for every arithmetic; `Arith.exact` is exact
  arithmetic on a linearly ordered field.
* The OpenCL runtime is not part of the repository: every call on the command queue is
  recorded as an `Event` in the order it is enqueued, and the values produced on the
  device are an input of the model. The wrapper `CL/cl.hpp` is used with exceptions
  enabled (gl_libs.h:3-4): where the runtime refuses a call of
  `update_deduced_attributes` or of `checkBuffersConsistent` (the creation of a buffer of
  0 bytes, a call on a member which holds no buffer, a write past the end of a buffer),
  the call throws `cl::Error`. The calls which `update` makes after the check are
  recorded as they are enqueued.
-/

namespace PCISPH

/-! ## Machine integers -/

/-- Wrap-around of a 32-bit unsigned integer (`cl_uint`, `std::uint32_t`). -/
def u32 (n : Nat) : Nat := n % 2 ^ 32

/-- Wrap-around of `std::size_t` on a 64-bit target. -/
def size_t (n : Nat) : Nat := n % 2 ^ 64

/-- The value of `sizeof(cl_float)`, `sizeof(cl_uint)` and `sizeof(float)`. -/
def sizeof_cl_float : Nat := 4

/-- `make_NDRange(actual, local_size)` of Fluid.cpp:17-25, in `std::uint32_t`.
`local_size` is 64 at every call site; `local_size = 0` is a division by zero in the
source and is outside this definition. -/
def make_NDRange (actual local_size : Nat) : Nat :=
  let remainder := actual % local_size
  if remainder > 0 then u32 ((actual / local_size + 1) * local_size) else actual

/-! ## Arithmetic on `float` -/

/-- The operations Fluid.cpp and main.cpp use on `float`. `lit n` is the literal `n.f`,
`pow x n` is `std::pow(x, n)` for the integral exponents of the source, `PI` is
`utils::PI` (declared in `utils/constants.h`, which is not among the sources). -/
structure Arith (F : Type) where
  lit : Nat → F
  add : F → F → F
  sub : F → F → F
  mul : F → F → F
  div : F → F → F
  neg : F → F
  pow : F → Nat → F
  sqrt : F → F
  lt : F → F → Bool
  le : F → F → Bool
  PI : F

/-- Exact arithmetic on a linearly ordered field, with a given square root and a given
value of `utils::PI`. -/
def Arith.exact (F : Type) [LinearOrderedField F] (sqrt : F → F) (PI : F) : Arith F where
  lit := fun n => (n : F)
  add := fun a b => a + b
  sub := fun a b => a - b
  mul := fun a b => a * b
  div := fun a b => a / b
  neg := fun a => -a
  pow := fun a n => a ^ n
  sqrt := sqrt
  lt := fun a b => decide (a < b)
  le := fun a b => decide (a ≤ b)
  PI := PI

/-! ## The parameter block -/

/-- The record `Simulation_Params` of data/kernels/Simulation_Params.h, field by field. -/
structure Simulation_Params (F : Type) where
  particle_radius : F
  particle_mass : F
  rest_density : F
  boundary_count : Nat
  fluid_count : Nat
  kernel_radius : F
  kernel_radius2 : F
  bucket_count : Nat
  cell_size : F
  poly6_normalization : F
  poly6_d1_normalization : F
  viscosity_d2_normalization : F
  spiky_d1_normalization : F
  surface_tension_coefficient : F
  surface_tension_term : F
  surface_tension_normalization : F
  viscosity_constant : F
  gravity : F
  delta_t : F
  density_variation_scaling_factor : F

/-- A loop `for(float x = x0; x <= hi; x += step) body`, Fluid.cpp:410-412. The first
argument bounds the number of evaluations of the loop condition; `none` means that the
bound was reached, or that the body did not finish. -/
def for_le {F σ : Type} (A : Arith F) :
    Nat → F → F → F → (F → σ → Option σ) → σ → Option σ
  | 0, _, _, _, _, _ => none
  | fuel + 1, x, hi, step, body, acc =>
    if A.le x hi then
      match body x acc with
      | none => none
      | some acc1 => for_le A fuel (A.add x step) hi step body acc1
    else some acc

/-- The accumulators `value_sum[3]` and `value_dot_value_sum` of Fluid.cpp:408-409. -/
structure Lattice_Sums (F : Type) where
  value_sum0 : F
  value_sum1 : F
  value_sum2 : F
  value_dot_value_sum : F

/-- The body of the innermost lattice loop, Fluid.cpp:413-432; `kernel_radius2` and
`poly6_d1_normalization` are the fields of `params` it reads. -/
def lattice_sample {F : Type} (A : Arith F) (kernel_radius2 poly6_d1_normalization : F)
    (x y z : F) (acc : Lattice_Sums F) : Lattice_Sums F :=
  let r := A.sqrt (A.add (A.add (A.mul x x) (A.mul y y)) (A.mul z z))
  let r2 := A.mul r r
  if A.lt r2 kernel_radius2 then
    let factor := A.mul poly6_d1_normalization (A.pow (A.sub kernel_radius2 r2) 2)
    let value0 := A.mul (A.neg factor) x
    let value1 := A.mul (A.neg factor) y
    let value2 := A.mul (A.neg factor) z
    -- i = 0
    let s0 := A.add acc.value_sum0 value0
    let d0 := A.add acc.value_dot_value_sum (A.mul value0 value0)
    -- i = 1
    let s1 := A.add acc.value_sum1 value1
    let d1 := A.add d0 (A.mul value1 value1)
    -- i = 2
    let s2 := A.add acc.value_sum2 value2
    let d2 := A.add d1 (A.mul value2 value2)
    { value_sum0 := s0, value_sum1 := s1, value_sum2 := s2, value_dot_value_sum := d2 }
  else acc

/-- The three nested lattice loops of Fluid.cpp:410-435, started from zeroed sums;
`particle_radius`, `kernel_radius`, `kernel_radius2` and `poly6_d1_normalization` are the
fields of `params` they read. -/
def lattice_sums {F : Type} (A : Arith F) (fuel : Nat)
    (particle_radius kernel_radius kernel_radius2 poly6_d1_normalization : F) :
    Option (Lattice_Sums F) :=
  let particle_size := A.mul (A.lit 2) particle_radius
  let lo := A.sub (A.neg kernel_radius) particle_size
  let hi := A.add kernel_radius particle_size
  let step := A.mul (A.lit 2) particle_radius
  for_le A fuel lo hi step
    (fun z acc => for_le A fuel lo hi step
      (fun y acc => for_le A fuel lo hi step
        (fun x acc =>
          some (lattice_sample A kernel_radius2 poly6_d1_normalization x y z acc)) acc) acc)
    { value_sum0 := A.lit 0, value_sum1 := A.lit 0, value_sum2 := A.lit 0,
      value_dot_value_sum := A.lit 0 }

/-- The closing statements of the scaling factor, Fluid.cpp:437-442, from `beta` and the
lattice sums. -/
def scaling_factor {F : Type} (A : Arith F) (beta : F) (sums : Lattice_Sums F) : F :=
  let value_sum_dot_value_sum :=
    A.add (A.add (A.add (A.lit 0) (A.mul sums.value_sum0 sums.value_sum0))
      (A.mul sums.value_sum1 sums.value_sum1)) (A.mul sums.value_sum2 sums.value_sum2)
  A.div (A.neg (A.lit 1))
    (A.mul beta (A.sub (A.neg value_sum_dot_value_sum) sums.value_dot_value_sum))

/-- The value `beta` of Fluid.cpp:407. -/
def beta {F : Type} (A : Arith F) (delta_t particle_mass rest_density : F) : F :=
  A.div
    (A.mul (A.mul (A.mul (A.mul delta_t delta_t) particle_mass) particle_mass) (A.lit 2))
    (A.mul rest_density rest_density)

/-- The assignments of `Fluid::update_deduced_attributes` before the lattice loops,
Fluid.cpp:382-401. -/
def deduce_kernel_constants {F : Type} (A : Arith F) (p : Simulation_Params F) :
    Simulation_Params F :=
  let p := { p with kernel_radius := A.mul (A.lit 4) p.particle_radius }
  let p := { p with kernel_radius2 := A.pow p.kernel_radius 2 }
  let particle_mass :=
    A.div p.rest_density (A.pow (A.div (A.lit 1) (A.mul (A.lit 2) p.particle_radius)) 3)
  let p := { p with particle_mass := particle_mass }
  -- grid
  let p := { p with bucket_count := p.fluid_count / 2 }
  let p := { p with bucket_count := p.bucket_count - p.bucket_count % 64 }
  let p := { p with bucket_count := max 64 p.bucket_count }
  let p := { p with cell_size := p.kernel_radius }
  -- smoothing kernels
  let poly6_normalization :=
    A.div (A.lit 315) (A.mul (A.mul (A.lit 64) A.PI) (A.pow p.kernel_radius 9))
  let p := { p with poly6_normalization := poly6_normalization }
  let poly6_d1_normalization :=
    A.div (A.neg (A.lit 945)) (A.mul (A.mul (A.lit 32) A.PI) (A.pow p.kernel_radius 9))
  let p := { p with poly6_d1_normalization := poly6_d1_normalization }
  let viscosity_d2_normalization := A.div (A.lit 45) (A.mul A.PI (A.pow p.kernel_radius 6))
  let p := { p with viscosity_d2_normalization := viscosity_d2_normalization }
  let spiky_d1_normalization :=
    A.div (A.neg (A.lit 45)) (A.mul A.PI (A.pow p.kernel_radius 6))
  let p := { p with spiky_d1_normalization := spiky_d1_normalization }
  let surface_tension_normalization :=
    A.div (A.lit 32) (A.mul A.PI (A.pow p.kernel_radius 9))
  let p := { p with surface_tension_normalization := surface_tension_normalization }
  -- surface tension
  { p with surface_tension_term := A.div (A.pow p.kernel_radius 6) (A.lit 64) }

/-- The parameter block after `Fluid::update_deduced_attributes`, Fluid.cpp:382-443:
the kernel constants, then the density variation scaling factor from the lattice sums.
`none` when the lattice loops do not finish within `fuel` condition checks. -/
def deduce_params {F : Type} (A : Arith F) (fuel : Nat) (p : Simulation_Params F) :
    Option (Simulation_Params F) :=
  let p := deduce_kernel_constants A p
  match lattice_sums A fuel p.particle_radius p.kernel_radius p.kernel_radius2
      p.poly6_d1_normalization with
  | none => none
  | some sums =>
    some { p with density_variation_scaling_factor :=
      scaling_factor A (beta A p.delta_t p.particle_mass p.rest_density) sums }

/-- The fields of the parameter block which the setters write. -/
def Simulation_Params.base {F : Type} (p : Simulation_Params F) :
    F × F × Nat × Nat × F × F × F × F :=
  (p.particle_radius, p.rest_density, p.boundary_count, p.fluid_count,
   p.surface_tension_coefficient, p.viscosity_constant, p.gravity, p.delta_t)

/-- The fields of the parameter block which `update_deduced_attributes` writes. -/
def Simulation_Params.derived {F : Type} (p : Simulation_Params F) :
    F × F × F × Nat × F × F × F × F × F × F × F × F :=
  (p.particle_mass, p.kernel_radius, p.kernel_radius2, p.bucket_count, p.cell_size,
   p.poly6_normalization, p.poly6_d1_normalization, p.viscosity_d2_normalization,
   p.spiky_d1_normalization, p.surface_tension_term, p.surface_tension_normalization,
   p.density_variation_scaling_factor)

/-! ## The engine state and the command queue -/

/-- The `cl::Buffer` members of `sim::Fluid` (Fluid.h:40-50 and 88-99). -/
inductive Buf where
  | boundary_positions
  | boundary_pressures
  | fluid_positions
  | fluid_normals
  | fluid_predicted_positions
  | fluid_densities
  | fluid_other_forces
  | fluid_velocities
  | fluid_pressures
  | fluid_pressure_forces
  | boundary_cell_offsets
  | boundary_keys
  | boundary_src_locations
  | boundary_positions_tmp
  | boundary_init_pred_densities
  | fluid_cell_offsets
  | fluid_keys
  | fluid_src_locations
  | fluid_positions_tmp
  | fluid_velocities_tmp
  | fluid_density_variations
  deriving DecidableEq, Repr

/-- The `cl::Kernel` members of `sim::Fluid` which Fluid.cpp uses (Fluid.h:72-85). The
member `sort_utils_initialize` is `sort_utils_initialize_kernel` here. -/
inductive Kernel where
  | sort_utils_reset_cell_offsets
  | sort_utils_initialize_kernel
  | sort_utils_reorder_and_insert_boundary_offsets
  | sort_utils_reorder_and_insert_fluid_offsets
  | pcisph_update_density
  | pcisph_update_normal
  | pcisph_boundary_pressure_initialization
  | pcisph_force_initialization
  | pcisph_update_position_and_velocity
  | pcisph_initialize_boundary_boundary_pred_densities
  | pcisph_update_pressure
  | pcisph_update_pressure_force
  deriving DecidableEq, Repr

/-- The number of arguments of each kernel, as bound by the `setArg` calls of
`Fluid::update`. -/
def Kernel.arity : Kernel → Nat
  | .sort_utils_reset_cell_offsets => 2
  | .sort_utils_initialize_kernel => 5
  | .sort_utils_reorder_and_insert_boundary_offsets => 6
  | .sort_utils_reorder_and_insert_fluid_offsets => 8
  | .pcisph_update_density => 6
  | .pcisph_update_normal => 5
  | .pcisph_boundary_pressure_initialization => 2
  | .pcisph_force_initialization => 9
  | .pcisph_update_position_and_velocity => 7
  | .pcisph_initialize_boundary_boundary_pred_densities => 4
  | .pcisph_update_pressure => 10
  | .pcisph_update_pressure_force => 9

/-- A value bound to a kernel argument: not bound yet, the local `params_buffer` (a copy
of the parameter block, Fluid.cpp:120), a buffer member, `nullptr`, or an integer. -/
inductive Arg (F : Type) where
  | unset
  | params_buffer (p : Simulation_Params F)
  | buffer (b : Buf)
  | null
  | uint (n : Nat)
  | int (n : Int)

/-- One call on the command queue (or on an event of it), in the order of the calls. -/
inductive Event (F : Type) where
  /-- The call `queue.enqueueNDRangeKernel(kernel, 0, global, local)`. -/
  | ndrange (kernel : Kernel) (args : List (Arg F)) (global local_size : Nat)
  /-- The call `radixsort->enqueue(queue, keys, values, elements, maxBits)`. -/
  | sort (keys values : Buf) (elements maxBits : Nat)
  /-- The call `queue.enqueueCopyBuffer(src, dst, 0, 0, bytes)`. -/
  | copy (src dst : Buf) (bytes : Nat)
  /-- The call `queue.enqueueReadBuffer(src, blocking, 0, bytes, host)`. -/
  | read (src : Buf) (blocking : Bool) (bytes : Nat)
  /-- The call `density_variation_read_ev.wait()`. -/
  | wait
  /-- The call `queue.enqueueWriteBuffer(dst, blocking, 0, bytes, zeros)`. -/
  | write (dst : Buf) (blocking : Bool) (bytes : Nat)

/-- The state of a `sim::Fluid`: the two dirty bits, the threshold, the parameter block,
the size in bytes (`CL_MEM_SIZE`) of the buffer each member holds, the arguments bound to
each kernel, and the calls made on the command queue so far. A member which holds no
buffer (a default-constructed `cl::Buffer`) has `mem_size` 0: the runtime creates no
buffer of 0 bytes. -/
structure Fluid (F : Type) where
  params_changed : Bool
  boundary_updated : Bool
  density_variation_threshold : F
  params : Simulation_Params F
  mem_size : Buf → Nat
  args : Kernel → Nat → Arg F
  queue : List (Event F)

/-- The call `kernel.setArg(index, value)`. -/
def Fluid.setArg {F : Type} (s : Fluid F) (kernel : Kernel) (index : Nat) (value : Arg F) :
    Fluid F :=
  { s with args := fun k i => if k = kernel ∧ i = index then value else s.args k i }

/-- The arguments a kernel is bound to at the moment it is enqueued. -/
def Fluid.bound_args {F : Type} (s : Fluid F) (kernel : Kernel) : List (Arg F) :=
  (List.range kernel.arity).map (s.args kernel)

/-- Append one call to the command queue. -/
def Fluid.enqueue {F : Type} (s : Fluid F) (e : Event F) : Fluid F :=
  { s with queue := s.queue ++ [e] }

/-- The call `queue.enqueueNDRangeKernel(kernel, cl::NDRange(0), global, local)`. -/
def Fluid.enqueueNDRangeKernel {F : Type} (s : Fluid F) (kernel : Kernel)
    (global local_size : Nat) : Fluid F :=
  s.enqueue (Event.ndrange kernel (s.bound_args kernel) global local_size)

/-- An assignment `member = buffer` of a buffer of `bytes` bytes to a member, such as
scenes.cpp:201-208 make to the public members; `bytes = 0` stands for no buffer. -/
def Fluid.assign_buffer {F : Type} (s : Fluid F) (b : Buf) (bytes : Nat) : Fluid F :=
  { s with mem_size := fun c => if c = b then bytes else s.mem_size c }

/-- The calls of the OpenCL runtime which `update` makes before it enqueues the first
kernel, and which the runtime refuses for some arguments. -/
inductive CL_Call where
  /-- Refused with `CL_INVALID_BUFFER_SIZE` for a size of 0 bytes. -/
  | clCreateBuffer
  /-- Refused with `CL_INVALID_MEM_OBJECT` for no buffer, and with `CL_INVALID_VALUE` for
  a region which is not within the buffer. -/
  | clEnqueueWriteBuffer
  /-- Refused with `CL_INVALID_MEM_OBJECT` for no buffer. -/
  | clGetMemObjectInfo
  deriving DecidableEq, Repr

/-- What `Fluid::update` can throw. -/
inductive Error where
  /-- The `std::runtime_error` of `checkBuffersConsistent`, Fluid.cpp:95. -/
  | inconsistent (name : String) (size : Nat) (expected_fluid_count : Nat)
  /-- The `std::runtime_error` of `sort_bit_count`, Fluid.cpp:132. -/
  | sort_bit_count_failed
  /-- The `cl::Error` of a call which the runtime refuses. -/
  | cl (call : CL_Call)
  deriving DecidableEq, Repr

/-- The message of the exception; for a `cl::Error` it is the name of the call. -/
def Error.what : Error → String
  | .inconsistent name size n =>
    "Inconsistent " ++ name ++ " (" ++ toString size ++ ") for " ++ toString n ++ " particles"
  | .sort_bit_count_failed => "sort_bit_count failed"
  | .cl .clCreateBuffer => "clCreateBuffer"
  | .cl .clEnqueueWriteBuffer => "clEnqueueWriteBuffer"
  | .cl .clGetMemObjectInfo => "clGetMemObjectInfo"

/-- How a call ends: it returns, it throws, or it runs into undefined behaviour (the
dereference of `std::max_element` over an empty range). -/
inductive Status where
  | returned
  | thrown (e : Error)
  | undefined
  deriving DecidableEq, Repr

/-- The end of a call together with the state of the engine at that point. -/
structure Outcome (F : Type) where
  status : Status
  state : Fluid F

/-- Sequencing: the next statements run only after a normal end. -/
def Outcome.andThen {F : Type} (o : Outcome F) (next : Fluid F → Outcome F) : Outcome F :=
  match o.status with
  | .returned => next o.state
  | _ => o

/-- The lambda `check` of `Fluid::checkBuffersConsistent`, Fluid.cpp:93-96: the product
of the `cl_uint` count and the `std::size_t` multiplier is taken in `std::size_t`. -/
def check (expected_fluid_count size multiplier : Nat) (name : String) : Except Error Unit :=
  if size ≠ size_t (expected_fluid_count * multiplier) then
    .error (Error.inconsistent name size expected_fluid_count)
  else .ok ()

/-- The call `member.getInfo<CL_MEM_SIZE>()`, which throws `cl::Error` for a member which
holds no buffer. -/
def Fluid.getInfo_CL_MEM_SIZE {F : Type} (s : Fluid F) (b : Buf) : Except Error Nat :=
  if s.mem_size b = 0 then .error (Error.cl .clGetMemObjectInfo) else .ok (s.mem_size b)

/-- The function `Fluid::checkBuffersConsistent`, Fluid.cpp:90-106: the size of a member
is read before the `check` it is passed to. -/
def Fluid.checkBuffersConsistent {F : Type} (s : Fluid F) : Except Error Unit := do
  let expected_fluid_count := s.params.fluid_count
  check expected_fluid_count (← s.getInfo_CL_MEM_SIZE .fluid_positions)
    (3 * sizeof_cl_float) "positions_size"
  check expected_fluid_count (← s.getInfo_CL_MEM_SIZE .fluid_normals)
    (3 * sizeof_cl_float) "normals_size"
  check expected_fluid_count (← s.getInfo_CL_MEM_SIZE .fluid_predicted_positions)
    (3 * sizeof_cl_float) "predicted_positions_size"
  check expected_fluid_count (← s.getInfo_CL_MEM_SIZE .fluid_densities)
    sizeof_cl_float "densities_size"
  check expected_fluid_count (← s.getInfo_CL_MEM_SIZE .fluid_other_forces)
    (3 * sizeof_cl_float) "other_forces_size"
  check expected_fluid_count (← s.getInfo_CL_MEM_SIZE .fluid_velocities)
    (3 * sizeof_cl_float) "velocities_size"
  check expected_fluid_count (← s.getInfo_CL_MEM_SIZE .fluid_pressures)
    sizeof_cl_float "pressures_size"
  check expected_fluid_count (← s.getInfo_CL_MEM_SIZE .fluid_pressure_forces)
    (3 * sizeof_cl_float) "pressure_forces_size"

/-- The loop of the lambda `sort_bit_count`, Fluid.cpp:127-131, from index `i` with
`remaining` iterations left; `remaining + i = 32`. -/
def sort_bit_count_loop (elements : Nat) : Nat → Nat → Nat → Except Error Nat
  | 0, _, _ => .error Error.sort_bit_count_failed
  | remaining + 1, i, max_value =>
    let max_value := u32 (max_value <<< 1) ||| 1
    if max_value ≥ u32 (elements + 2 ^ 32 - 1) then .ok (i + 1)
    else sort_bit_count_loop elements remaining (i + 1) max_value

/-- The lambda `sort_bit_count`, Fluid.cpp:125-133; `elements - 1` is taken in
`unsigned int`. -/
def sort_bit_count (elements : Nat) : Except Error Nat :=
  sort_bit_count_loop elements 32 0 0

/-! ## Construction, setters and parameter derivation -/

/-- The constructor `Fluid::Fluid`, Fluid.cpp:32-88, once both programs are built: it
sets the two dirty bits and leaves the threshold and the parameter block as they are
found (they have no initialiser); the buffer members hold no buffer and no kernel
argument is bound. -/
def Fluid.construct {F : Type} (density_variation_threshold : F)
    (params : Simulation_Params F) : Fluid F where
  params_changed := true
  boundary_updated := true
  density_variation_threshold := density_variation_threshold
  params := params
  mem_size := fun _ => 0
  args := fun _ _ => Arg.unset
  queue := []

/-- The setter `Fluid::set_boundary_count`, Fluid.cpp:333-336. -/
def Fluid.set_boundary_count {F : Type} (s : Fluid F) (boundary_count : Nat) : Fluid F :=
  { s with params := { s.params with boundary_count := boundary_count },
           params_changed := true }

/-- The setter `Fluid::set_fluid_count`, Fluid.cpp:338-341. -/
def Fluid.set_fluid_count {F : Type} (s : Fluid F) (fluid_count : Nat) : Fluid F :=
  { s with params := { s.params with fluid_count := fluid_count },
           params_changed := true }

/-- The setter `Fluid::set_delta_t`, Fluid.cpp:343-346. -/
def Fluid.set_delta_t {F : Type} (s : Fluid F) (delta_t : F) : Fluid F :=
  { s with params := { s.params with delta_t := delta_t }, params_changed := true }

/-- The setter `Fluid::set_rest_density`, Fluid.cpp:348-351. -/
def Fluid.set_rest_density {F : Type} (s : Fluid F) (rest_density : F) : Fluid F :=
  { s with params := { s.params with rest_density := rest_density },
           params_changed := true }

/-- The setter `Fluid::set_particle_radius`, Fluid.cpp:353-356. -/
def Fluid.set_particle_radius {F : Type} (s : Fluid F) (particle_radius : F) : Fluid F :=
  { s with params := { s.params with particle_radius := particle_radius },
           params_changed := true }

/-- The setter `Fluid::set_gravity`, Fluid.cpp:358-361. -/
def Fluid.set_gravity {F : Type} (s : Fluid F) (gravity : F) : Fluid F :=
  { s with params := { s.params with gravity := gravity }, params_changed := true }

/-- The setter `Fluid::set_viscosity`, Fluid.cpp:363-366. -/
def Fluid.set_viscosity {F : Type} (s : Fluid F) (viscosity : F) : Fluid F :=
  { s with params := { s.params with viscosity_constant := viscosity },
           params_changed := true }

/-- The setter `Fluid::set_surface_tension`, Fluid.cpp:368-371. -/
def Fluid.set_surface_tension {F : Type} (s : Fluid F) (surface_tension_coefficient : F) :
    Fluid F :=
  { s with
    params := { s.params with surface_tension_coefficient := surface_tension_coefficient },
    params_changed := true }

/-- The setter `Fluid::set_density_variation_threshold`, Fluid.cpp:373-375. -/
def Fluid.set_density_variation_threshold {F : Type} (s : Fluid F)
    (density_variation_threshold : F) : Fluid F :=
  { s with density_variation_threshold := density_variation_threshold }

/-- A statement `member = cl::Buffer(ctx, CL_MEM_READ_WRITE, bytes)` of
Fluid.cpp:447-459: the creation of a buffer of 0 bytes throws `cl::Error`, and the
member keeps what it held. -/
def Fluid.create_buffer {F : Type} (s : Fluid F) (b : Buf) (bytes : Nat) : Outcome F :=
  if bytes = 0 then { status := .thrown (Error.cl .clCreateBuffer), state := s }
  else { status := .returned, state := s.assign_buffer b bytes }

/-- The call `queue.enqueueWriteBuffer(dst, blocking, 0, bytes, host)`: it throws
`cl::Error` when the member holds no buffer or the buffer has fewer than `bytes`
bytes. -/
def Fluid.enqueueWriteBuffer {F : Type} (s : Fluid F) (dst : Buf) (blocking : Bool)
    (bytes : Nat) : Outcome F :=
  if s.mem_size dst = 0 ∨ s.mem_size dst < bytes then
    { status := .thrown (Error.cl .clEnqueueWriteBuffer), state := s }
  else { status := .returned, state := s.enqueue (Event.write dst blocking bytes) }

/-- The value `std::max((std::size_t) 1, params.bucket_count * 2 * sizeof(cl_uint))` of
Fluid.cpp:447 and 454; the product `bucket_count * 2` is a `cl_uint`. -/
def Fluid.offsets_size {F : Type} (s : Fluid F) : Nat :=
  max 1 (size_t (u32 (s.params.bucket_count * 2) * sizeof_cl_float))

/-- The creation of the internal boundary buffers, Fluid.cpp:446-452. In
`3 * count * sizeof(cl_float)` the product `3 * count` is a `cl_uint`. -/
def Fluid.create_boundary_buffers {F : Type} (s : Fluid F) : Outcome F :=
  let boundary_count := s.params.boundary_count
  if boundary_count > 0 then
    ((((s.create_buffer .boundary_cell_offsets s.offsets_size).andThen
      fun s => s.create_buffer .boundary_keys
        (size_t (boundary_count * sizeof_cl_float))).andThen
      fun s => s.create_buffer .boundary_src_locations
        (size_t (boundary_count * sizeof_cl_float))).andThen
      fun s => s.create_buffer .boundary_positions_tmp
        (size_t (u32 (3 * boundary_count) * sizeof_cl_float))).andThen
      fun s => s.create_buffer .boundary_init_pred_densities
        (size_t (boundary_count * sizeof_cl_float))
  else { status := .returned, state := s }

/-- The creation of the internal fluid buffers, Fluid.cpp:454-459. -/
def Fluid.create_fluid_buffers {F : Type} (s : Fluid F) : Outcome F :=
  let fluid_count := s.params.fluid_count
  (((((s.create_buffer .fluid_cell_offsets s.offsets_size).andThen
    fun s => s.create_buffer .fluid_keys (size_t (fluid_count * sizeof_cl_float))).andThen
    fun s => s.create_buffer .fluid_src_locations
      (size_t (fluid_count * sizeof_cl_float))).andThen
    fun s => s.create_buffer .fluid_positions_tmp
      (size_t (u32 (3 * fluid_count) * sizeof_cl_float))).andThen
    fun s => s.create_buffer .fluid_velocities_tmp
      (size_t (u32 (3 * fluid_count) * sizeof_cl_float))).andThen
    fun s => s.create_buffer .fluid_density_variations
      (size_t (fluid_count * sizeof_cl_float))

/-- The second half of `Fluid::update_deduced_attributes`, Fluid.cpp:445-465: the
internal buffers are created anew, zeros are written to the velocities, and the boundary
bit is set. An exception leaves the function with the state reached so far. -/
def Fluid.reallocate {F : Type} (s : Fluid F) : Outcome F :=
  ((s.create_boundary_buffers.andThen Fluid.create_fluid_buffers).andThen
    -- initialize buffers
    fun s => s.enqueueWriteBuffer .fluid_velocities true
      (size_t (u32 (s.params.fluid_count * 3) * sizeof_cl_float))).andThen
    fun s => { status := .returned, state := { s with boundary_updated := true } }

/-- The function `Fluid::update_deduced_attributes`, Fluid.cpp:377-466; `none` when its
lattice loops do not finish within `fuel` condition checks. -/
def Fluid.update_deduced_attributes {F : Type} (A : Arith F) (fuel : Nat) (s : Fluid F) :
    Option (Outcome F) :=
  match deduce_params A fuel s.params with
  | none => none
  | some p => some (Fluid.reallocate { s with params := p })

/-! ## One step: `Fluid::update` -/

/-- An argument whose evaluation may throw, taken before the call it is passed to:
the exception leaves `update` with the state `s` reached so far. -/
def thrown_or {F : Type} (argument : Except Error Nat) (s : Fluid F)
    (next : Nat → Outcome F) : Outcome F :=
  match argument with
  | .error e => { status := .thrown e, state := s }
  | .ok value => next value

/-- The constant `local_group_size` of Fluid.cpp:118. -/
def local_group_size : Nat := 64

/-- The constant `min_iterations` of Fluid.cpp:250. -/
def min_iterations : Nat := 2

/-! ### Sort boundary particles, Fluid.cpp:135-174

In every block `params_buffer` is the local copy of the parameter block made at
Fluid.cpp:120, and `s.params` is the member `params`, which no statement of
Fluid.cpp:113-327 writes. -/

/-- The statements "reset offsets", Fluid.cpp:139-142. -/
def Fluid.boundary_reset_offsets {F : Type} (params_buffer : Simulation_Params F)
    (s : Fluid F) : Fluid F :=
  let global := make_NDRange s.params.bucket_count local_group_size
  let s := s.setArg .sort_utils_reset_cell_offsets 0 (.params_buffer params_buffer)
  let s := s.setArg .sort_utils_reset_cell_offsets 1 (.buffer .boundary_cell_offsets)
  s.enqueueNDRangeKernel .sort_utils_reset_cell_offsets global local_group_size

/-- The statements "initialize", Fluid.cpp:144-150. -/
def Fluid.boundary_hash {F : Type} (params_buffer : Simulation_Params F)
    (s : Fluid F) : Fluid F :=
  let boundary_count := s.params.boundary_count
  let s := s.setArg .sort_utils_initialize_kernel 0 (.params_buffer params_buffer)
  let s := s.setArg .sort_utils_initialize_kernel 1 (.uint boundary_count)
  let s := s.setArg .sort_utils_initialize_kernel 2 (.buffer .boundary_keys)
  let s := s.setArg .sort_utils_initialize_kernel 3 (.buffer .boundary_positions)
  let s := s.setArg .sort_utils_initialize_kernel 4 (.buffer .boundary_src_locations)
  s.enqueueNDRangeKernel .sort_utils_initialize_kernel
    (make_NDRange boundary_count local_group_size) local_group_size

/-- The statements "reorder", Fluid.cpp:155-164. In `3 * count * sizeof(cl_float)` the
product `3 * count` is a `cl_uint`. -/
def Fluid.boundary_reorder {F : Type} (s : Fluid F) : Fluid F :=
  let boundary_count := s.params.boundary_count
  let s := s.enqueue (Event.copy .boundary_positions .boundary_positions_tmp
    (size_t (u32 (3 * boundary_count) * sizeof_cl_float)))
  let s := s.setArg .sort_utils_reorder_and_insert_boundary_offsets 0 (.uint boundary_count)
  let s := s.setArg .sort_utils_reorder_and_insert_boundary_offsets 1
    (.buffer .boundary_cell_offsets)
  let s := s.setArg .sort_utils_reorder_and_insert_boundary_offsets 2
    (.buffer .boundary_src_locations)
  let s := s.setArg .sort_utils_reorder_and_insert_boundary_offsets 3
    (.buffer .boundary_keys)
  let s := s.setArg .sort_utils_reorder_and_insert_boundary_offsets 4
    (.buffer .boundary_positions_tmp)
  let s := s.setArg .sort_utils_reorder_and_insert_boundary_offsets 5
    (.buffer .boundary_positions)
  s.enqueueNDRangeKernel .sort_utils_reorder_and_insert_boundary_offsets
    (make_NDRange boundary_count local_group_size) local_group_size

/-- The statements "initialize predicted densities for boundary VS boundary",
Fluid.cpp:166-171: the four arguments of the kernel are bound, and no call enqueues
the kernel. -/
def Fluid.boundary_pred_densities {F : Type} (params_buffer : Simulation_Params F)
    (s : Fluid F) : Fluid F :=
  let s := s.setArg .pcisph_initialize_boundary_boundary_pred_densities 0
    (.params_buffer params_buffer)
  let s := s.setArg .pcisph_initialize_boundary_boundary_pred_densities 1
    (.buffer .boundary_cell_offsets)
  let s := s.setArg .pcisph_initialize_boundary_boundary_pred_densities 2
    (.buffer .boundary_positions)
  s.setArg .pcisph_initialize_boundary_boundary_pred_densities 3
    (.buffer .boundary_init_pred_densities)

/-- The body of the conditional of Fluid.cpp:135-174 from the sort on, given the bit
count: sort (153), reorder, the arguments of the predicted densities, and
`boundary_updated = false` (173). -/
def Fluid.boundary_sorted {F : Type} (params_buffer : Simulation_Params F) (bits : Nat)
    (s : Fluid F) : Fluid F :=
  let s := s.enqueue
    (Event.sort .boundary_keys .boundary_src_locations s.params.boundary_count bits)
  let s := s.boundary_reorder
  let s := s.boundary_pred_densities params_buffer
  { s with boundary_updated := false }

/-- The block "sort boundary particles", Fluid.cpp:135-174. -/
def Fluid.sort_boundary_particles {F : Type} (params_buffer : Simulation_Params F)
    (s : Fluid F) : Outcome F :=
  if s.boundary_updated = true ∧ s.params.boundary_count > 0 then
    let s := s.boundary_reset_offsets params_buffer
    let s := s.boundary_hash params_buffer
    thrown_or (sort_bit_count s.params.boundary_count) s fun bits =>
      { status := .returned, state := s.boundary_sorted params_buffer bits }
  else { status := .returned, state := s }

/-! ### Sort fluid particles, Fluid.cpp:176-207 -/

/-- The statements "reset offsets", Fluid.cpp:179-182. -/
def Fluid.fluid_reset_offsets {F : Type} (params_buffer : Simulation_Params F)
    (s : Fluid F) : Fluid F :=
  let global := make_NDRange s.params.bucket_count local_group_size
  let s := s.setArg .sort_utils_reset_cell_offsets 0 (.params_buffer params_buffer)
  let s := s.setArg .sort_utils_reset_cell_offsets 1 (.buffer .fluid_cell_offsets)
  s.enqueueNDRangeKernel .sort_utils_reset_cell_offsets global local_group_size

/-- The statements "initialize", Fluid.cpp:184-190. -/
def Fluid.fluid_hash {F : Type} (params_buffer : Simulation_Params F)
    (s : Fluid F) : Fluid F :=
  let fluid_count := s.params.fluid_count
  let s := s.setArg .sort_utils_initialize_kernel 0 (.params_buffer params_buffer)
  let s := s.setArg .sort_utils_initialize_kernel 1 (.uint fluid_count)
  let s := s.setArg .sort_utils_initialize_kernel 2 (.buffer .fluid_keys)
  let s := s.setArg .sort_utils_initialize_kernel 3 (.buffer .fluid_positions)
  let s := s.setArg .sort_utils_initialize_kernel 4 (.buffer .fluid_src_locations)
  s.enqueueNDRangeKernel .sort_utils_initialize_kernel
    (make_NDRange fluid_count local_group_size) local_group_size

/-- The statements "reorder", Fluid.cpp:195-207. -/
def Fluid.fluid_reorder {F : Type} (s : Fluid F) : Fluid F :=
  let fluid_count := s.params.fluid_count
  let s := s.enqueue (Event.copy .fluid_positions .fluid_positions_tmp
    (size_t (u32 (3 * fluid_count) * sizeof_cl_float)))
  let s := s.enqueue (Event.copy .fluid_velocities .fluid_velocities_tmp
    (size_t (u32 (3 * fluid_count) * sizeof_cl_float)))
  let s := s.setArg .sort_utils_reorder_and_insert_fluid_offsets 0 (.uint fluid_count)
  let s := s.setArg .sort_utils_reorder_and_insert_fluid_offsets 1
    (.buffer .fluid_cell_offsets)
  let s := s.setArg .sort_utils_reorder_and_insert_fluid_offsets 2
    (.buffer .fluid_src_locations)
  let s := s.setArg .sort_utils_reorder_and_insert_fluid_offsets 3 (.buffer .fluid_keys)
  let s := s.setArg .sort_utils_reorder_and_insert_fluid_offsets 4
    (.buffer .fluid_positions_tmp)
  let s := s.setArg .sort_utils_reorder_and_insert_fluid_offsets 5
    (.buffer .fluid_velocities_tmp)
  let s := s.setArg .sort_utils_reorder_and_insert_fluid_offsets 6
    (.buffer .fluid_positions)
  let s := s.setArg .sort_utils_reorder_and_insert_fluid_offsets 7
    (.buffer .fluid_velocities)
  s.enqueueNDRangeKernel .sort_utils_reorder_and_insert_fluid_offsets
    (make_NDRange fluid_count local_group_size) local_group_size

/-- The block from the sort on, given the bit count: sort (193) and reorder. -/
def Fluid.fluid_sorted {F : Type} (bits : Nat) (s : Fluid F) : Fluid F :=
  let s := s.enqueue
    (Event.sort .fluid_keys .fluid_src_locations s.params.fluid_count bits)
  s.fluid_reorder

/-- The block "sort fluid particles", Fluid.cpp:176-207. -/
def Fluid.sort_fluid_particles {F : Type} (params_buffer : Simulation_Params F)
    (s : Fluid F) : Outcome F :=
  let s := s.fluid_reset_offsets params_buffer
  let s := s.fluid_hash params_buffer
  thrown_or (sort_bit_count s.params.fluid_count) s fun bits =>
    { status := .returned, state := s.fluid_sorted bits }

/-! ### Density, normals and forces, Fluid.cpp:212-247 -/

/-- The statements "calculate density", Fluid.cpp:212-220. -/
def Fluid.update_density {F : Type} (params_buffer : Simulation_Params F)
    (s : Fluid F) : Fluid F :=
  let global := make_NDRange s.params.fluid_count local_group_size
  let s := s.setArg .pcisph_update_density 0 (.params_buffer params_buffer)
  let s := s.setArg .pcisph_update_density 1 (.buffer .boundary_cell_offsets)
  let s := s.setArg .pcisph_update_density 2 (.buffer .boundary_positions)
  let s := s.setArg .pcisph_update_density 3 (.buffer .fluid_cell_offsets)
  let s := s.setArg .pcisph_update_density 4 (.buffer .fluid_positions)
  let s := s.setArg .pcisph_update_density 5 (.buffer .fluid_densities)
  s.enqueueNDRangeKernel .pcisph_update_density global local_group_size

/-- The statements "calculate normal", Fluid.cpp:222-228. -/
def Fluid.update_normal {F : Type} (params_buffer : Simulation_Params F)
    (s : Fluid F) : Fluid F :=
  let global := make_NDRange s.params.fluid_count local_group_size
  let s := s.setArg .pcisph_update_normal 0 (.params_buffer params_buffer)
  let s := s.setArg .pcisph_update_normal 1 (.buffer .fluid_cell_offsets)
  let s := s.setArg .pcisph_update_normal 2 (.buffer .fluid_positions)
  let s := s.setArg .pcisph_update_normal 3 (.buffer .fluid_densities)
  let s := s.setArg .pcisph_update_normal 4 (.buffer .fluid_normals)
  s.enqueueNDRangeKernel .pcisph_update_normal global local_group_size

/-- The statements "initialize boundary pressure", Fluid.cpp:230-235. -/
def Fluid.boundary_pressure_initialization {F : Type}
    (params_buffer : Simulation_Params F) (s : Fluid F) : Fluid F :=
  if s.params.boundary_count > 0 then
    let global := make_NDRange s.params.boundary_count local_group_size
    let s := s.setArg .pcisph_boundary_pressure_initialization 0
      (.params_buffer params_buffer)
    let s := s.setArg .pcisph_boundary_pressure_initialization 1
      (.buffer .boundary_pressures)
    s.enqueueNDRangeKernel .pcisph_boundary_pressure_initialization global
      local_group_size
  else s

/-- The statements "calculate viscosity/surface tension", Fluid.cpp:237-247. -/
def Fluid.force_initialization {F : Type} (params_buffer : Simulation_Params F)
    (s : Fluid F) : Fluid F :=
  let global := make_NDRange s.params.fluid_count local_group_size
  let s := s.setArg .pcisph_force_initialization 0 (.params_buffer params_buffer)
  let s := s.setArg .pcisph_force_initialization 1 (.buffer .fluid_cell_offsets)
  let s := s.setArg .pcisph_force_initialization 2 (.buffer .fluid_positions)
  let s := s.setArg .pcisph_force_initialization 3 (.buffer .fluid_normals)
  let s := s.setArg .pcisph_force_initialization 4 (.buffer .fluid_densities)
  let s := s.setArg .pcisph_force_initialization 5 (.buffer .fluid_velocities)
  let s := s.setArg .pcisph_force_initialization 6 (.buffer .fluid_other_forces)
  let s := s.setArg .pcisph_force_initialization 7 (.buffer .fluid_pressures)
  let s := s.setArg .pcisph_force_initialization 8 (.buffer .fluid_pressure_forces)
  s.enqueueNDRangeKernel .pcisph_force_initialization global local_group_size

/-- The block from "calculate density" to "calculate viscosity/surface tension",
Fluid.cpp:212-247. -/
def Fluid.initialize_forces {F : Type} (params_buffer : Simulation_Params F)
    (s : Fluid F) : Fluid F :=
  let s := s.update_density params_buffer
  let s := s.update_normal params_buffer
  let s := s.boundary_pressure_initialization params_buffer
  s.force_initialization params_buffer

/-! ### The PCISPH iterations, Fluid.cpp:249-307 -/

/-- The statements "predict position", Fluid.cpp:252-260. -/
def Fluid.predict_position {F : Type} (params_buffer : Simulation_Params F)
    (s : Fluid F) : Fluid F :=
  let global := make_NDRange s.params.fluid_count local_group_size
  let s := s.setArg .pcisph_update_position_and_velocity 0 (.params_buffer params_buffer)
  let s := s.setArg .pcisph_update_position_and_velocity 1 (.buffer .fluid_positions)
  let s := s.setArg .pcisph_update_position_and_velocity 2 (.buffer .fluid_velocities)
  let s := s.setArg .pcisph_update_position_and_velocity 3 (.buffer .fluid_other_forces)
  let s := s.setArg .pcisph_update_position_and_velocity 4 (.buffer .fluid_pressure_forces)
  let s := s.setArg .pcisph_update_position_and_velocity 5
    (.buffer .fluid_predicted_positions)
  let s := s.setArg .pcisph_update_position_and_velocity 6 .null
  s.enqueueNDRangeKernel .pcisph_update_position_and_velocity global local_group_size

/-- The statements of Fluid.cpp:262-275: the arguments of `update_pressure` for the
boundary particles, and its dispatch over them when there is one. -/
def Fluid.update_boundary_pressure {F : Type} (params_buffer : Simulation_Params F)
    (s : Fluid F) : Fluid F :=
  let boundary_count := s.params.boundary_count
  let s := s.setArg .pcisph_update_pressure 0 (.params_buffer params_buffer)
  let s := s.setArg .pcisph_update_pressure 1 (.int 1)
  let s := s.setArg .pcisph_update_pressure 2 (.buffer .boundary_cell_offsets)
  let s := s.setArg .pcisph_update_pressure 3 (.buffer .boundary_positions)
  let s := s.setArg .pcisph_update_pressure 4 (.buffer .boundary_init_pred_densities)
  let s := s.setArg .pcisph_update_pressure 5 (.buffer .fluid_cell_offsets)
  let s := s.setArg .pcisph_update_pressure 6 (.buffer .fluid_positions)
  let s := s.setArg .pcisph_update_pressure 7 (.buffer .fluid_predicted_positions)
  let s := s.setArg .pcisph_update_pressure 8 .null
  let s := s.setArg .pcisph_update_pressure 9 (.buffer .boundary_pressures)
  if boundary_count > 0 then
    s.enqueueNDRangeKernel .pcisph_update_pressure
      (make_NDRange boundary_count local_group_size) local_group_size
  else s

/-- The statements of Fluid.cpp:277-280: `update_pressure` over the fluid particles,
with three arguments bound anew and the others as `update_boundary_pressure` left
them. -/
def Fluid.update_fluid_pressure {F : Type} (s : Fluid F) : Fluid F :=
  let global := make_NDRange s.params.fluid_count local_group_size
  let s := s.setArg .pcisph_update_pressure 1 (.int 0)
  let s := s.setArg .pcisph_update_pressure 8 (.buffer .fluid_density_variations)
  let s := s.setArg .pcisph_update_pressure 9 (.buffer .fluid_pressures)
  s.enqueueNDRangeKernel .pcisph_update_pressure global local_group_size

/-- The statements "read density variations", Fluid.cpp:282-286. -/
def Fluid.read_density_variations {F : Type} (i : Nat) (s : Fluid F) : Fluid F :=
  if i ≥ min_iterations then
    s.enqueue (Event.read .fluid_density_variations false
      (size_t (s.params.fluid_count * sizeof_cl_float)))
  else s

/-- The statements "compute pressure force", Fluid.cpp:288-298. -/
def Fluid.update_pressure_force {F : Type} (params_buffer : Simulation_Params F)
    (s : Fluid F) : Fluid F :=
  let global := make_NDRange s.params.fluid_count local_group_size
  let s := s.setArg .pcisph_update_pressure_force 0 (.params_buffer params_buffer)
  let s := s.setArg .pcisph_update_pressure_force 1 (.buffer .boundary_cell_offsets)
  let s := s.setArg .pcisph_update_pressure_force 2 (.buffer .boundary_positions)
  let s := s.setArg .pcisph_update_pressure_force 3 (.buffer .boundary_pressures)
  let s := s.setArg .pcisph_update_pressure_force 4 (.buffer .fluid_cell_offsets)
  let s := s.setArg .pcisph_update_pressure_force 5 (.buffer .fluid_positions)
  let s := s.setArg .pcisph_update_pressure_force 6 (.buffer .fluid_densities)
  let s := s.setArg .pcisph_update_pressure_force 7 (.buffer .fluid_pressures)
  let s := s.setArg .pcisph_update_pressure_force 8 (.buffer .fluid_pressure_forces)
  s.enqueueNDRangeKernel .pcisph_update_pressure_force global local_group_size

/-- The dispatches of iteration `i` of the PCISPH loop, Fluid.cpp:252-298. -/
def Fluid.pcisph_dispatch {F : Type} (params_buffer : Simulation_Params F) (i : Nat)
    (s : Fluid F) : Fluid F :=
  let s := s.predict_position params_buffer
  let s := s.update_boundary_pressure params_buffer
  let s := s.update_fluid_pressure
  let s := s.read_density_variations i
  s.update_pressure_force params_buffer

/-- The algorithm `std::max_element` followed by the dereference of its result: the
first element that no later element exceeds under `lt`; `none` on an empty range, where
the dereference is undefined. -/
def max_element {F : Type} (lt : F → F → Bool) : List F → Option F
  | [] => none
  | x :: xs => some (xs.foldl (fun largest y => if lt largest y then y else largest) x)

/-- The host vector `density_variations` (Fluid.cpp:121) once the read of iteration `i`
has completed: `fluid_count` values, `device i j` being the density variation of
particle `j` which the device holds in iteration `i`. -/
def density_variations {F : Type} (device : Nat → Nat → F) (i fluid_count : Nat) : List F :=
  (List.range fluid_count).map (device i)

/-- The test of Fluid.cpp:303-304 on the values read in iteration `i`: `none` when the
dereference is undefined, else whether the loop is left. -/
def Fluid.converged {F : Type} (A : Arith F) (device : Nat → Nat → F) (s : Fluid F)
    (i : Nat) : Option Bool :=
  match max_element A.lt (density_variations device i s.params.fluid_count) with
  | none => none
  | some max_density_variation =>
    some (A.lt (A.div max_density_variation s.params.rest_density)
      s.density_variation_threshold)

/-- The loop `for (int i = 0; i < 7; i++)` of Fluid.cpp:251-307, entered at index `i`
with `remaining = 7 - i` indices left. -/
def Fluid.pcisph_loop {F : Type} (A : Arith F) (device : Nat → Nat → F)
    (params_buffer : Simulation_Params F) : Nat → Nat → Fluid F → Outcome F
  | 0, _, s => { status := .returned, state := s }
  | remaining + 1, i, s =>
    let s := s.pcisph_dispatch params_buffer i
    -- check if we can stop (max density variation below threshold)
    if i ≥ min_iterations then
      let s := s.enqueue Event.wait
      match s.converged A device i with
      | none => { status := .undefined, state := s }
      | some true => { status := .returned, state := s }
      | some false => Fluid.pcisph_loop A device params_buffer remaining (i + 1) s
    else Fluid.pcisph_loop A device params_buffer remaining (i + 1) s

/-- The block "time integration", Fluid.cpp:308-316. -/
def Fluid.time_integration {F : Type} (params_buffer : Simulation_Params F)
    (s : Fluid F) : Fluid F :=
  let global := make_NDRange s.params.fluid_count local_group_size
  let s := s.setArg .pcisph_update_position_and_velocity 0 (.params_buffer params_buffer)
  let s := s.setArg .pcisph_update_position_and_velocity 1 (.buffer .fluid_positions)
  let s := s.setArg .pcisph_update_position_and_velocity 2 (.buffer .fluid_velocities)
  let s := s.setArg .pcisph_update_position_and_velocity 3 (.buffer .fluid_other_forces)
  let s := s.setArg .pcisph_update_position_and_velocity 4 (.buffer .fluid_pressure_forces)
  let s := s.setArg .pcisph_update_position_and_velocity 5 (.buffer .fluid_positions)
  let s := s.setArg .pcisph_update_position_and_velocity 6 (.buffer .fluid_velocities)
  s.enqueueNDRangeKernel .pcisph_update_position_and_velocity global local_group_size

/-- The function `Fluid::update` from the consistency check on, Fluid.cpp:114-327. -/
def Fluid.update_checked {F : Type} (A : Arith F) (device : Nat → Nat → F) (s : Fluid F) :
    Outcome F :=
  match s.checkBuffersConsistent with
  | .error e => { status := .thrown e, state := s }
  | .ok _ =>
    if s.params.fluid_count = 0 then { status := .returned, state := s }
    else
      let params_buffer := s.params
      (((s.sort_boundary_particles params_buffer).andThen
        (Fluid.sort_fluid_particles params_buffer)).andThen
        (fun s => Fluid.pcisph_loop A device params_buffer 7 0
          (s.initialize_forces params_buffer))).andThen
        (fun s => { status := .returned, state := s.time_integration params_buffer })

/-- The function `Fluid::update`, Fluid.cpp:108-327. `device i j` is the density
variation of particle `j` on the device in iteration `i` of the PCISPH loop; `none` when
the parameter derivation does not finish within `fuel` condition checks. An exception of
the derivation leaves `update` before `params_changed = false` (line 111). -/
def Fluid.update {F : Type} (A : Arith F) (fuel : Nat) (device : Nat → Nat → F)
    (s : Fluid F) : Option (Outcome F) :=
  if s.params_changed = true then
    match s.update_deduced_attributes A fuel with
    | none => none
    | some o => some (o.andThen fun s =>
        Fluid.update_checked A device { s with params_changed := false })
  else some (Fluid.update_checked A device s)

/-! ## The main loop -/

/-- The variables of `main` which the simulation loop reads and writes,
main.cpp:24-25 and 149-154. -/
structure Main_Loop (F : Type) where
  recording : Bool
  recording_interval : F
  simulation_time : F
  last_recorded_frame_time : F
  fluid : Fluid F

/-- How the loop `do ... while` of main.cpp:192-195 is left: by its condition
(`returned`), or by an update which does not return normally (its exception leaves the
loop of `main`); `updates` counts the calls of `fluid.update()`. -/
structure Frame (F : Type) where
  status : Status
  updates : Nat
  state : Main_Loop F

/-- The loop `do ... while` of main.cpp:192-195: `fluid.update()`, then
`simulation_time += delta_t`, again while recording and the interval has not passed.
`devices k` is the device input of the update number `k` of the frame. The argument
`steps` bounds the number of passes; `none` when it is reached or when an update does
not finish. -/
def Main_Loop.simulate {F : Type} (A : Arith F) (fuel : Nat) :
    Nat → (Nat → Nat → Nat → F) → Main_Loop F → Option (Frame F)
  | 0, _, _ => none
  | steps + 1, devices, m =>
    match m.fluid.update A fuel (devices 0) with
    | none => none
    | some o =>
      if o.status = .returned then
        let m := { m with fluid := o.state,
                          simulation_time := A.add m.simulation_time o.state.params.delta_t }
        if m.recording = true ∧
            A.le (A.sub m.simulation_time m.last_recorded_frame_time) m.recording_interval
              = true then
          (Main_Loop.simulate A fuel steps (fun k => devices (k + 1)) m).map
            fun f => { f with updates := f.updates + 1 }
        else some { status := .returned, updates := 1, state := m }
      else some { status := o.status, updates := 1, state := { m with fluid := o.state } }

/-- The condition of main.cpp:204 under which the frame is written to a file. -/
def Main_Loop.captures {F : Type} (A : Arith F) (m : Main_Loop F) : Bool :=
  m.recording && A.le m.recording_interval
    (A.sub m.simulation_time m.last_recorded_frame_time)

/-! ## Reading the command queue -/

/-- Whether an argument is bound to the given buffer member. -/
def Arg.is_buffer {F : Type} (b : Buf) : Arg F → Bool
  | .buffer c => decide (c = b)
  | _ => false

/-- Whether an argument is bound to `nullptr`. -/
def Arg.is_null {F : Type} : Arg F → Bool
  | .null => true
  | _ => false

/-- A kernel dispatch. -/
def Event.is_dispatch {F : Type} : Event F → Bool
  | .ndrange _ _ _ _ => true
  | _ => false

/-- A radix sort. -/
def Event.is_sort {F : Type} : Event F → Bool
  | .sort _ _ _ _ => true
  | _ => false

/-- The read of the density variations, or the wait which precedes the convergence test. -/
def Event.is_readback_or_test {F : Type} : Event F → Bool
  | .read .fluid_density_variations _ _ => true
  | .wait => true
  | _ => false

/-- A dispatch of the integration kernel `update_position_and_velocity`. -/
def Event.is_integration {F : Type} : Event F → Bool
  | .ndrange .pcisph_update_position_and_velocity _ _ _ => true
  | _ => false

/-- An integration whose position output (argument 5) is `fluid_predicted_positions` and
whose velocity output (argument 6) is null: the first dispatch of a loop body. -/
def Event.is_prediction {F : Type} : Event F → Bool
  | .ndrange .pcisph_update_position_and_velocity args _ _ =>
    (args.getD 5 .unset).is_buffer .fluid_predicted_positions && (args.getD 6 .unset).is_null
  | _ => false

/-- An integration whose outputs (arguments 5 and 6) are `fluid_positions` and
`fluid_velocities`. -/
def Event.is_committed {F : Type} : Event F → Bool
  | .ndrange .pcisph_update_position_and_velocity args _ _ =>
    (args.getD 5 .unset).is_buffer .fluid_positions &&
      (args.getD 6 .unset).is_buffer .fluid_velocities
  | _ => false

/-- A call of the boundary grid build, Fluid.cpp:139-164: the reset of the boundary
offsets, the hashing into the boundary keys, the sort of the boundary keys, the copy of
the boundary positions, the boundary reorder. -/
def Event.is_boundary_grid {F : Type} : Event F → Bool
  | .ndrange .sort_utils_reset_cell_offsets args _ _ =>
    (args.getD 1 .unset).is_buffer .boundary_cell_offsets
  | .ndrange .sort_utils_initialize_kernel args _ _ =>
    (args.getD 2 .unset).is_buffer .boundary_keys
  | .ndrange .sort_utils_reorder_and_insert_boundary_offsets _ _ _ => true
  | .sort keys _ _ _ => decide (keys = .boundary_keys)
  | .copy src _ _ => decide (src = .boundary_positions)
  | _ => false

/-- A call of the fluid grid build, Fluid.cpp:179-207. -/
def Event.is_fluid_grid {F : Type} : Event F → Bool
  | .ndrange .sort_utils_reset_cell_offsets args _ _ =>
    (args.getD 1 .unset).is_buffer .fluid_cell_offsets
  | .ndrange .sort_utils_initialize_kernel args _ _ =>
    (args.getD 2 .unset).is_buffer .fluid_keys
  | .ndrange .sort_utils_reorder_and_insert_fluid_offsets _ _ _ => true
  | .sort keys _ _ _ => decide (keys = .fluid_keys)
  | .copy src _ _ => decide (src = .fluid_positions) || decide (src = .fluid_velocities)
  | _ => false

/-- A dispatch of the given kernel. -/
def Event.is_kernel {F : Type} (k : Kernel) : Event F → Bool
  | .ndrange kernel _ _ _ => decide (kernel = k)
  | _ => false

/-- A dispatch of `update_pressure` in its boundary mode: argument 1 is 1 and the
pressures written (argument 9) are `boundary_pressures`. -/
def Event.is_boundary_pressure {F : Type} : Event F → Bool
  | .ndrange .pcisph_update_pressure args _ _ =>
    (args.getD 9 .unset).is_buffer .boundary_pressures
  | _ => false

/-- A dispatch which reads the cached boundary densities `boundary_init_pred_densities`
(argument 4 of `update_pressure`). -/
def Event.reads_boundary_init_pred_densities {F : Type} : Event F → Bool
  | .ndrange .pcisph_update_pressure args _ _ =>
    (args.getD 4 .unset).is_buffer .boundary_init_pred_densities
  | _ => false

/-- The number of loop bodies begun in a stretch of the queue: each body begins with one
prediction (Fluid.cpp:252-260) and enqueues no other. -/
def iterations {F : Type} (q : List (Event F)) : Nat :=
  q.countP Event.is_prediction

/-- Walks a stretch of the queue with the number of loop bodies begun so far: every
readback and every wait for the convergence test has at least three bodies begun before
it, which is to say that it belongs to an iteration of index 2 or more. -/
def tests_from_index_two {F : Type} : Nat → List (Event F) → Bool
  | _, [] => true
  | begun, e :: q =>
    if e.is_prediction then tests_from_index_two (begun + 1) q
    else if e.is_readback_or_test then decide (3 ≤ begun) && tests_from_index_two begun q
    else tests_from_index_two begun q

/-- Every parameter block bound to an argument of the event is `p`. -/
def Event.sees_params {F : Type} (p : Simulation_Params F) : Event F → Prop
  | .ndrange _ args _ _ => ∀ q, Arg.params_buffer q ∈ args → q = p
  | _ => True

/-- The number of bits `sort_bit_count` returns, 0 if it throws. -/
def sort_bits (elements : Nat) : Nat :=
  (sort_bit_count elements).toOption.getD 0

/-- The dispatch of Fluid.cpp:139-142 (boundary) or 179-182 (fluid), by the offset
table it resets. -/
def reset_offsets_event {F : Type} (pb : Simulation_Params F) (offsets : Buf)
    (bucket_count : Nat) : Event F :=
  .ndrange .sort_utils_reset_cell_offsets [.params_buffer pb, .buffer offsets]
    (make_NDRange bucket_count local_group_size) local_group_size

/-- The dispatch of Fluid.cpp:144-150 (boundary) or 184-190 (fluid). -/
def hash_event {F : Type} (pb : Simulation_Params F) (keys positions src_locations : Buf)
    (count : Nat) : Event F :=
  .ndrange .sort_utils_initialize_kernel
    [.params_buffer pb, .uint count, .buffer keys, .buffer positions,
     .buffer src_locations]
    (make_NDRange count local_group_size) local_group_size

/-- The dispatch of Fluid.cpp:158-164. -/
def boundary_reorder_event {F : Type} (count : Nat) : Event F :=
  .ndrange .sort_utils_reorder_and_insert_boundary_offsets
    [.uint count, .buffer .boundary_cell_offsets, .buffer .boundary_src_locations,
     .buffer .boundary_keys, .buffer .boundary_positions_tmp, .buffer .boundary_positions]
    (make_NDRange count local_group_size) local_group_size

/-- The dispatch of Fluid.cpp:199-207. -/
def fluid_reorder_event {F : Type} (count : Nat) : Event F :=
  .ndrange .sort_utils_reorder_and_insert_fluid_offsets
    [.uint count, .buffer .fluid_cell_offsets, .buffer .fluid_src_locations,
     .buffer .fluid_keys, .buffer .fluid_positions_tmp, .buffer .fluid_velocities_tmp,
     .buffer .fluid_positions, .buffer .fluid_velocities]
    (make_NDRange count local_group_size) local_group_size

/-- The dispatch of Fluid.cpp:214-220. -/
def density_event {F : Type} (pb : Simulation_Params F) (n : Nat) : Event F :=
  .ndrange .pcisph_update_density
    [.params_buffer pb, .buffer .boundary_cell_offsets, .buffer .boundary_positions,
     .buffer .fluid_cell_offsets, .buffer .fluid_positions, .buffer .fluid_densities]
    (make_NDRange n local_group_size) local_group_size

/-- The dispatch of Fluid.cpp:223-228. -/
def normal_event {F : Type} (pb : Simulation_Params F) (n : Nat) : Event F :=
  .ndrange .pcisph_update_normal
    [.params_buffer pb, .buffer .fluid_cell_offsets, .buffer .fluid_positions,
     .buffer .fluid_densities, .buffer .fluid_normals]
    (make_NDRange n local_group_size) local_group_size

/-- The dispatch of Fluid.cpp:232-234. -/
def boundary_pressure_initialization_event {F : Type} (pb : Simulation_Params F)
    (n : Nat) : Event F :=
  .ndrange .pcisph_boundary_pressure_initialization
    [.params_buffer pb, .buffer .boundary_pressures]
    (make_NDRange n local_group_size) local_group_size

/-- The dispatch of Fluid.cpp:238-247. -/
def force_initialization_event {F : Type} (pb : Simulation_Params F) (n : Nat) : Event F :=
  .ndrange .pcisph_force_initialization
    [.params_buffer pb, .buffer .fluid_cell_offsets, .buffer .fluid_positions,
     .buffer .fluid_normals, .buffer .fluid_densities, .buffer .fluid_velocities,
     .buffer .fluid_other_forces, .buffer .fluid_pressures,
     .buffer .fluid_pressure_forces]
    (make_NDRange n local_group_size) local_group_size

/-- The dispatch of Fluid.cpp:253-260. -/
def prediction_event {F : Type} (pb : Simulation_Params F) (n : Nat) : Event F :=
  .ndrange .pcisph_update_position_and_velocity
    [.params_buffer pb, .buffer .fluid_positions, .buffer .fluid_velocities,
     .buffer .fluid_other_forces, .buffer .fluid_pressure_forces,
     .buffer .fluid_predicted_positions, .null]
    (make_NDRange n local_group_size) local_group_size

/-- The dispatch of Fluid.cpp:309-316. -/
def committed_event {F : Type} (pb : Simulation_Params F) (n : Nat) : Event F :=
  .ndrange .pcisph_update_position_and_velocity
    [.params_buffer pb, .buffer .fluid_positions, .buffer .fluid_velocities,
     .buffer .fluid_other_forces, .buffer .fluid_pressure_forces,
     .buffer .fluid_positions, .buffer .fluid_velocities]
    (make_NDRange n local_group_size) local_group_size

/-- The dispatch of `update_pressure` over the boundary particles, Fluid.cpp:263-275. -/
def boundary_pressure_event {F : Type} (pb : Simulation_Params F) (n : Nat) : Event F :=
  .ndrange .pcisph_update_pressure
    [.params_buffer pb, .int 1, .buffer .boundary_cell_offsets, .buffer .boundary_positions,
     .buffer .boundary_init_pred_densities, .buffer .fluid_cell_offsets,
     .buffer .fluid_positions, .buffer .fluid_predicted_positions, .null,
     .buffer .boundary_pressures]
    (make_NDRange n local_group_size) local_group_size

/-- The dispatch of `update_pressure` over the fluid particles, Fluid.cpp:277-280. -/
def fluid_pressure_event {F : Type} (pb : Simulation_Params F) (n : Nat) : Event F :=
  .ndrange .pcisph_update_pressure
    [.params_buffer pb, .int 0, .buffer .boundary_cell_offsets, .buffer .boundary_positions,
     .buffer .boundary_init_pred_densities, .buffer .fluid_cell_offsets,
     .buffer .fluid_positions, .buffer .fluid_predicted_positions,
     .buffer .fluid_density_variations, .buffer .fluid_pressures]
    (make_NDRange n local_group_size) local_group_size

/-- The read of Fluid.cpp:285. -/
def read_event {F : Type} (n : Nat) : Event F :=
  .read .fluid_density_variations false (size_t (n * sizeof_cl_float))

/-- The dispatch of Fluid.cpp:289-298. -/
def pressure_force_event {F : Type} (pb : Simulation_Params F) (n : Nat) : Event F :=
  .ndrange .pcisph_update_pressure_force
    [.params_buffer pb, .buffer .boundary_cell_offsets, .buffer .boundary_positions,
     .buffer .boundary_pressures, .buffer .fluid_cell_offsets, .buffer .fluid_positions,
     .buffer .fluid_densities, .buffer .fluid_pressures, .buffer .fluid_pressure_forces]
    (make_NDRange n local_group_size) local_group_size

/-- What `Fluid.pcisph_dispatch` enqueues in iteration `i`, for the parameter block `p`
of the engine. -/
def pcisph_events {F : Type} (pb p : Simulation_Params F) (i : Nat) : List (Event F) :=
  [prediction_event pb p.fluid_count] ++
  ((if p.boundary_count > 0 then [boundary_pressure_event pb p.boundary_count] else []) ++
  ([fluid_pressure_event pb p.fluid_count] ++
  ((if i ≥ min_iterations then [read_event p.fluid_count] else []) ++
  [pressure_force_event pb p.fluid_count])))

/-- What `Fluid.pcisph_loop` enqueues from index `i` on, `test i` being the outcome of
the convergence test of iteration `i`. -/
def loop_events {F : Type} (pb p : Simulation_Params F) (test : Nat → Option Bool) :
    Nat → Nat → List (Event F)
  | 0, _ => []
  | remaining + 1, i =>
    pcisph_events pb p i ++
    (if i ≥ min_iterations then
      Event.wait :: (match test i with
        | some false => loop_events pb p test remaining (i + 1)
        | _ => [])
     else loop_events pb p test remaining (i + 1))

/-- What `Fluid.sort_boundary_particles` enqueues when it rebuilds the boundary grid. -/
def sort_boundary_events {F : Type} (pb p : Simulation_Params F) : List (Event F) :=
  [reset_offsets_event pb .boundary_cell_offsets p.bucket_count,
   hash_event pb .boundary_keys .boundary_positions .boundary_src_locations
     p.boundary_count,
   .sort .boundary_keys .boundary_src_locations p.boundary_count
     (sort_bits p.boundary_count),
   .copy .boundary_positions .boundary_positions_tmp
     (size_t (u32 (3 * p.boundary_count) * sizeof_cl_float)),
   boundary_reorder_event p.boundary_count]

/-- What `Fluid.sort_fluid_particles` enqueues. -/
def sort_fluid_events {F : Type} (pb p : Simulation_Params F) : List (Event F) :=
  [reset_offsets_event pb .fluid_cell_offsets p.bucket_count,
   hash_event pb .fluid_keys .fluid_positions .fluid_src_locations p.fluid_count,
   .sort .fluid_keys .fluid_src_locations p.fluid_count (sort_bits p.fluid_count),
   .copy .fluid_positions .fluid_positions_tmp
     (size_t (u32 (3 * p.fluid_count) * sizeof_cl_float)),
   .copy .fluid_velocities .fluid_velocities_tmp
     (size_t (u32 (3 * p.fluid_count) * sizeof_cl_float)),
   fluid_reorder_event p.fluid_count]

/-- What `Fluid.initialize_forces` enqueues. -/
def initialize_forces_events {F : Type} (pb p : Simulation_Params F) : List (Event F) :=
  [density_event pb p.fluid_count] ++
  ([normal_event pb p.fluid_count] ++
  ((if p.boundary_count > 0 then
      [boundary_pressure_initialization_event pb p.boundary_count] else []) ++
  [force_initialization_event pb p.fluid_count]))

/-- What `Fluid.update_checked` enqueues before the PCISPH loop, for an engine whose
boundary bit is `boundary_updated`. -/
def setup_events {F : Type} (p : Simulation_Params F) (boundary_updated : Bool) :
    List (Event F) :=
  (if boundary_updated = true ∧ p.boundary_count > 0 then sort_boundary_events p p
   else []) ++ (sort_fluid_events p p ++ initialize_forces_events p p)

/-- Everything a step enqueues when it runs: the set-up, the loop, the committed
integration. -/
def step_events {F : Type} (p : Simulation_Params F) (boundary_updated : Bool)
    (test : Nat → Option Bool) : List (Event F) :=
  setup_events p boundary_updated ++ (loop_events p p test 7 0 ++
    [committed_event p p.fluid_count])

/-- What `update` enqueues before the consistency check: the write of zeros to the
velocities when the parameters are derived anew (Fluid.cpp:463). -/
def Fluid.entry_events {F : Type} (s : Fluid F) : List (Event F) :=
  if s.params_changed = true then
    [Event.write .fluid_velocities true
      (size_t (u32 (s.params.fluid_count * 3) * sizeof_cl_float))]
  else []

/-- The boundary bit when `update` reaches the consistency check: the derivation sets
it (Fluid.cpp:465). -/
def Fluid.entry_flag {F : Type} (s : Fluid F) : Bool :=
  s.params_changed || s.boundary_updated

/-- The state `t` is `s` with the calls `new` enqueued after those of `s`: the settings
(parameter block, buffer sizes, threshold, `params_changed`) are the same, kernel
arguments and the boundary bit may differ. -/
def Fluid.appends {F : Type} (s t : Fluid F) (new : List (Event F)) : Prop :=
  t.queue = s.queue ++ new ∧ t.params = s.params ∧ t.mem_size = s.mem_size ∧
  t.density_variation_threshold = s.density_variation_threshold ∧
  t.params_changed = s.params_changed

/-- The buffer members declared under "internal buffers", Fluid.h:87-99; the others are
the public members of Fluid.h:40-50. -/
def Buf.is_internal : Buf → Bool
  | .boundary_cell_offsets => true
  | .boundary_keys => true
  | .boundary_src_locations => true
  | .boundary_positions_tmp => true
  | .boundary_init_pred_densities => true
  | .fluid_cell_offsets => true
  | .fluid_keys => true
  | .fluid_src_locations => true
  | .fluid_positions_tmp => true
  | .fluid_velocities_tmp => true
  | .fluid_density_variations => true
  | _ => false

/-- Each of the eight fluid members holds a buffer, so that its size can be read. -/
def Fluid.holds_buffers {F : Type} (s : Fluid F) : Prop :=
  s.mem_size .fluid_positions ≠ 0 ∧
  s.mem_size .fluid_normals ≠ 0 ∧
  s.mem_size .fluid_predicted_positions ≠ 0 ∧
  s.mem_size .fluid_densities ≠ 0 ∧
  s.mem_size .fluid_other_forces ≠ 0 ∧
  s.mem_size .fluid_velocities ≠ 0 ∧
  s.mem_size .fluid_pressures ≠ 0 ∧
  s.mem_size .fluid_pressure_forces ≠ 0

/-- The eight comparisons of `checkBuffersConsistent`: the size of every fluid member is
that of `fluid_count` elements, 12 bytes for a 3-vector and 4 bytes for a scalar. -/
def Fluid.sizes_match {F : Type} (s : Fluid F) : Prop :=
  s.mem_size .fluid_positions = s.params.fluid_count * 12 ∧
  s.mem_size .fluid_normals = s.params.fluid_count * 12 ∧
  s.mem_size .fluid_predicted_positions = s.params.fluid_count * 12 ∧
  s.mem_size .fluid_densities = s.params.fluid_count * 4 ∧
  s.mem_size .fluid_other_forces = s.params.fluid_count * 12 ∧
  s.mem_size .fluid_velocities = s.params.fluid_count * 12 ∧
  s.mem_size .fluid_pressures = s.params.fluid_count * 4 ∧
  s.mem_size .fluid_pressure_forces = s.params.fluid_count * 12

/-- What `checkBuffersConsistent` requires, as one proposition: every fluid member holds
a buffer, and the buffer has `fluid_count` elements. -/
def Fluid.consistent {F : Type} (s : Fluid F) : Prop :=
  s.holds_buffers ∧ s.sizes_match

/-- The error thrown is the one of `checkBuffersConsistent`. -/
def Status.is_inconsistent : Status → Bool
  | .thrown (.inconsistent _ _ _) => true
  | _ => false

/-- The error thrown is a `cl::Error` of the parameter derivation: a buffer which is not
created (Fluid.cpp:447-459), or the write of the zeros (Fluid.cpp:463). -/
def Status.is_refused : Status → Bool
  | .thrown (.cl .clCreateBuffer) => true
  | .thrown (.cl .clEnqueueWriteBuffer) => true
  | _ => false

/-- The state of the outcome `o` is the state `s` but for the sizes of internal buffers,
and `o` is a normal end or the `cl::Error` of a creation: what the creations of buffers
of `update_deduced_attributes`, started in `s`, leave. -/
def Fluid.creates {F : Type} (s : Fluid F) (o : Outcome F) : Prop :=
  o.state.params = s.params ∧
  o.state.density_variation_threshold = s.density_variation_threshold ∧
  o.state.params_changed = s.params_changed ∧
  o.state.boundary_updated = s.boundary_updated ∧
  o.state.queue = s.queue ∧
  (∀ b : Buf, b.is_internal = false → o.state.mem_size b = s.mem_size b) ∧
  (o.status = .returned ∨ o.status = .thrown (Error.cl .clCreateBuffer))

/-- The parameter derivation of `update` comes to an end and returns: either it is not
run at all, or its lattice loops finish within `fuel` condition checks and the runtime
refuses none of its calls. -/
def Fluid.derivation_finishes {F : Type} (A : Arith F) (fuel : Nat) (s : Fluid F) : Prop :=
  s.params_changed = false ∨
    ∃ t, s.update_deduced_attributes A fuel = some { status := .returned, state := t }

/-! ### The scaling factor as the specification words it -/

/-- The first `n` values of a lattice coordinate: `lo`, `lo + step`, `lo + 2 step`, and
so on. -/
def axis_values {F : Type} [LinearOrderedField F] (n : Nat) (lo step : F) : List F :=
  (List.range n).map (fun k : Nat => lo + k * step)

/-- Specification side: the scalar which multiplies the offset `p = (x, y, z)` in the
sample `g(p) = -N (h² - |p|²)² p`, and 0 for an offset outside `|p|² < h²`. -/
def spec_sample_weight {F : Type} [LinearOrderedField F] (N h x y z : F) : F :=
  if x * x + y * y + z * z < h ^ 2 then -N * (h ^ 2 - (x * x + y * y + z * z)) ^ 2 else 0

/-- Specification side: the sum of `f` over all offsets whose three coordinates each
range over `axis`. -/
def spec_lattice_sum {F : Type} [LinearOrderedField F] (axis : List F) (f : F → F → F → F) :
    F :=
  (axis.map fun z => (axis.map fun y => (axis.map fun x => f x y z).sum).sum).sum

/-- Specification side: `-1 / (β (-|S|² - Q))` with `β = Δt² m² 2 / ρ₀²`, `S` the vector
sum and `Q` the sum of the squared magnitudes of the samples over the lattice
`-h - 2r, -h, ..., h + 2r` (seven values a coordinate), for `h = 4r`, the mass
`m = ρ₀ / (1 / (2r))³` and the poly6 gradient normalization `N = -945 / (32 π h⁹)`. -/
def spec_scaling_factor {F : Type} [LinearOrderedField F] (PI r rest_density delta_t : F) :
    F :=
  let h := 4 * r
  let m := rest_density / (1 / (2 * r)) ^ 3
  let N := -945 / (32 * PI * h ^ 9)
  let axis := axis_values 7 (-h - 2 * r) (2 * r)
  let w := spec_sample_weight N h
  let S0 := spec_lattice_sum axis (fun x y z => w x y z * x)
  let S1 := spec_lattice_sum axis (fun x y z => w x y z * y)
  let S2 := spec_lattice_sum axis (fun x y z => w x y z * z)
  let Q := spec_lattice_sum axis
    (fun x y z => (w x y z * x) ^ 2 + (w x y z * y) ^ 2 + (w x y z * z) ^ 2)
  let β := delta_t ^ 2 * m ^ 2 * 2 / rest_density ^ 2
  (-1) / (β * (-(S0 ^ 2 + S1 ^ 2 + S2 ^ 2) - Q))

/-- The engine states which a program reaches through the public interface of
`sim::Fluid`: the constructor, the setters (counts are `unsigned int`), the assignment
of a public buffer member, and `update` whenever it comes to an end, normally or by an
exception. -/
inductive Fluid.reachable {F : Type} (A : Arith F) : Fluid F → Prop
  | construct (density_variation_threshold : F) (params : Simulation_Params F) :
      params.fluid_count < 2 ^ 32 →
      Fluid.reachable A (Fluid.construct density_variation_threshold params)
  | set_boundary_count (s : Fluid F) (boundary_count : Nat) :
      Fluid.reachable A s → Fluid.reachable A (s.set_boundary_count boundary_count)
  | set_fluid_count (s : Fluid F) (fluid_count : Nat) :
      Fluid.reachable A s → fluid_count < 2 ^ 32 →
      Fluid.reachable A (s.set_fluid_count fluid_count)
  | set_delta_t (s : Fluid F) (delta_t : F) :
      Fluid.reachable A s → Fluid.reachable A (s.set_delta_t delta_t)
  | set_rest_density (s : Fluid F) (rest_density : F) :
      Fluid.reachable A s → Fluid.reachable A (s.set_rest_density rest_density)
  | set_particle_radius (s : Fluid F) (particle_radius : F) :
      Fluid.reachable A s → Fluid.reachable A (s.set_particle_radius particle_radius)
  | set_gravity (s : Fluid F) (gravity : F) :
      Fluid.reachable A s → Fluid.reachable A (s.set_gravity gravity)
  | set_viscosity (s : Fluid F) (viscosity : F) :
      Fluid.reachable A s → Fluid.reachable A (s.set_viscosity viscosity)
  | set_surface_tension (s : Fluid F) (surface_tension_coefficient : F) :
      Fluid.reachable A s →
      Fluid.reachable A (s.set_surface_tension surface_tension_coefficient)
  | set_density_variation_threshold (s : Fluid F) (density_variation_threshold : F) :
      Fluid.reachable A s →
      Fluid.reachable A (s.set_density_variation_threshold density_variation_threshold)
  | assign_buffer (s : Fluid F) (b : Buf) (bytes : Nat) :
      Fluid.reachable A s → b.is_internal = false →
      Fluid.reachable A (s.assign_buffer b bytes)
  | update (s : Fluid F) (fuel : Nat) (device : Nat → Nat → F) (o : Outcome F) :
      Fluid.reachable A s → s.update A fuel device = some o → Fluid.reachable A o.state

/-! ## The grid build, spec-modelled

The kernels of `data/kernels/sort_utils.cl` and the implementation of
`clogs::Radixsort` are not among the sources; only their dispatches (Fluid.cpp:179-207)
and the declaration of the sort (radixsort.h) are. -/

/-- Modelled from the spec: the kernel `initialize` of `sort_utils.cl`, which is not
among the sources. "Assigns a cell hash per particle", with the "per-particle
original-index (source location)": the key of particle `i` is its cell hash, its value
is `i`. The hash function is a parameter. -/
def spec_initialize_keys (hash : Nat → Nat) (count : Nat) : List (Nat × Nat) :=
  (List.range count).map fun i => (hash i, i)

/-- Modelled from the spec: one insertion of the stable sort below, in front of the
first pair whose key is not smaller. -/
def spec_insert (a : Nat × Nat) : List (Nat × Nat) → List (Nat × Nat)
  | [] => [a]
  | b :: l => if a.1 ≤ b.1 then a :: b :: l else b :: spec_insert a l

/-- Modelled from the spec: the "Parallel Sort primitive", whose implementation
(`clogs::Radixsort::enqueue`) is not among the sources: "stable sort of (key, value)
pairs by unsigned integer key". The bit width which the engine supplies enters in
`Radixsort.enqueue` below. -/
def spec_radixsort : List (Nat × Nat) → List (Nat × Nat)
  | [] => []
  | a :: l => spec_insert a (spec_radixsort l)

/-- Modelled from the spec: the offset table which the kernels `reset_cell_offsets` and
`reorder_and_insert_fluid_offsets` of `sort_utils.cl` (not among the sources) leave, "a
per-cell offset table of size `2 × bucket_count` (start and end index into the sorted
array for each cell)" where "`offsets[2·c]`/`offsets[2·c+1]` mark the start/end of cell
`c`'s run in the sorted array (cells with no particles get an empty/sentinel range)": in
the sorted keys the run of `c` starts after the keys below `c` and ends after the keys
up to `c`. -/
def spec_offsets (bucket_count : Nat) (sorted_keys : List Nat) : List Nat :=
  (List.range (2 * bucket_count)).map fun j =>
    if j % 2 = 0 then sorted_keys.countP (fun k => decide (k < j / 2))
    else sorted_keys.countP (fun k => decide (k ≤ j / 2))

/-- Modelled from the spec: the fluid grid build of a step (hash, sort, offset table),
Fluid.cpp:179-207: the sorted pairs of key and source location, and the offset table. -/
def spec_fluid_grid (hash : Nat → Nat) (count bucket_count : Nat) :
    List (Nat × Nat) × List Nat :=
  let sorted := spec_radixsort (spec_initialize_keys hash count)
  (sorted, spec_offsets bucket_count (sorted.map Prod.fst))

/-- Modelled from the spec: the reorder of the kernel
`reorder_and_insert_fluid_offsets` of `sort_utils.cl` (not among the sources), "then
reorder position (and, for fluid, velocity) arrays into sorted order": the entry `i` of
the reordered array is the entry of the array at the source location of `i`. -/
def spec_reorder {α : Type} (src_locations : List Nat) (array : List α) : List α :=
  src_locations.filterMap fun j => array[j]?

/-- Modelled from the spec: the inverse of the source-location permutation, which sends
a source location to the index it is sorted to. -/
def spec_inverse (src_locations : List Nat) : List Nat :=
  (List.range src_locations.length).map fun j => src_locations.indexOf j

/-- Modelled from the spec: the source-location array which the fluid grid build leaves,
the values of the sorted pairs. -/
def spec_src_locations (hash : Nat → Nat) (count bucket_count : Nat) : List Nat :=
  (spec_fluid_grid hash count bucket_count).1.map Prod.snd

/-- The function `clogs::Radixsort::enqueue` as its declaration states it,
radixsort.h:160-190; its implementation is not among the sources. The first `elements`
pairs of key and value are sorted. Under the precondition of line 181, "`maxBits` is
zero, or all keys are strictly less than `2^maxBits`", lines 183-184 promise that "the
keys will be sorted (with stability), and the values will be in the same order as the
keys". The result is `none` where the declaration promises no sorted keys: when the
precondition fails, and when `elements` is zero or `maxBits` exceeds the 32 bits of the
key type, where a `cl::Error` is thrown (lines 176-177). -/
def Radixsort.enqueue (pairs : List (Nat × Nat)) (elements maxBits : Nat) :
    Option (List (Nat × Nat)) :=
  if elements = 0 ∨ 32 < maxBits then none
  else if maxBits = 0 ∨ ∀ p ∈ pairs.take elements, p.1 < 2 ^ maxBits then
    some (spec_radixsort (pairs.take elements) ++ pairs.drop elements)
  else none

/-! ## Concrete inputs -/

/-- Exact arithmetic on the rationals, with the rational square root of Mathlib (exact on
squares) and 355/113 for `utils::PI`. -/
def rational_arith : Arith ℚ := Arith.exact ℚ (fun q => Rat.sqrt q) (355 / 113)

/-- A parameter block as the setters of `scene::load` leave it for a scene of 1000 fluid
and 3 boundary particles with three particles per voxel edge (scenes.cpp:219-229 and
166): radius 0.35/3, time step 0.002, rest density 999.972, viscosity 0.00008, surface
tension 1, gravity -9.81; the derived fields are not set yet and are 0 here. -/
def example_params : Simulation_Params ℚ where
  particle_radius := 7 / 60
  particle_mass := 0
  rest_density := 249993 / 250
  boundary_count := 3
  fluid_count := 1000
  kernel_radius := 0
  kernel_radius2 := 0
  bucket_count := 0
  cell_size := 0
  poly6_normalization := 0
  poly6_d1_normalization := 0
  viscosity_d2_normalization := 0
  spiky_d1_normalization := 0
  surface_tension_coefficient := 1
  surface_tension_term := 0
  surface_tension_normalization := 0
  viscosity_constant := 1 / 12500
  gravity := -981 / 100
  delta_t := 1 / 500
  density_variation_scaling_factor := 0


/-- An engine as `scene::load` leaves it for that scene, before the first step:
constructed with the threshold 0.01, then the ten public buffers assigned for 1000 fluid
and 3 boundary particles (scenes.cpp:197-208; 12 bytes a 3-vector, 4 bytes a scalar). -/
def example_fluid : Fluid ℚ :=
  let s := Fluid.construct (1 / 100) example_params
  let s := s.assign_buffer .boundary_positions 36
  let s := s.assign_buffer .boundary_pressures 12
  let s := s.assign_buffer .fluid_positions 12000
  let s := s.assign_buffer .fluid_normals 12000
  let s := s.assign_buffer .fluid_predicted_positions 12000
  let s := s.assign_buffer .fluid_densities 4000
  let s := s.assign_buffer .fluid_other_forces 12000
  let s := s.assign_buffer .fluid_velocities 12000
  let s := s.assign_buffer .fluid_pressures 4000
  s.assign_buffer .fluid_pressure_forces 12000

/-- Density variations on the device: 20 for every particle in the iterations 0 to 3,
then 5; over the rest density 999.972 the threshold 0.01 is passed in iteration 4. -/
def example_device : Nat → Nat → ℚ :=
  fun i _ => if i < 4 then 20 else 5

/-- The engine of the example scene after `set_particle_radius(0)`, with the pressures
reassigned to a buffer of two floats. -/
def stuck_short_fluid : Fluid ℚ :=
  (example_fluid.set_particle_radius 0).assign_buffer .fluid_pressures 8

/-- The engine after `set_fluid_count(0)` on a freshly constructed engine with the
parameters of the example scene: no particle, and no member holds a buffer. -/
def empty_fluid : Fluid ℚ :=
  (Fluid.construct (1 / 100) example_params).set_fluid_count 0

/-- The variables of `main` when it records the example scene from time 0, with the
recording interval 1/60 of main.cpp:25. -/
def example_main : Main_Loop ℚ where
  recording := true
  recording_interval := 1 / 60
  simulation_time := 0
  last_recorded_frame_time := 0
  fluid := example_fluid

/-- The three nested lattice loops of Fluid.cpp:410-435 with an arbitrary body in place
of the statements of lines 413-432: `lattice_sums` is the instance whose body is
`lattice_sample`. -/
def lattice_loops {F σ : Type} (A : Arith F) (fuel : Nat) (particle_radius kernel_radius : F)
    (body : F → F → F → σ → σ) (init : σ) : Option σ :=
  let particle_size := A.mul (A.lit 2) particle_radius
  let lo := A.sub (A.neg kernel_radius) particle_size
  let hi := A.add kernel_radius particle_size
  let step := A.mul (A.lit 2) particle_radius
  for_le A fuel lo hi step
    (fun z acc => for_le A fuel lo hi step
      (fun y acc => for_le A fuel lo hi step
        (fun x acc => some (body x y z acc)) acc) acc)
    init

/-- An engine whose particle count times 3 does not fit in 32 bits: the engine of the
example scene after `set_fluid_count(1431655766)`, with the eight fluid buffers assigned
for that many particles (12 bytes a 3-vector, 4 bytes a scalar). -/
def huge_fluid : Fluid ℚ :=
  let s := example_fluid.set_fluid_count 1431655766
  let s := s.assign_buffer .fluid_positions 17179869192
  let s := s.assign_buffer .fluid_normals 17179869192
  let s := s.assign_buffer .fluid_predicted_positions 17179869192
  let s := s.assign_buffer .fluid_densities 5726623064
  let s := s.assign_buffer .fluid_other_forces 17179869192
  let s := s.assign_buffer .fluid_velocities 17179869192
  let s := s.assign_buffer .fluid_pressures 5726623064
  s.assign_buffer .fluid_pressure_forces 17179869192

/-- The engine of the example scene after `set_fluid_count(10)`, with the eight fluid
buffers assigned for 10 particles. -/
def small_fluid : Fluid ℚ :=
  let s := example_fluid.set_fluid_count 10
  let s := s.assign_buffer .fluid_positions 120
  let s := s.assign_buffer .fluid_normals 120
  let s := s.assign_buffer .fluid_predicted_positions 120
  let s := s.assign_buffer .fluid_densities 40
  let s := s.assign_buffer .fluid_other_forces 120
  let s := s.assign_buffer .fluid_velocities 120
  let s := s.assign_buffer .fluid_pressures 40
  s.assign_buffer .fluid_pressure_forces 120

/-! ### The lattice in integer coordinates -/

/-- The squared norm of the lattice offset with the indices `i, j, k` of `0 .. 6`, in
units of `(2r)²`: the offset is `2r (i - 3, j - 3, k - 3)`. -/
def lattice_index_norm (i j k : Nat) : Int :=
  ((i : Int) - 3) ^ 2 + ((j : Int) - 3) ^ 2 + ((k : Int) - 3) ^ 2

/-- The weight `(h² - |p|²)²` of that offset in units of `(2r)⁴`, and 0 outside
`|p|² < h²`, for `h = 4r`. -/
def lattice_index_weight (i j k : Nat) : Int :=
  if lattice_index_norm i j k < 4 then (4 - lattice_index_norm i j k) ^ 2 else 0

/-- The sum of an integer function over the indices `0 .. n - 1` of the three axes. -/
def int_lattice_sum (n : Nat) (G : Nat → Nat → Nat → Int) : Int :=
  ((List.range n).map fun k =>
    ((List.range n).map fun j => ((List.range n).map fun i => G i j k).sum).sum).sum

/-! ### The fluid grid build with the bit count of the engine -/

/-- Modelled from the spec: the fluid grid build as `update` enqueues it,
Fluid.cpp:179-207: the keys and source locations which the kernel `initialize` writes,
the call `radixsort->enqueue(queue, fluid_keys, fluid_src_locations, fluid_count,
sort_bit_count(fluid_count))` of line 193, and the offset table which the reorder kernel
leaves for the sorted keys. The result is `none` when the sort promises no sorted
keys. -/
def fluid_grid_build (hash : Nat → Nat) (count bucket_count : Nat) :
    Option (List (Nat × Nat) × List Nat) :=
  match Radixsort.enqueue (spec_initialize_keys hash count) count (sort_bits count) with
  | none => none
  | some sorted => some (sorted, spec_offsets bucket_count (sorted.map Prod.fst))

/-! ## The scene loader, scenes.cpp -/

/-- The enum `xraw::Voxel_Type`, scenes.cpp:14-20. -/
inductive Voxel_Type where
  | BOUNDARY_VISIBLE
  | BOUNDARY_INVISIBLE
  | BLOCKER
  | FLUID
  | EMPTY
  deriving DecidableEq, Repr

/-- The class `xraw::Data`, scenes.cpp:34-73: the field `vol_size` of the header (three
`std::uint32_t`), and the bytes of `raw` which follow the header. -/
structure Data where
  vol_size0 : Nat
  vol_size1 : Nat
  vol_size2 : Nat
  voxels : List Nat

/-- The conversion of a value to `std::int32_t`, two's complement. -/
def i32 (n : Nat) : Int :=
  if n % 2 ^ 32 < 2 ^ 31 then ((n % 2 ^ 32 : Nat) : Int)
  else ((n % 2 ^ 32 : Nat) : Int) - 2 ^ 32

/-- The conversion of a `std::int32_t` to `unsigned int`, which the usual arithmetic
conversions apply to it next to a `std::uint32_t` operand. -/
def to_u32 (i : Int) : Nat := (i % 2 ^ 32).toNat

/-- The index `x + y * size[0] + z * size[0] * size[1]` of scenes.cpp:67, every
operation in `std::uint32_t`. -/
def Data.voxel_index (d : Data) (x y z : Nat) : Nat :=
  u32 (u32 (x + u32 (y * d.vol_size0)) + u32 (u32 (z * d.vol_size0) * d.vol_size1))

/-- The function `xraw::Data::voxel_value`, scenes.cpp:62-70; `none` when the byte read
lies past the end of `raw`. -/
def Data.voxel_value (d : Data) (x y z : Nat) : Option Nat :=
  if x ≥ d.vol_size0 ∨ y ≥ d.vol_size1 ∨ z ≥ d.vol_size2 then some 0
  else d.voxels[d.voxel_index x y z]?

/-- The `switch` of `xraw::Data::voxel_type`, scenes.cpp:47-58. -/
def Voxel_Type.of_value : Nat → Voxel_Type
  | 1 => .BOUNDARY_VISIBLE
  | 2 => .BOUNDARY_INVISIBLE
  | 3 => .BLOCKER
  | 4 => .FLUID
  | _ => .EMPTY

/-- The function `xraw::Data::voxel_type`, scenes.cpp:46-59. -/
def Data.voxel_type (d : Data) (x y z : Nat) : Option Voxel_Type :=
  (d.voxel_value x y z).map Voxel_Type.of_value

/-- The conversion of a `std::int32_t` to `float`. -/
def Arith.of_int {F : Type} (A : Arith F) (i : Int) : F :=
  if 0 ≤ i then A.lit i.toNat else A.neg (A.lit (-i).toNat)

/-- The literal `0.5f`, which is 1/2 exactly. -/
def Arith.half {F : Type} (A : Arith F) : F := A.div (A.lit 1) (A.lit 2)

/-- The values `lo, lo + 1, ..., hi` of a loop variable. -/
def int_range (lo hi : Int) : List Int :=
  (List.range (hi + 1 - lo).toNat).map fun (k : Nat) => lo + (k : Int)

/-- A loop `for(std::int32_t z = lo; z <= hi; z++) body`, scenes.cpp:89-91; `none` when
the loop runs with `hi = INT32_MAX`, where `z++` overflows after the last pass, or when
the body does not finish. -/
def for_int32 {σ : Type} (lo hi : Int) (body : Int → σ → Option σ) (acc : σ) : Option σ :=
  if lo ≤ hi ∧ hi = 2 ^ 31 - 1 then none
  else (int_range lo hi).foldlM (fun acc z => body z acc) acc

/-- The lambda `add_cube`, scenes.cpp:88-98: a position per lattice point of the box,
pushed as `x, z, y`. -/
def add_cube {F : Type} (A : Arith F) (particle_scaling : F) (position_offset : F × F × F)
    (bb_lower bb_upper : Int × Int × Int) (positions : List F) : Option (List F) :=
  for_int32 bb_lower.2.2 bb_upper.2.2
    (fun z positions => for_int32 bb_lower.2.1 bb_upper.2.1
      (fun y positions => for_int32 bb_lower.1 bb_upper.1
        (fun x positions => some (positions ++
          [A.add (A.mul (A.of_int x) particle_scaling) position_offset.1,
           A.add (A.mul (A.of_int z) particle_scaling) position_offset.2.1,
           A.add (A.mul (A.of_int y) particle_scaling) position_offset.2.2]))
        positions) positions) positions

/-- The three vectors `load_xraw_host` fills. -/
structure Host_Vectors (F : Type) where
  fluid_positions : List F
  boundary_positions : List F
  boundary_cubes : List F

/-- The lower bound of the box of a voxel along one axis, scenes.cpp:111-115 and
124-125: `x * ppd`, or `(x + 1) * ppd - 3` when the voxel before is a blocker. -/
def bb_lower_axis (particles_per_dimension x : Nat) (before : Voxel_Type) : Int :=
  if before = .BLOCKER then
    i32 (u32 (u32 (u32 (x + 1) * particles_per_dimension) + 2 ^ 32 - 3))
  else i32 (u32 (x * particles_per_dimension))

/-- The upper bound of the box of a voxel along one axis, scenes.cpp:116-123:
`bb_lower + ppd - 1` from the lower bound before any adjustment, or `x * ppd + 2` when
the voxel after is a blocker. -/
def bb_upper_axis (particles_per_dimension x : Nat) (after : Voxel_Type) : Int :=
  if after = .BLOCKER then i32 (u32 (u32 (x * particles_per_dimension) + 2))
  else i32 (u32 (u32 (to_u32 (i32 (u32 (x * particles_per_dimension)))
    + particles_per_dimension) + 2 ^ 32 - 1))

/-- The body of the voxel loops of `load_xraw_host`, scenes.cpp:103-145; `none` when a
voxel read or a loop of `add_cube` is undefined. -/
def load_voxel {F : Type} (A : Arith F) (d : Data) (particles_per_dimension : Nat)
    (scaling particle_scaling : F) (position_offset : F × F × F) (x y z : Nat)
    (v : Host_Vectors F) : Option (Host_Vectors F) := do
  let type ← d.voxel_type x y z
  let v :=
    if type = .BOUNDARY_VISIBLE then
      { v with boundary_cubes := v.boundary_cubes ++
          [A.add (A.mul (A.lit x) scaling) position_offset.1,
           A.add (A.mul (A.lit z) scaling) position_offset.2.1,
           A.add (A.mul (A.lit y) scaling) position_offset.2.2] }
    else v
  let x_after ← d.voxel_type (u32 (x + 1)) y z
  let x_before ← d.voxel_type (u32 (x + 2 ^ 32 - 1)) y z
  let y_after ← d.voxel_type x (u32 (y + 1)) z
  let y_before ← d.voxel_type x (u32 (y + 2 ^ 32 - 1)) z
  let z_after ← d.voxel_type x y (u32 (z + 1))
  let z_before ← d.voxel_type x y (u32 (z + 2 ^ 32 - 1))
  let bb_lower := (bb_lower_axis particles_per_dimension x x_before,
    bb_lower_axis particles_per_dimension y y_before,
    bb_lower_axis particles_per_dimension z z_before)
  let bb_upper := (bb_upper_axis particles_per_dimension x x_after,
    bb_upper_axis particles_per_dimension y y_after,
    bb_upper_axis particles_per_dimension z z_after)
  match type with
  | .BOUNDARY_INVISIBLE | .BOUNDARY_VISIBLE =>
    (add_cube A particle_scaling position_offset bb_lower bb_upper
      v.boundary_positions).map fun p => { v with boundary_positions := p }
  | .FLUID =>
    (add_cube A particle_scaling position_offset bb_lower bb_upper
      v.fluid_positions).map fun p => { v with fluid_positions := p }
  | _ => some v

/-- The vector `position_offset` of `load_xraw_host`, scenes.cpp:82-86. -/
def xraw_position_offset {F : Type} (A : Arith F) (d : Data) (scaling : F) : F × F × F :=
  (A.mul (A.mul (A.neg A.half) scaling) (A.lit d.vol_size0),
   A.mul (A.mul (A.neg A.half) scaling) (A.lit d.vol_size2),
   A.mul (A.mul (A.neg A.half) scaling) (A.lit d.vol_size1))

/-- The function `load_xraw_host`, scenes.cpp:76-149, on the data of the file. -/
def load_xraw_host {F : Type} (A : Arith F) (d : Data) (particles_per_dimension : Nat)
    (scaling : F) : Option (Host_Vectors F) :=
  let particle_scaling := A.div scaling (A.lit particles_per_dimension)
  let position_offset := xraw_position_offset A d scaling
  (List.range d.vol_size2).foldlM
    (fun v z => (List.range d.vol_size1).foldlM
      (fun v y => (List.range d.vol_size0).foldlM
        (fun v x => load_voxel A d particles_per_dimension scaling particle_scaling
          position_offset x y z v) v) v)
    { fluid_positions := [], boundary_positions := [], boundary_cubes := [] }

/-- The function `load_xraw`, scenes.cpp:159-168, up to its setters of the engine; the
size of a vector is cast to `unsigned int` before the division by 3. The filling of the
buffers which follows is left out. -/
def load_xraw {F : Type} (A : Arith F) (d : Data) (particles_per_dimension : Nat)
    (scaling : F) (fluid : Fluid F) : Option (Fluid F) := do
  let v ← load_xraw_host A d particles_per_dimension scaling
  let fluid := fluid.set_particle_radius
    (A.div (A.mul A.half scaling) (A.lit particles_per_dimension))
  let fluid := fluid.set_fluid_count (u32 v.fluid_positions.length / 3)
  let fluid := fluid.set_boundary_count (u32 v.boundary_positions.length / 3)
  some fluid

/-- A volume of two voxels along `x`: a fluid voxel and a visible boundary voxel. -/
def example_data : Data where
  vol_size0 := 2
  vol_size1 := 1
  vol_size2 := 1
  voxels := [4, 1]

/-- A file whose header announces three voxels along `x` and which ends after the first
one, a fluid voxel. -/
def short_data : Data where
  vol_size0 := 3
  vol_size1 := 1
  vol_size2 := 1
  voxels := [4]

/-- A volume of `2^30 + 1` voxels along `x`, empty but for a fluid voxel at the far
end. -/
def long_data : Data where
  vol_size0 := 2 ^ 30 + 1
  vol_size1 := 1
  vol_size2 := 1
  voxels := List.replicate (2 ^ 30) 0 ++ [4]

/-- The six neighbour coordinates which `load_xraw_host` probes at a voxel,
scenes.cpp:122-135, the sums and differences in `std::uint32_t`. -/
def neighbour_probes (x y z : Nat) : List (Nat × Nat × Nat) :=
  [(u32 (x + 1), y, z), (u32 (x + 2 ^ 32 - 1), y, z),
   (x, u32 (y + 1), z), (x, u32 (y + 2 ^ 32 - 1), z),
   (x, y, u32 (z + 1)), (x, y, u32 (z + 2 ^ 32 - 1))]

/-- The positions which `add_cube` appends for a box, in the order of its loops. -/
def cube_points {F : Type} (A : Arith F) (particle_scaling : F) (position_offset : F × F × F)
    (bb_lower bb_upper : Int × Int × Int) : List F :=
  (int_range bb_lower.2.2 bb_upper.2.2).flatMap fun z =>
    (int_range bb_lower.2.1 bb_upper.2.1).flatMap fun y =>
      (int_range bb_lower.1 bb_upper.1).flatMap fun x =>
        [A.add (A.mul (A.of_int x) particle_scaling) position_offset.1,
         A.add (A.mul (A.of_int z) particle_scaling) position_offset.2.1,
         A.add (A.mul (A.of_int y) particle_scaling) position_offset.2.2]

/-- The positions of the lattice points `x * ppd + i`, `y * ppd + j`, `z * ppd + k` with
`i, j, k < ppd` of a voxel, as `add_cube` lays them out. -/
def voxel_points {F : Type} (A : Arith F) (particles_per_dimension : Nat)
    (particle_scaling : F) (position_offset : F × F × F) (x y z : Nat) : List F :=
  (List.range particles_per_dimension).flatMap fun k =>
    (List.range particles_per_dimension).flatMap fun j =>
      (List.range particles_per_dimension).flatMap fun i =>
        [A.add (A.mul (A.of_int ((x * particles_per_dimension + i : Nat) : Int))
           particle_scaling) position_offset.1,
         A.add (A.mul (A.of_int ((z * particles_per_dimension + k : Nat) : Int))
           particle_scaling) position_offset.2.1,
         A.add (A.mul (A.of_int ((y * particles_per_dimension + j : Nat) : Int))
           particle_scaling) position_offset.2.2]

/-! ## The resource cache, Cache.h and shader_cache.cpp -/

/-- The class template `utils::Cache`, Cache.h:6-27: the entries of the map `data` in
the order of their insertion, and, for the proofs, the keys with which `create_entry`
was invoked since construction. A `std::map` holds at most one entry per class of
equivalent keys, and depends on the order of the keys being a strict weak ordering. -/
structure Cache (Key Value : Type) where
  data : List (Key × Value)
  created : List Key

/-- A cache as constructed: no entry, no invocation. -/
def Cache.construct {Key Value : Type} : Cache Key Value where
  data := []
  created := []

/-- The lookup `data.find(key)` of Cache.h:10: the entry whose key is equivalent to `key`
under the order `lt` of the keys, neither being less than the other. -/
def Cache.find {Key Value : Type} (lt : Key → Key → Bool) (c : Cache Key Value)
    (key : Key) : Option (Key × Value) :=
  c.data.find? fun it => !lt it.1 key && !lt key it.1

/-- The function `Cache::operator()`, Cache.h:9-19: the value returned and the cache
after the call. The argument `n` of `create_entry n key` is the number of earlier
invocations, an entry being a new object at each invocation. -/
def Cache.call {Key Value : Type} (lt : Key → Key → Bool)
    (create_entry : Nat → Key → Value) (c : Cache Key Value) (key : Key) :
    Value × Cache Key Value :=
  match c.find lt key with
  | some it => (it.2, c)
  | none =>
    let new_entry := create_entry c.created.length key
    (new_entry, { data := c.data ++ [(key, new_entry)], created := c.created ++ [key] })

/-- The function `Cache::clear`, Cache.h:20-22. -/
def Cache.clear {Key Value : Type} (c : Cache Key Value) : Cache Key Value :=
  { c with data := [] }

/-- A use of a cache: a call of `operator()` or of `clear`. -/
inductive Cache_Op (Key : Type) where
  | call (key : Key)
  | clear

/-- The cache after a sequence of uses. -/
def Cache.run {Key Value : Type} (lt : Key → Key → Bool) (create_entry : Nat → Key → Value) :
    Cache Key Value → List (Cache_Op Key) → Cache Key Value
  | c, [] => c
  | c, .call key :: ops => Cache.run lt create_entry (c.call lt create_entry key).2 ops
  | c, .clear :: ops => Cache.run lt create_entry c.clear ops

/-- The keys looked up since the last `clear`, after those of `keys`. -/
def keys_since_clear {Key : Type} (keys : List Key) (ops : List (Cache_Op Key)) : List Key :=
  ops.foldl (fun keys op => match op with
    | .call key => keys ++ [key]
    | .clear => []) keys

/-- The order `operator<` of `std::string`, as the order of Lean strings. -/
def string_lt (a b : String) : Bool := decide (a < b)

/-- The order `operator<` of two `std::tuple` of three strings, lexicographic. -/
def tuple_lt (a b : String × String × String) : Bool :=
  string_lt a.1 b.1 || (!string_lt b.1 a.1 &&
    (string_lt a.2.1 b.2.1 || (!string_lt b.2.1 a.2.1 && string_lt a.2.2 b.2.2)))

/-- The struct `Program_Cache_Key`, shader_cache.cpp:60-68. -/
structure Program_Cache_Key where
  vertex_shader_path : String
  fragment_shader_path : String
  compute_shader_path : String
  deriving DecidableEq, Repr

/-- The function `Program_Cache_Key::operator<`, shader_cache.cpp:65-67: the tuple of the
right-hand side ends in the `compute_shader_path` of `this`, not of `other`. -/
def Program_Cache_Key.lt (self other : Program_Cache_Key) : Bool :=
  tuple_lt (self.vertex_shader_path, self.fragment_shader_path, self.compute_shader_path)
    (other.vertex_shader_path, other.fragment_shader_path, self.compute_shader_path)

/-- The kinds of shader of the three shader caches. -/
inductive Shader_Kind where
  | vertex
  | fragment
  | compute
  deriving DecidableEq, Repr

/-- A `gl::Program` object: the invocation of `create_entry` which made it, the shaders
attached to it, each the cached shader of a kind compiled from the file at a path, and
whether it is linked. -/
structure Program where
  object : Nat
  attached : List (Shader_Kind × String)
  linked : Bool
  deriving DecidableEq, Repr

/-- The function `Program_Cache::create_entry`, shader_cache.cpp:71-81. -/
def Program_Cache.create_entry (n : Nat) (key : Program_Cache_Key) : Program :=
  let program : Program := { object := n, attached := [], linked := false }
  let program :=
    if key.vertex_shader_path ≠ "" then
      { program with attached := program.attached ++ [(.vertex, key.vertex_shader_path)] }
    else program
  let program :=
    if key.fragment_shader_path ≠ "" then
      { program with
        attached := program.attached ++ [(.fragment, key.fragment_shader_path)] }
    else program
  let program :=
    if key.compute_shader_path ≠ "" then
      { program with attached := program.attached ++ [(.compute, key.compute_shader_path)] }
    else program
  { program with linked := true }

/-- The function `get_cached_program`, shader_cache.cpp:84-89, on the object
`program_cache`. -/
def get_cached_program (program_cache : Cache Program_Cache_Key Program)
    (vertex_shader_path fragment_shader_path : String) :
    Program × Cache Program_Cache_Key Program :=
  program_cache.call Program_Cache_Key.lt Program_Cache.create_entry
    { vertex_shader_path := vertex_shader_path,
      fragment_shader_path := fragment_shader_path,
      compute_shader_path := "" }

/-- The function `get_cached_compute_program`, shader_cache.cpp:91-95, on the object
`program_cache`. -/
def get_cached_compute_program (program_cache : Cache Program_Cache_Key Program)
    (compute_shader_path : String) : Program × Cache Program_Cache_Key Program :=
  program_cache.call Program_Cache_Key.lt Program_Cache.create_entry
    { vertex_shader_path := "", fragment_shader_path := "",
      compute_shader_path := compute_shader_path }

/-! ## Lemmas: the engine state under the queue operations -/

@[simp] theorem setArg_queue {F : Type} (s : Fluid F) (k : Kernel) (i : Nat) (v : Arg F) :
    (s.setArg k i v).queue = s.queue := rfl

@[simp] theorem setArg_params {F : Type} (s : Fluid F) (k : Kernel) (i : Nat) (v : Arg F) :
    (s.setArg k i v).params = s.params := rfl

@[simp] theorem setArg_mem_size {F : Type} (s : Fluid F) (k : Kernel) (i : Nat) (v : Arg F) :
    (s.setArg k i v).mem_size = s.mem_size := rfl

@[simp] theorem setArg_threshold {F : Type} (s : Fluid F) (k : Kernel) (i : Nat)
    (v : Arg F) :
    (s.setArg k i v).density_variation_threshold = s.density_variation_threshold := rfl

@[simp] theorem setArg_params_changed {F : Type} (s : Fluid F) (k : Kernel) (i : Nat)
    (v : Arg F) : (s.setArg k i v).params_changed = s.params_changed := rfl

@[simp] theorem setArg_boundary_updated {F : Type} (s : Fluid F) (k : Kernel) (i : Nat)
    (v : Arg F) : (s.setArg k i v).boundary_updated = s.boundary_updated := rfl

@[simp] theorem setArg_args {F : Type} (s : Fluid F) (k : Kernel) (i : Nat) (v : Arg F)
    (k2 : Kernel) (j : Nat) :
    (s.setArg k i v).args k2 j = if k2 = k ∧ j = i then v else s.args k2 j := rfl

@[simp] theorem enqueue_queue {F : Type} (s : Fluid F) (e : Event F) :
    (s.enqueue e).queue = s.queue ++ [e] := rfl

@[simp] theorem enqueue_params {F : Type} (s : Fluid F) (e : Event F) :
    (s.enqueue e).params = s.params := rfl

@[simp] theorem enqueue_mem_size {F : Type} (s : Fluid F) (e : Event F) :
    (s.enqueue e).mem_size = s.mem_size := rfl

@[simp] theorem enqueue_threshold {F : Type} (s : Fluid F) (e : Event F) :
    (s.enqueue e).density_variation_threshold = s.density_variation_threshold := rfl

@[simp] theorem enqueue_params_changed {F : Type} (s : Fluid F) (e : Event F) :
    (s.enqueue e).params_changed = s.params_changed := rfl

@[simp] theorem enqueue_boundary_updated {F : Type} (s : Fluid F) (e : Event F) :
    (s.enqueue e).boundary_updated = s.boundary_updated := rfl

@[simp] theorem enqueue_args {F : Type} (s : Fluid F) (e : Event F) :
    (s.enqueue e).args = s.args := rfl

@[simp] theorem ndrange_queue {F : Type} (s : Fluid F) (k : Kernel) (g l : Nat) :
    (s.enqueueNDRangeKernel k g l).queue
      = s.queue ++ [Event.ndrange k (s.bound_args k) g l] := rfl

@[simp] theorem ndrange_params {F : Type} (s : Fluid F) (k : Kernel) (g l : Nat) :
    (s.enqueueNDRangeKernel k g l).params = s.params := rfl

@[simp] theorem ndrange_mem_size {F : Type} (s : Fluid F) (k : Kernel) (g l : Nat) :
    (s.enqueueNDRangeKernel k g l).mem_size = s.mem_size := rfl

@[simp] theorem ndrange_threshold {F : Type} (s : Fluid F) (k : Kernel) (g l : Nat) :
    (s.enqueueNDRangeKernel k g l).density_variation_threshold
      = s.density_variation_threshold := rfl

@[simp] theorem ndrange_params_changed {F : Type} (s : Fluid F) (k : Kernel) (g l : Nat) :
    (s.enqueueNDRangeKernel k g l).params_changed = s.params_changed := rfl

@[simp] theorem ndrange_boundary_updated {F : Type} (s : Fluid F) (k : Kernel)
    (g l : Nat) :
    (s.enqueueNDRangeKernel k g l).boundary_updated = s.boundary_updated := rfl

@[simp] theorem ndrange_args {F : Type} (s : Fluid F) (k : Kernel) (g l : Nat) :
    (s.enqueueNDRangeKernel k g l).args = s.args := rfl

theorem appends_refl {F : Type} (s : Fluid F) : s.appends s [] :=
  ⟨(List.append_nil _).symm, rfl, rfl, rfl, rfl⟩

theorem appends_trans {F : Type} {s t u : Fluid F} {n1 n2 : List (Event F)}
    (h1 : s.appends t n1) (h2 : t.appends u n2) : s.appends u (n1 ++ n2) :=
  ⟨by rw [h2.1, h1.1, List.append_assoc], h2.2.1.trans h1.2.1, h2.2.2.1.trans h1.2.2.1,
    h2.2.2.2.1.trans h1.2.2.2.1, h2.2.2.2.2.trans h1.2.2.2.2⟩

theorem appends_congr {F : Type} {s t : Fluid F} {n1 n2 : List (Event F)}
    (h : s.appends t n1) (e : n1 = n2) : s.appends t n2 := e ▸ h

/-! ## Lemmas: `sort_bit_count` -/

theorem sort_bit_count_loop_ok (elements : Nat) :
    ∀ (remaining i max_value : Nat), 1 ≤ remaining →
      u32 (elements + 2 ^ 32 - 1)
        ≤ (fun m => u32 (m <<< 1) ||| 1)^[remaining] max_value →
      ∃ bits, sort_bit_count_loop elements remaining i max_value = .ok bits := by
  intro remaining
  induction remaining with
  | zero => intro i mv h; omega
  | succ n ih =>
    intro i mv _ hle
    rw [sort_bit_count_loop]
    by_cases hc : u32 (mv <<< 1) ||| 1 ≥ u32 (elements + 2 ^ 32 - 1)
    · exact ⟨i + 1, if_pos hc⟩
    · rw [if_neg hc]
      rcases Nat.eq_zero_or_pos n with hn | hn
      · subst hn
        exact absurd hle hc
      · apply ih (i + 1) _ hn
        rw [Function.iterate_succ_apply] at hle
        exact hle



theorem iterate_shift : (fun m => u32 (m <<< 1) ||| 1)^[32] 0 = 4294967295 := by rfl

theorem sort_bit_count_ok (elements : Nat) : ∃ bits, sort_bit_count elements = .ok bits := by
  have hle : u32 (elements + 2 ^ 32 - 1) ≤ (fun m => u32 (m <<< 1) ||| 1)^[32] 0 := by
    rw [iterate_shift]
    have : ∀ n, u32 n ≤ 4294967295 := by intro n; unfold u32; omega
    exact this _
  exact sort_bit_count_loop_ok elements 32 0 0 (by omega) hle

theorem sort_bit_count_eq (elements : Nat) :
    sort_bit_count elements = .ok (sort_bits elements) := by
  obtain ⟨b, hb⟩ := sort_bit_count_ok elements
  have h2 : sort_bits elements = b := congrArg (fun r => r.toOption.getD 0) hb
  exact hb.trans (congrArg Except.ok h2.symm)

/-! ## Lemmas: what each block of `update_checked` enqueues -/

theorem boundary_reset_offsets_appends {F : Type} (pb : Simulation_Params F) (s : Fluid F) :
    s.appends (s.boundary_reset_offsets pb)
      [reset_offsets_event pb .boundary_cell_offsets s.params.bucket_count] ∧
    (s.boundary_reset_offsets pb).boundary_updated = s.boundary_updated := by
  simp [Fluid.boundary_reset_offsets, Fluid.appends, reset_offsets_event, Fluid.bound_args,
    Kernel.arity, List.range_succ]

theorem boundary_hash_appends {F : Type} (pb : Simulation_Params F) (s : Fluid F) :
    s.appends (s.boundary_hash pb)
      [hash_event pb .boundary_keys .boundary_positions .boundary_src_locations
        s.params.boundary_count] ∧
    (s.boundary_hash pb).boundary_updated = s.boundary_updated := by
  simp [Fluid.boundary_hash, Fluid.appends, hash_event, Fluid.bound_args,
    Kernel.arity, List.range_succ]

theorem boundary_reorder_appends {F : Type} (s : Fluid F) :
    s.appends s.boundary_reorder
      [.copy .boundary_positions .boundary_positions_tmp
        (size_t (u32 (3 * s.params.boundary_count) * sizeof_cl_float)),
       boundary_reorder_event s.params.boundary_count] := by
  simp [Fluid.boundary_reorder, Fluid.appends, boundary_reorder_event, Fluid.bound_args,
    Kernel.arity, List.range_succ]

theorem boundary_pred_densities_appends {F : Type} (pb : Simulation_Params F)
    (s : Fluid F) : s.appends (s.boundary_pred_densities pb) [] := by
  simp [Fluid.boundary_pred_densities, Fluid.appends]

theorem boundary_sorted_appends {F : Type} (pb : Simulation_Params F) (bits : Nat)
    (s : Fluid F) :
    s.appends (s.boundary_sorted pb bits)
      [.sort .boundary_keys .boundary_src_locations s.params.boundary_count bits,
       .copy .boundary_positions .boundary_positions_tmp
        (size_t (u32 (3 * s.params.boundary_count) * sizeof_cl_float)),
       boundary_reorder_event s.params.boundary_count] ∧
    (s.boundary_sorted pb bits).boundary_updated = false := by
  refine ⟨?_, rfl⟩
  have h1 : s.appends (s.enqueue (Event.sort .boundary_keys .boundary_src_locations
      s.params.boundary_count bits))
      [.sort .boundary_keys .boundary_src_locations s.params.boundary_count bits] :=
    ⟨rfl, rfl, rfl, rfl, rfl⟩
  have h2 := boundary_reorder_appends (s.enqueue (Event.sort .boundary_keys
    .boundary_src_locations s.params.boundary_count bits))
  have h3 := boundary_pred_densities_appends pb (s.enqueue (Event.sort .boundary_keys
    .boundary_src_locations s.params.boundary_count bits)).boundary_reorder
  have h := appends_trans h1 (appends_trans h2 h3)
  exact ⟨by simpa using h.1, h.2.1, h.2.2.1, h.2.2.2.1, h.2.2.2.2⟩

theorem fluid_reset_offsets_appends {F : Type} (pb : Simulation_Params F) (s : Fluid F) :
    s.appends (s.fluid_reset_offsets pb)
      [reset_offsets_event pb .fluid_cell_offsets s.params.bucket_count] ∧
    (s.fluid_reset_offsets pb).boundary_updated = s.boundary_updated := by
  simp [Fluid.fluid_reset_offsets, Fluid.appends, reset_offsets_event, Fluid.bound_args,
    Kernel.arity, List.range_succ]

theorem fluid_hash_appends {F : Type} (pb : Simulation_Params F) (s : Fluid F) :
    s.appends (s.fluid_hash pb)
      [hash_event pb .fluid_keys .fluid_positions .fluid_src_locations
        s.params.fluid_count] ∧
    (s.fluid_hash pb).boundary_updated = s.boundary_updated := by
  simp [Fluid.fluid_hash, Fluid.appends, hash_event, Fluid.bound_args,
    Kernel.arity, List.range_succ]

theorem fluid_reorder_appends {F : Type} (s : Fluid F) :
    s.appends s.fluid_reorder
      [.copy .fluid_positions .fluid_positions_tmp
        (size_t (u32 (3 * s.params.fluid_count) * sizeof_cl_float)),
       .copy .fluid_velocities .fluid_velocities_tmp
        (size_t (u32 (3 * s.params.fluid_count) * sizeof_cl_float)),
       fluid_reorder_event s.params.fluid_count] ∧
    s.fluid_reorder.boundary_updated = s.boundary_updated := by
  simp [Fluid.fluid_reorder, Fluid.appends, fluid_reorder_event, Fluid.bound_args,
    Kernel.arity, List.range_succ]

theorem fluid_sorted_appends {F : Type} (bits : Nat) (s : Fluid F) :
    s.appends (s.fluid_sorted bits)
      [.sort .fluid_keys .fluid_src_locations s.params.fluid_count bits,
       .copy .fluid_positions .fluid_positions_tmp
        (size_t (u32 (3 * s.params.fluid_count) * sizeof_cl_float)),
       .copy .fluid_velocities .fluid_velocities_tmp
        (size_t (u32 (3 * s.params.fluid_count) * sizeof_cl_float)),
       fluid_reorder_event s.params.fluid_count] ∧
    (s.fluid_sorted bits).boundary_updated = s.boundary_updated := by
  have h1 : s.appends (s.enqueue (Event.sort .fluid_keys .fluid_src_locations
      s.params.fluid_count bits))
      [.sort .fluid_keys .fluid_src_locations s.params.fluid_count bits] :=
    ⟨rfl, rfl, rfl, rfl, rfl⟩
  have h2 := fluid_reorder_appends (s.enqueue (Event.sort .fluid_keys
    .fluid_src_locations s.params.fluid_count bits))
  have h := appends_trans h1 h2.1
  exact ⟨⟨by simpa using h.1, h.2.1, h.2.2.1, h.2.2.2.1, h.2.2.2.2⟩, h2.2⟩

theorem update_density_appends {F : Type} (pb : Simulation_Params F) (s : Fluid F) :
    s.appends (s.update_density pb) [density_event pb s.params.fluid_count] ∧
    (s.update_density pb).boundary_updated = s.boundary_updated := by
  simp [Fluid.update_density, Fluid.appends, density_event, Fluid.bound_args,
    Kernel.arity, List.range_succ]

theorem update_normal_appends {F : Type} (pb : Simulation_Params F) (s : Fluid F) :
    s.appends (s.update_normal pb) [normal_event pb s.params.fluid_count] ∧
    (s.update_normal pb).boundary_updated = s.boundary_updated := by
  simp [Fluid.update_normal, Fluid.appends, normal_event, Fluid.bound_args,
    Kernel.arity, List.range_succ]

theorem boundary_pressure_initialization_appends {F : Type} (pb : Simulation_Params F)
    (s : Fluid F) :
    s.appends (s.boundary_pressure_initialization pb)
      (if s.params.boundary_count > 0 then
        [boundary_pressure_initialization_event pb s.params.boundary_count] else []) ∧
    (s.boundary_pressure_initialization pb).boundary_updated = s.boundary_updated := by
  by_cases h : s.params.boundary_count > 0 <;>
  simp [Fluid.boundary_pressure_initialization, Fluid.appends,
    boundary_pressure_initialization_event, Fluid.bound_args, Kernel.arity,
    List.range_succ, h]

theorem force_initialization_appends {F : Type} (pb : Simulation_Params F) (s : Fluid F) :
    s.appends (s.force_initialization pb)
      [force_initialization_event pb s.params.fluid_count] ∧
    (s.force_initialization pb).boundary_updated = s.boundary_updated := by
  simp [Fluid.force_initialization, Fluid.appends, force_initialization_event,
    Fluid.bound_args, Kernel.arity, List.range_succ]

theorem predict_position_appends {F : Type} (pb : Simulation_Params F) (s : Fluid F) :
    s.appends (s.predict_position pb) [prediction_event pb s.params.fluid_count] ∧
    (s.predict_position pb).boundary_updated = s.boundary_updated := by
  simp [Fluid.predict_position, Fluid.appends, prediction_event, Fluid.bound_args,
    Kernel.arity, List.range_succ]

theorem update_pressure_appends {F : Type} (pb : Simulation_Params F) (s : Fluid F) :
    s.appends (s.update_boundary_pressure pb).update_fluid_pressure
      ((if s.params.boundary_count > 0 then
        [boundary_pressure_event pb s.params.boundary_count] else []) ++
       [fluid_pressure_event pb s.params.fluid_count]) ∧
    (s.update_boundary_pressure pb).update_fluid_pressure.boundary_updated
      = s.boundary_updated := by
  by_cases h : s.params.boundary_count > 0 <;>
  simp [Fluid.update_boundary_pressure, Fluid.update_fluid_pressure, Fluid.appends,
    boundary_pressure_event, fluid_pressure_event, Fluid.bound_args, Kernel.arity,
    List.range_succ, h]

theorem read_density_variations_appends {F : Type} (i : Nat) (s : Fluid F) :
    s.appends (s.read_density_variations i)
      (if i ≥ min_iterations then [read_event s.params.fluid_count] else []) ∧
    (s.read_density_variations i).boundary_updated = s.boundary_updated := by
  by_cases h : i ≥ min_iterations <;>
  simp [Fluid.read_density_variations, Fluid.appends, read_event, h]

theorem update_pressure_force_appends {F : Type} (pb : Simulation_Params F) (s : Fluid F) :
    s.appends (s.update_pressure_force pb) [pressure_force_event pb s.params.fluid_count] ∧
    (s.update_pressure_force pb).boundary_updated = s.boundary_updated := by
  simp [Fluid.update_pressure_force, Fluid.appends, pressure_force_event, Fluid.bound_args,
    Kernel.arity, List.range_succ]

theorem time_integration_appends {F : Type} (pb : Simulation_Params F) (s : Fluid F) :
    s.appends (s.time_integration pb) [committed_event pb s.params.fluid_count] ∧
    (s.time_integration pb).boundary_updated = s.boundary_updated := by
  simp [Fluid.time_integration, Fluid.appends, committed_event, Fluid.bound_args,
    Kernel.arity, List.range_succ]

theorem pcisph_dispatch_appends {F : Type} (pb : Simulation_Params F) (i : Nat)
    (s : Fluid F) :
    s.appends (s.pcisph_dispatch pb i) (pcisph_events pb s.params i) ∧
    (s.pcisph_dispatch pb i).boundary_updated = s.boundary_updated := by
  have h1 := predict_position_appends pb s
  have h2 := update_pressure_appends pb (s.predict_position pb)
  have h3 := read_density_variations_appends i
    ((s.predict_position pb).update_boundary_pressure pb).update_fluid_pressure
  have h4 := update_pressure_force_appends pb
    (((s.predict_position pb).update_boundary_pressure pb).update_fluid_pressure.read_density_variations i)
  have hp1 := h1.1.2.1
  have hp2 := h2.1.2.1
  have hp3 := h3.1.2.1
  rw [hp1] at h2
  rw [hp2, hp1] at h3
  rw [hp3, hp2, hp1] at h4
  refine ⟨?_, ?_⟩
  · have h := appends_trans h1.1 (appends_trans h2.1 (appends_trans h3.1 h4.1))
    exact appends_congr h (by simp [pcisph_events])
  · show (Fluid.update_pressure_force pb _).boundary_updated = _
    rw [h4.2, h3.2, h2.2, h1.2]

theorem initialize_forces_appends {F : Type} (pb : Simulation_Params F) (s : Fluid F) :
    s.appends (s.initialize_forces pb) (initialize_forces_events pb s.params) ∧
    (s.initialize_forces pb).boundary_updated = s.boundary_updated := by
  have h1 := update_density_appends pb s
  have h2 := update_normal_appends pb (s.update_density pb)
  have h3 := boundary_pressure_initialization_appends pb
    ((s.update_density pb).update_normal pb)
  have h4 := force_initialization_appends pb
    (((s.update_density pb).update_normal pb).boundary_pressure_initialization pb)
  have hp1 := h1.1.2.1
  have hp2 := h2.1.2.1
  have hp3 := h3.1.2.1
  rw [hp1] at h2
  rw [hp2, hp1] at h3
  rw [hp3, hp2, hp1] at h4
  refine ⟨?_, ?_⟩
  · have h := appends_trans h1.1 (appends_trans h2.1 (appends_trans h3.1 h4.1))
    exact appends_congr h (by simp [initialize_forces_events])
  · show (Fluid.force_initialization pb _).boundary_updated = _
    rw [h4.2, h3.2, h2.2, h1.2]

theorem sort_fluid_particles_spec {F : Type} (pb : Simulation_Params F) (s : Fluid F) :
    (s.sort_fluid_particles pb).status = .returned ∧
    s.appends (s.sort_fluid_particles pb).state (sort_fluid_events pb s.params) ∧
    (s.sort_fluid_particles pb).state.boundary_updated = s.boundary_updated := by
  have h1 := fluid_reset_offsets_appends pb s
  have h2 := fluid_hash_appends pb (s.fluid_reset_offsets pb)
  have h3 := fluid_sorted_appends (sort_bits s.params.fluid_count)
    ((s.fluid_reset_offsets pb).fluid_hash pb)
  have hp1 := h1.1.2.1
  have hp2 := h2.1.2.1
  rw [hp1] at h2
  rw [hp2, hp1] at h3
  have e : s.sort_fluid_particles pb = Outcome.mk .returned
      (Fluid.fluid_sorted (sort_bits s.params.fluid_count)
        ((s.fluid_reset_offsets pb).fluid_hash pb)) := by
    rw [Fluid.sort_fluid_particles]
    simp only [hp2, hp1, sort_bit_count_eq]
    rfl
  rw [e]
  refine ⟨rfl, ?_, ?_⟩
  · have h := appends_trans h1.1 (appends_trans h2.1 h3.1)
    exact appends_congr h (by simp [sort_fluid_events])
  · show (Fluid.fluid_sorted _ _).boundary_updated = _
    rw [h3.2, h2.2, h1.2]

theorem sort_boundary_particles_spec {F : Type} (pb : Simulation_Params F) (s : Fluid F) :
    (s.sort_boundary_particles pb).status = .returned ∧
    s.appends (s.sort_boundary_particles pb).state
      (if s.boundary_updated = true ∧ s.params.boundary_count > 0
       then sort_boundary_events pb s.params else []) ∧
    (s.sort_boundary_particles pb).state.boundary_updated
      = (s.boundary_updated && decide (s.params.boundary_count = 0)) := by
  by_cases h : s.boundary_updated = true ∧ s.params.boundary_count > 0
  · have h1 := boundary_reset_offsets_appends pb s
    have h2 := boundary_hash_appends pb (s.boundary_reset_offsets pb)
    have h3 := boundary_sorted_appends pb (sort_bits s.params.boundary_count)
      ((s.boundary_reset_offsets pb).boundary_hash pb)
    have hp1 := h1.1.2.1
    have hp2 := h2.1.2.1
    rw [hp1] at h2
    rw [hp2, hp1] at h3
    have e : s.sort_boundary_particles pb = Outcome.mk .returned
        (Fluid.boundary_sorted pb (sort_bits s.params.boundary_count)
          ((s.boundary_reset_offsets pb).boundary_hash pb)) := by
      rw [Fluid.sort_boundary_particles, if_pos h]
      simp only [hp2, hp1, sort_bit_count_eq]
      rfl
    rw [e, if_pos h]
    refine ⟨rfl, ?_, ?_⟩
    · have hh := appends_trans h1.1 (appends_trans h2.1 h3.1)
      exact appends_congr hh (by simp [sort_boundary_events])
    · show (Fluid.boundary_sorted _ _ _).boundary_updated = _
      rw [h3.2]
      have : s.params.boundary_count ≠ 0 := by omega
      simp [h.1, this]
  · have h3 : (s.boundary_updated && decide (s.params.boundary_count = 0))
        = s.boundary_updated := by
      rcases hb : s.boundary_updated with _ | _
      · rfl
      · have : s.params.boundary_count = 0 := by
          by_contra hne
          exact h ⟨hb, Nat.pos_of_ne_zero hne⟩
        simp [this]
    rw [Fluid.sort_boundary_particles, if_neg h, h3, if_neg h]
    exact ⟨rfl, appends_refl s, rfl⟩

/-! ## Lemmas: the PCISPH loop and the whole step -/

theorem density_variations_length {F : Type} (device : Nat → Nat → F) (i n : Nat) :
    (density_variations device i n).length = n := by
  simp [density_variations]

theorem converged_some {F : Type} (A : Arith F) (device : Nat → Nat → F) (s : Fluid F)
    (i : Nat) (h : 0 < s.params.fluid_count) : ∃ b, s.converged A device i = some b := by
  have hlen := density_variations_length device i s.params.fluid_count
  rcases hl : density_variations device i s.params.fluid_count with _ | ⟨x, xs⟩
  · rw [hl] at hlen
    simp at hlen
    omega
  · rcases hc : s.converged A device i with _ | b
    · rw [Fluid.converged, hl] at hc
      simp [max_element] at hc
    · exact ⟨b, rfl⟩

theorem converged_congr {F : Type} (A : Arith F) (device : Nat → Nat → F) {s t : Fluid F}
    {new : List (Event F)} (h : s.appends t new) :
    t.converged A device = s.converged A device := by
  funext i
  simp [Fluid.converged, h.2.1, h.2.2.2.1]

theorem enqueue_appends {F : Type} (s : Fluid F) (e : Event F) :
    s.appends (s.enqueue e) [e] := ⟨rfl, rfl, rfl, rfl, rfl⟩

theorem pcisph_loop_spec {F : Type} (A : Arith F) (device : Nat → Nat → F)
    (pb : Simulation_Params F) : ∀ (remaining i : Nat) (s : Fluid F),
    s.appends (Fluid.pcisph_loop A device pb remaining i s).state
        (loop_events pb s.params (s.converged A device) remaining i) ∧
    (Fluid.pcisph_loop A device pb remaining i s).state.boundary_updated
        = s.boundary_updated ∧
    (0 < s.params.fluid_count →
      (Fluid.pcisph_loop A device pb remaining i s).status = .returned) := by
  intro remaining
  induction remaining with
  | zero =>
    intro i s
    exact ⟨appends_refl s, rfl, fun _ => rfl⟩
  | succ n ih =>
    intro i s
    have hd := pcisph_dispatch_appends pb i s
    rw [Fluid.pcisph_loop, loop_events]
    by_cases hi : i ≥ min_iterations
    · simp only [if_pos hi]
      have hw := appends_trans hd.1 (enqueue_appends (s.pcisph_dispatch pb i) Event.wait)
      have hc := converged_congr A device hw
      rw [hc]
      rcases hconv : s.converged A device i with _ | b
      · refine ⟨appends_congr hw (by simp), hd.2, ?_⟩
        intro hpos
        obtain ⟨b, hb⟩ := converged_some A device s i hpos
        rw [hb] at hconv
        cases hconv
      · cases b
        · obtain ⟨h1, h2, h3⟩ := ih (i + 1) ((s.pcisph_dispatch pb i).enqueue Event.wait)
          rw [hc, hw.2.1] at h1
          refine ⟨appends_congr (appends_trans hw h1) (by simp), ?_, ?_⟩
          · rw [h2]
            exact hd.2
          · intro hpos
            exact h3 (by rw [hw.2.1]; exact hpos)
        · exact ⟨appends_congr hw (by simp), hd.2, fun _ => rfl⟩
    · simp only [if_neg hi]
      obtain ⟨h1, h2, h3⟩ := ih (i + 1) (s.pcisph_dispatch pb i)
      rw [converged_congr A device hd.1, hd.1.2.1] at h1
      refine ⟨appends_trans hd.1 h1, ?_, ?_⟩
      · rw [h2]
        exact hd.2
      · intro hpos
        exact h3 (by rw [hd.1.2.1]; exact hpos)

theorem check_ok_iff (n size multiplier : Nat) (name : String) (hn : n < 2 ^ 32)
    (hm : multiplier ≤ 12) : check n size multiplier name = .ok () ↔ size = n * multiplier := by
  have hlt : n * multiplier < 2 ^ 64 := by
    calc n * multiplier ≤ n * 12 := Nat.mul_le_mul_left _ hm
      _ < 2 ^ 64 := by omega
  have hs : size_t (n * multiplier) = n * multiplier := Nat.mod_eq_of_lt hlt
  unfold check
  rw [hs]
  by_cases h : size = n * multiplier <;> simp [h]

theorem check_error (n size multiplier : Nat) (name : String) (e : Error)
    (h : check n size multiplier name = .error e) : e = Error.inconsistent name size n := by
  unfold check at h
  split at h
  · cases h
    rfl
  · cases h

/-! ## Lemmas: the consistency check -/

theorem except_bind_ok_iff {ε : Type} (x : Except ε Unit) (f : Unit → Except ε Unit) :
    (x >>= f) = .ok () ↔ x = .ok () ∧ f () = .ok () := by
  cases x with
  | error e => simp [bind, Except.bind]
  | ok u => cases u; simp [bind, Except.bind]

theorem except_bind_error {ε : Type} (x : Except ε Unit) (f : Unit → Except ε Unit) (e : ε)
    (h : (x >>= f) = .error e) : x = .error e ∨ f () = .error e := by
  cases x with
  | error e2 => left; simpa [bind, Except.bind] using h
  | ok u => cases u; right; simpa [bind, Except.bind] using h

theorem getInfo_bind_ok_iff {F : Type} (s : Fluid F) (b : Buf)
    (f : Nat → Except Error Unit) :
    (s.getInfo_CL_MEM_SIZE b >>= f) = .ok () ↔
      s.mem_size b ≠ 0 ∧ f (s.mem_size b) = .ok () := by
  unfold Fluid.getInfo_CL_MEM_SIZE
  by_cases h : s.mem_size b = 0
  · simp [h, bind, Except.bind]
  · simp [h, bind, Except.bind]

theorem getInfo_bind_error {F : Type} (s : Fluid F) (b : Buf)
    (f : Nat → Except Error Unit) (e : Error)
    (h : (s.getInfo_CL_MEM_SIZE b >>= f) = .error e) :
    (s.mem_size b = 0 ∧ e = Error.cl .clGetMemObjectInfo) ∨
      (s.mem_size b ≠ 0 ∧ f (s.mem_size b) = .error e) := by
  unfold Fluid.getInfo_CL_MEM_SIZE at h
  by_cases h0 : s.mem_size b = 0
  · left
    simp only [h0, if_true, bind, Except.bind] at h
    exact ⟨h0, (Except.error.inj h).symm⟩
  · right
    simp only [h0, if_false, bind, Except.bind] at h
    exact ⟨h0, h⟩

theorem checkBuffersConsistent_ok_iff {F : Type} (s : Fluid F)
    (hn : s.params.fluid_count < 2 ^ 32) :
    s.checkBuffersConsistent = .ok () ↔ s.consistent := by
  unfold Fluid.checkBuffersConsistent Fluid.consistent Fluid.holds_buffers Fluid.sizes_match
  simp only [getInfo_bind_ok_iff, except_bind_ok_iff, sizeof_cl_float]
  rw [check_ok_iff _ _ _ _ hn (by norm_num), check_ok_iff _ _ _ _ hn (by norm_num),
    check_ok_iff _ _ _ _ hn (by norm_num), check_ok_iff _ _ _ _ hn (by norm_num),
    check_ok_iff _ _ _ _ hn (by norm_num), check_ok_iff _ _ _ _ hn (by norm_num),
    check_ok_iff _ _ _ _ hn (by norm_num), check_ok_iff _ _ _ _ hn (by norm_num)]
  tauto

/-- The error of the check is the consistency error or the `cl::Error` of a read. -/
theorem checkBuffersConsistent_error {F : Type} (s : Fluid F) (e : Error)
    (h : s.checkBuffersConsistent = .error e) :
    (∃ name size, e = Error.inconsistent name size s.params.fluid_count) ∨
      (e = Error.cl .clGetMemObjectInfo ∧ ¬ s.holds_buffers) := by
  unfold Fluid.checkBuffersConsistent at h
  unfold Fluid.holds_buffers
  rcases getInfo_bind_error _ _ _ _ h with ⟨h0, he⟩ | ⟨_, h⟩
  · exact Or.inr ⟨he, fun c => c.1 h0⟩
  rcases except_bind_error _ _ _ h with h | h
  · exact Or.inl ⟨_, _, check_error _ _ _ _ _ h⟩
  rcases getInfo_bind_error _ _ _ _ h with ⟨h0, he⟩ | ⟨_, h⟩
  · exact Or.inr ⟨he, fun c => c.2.1 h0⟩
  rcases except_bind_error _ _ _ h with h | h
  · exact Or.inl ⟨_, _, check_error _ _ _ _ _ h⟩
  rcases getInfo_bind_error _ _ _ _ h with ⟨h0, he⟩ | ⟨_, h⟩
  · exact Or.inr ⟨he, fun c => c.2.2.1 h0⟩
  rcases except_bind_error _ _ _ h with h | h
  · exact Or.inl ⟨_, _, check_error _ _ _ _ _ h⟩
  rcases getInfo_bind_error _ _ _ _ h with ⟨h0, he⟩ | ⟨_, h⟩
  · exact Or.inr ⟨he, fun c => c.2.2.2.1 h0⟩
  rcases except_bind_error _ _ _ h with h | h
  · exact Or.inl ⟨_, _, check_error _ _ _ _ _ h⟩
  rcases getInfo_bind_error _ _ _ _ h with ⟨h0, he⟩ | ⟨_, h⟩
  · exact Or.inr ⟨he, fun c => c.2.2.2.2.1 h0⟩
  rcases except_bind_error _ _ _ h with h | h
  · exact Or.inl ⟨_, _, check_error _ _ _ _ _ h⟩
  rcases getInfo_bind_error _ _ _ _ h with ⟨h0, he⟩ | ⟨_, h⟩
  · exact Or.inr ⟨he, fun c => c.2.2.2.2.2.1 h0⟩
  rcases except_bind_error _ _ _ h with h | h
  · exact Or.inl ⟨_, _, check_error _ _ _ _ _ h⟩
  rcases getInfo_bind_error _ _ _ _ h with ⟨h0, he⟩ | ⟨_, h⟩
  · exact Or.inr ⟨he, fun c => c.2.2.2.2.2.2.1 h0⟩
  rcases except_bind_error _ _ _ h with h | h
  · exact Or.inl ⟨_, _, check_error _ _ _ _ _ h⟩
  rcases getInfo_bind_error _ _ _ _ h with ⟨h0, he⟩ | ⟨_, h⟩
  · exact Or.inr ⟨he, fun c => c.2.2.2.2.2.2.2 h0⟩
  · exact Or.inl ⟨_, _, check_error _ _ _ _ _ h⟩

theorem checkBuffersConsistent_congr {F : Type} {s t : Fluid F}
    (hp : t.params.fluid_count = s.params.fluid_count)
    (hm : ∀ b, t.mem_size b = s.mem_size b) :
    t.checkBuffersConsistent = s.checkBuffersConsistent := by
  unfold Fluid.checkBuffersConsistent Fluid.getInfo_CL_MEM_SIZE
  simp only [hp, hm]

/-! ## Lemmas: the step from the consistency check on -/

theorem update_checked_thrown {F : Type} (A : Arith F) (device : Nat → Nat → F)
    (s : Fluid F) (e : Error) (h : s.checkBuffersConsistent = .error e) :
    Fluid.update_checked A device s = { status := .thrown e, state := s } := by
  rw [Fluid.update_checked, h]

theorem update_checked_empty {F : Type} (A : Arith F) (device : Nat → Nat → F)
    (s : Fluid F) (h : s.checkBuffersConsistent = .ok ()) (hn : s.params.fluid_count = 0) :
    Fluid.update_checked A device s = { status := .returned, state := s } := by
  rw [Fluid.update_checked, h]
  simp [hn]

theorem update_checked_runs {F : Type} (A : Arith F) (device : Nat → Nat → F)
    (s : Fluid F) (h : s.checkBuffersConsistent = .ok ()) (hn : 0 < s.params.fluid_count) :
    (Fluid.update_checked A device s).status = .returned ∧
    s.appends (Fluid.update_checked A device s).state
      (step_events s.params s.boundary_updated (s.converged A device)) ∧
    (Fluid.update_checked A device s).state.boundary_updated
      = (s.boundary_updated && decide (s.params.boundary_count = 0)) := by
  obtain ⟨b1, b2, b3⟩ := sort_boundary_particles_spec s.params s
  obtain ⟨f1, f2, f3⟩ := sort_fluid_particles_spec s.params
    (s.sort_boundary_particles s.params).state
  have i1 := initialize_forces_appends s.params
    ((s.sort_boundary_particles s.params).state.sort_fluid_particles s.params).state
  obtain ⟨l1, l2, l3⟩ := pcisph_loop_spec A device s.params 7 0
    (Fluid.initialize_forces s.params
      ((s.sort_boundary_particles s.params).state.sort_fluid_particles s.params).state)
  have t1 := time_integration_appends s.params
    (Fluid.pcisph_loop A device s.params 7 0 (Fluid.initialize_forces s.params
      ((s.sort_boundary_particles s.params).state.sort_fluid_particles s.params).state)).state
  rw [b2.2.1] at f2
  have q1 := appends_trans b2 f2
  rw [q1.2.1] at i1
  have q2 := appends_trans q1 i1.1
  have hp2 := q2.2.1
  rw [converged_congr A device q2, hp2] at l1
  rw [hp2] at l3
  have l3 := l3 hn
  have q3 := appends_trans q2 l1
  rw [q3.2.1] at t1
  have q4 := appends_trans q3 t1.1
  have hne : s.params.fluid_count ≠ 0 := by omega
  have e : Fluid.update_checked A device s = Outcome.mk .returned
      (Fluid.time_integration s.params (Fluid.pcisph_loop A device s.params 7 0
        (Fluid.initialize_forces s.params
          ((s.sort_boundary_particles s.params).state.sort_fluid_particles
            s.params).state)).state) := by
    rw [Fluid.update_checked, h]
    simp only [hne, if_false, Outcome.andThen, b1, f1, l3]
  rw [e]
  refine ⟨rfl, ?_, ?_⟩
  · exact appends_congr q4 (by simp [step_events, setup_events])
  · show (Fluid.time_integration _ _).boundary_updated = _
    rw [t1.2, l2, i1.2, f3, b3]

/-! ## The parameter derivation -/

theorem deduce_params_eq {F : Type} (A : Arith F) (fuel : Nat) (p q : Simulation_Params F)
    (h : deduce_params A fuel p = some q) :
    ∃ v, q = { deduce_kernel_constants A p with density_variation_scaling_factor := v } := by
  simp only [deduce_params] at h
  split at h
  · cases h
  · exact ⟨_, (Option.some.inj h).symm⟩

theorem deduce_kernel_constants_base {F : Type} (A : Arith F) (p : Simulation_Params F) :
    (deduce_kernel_constants A p).base = p.base := rfl

theorem deduce_params_base {F : Type} (A : Arith F) (fuel : Nat) (p q : Simulation_Params F)
    (h : deduce_params A fuel p = some q) : q.base = p.base := by
  obtain ⟨v, rfl⟩ := deduce_params_eq A fuel p q h
  rfl

theorem deduce_params_congr {F : Type} (A : Arith F) (fuel : Nat) (p q : Simulation_Params F)
    (hr : p.particle_radius = q.particle_radius) (hd : p.rest_density = q.rest_density)
    (ht : p.delta_t = q.delta_t) (hf : p.fluid_count = q.fluid_count) :
    (deduce_params A fuel p).map Simulation_Params.derived
      = (deduce_params A fuel q).map Simulation_Params.derived := by
  simp only [deduce_params, deduce_kernel_constants, hr, hd, ht, hf]
  split <;> rfl

theorem deduce_params_idempotent {F : Type} (A : Arith F) (fuel : Nat)
    (p q : Simulation_Params F) (h : deduce_params A fuel p = some q) :
    deduce_params A fuel q = some q := by
  have hq := h
  simp only [deduce_params, deduce_kernel_constants] at h
  split at h
  · cases h
  · rename_i sums hs
    have e := Option.some.inj h
    subst e
    simp only [deduce_params, deduce_kernel_constants, hs]

/-! ## Lemmas: reallocation and the entry of `update` -/

theorem create_andThen {F : Type} (s : Fluid F) (b : Buf) (bytes : Nat)
    (next : Fluid F → Outcome F) :
    (s.create_buffer b bytes).andThen next
      = if bytes = 0 then { status := .thrown (Error.cl .clCreateBuffer), state := s }
        else next (s.assign_buffer b bytes) := by
  unfold Fluid.create_buffer Outcome.andThen
  split_ifs <;> rfl

theorem thrown_andThen {F : Type} (e : Error) (s : Fluid F) (next : Fluid F → Outcome F) :
    (Outcome.mk (.thrown e) s).andThen next = Outcome.mk (.thrown e) s := rfl

theorem returned_andThen {F : Type} (s : Fluid F) (next : Fluid F → Outcome F) :
    (Outcome.mk .returned s).andThen next = next s := rfl

theorem ite_andThen {F : Type} (c : Prop) [Decidable c] (a b : Outcome F)
    (next : Fluid F → Outcome F) :
    (if c then a else b).andThen next = if c then a.andThen next else b.andThen next := by
  split_ifs <;> rfl

theorem write_andThen {F : Type} (s : Fluid F) (dst : Buf) (blocking : Bool) (bytes : Nat)
    (next : Fluid F → Outcome F) :
    (s.enqueueWriteBuffer dst blocking bytes).andThen next
      = if s.mem_size dst = 0 ∨ s.mem_size dst < bytes then
          { status := .thrown (Error.cl .clEnqueueWriteBuffer), state := s }
        else next (s.enqueue (Event.write dst blocking bytes)) := by
  unfold Fluid.enqueueWriteBuffer Outcome.andThen
  split_ifs <;> rfl

theorem andThen_of_returned {F : Type} (o : Outcome F) (next : Fluid F → Outcome F)
    (h : o.status = .returned) : o.andThen next = next o.state := by
  unfold Outcome.andThen
  rw [h]

theorem andThen_of_refused {F : Type} (o : Outcome F) (next : Fluid F → Outcome F)
    (h : o.status.is_refused = true) : o.andThen next = o := by
  unfold Outcome.andThen
  rcases hs : o.status with _ | e | _
  · rw [hs] at h
    cases h
  · rfl
  · rfl

theorem creates_refl {F : Type} (s : Fluid F) : s.creates (Outcome.mk .returned s) :=
  ⟨rfl, rfl, rfl, rfl, rfl, fun _ _ => rfl, Or.inl rfl⟩

theorem creates_create_buffer {F : Type} (s : Fluid F) (b : Buf) (bytes : Nat)
    (hb : b.is_internal = true) : s.creates (s.create_buffer b bytes) := by
  unfold Fluid.create_buffer
  split_ifs
  · exact ⟨rfl, rfl, rfl, rfl, rfl, fun _ _ => rfl, Or.inr rfl⟩
  · refine ⟨rfl, rfl, rfl, rfl, rfl, fun c hc => ?_, Or.inl rfl⟩
    show (if c = b then bytes else s.mem_size c) = s.mem_size c
    rw [if_neg]
    intro e
    rw [e, hb] at hc
    cases hc

theorem creates_andThen {F : Type} (s : Fluid F) (o : Outcome F)
    (next : Fluid F → Outcome F) (h : s.creates o)
    (hn : ∀ t : Fluid F, t.creates (next t)) :
    s.creates (o.andThen next) := by
  obtain ⟨h1, h2, h3, h4, h5, h6, h7⟩ := h
  rcases h7 with hs | hs
  · rw [andThen_of_returned _ _ hs]
    obtain ⟨n1, n2, n3, n4, n5, n6, n7⟩ := hn o.state
    exact ⟨n1.trans h1, n2.trans h2, n3.trans h3, n4.trans h4, n5.trans h5,
      fun b hb => (n6 b hb).trans (h6 b hb), n7⟩
  · rw [andThen_of_refused _ _ (by rw [hs]; rfl)]
    exact ⟨h1, h2, h3, h4, h5, h6, Or.inr hs⟩

theorem creates_boundary {F : Type} (s : Fluid F) : s.creates s.create_boundary_buffers := by
  unfold Fluid.create_boundary_buffers
  simp only []
  split_ifs
  · repeat' first
      | exact creates_create_buffer _ _ _ rfl
      | refine creates_andThen _ _ _ ?_ (fun t => ?_)
  · exact creates_refl s

theorem creates_fluid {F : Type} (s : Fluid F) : s.creates s.create_fluid_buffers := by
  unfold Fluid.create_fluid_buffers
  simp only []
  repeat' first
    | exact creates_create_buffer _ _ _ rfl
    | refine creates_andThen _ _ _ ?_ (fun t => ?_)

/-- Without a fluid particle the creation of the fluid buffers is refused: the buffer of
the keys would have 0 bytes. -/
theorem create_fluid_buffers_empty {F : Type} (s : Fluid F)
    (h : s.params.fluid_count = 0) :
    s.create_fluid_buffers.status = .thrown (Error.cl .clCreateBuffer) := by
  have h1 : s.offsets_size ≠ 0 := by
    unfold Fluid.offsets_size
    omega
  have h2 : size_t (s.params.fluid_count * sizeof_cl_float) = 0 := by
    rw [h]
    rfl
  unfold Fluid.create_fluid_buffers
  simp only [create_andThen, h2, if_neg h1, if_true, thrown_andThen]

/-- The write of the zeros and the setting of the boundary bit, after the creations. -/
theorem reallocate_tail {F : Type} (s : Fluid F) (o : Outcome F) (hc : s.creates o)
    (hne : o.status = .returned → s.params.fluid_count ≠ 0) (r : Outcome F)
    (hr : r = (o.andThen fun s => s.enqueueWriteBuffer .fluid_velocities true
      (size_t (u32 (s.params.fluid_count * 3) * sizeof_cl_float))).andThen
      fun s => { status := .returned, state := { s with boundary_updated := true } }) :
    r.state.params = s.params ∧
    r.state.density_variation_threshold = s.density_variation_threshold ∧
    r.state.params_changed = s.params_changed ∧
    (∀ b : Buf, b.is_internal = false → r.state.mem_size b = s.mem_size b) ∧
    ((r.status = .returned ∧
        r.state.queue = s.queue ++
          [Event.write .fluid_velocities true
            (size_t (u32 (s.params.fluid_count * 3) * sizeof_cl_float))] ∧
        r.state.boundary_updated = true ∧
        s.mem_size .fluid_velocities ≠ 0 ∧
        size_t (u32 (s.params.fluid_count * 3) * sizeof_cl_float)
          ≤ s.mem_size .fluid_velocities ∧
        s.params.fluid_count ≠ 0) ∨
     (r.status.is_refused = true ∧ r.state.queue = s.queue ∧
        r.state.boundary_updated = s.boundary_updated)) := by
  obtain ⟨h1, h2, h3, h4, h5, h6, h7⟩ := hc
  have hv : o.state.mem_size .fluid_velocities = s.mem_size .fluid_velocities := h6 _ rfl
  rcases h7 with hs | hs
  · rw [andThen_of_returned _ _ hs] at hr
    unfold Fluid.enqueueWriteBuffer at hr
    rw [hv, h1] at hr
    split_ifs at hr with hcond
    · rw [thrown_andThen] at hr
      subst hr
      exact ⟨h1, h2, h3, h6, Or.inr ⟨rfl, h5, h4⟩⟩
    · rw [returned_andThen] at hr
      subst hr
      refine ⟨h1, h2, h3, h6, Or.inl ⟨rfl, ?_, rfl, ?_, ?_, hne hs⟩⟩
      · show o.state.queue ++ _ = _
        rw [h5]
      · intro h0
        exact hcond (Or.inl h0)
      · exact Nat.le_of_not_lt (fun hlt => hcond (Or.inr hlt))
  · have hrf : o.status.is_refused = true := by
      rw [hs]
      rfl
    rw [andThen_of_refused _ _ hrf, andThen_of_refused _ _ hrf] at hr
    subst hr
    exact ⟨h1, h2, h3, h6, Or.inr ⟨hrf, h5, h4⟩⟩

/-- What `reallocate` leaves as it was, and how it ends: normally, with the write of the
zeros enqueued and the boundary bit set, or by a `cl::Error` of a creation or of the
write, with nothing enqueued. -/
theorem reallocate_spec {F : Type} (s : Fluid F) :
    s.reallocate.state.params = s.params ∧
    s.reallocate.state.density_variation_threshold = s.density_variation_threshold ∧
    s.reallocate.state.params_changed = s.params_changed ∧
    (∀ b : Buf, b.is_internal = false → s.reallocate.state.mem_size b = s.mem_size b) ∧
    ((s.reallocate.status = .returned ∧
        s.reallocate.state.queue = s.queue ++
          [Event.write .fluid_velocities true
            (size_t (u32 (s.params.fluid_count * 3) * sizeof_cl_float))] ∧
        s.reallocate.state.boundary_updated = true ∧
        s.mem_size .fluid_velocities ≠ 0 ∧
        size_t (u32 (s.params.fluid_count * 3) * sizeof_cl_float)
          ≤ s.mem_size .fluid_velocities ∧
        s.params.fluid_count ≠ 0) ∨
     (s.reallocate.status.is_refused = true ∧ s.reallocate.state.queue = s.queue ∧
        s.reallocate.state.boundary_updated = s.boundary_updated)) := by
  have hc : s.creates (s.create_boundary_buffers.andThen Fluid.create_fluid_buffers) :=
    creates_andThen _ _ _ (creates_boundary s) creates_fluid
  have hne : (s.create_boundary_buffers.andThen Fluid.create_fluid_buffers).status
      = .returned → s.params.fluid_count ≠ 0 := by
    intro hs h0
    obtain ⟨b1, _, _, _, _, _, b7⟩ := creates_boundary s
    rcases b7 with hb | hb
    · rw [andThen_of_returned _ _ hb] at hs
      rw [create_fluid_buffers_empty _ (by rw [b1]; exact h0)] at hs
      cases hs
    · rw [andThen_of_refused _ _ (by rw [hb]; rfl), hb] at hs
      cases hs
  exact reallocate_tail s _ hc hne s.reallocate rfl

/-- Without a fluid particle `reallocate` ends by the `cl::Error` of a creation. -/
theorem reallocate_empty {F : Type} (s : Fluid F) (h : s.params.fluid_count = 0) :
    s.reallocate.status = .thrown (Error.cl .clCreateBuffer) := by
  obtain ⟨b1, _, _, _, _, _, b7⟩ := creates_boundary s
  have hcf : (s.create_boundary_buffers.andThen Fluid.create_fluid_buffers).status
      = .thrown (Error.cl .clCreateBuffer) := by
    rcases b7 with hb | hb
    · rw [andThen_of_returned _ _ hb]
      exact create_fluid_buffers_empty _ (by rw [b1]; exact h)
    · rw [andThen_of_refused _ _ (by rw [hb]; rfl), hb]
  have hrf : (s.create_boundary_buffers.andThen Fluid.create_fluid_buffers).status.is_refused
      = true := by
    rw [hcf]
    rfl
  show (((s.create_boundary_buffers.andThen Fluid.create_fluid_buffers).andThen _).andThen
    _).status = _
  rw [andThen_of_refused _ _ hrf, andThen_of_refused _ _ hrf, hcf]

theorem create_andThen_pos {F : Type} (s : Fluid F) (b : Buf) (bytes : Nat)
    (next : Fluid F → Outcome F) (h : bytes ≠ 0) :
    (s.create_buffer b bytes).andThen next = next (s.assign_buffer b bytes) := by
  rw [create_andThen, if_neg h]

theorem create_buffer_pos {F : Type} (s : Fluid F) (b : Buf) (bytes : Nat) (h : bytes ≠ 0) :
    (s.create_buffer b bytes).status = .returned := by
  unfold Fluid.create_buffer
  rw [if_neg h]

theorem offsets_size_pos {F : Type} (s : Fluid F) : s.offsets_size ≠ 0 := by
  unfold Fluid.offsets_size
  omega

theorem scalar_size_pos (n : Nat) (hn : 0 < n) (h32 : n < 2 ^ 32) :
    size_t (n * sizeof_cl_float) ≠ 0 := by
  unfold size_t sizeof_cl_float
  omega

theorem vector_size_pos (n : Nat) (hn : 0 < n) (h32 : n < 2 ^ 32) :
    size_t (u32 (3 * n) * sizeof_cl_float) ≠ 0 := by
  have h1 : u32 (3 * n) ≠ 0 := by
    intro h
    have hd : 2 ^ 32 ∣ n * 3 := by
      rw [Nat.mul_comm]
      exact Nat.dvd_of_mod_eq_zero h
    have hc : Nat.Coprime (2 ^ 32) 3 := by norm_num
    exact absurd (Nat.le_of_dvd hn (Nat.Coprime.dvd_of_dvd_mul_right hc hd)) (not_le.mpr h32)
  have h2 : u32 (3 * n) < 4294967296 := by
    unfold u32
    omega
  unfold size_t sizeof_cl_float
  generalize u32 (3 * n) = m at h1 h2
  omega

theorem create_boundary_buffers_returns {F : Type} (s : Fluid F)
    (hb : s.params.boundary_count < 2 ^ 32) :
    s.create_boundary_buffers.status = .returned := by
  unfold Fluid.create_boundary_buffers
  simp only []
  split_ifs with hpos
  · have h2 := scalar_size_pos s.params.boundary_count hpos hb
    have h3 := vector_size_pos s.params.boundary_count hpos hb
    rw [create_andThen_pos _ _ _ _ (offsets_size_pos s), create_andThen_pos _ _ _ _ h2,
      create_andThen_pos _ _ _ _ h2, create_andThen_pos _ _ _ _ h3]
    exact create_buffer_pos _ _ _ h2
  · rfl

theorem create_fluid_buffers_returns {F : Type} (s : Fluid F)
    (hn : 0 < s.params.fluid_count) (h32 : s.params.fluid_count < 2 ^ 32) :
    s.create_fluid_buffers.status = .returned := by
  have h2 := scalar_size_pos s.params.fluid_count hn h32
  have h3 := vector_size_pos s.params.fluid_count hn h32
  unfold Fluid.create_fluid_buffers
  simp only []
  rw [create_andThen_pos _ _ _ _ (offsets_size_pos s), create_andThen_pos _ _ _ _ h2,
    create_andThen_pos _ _ _ _ h2, create_andThen_pos _ _ _ _ h3,
    create_andThen_pos _ _ _ _ h3]
  exact create_buffer_pos _ _ _ h2

/-- For 32-bit counts with a fluid particle `reallocate` returns when the velocities hold
a buffer which the zeros fit in. -/
theorem reallocate_returns {F : Type} (s : Fluid F) (hn : 0 < s.params.fluid_count)
    (h32 : s.params.fluid_count < 2 ^ 32) (hb : s.params.boundary_count < 2 ^ 32)
    (hv0 : s.mem_size .fluid_velocities ≠ 0)
    (hv : size_t (u32 (s.params.fluid_count * 3) * sizeof_cl_float)
      ≤ s.mem_size .fluid_velocities) :
    s.reallocate.status = .returned := by
  obtain ⟨b1, _, _, _, _, b6, _⟩ := creates_boundary s
  have hcb := create_boundary_buffers_returns s hb
  obtain ⟨f1, _, _, _, _, f6, _⟩ := creates_fluid s.create_boundary_buffers.state
  have hcf := create_fluid_buffers_returns s.create_boundary_buffers.state
    (by rw [b1]; exact hn) (by rw [b1]; exact h32)
  have hp : s.create_boundary_buffers.state.create_fluid_buffers.state.params = s.params :=
    f1.trans b1
  have hm : s.create_boundary_buffers.state.create_fluid_buffers.state.mem_size
      .fluid_velocities = s.mem_size .fluid_velocities := (f6 .fluid_velocities rfl).trans (b6 .fluid_velocities rfl)
  unfold Fluid.reallocate
  rw [andThen_of_returned _ _ hcb, andThen_of_returned _ _ hcf]
  unfold Fluid.enqueueWriteBuffer
  rw [hp, hm, if_neg (by
    intro c
    rcases c with c | c
    · exact hv0 c
    · omega)]
  rfl

theorem update_deduced_attributes_params {F : Type} (A : Arith F) (fuel : Nat)
    (s : Fluid F) (o : Outcome F) (h : s.update_deduced_attributes A fuel = some o) :
    deduce_params A fuel s.params = some o.state.params := by
  rcases hp : deduce_params A fuel s.params with _ | p
  · simp [Fluid.update_deduced_attributes, hp] at h
  · simp only [Fluid.update_deduced_attributes, hp] at h
    have e := Option.some.inj h
    rw [← e, (reallocate_spec { s with params := p }).1]

theorem update_clean {F : Type} (A : Arith F) (fuel : Nat) (device : Nat → Nat → F)
    (s : Fluid F) (h : s.params_changed = false) :
    s.update A fuel device = some (Fluid.update_checked A device s) := by
  simp [Fluid.update, h]

theorem update_dirty {F : Type} (A : Arith F) (fuel : Nat) (device : Nat → Nat → F)
    (s : Fluid F) (h : s.params_changed = true) (p : Simulation_Params F)
    (hp : deduce_params A fuel s.params = some p) :
    s.update A fuel device = some ((Fluid.reallocate { s with params := p }).andThen
      fun t => Fluid.update_checked A device { t with params_changed := false }) := by
  simp [Fluid.update, h, Fluid.update_deduced_attributes, hp]

theorem update_hangs {F : Type} (A : Arith F) (fuel : Nat) (device : Nat → Nat → F)
    (s : Fluid F) (h : s.params_changed = true)
    (hp : deduce_params A fuel s.params = none) : s.update A fuel device = none := by
  simp [Fluid.update, h, Fluid.update_deduced_attributes, hp]

/-- The two ways `update` can end: its derivation is refused, and the exception leaves
`update` with the bit `params_changed` still set; or it reaches the consistency check in
a state `t`. -/
theorem update_cases {F : Type} (A : Arith F) (fuel : Nat) (device : Nat → Nat → F)
    (s : Fluid F) (o : Outcome F) (h : s.update A fuel device = some o) :
    (o.status.is_refused = true ∧ s.params_changed = true ∧
      o.state.params_changed = true ∧ o.state.queue = s.queue ∧
      o.state.boundary_updated = s.boundary_updated ∧
      o.state.params.base = s.params.base ∧
      o.state.density_variation_threshold = s.density_variation_threshold ∧
      (∀ b : Buf, b.is_internal = false → o.state.mem_size b = s.mem_size b) ∧
      deduce_params A fuel s.params = some o.state.params ∧
      deduce_params A fuel o.state.params = some o.state.params) ∨
    ∃ t : Fluid F, o = Fluid.update_checked A device t ∧ t.params_changed = false ∧
      t.params.base = s.params.base ∧
      t.density_variation_threshold = s.density_variation_threshold ∧
      (∀ b : Buf, b.is_internal = false → t.mem_size b = s.mem_size b) ∧
      (∃ fuel2, deduce_params A fuel2 t.params = some t.params ∨
        (s.params_changed = false ∧ t = s)) ∧
      ((s.params_changed = false ∧ t = s) ∨
       (s.params_changed = true ∧ deduce_params A fuel s.params = some t.params ∧
        t.queue = s.queue ++ [Event.write .fluid_velocities true
          (size_t (u32 (s.params.fluid_count * 3) * sizeof_cl_float))] ∧
        t.boundary_updated = true ∧
        (∃ u, s.update_deduced_attributes A fuel
          = some { status := .returned, state := u }))) := by
  rcases hc : s.params_changed with _ | _
  · rw [update_clean A fuel device s hc] at h
    exact Or.inr ⟨s, (Option.some.inj h).symm, hc, rfl, rfl, fun _ _ => rfl,
      ⟨0, Or.inr ⟨rfl, rfl⟩⟩, Or.inl ⟨rfl, rfl⟩⟩
  · rcases hp : deduce_params A fuel s.params with _ | p
    · rw [update_hangs A fuel device s hc hp] at h
      cases h
    · rw [update_dirty A fuel device s hc p hp] at h
      obtain ⟨r1, r3, r4, r6, r5⟩ := reallocate_spec { s with params := p }
      have hb := deduce_params_base A fuel s.params p hp
      have hfc : p.fluid_count = s.params.fluid_count := congrArg (fun b => b.2.2.2.1) hb
      have r1b : (Fluid.reallocate { s with params := p }).state.params = p := r1
      have hidem := deduce_params_idempotent A fuel s.params p hp
      rcases r5 with ⟨hs, r2, r5, _⟩ | ⟨hs, r2, r5⟩
      · right
        rw [andThen_of_returned _ _ hs] at h
        have r2b : (Fluid.reallocate { s with params := p }).state.queue = s.queue ++
            [Event.write .fluid_velocities true
              (size_t (u32 (s.params.fluid_count * 3) * sizeof_cl_float))] := by
          rw [r2, ← hfc]
        refine ⟨_, (Option.some.inj h).symm, rfl, ?_, r3, r6, ⟨fuel, Or.inl ?_⟩,
          Or.inr ⟨rfl, ?_, r2b, r5, (Fluid.reallocate { s with params := p }).state, ?_⟩⟩
        · exact (congrArg Simulation_Params.base r1b).trans hb
        · exact (congrArg (fun q => deduce_params A fuel q = some q) r1b).mpr hidem
        · exact congrArg some r1b.symm
        · simp only [Fluid.update_deduced_attributes, hp]
          rw [← hs]
      · left
        rw [andThen_of_refused _ _ hs] at h
        have e := (Option.some.inj h).symm
        subst e
        refine ⟨hs, rfl, (r4.trans hc), r2, r5, ?_, r3, r6, ?_, ?_⟩
        · exact (congrArg Simulation_Params.base r1b).trans hb
        · exact congrArg some r1b.symm
        · exact (congrArg (fun q => deduce_params A fuel q = some q) r1b).mpr hidem

/-! ## Lemmas: reading what a step enqueues -/

theorem mem_pcisph_events {F : Type} (pb p : Simulation_Params F) (i : Nat) (e : Event F)
    (h : e ∈ pcisph_events pb p i) :
    e = prediction_event pb p.fluid_count ∨
    (p.boundary_count > 0 ∧ e = boundary_pressure_event pb p.boundary_count) ∨
    e = fluid_pressure_event pb p.fluid_count ∨
    (i ≥ min_iterations ∧ e = read_event p.fluid_count) ∨
    e = pressure_force_event pb p.fluid_count := by
  by_cases hb : p.boundary_count > 0 <;> by_cases hi : i ≥ min_iterations <;>
    simp [pcisph_events, hb, hi] at h <;> simp [hb, hi] <;> tauto

theorem loop_events_forall {F : Type} (pb p : Simulation_Params F)
    (test : Nat → Option Bool) (P : Event F → Prop)
    (hp : ∀ i, ∀ e ∈ pcisph_events pb p i, P e) (hw : P Event.wait) :
    ∀ (remaining i : Nat), ∀ e ∈ loop_events pb p test remaining i, P e := by
  intro remaining
  induction remaining with
  | zero => intro i e he; simp [loop_events] at he
  | succ n ih =>
    intro i e he
    rw [loop_events, List.mem_append] at he
    rcases he with he | he
    · exact hp i e he
    · by_cases hi : i ≥ min_iterations
      · rw [if_pos hi, List.mem_cons] at he
        rcases he with he | he
        · rw [he]; exact hw
        · rcases ht : test i with _ | b
          · rw [ht] at he; simp at he
          · cases b
            · rw [ht] at he; exact ih (i + 1) e he
            · rw [ht] at he; simp at he
      · rw [if_neg hi] at he
        exact ih (i + 1) e he

theorem iterations_append {F : Type} (l1 l2 : List (Event F)) :
    iterations (l1 ++ l2) = iterations l1 + iterations l2 := by
  simp [iterations]

theorem iterations_pcisph_events {F : Type} (pb p : Simulation_Params F) (i : Nat) :
    iterations (pcisph_events pb p i) = 1 := by
  by_cases hb : p.boundary_count > 0 <;> by_cases hi : i ≥ min_iterations <;>
    simp [iterations, pcisph_events, hb, hi, prediction_event, boundary_pressure_event,
      fluid_pressure_event, read_event, pressure_force_event, Event.is_prediction,
      Arg.is_buffer, Arg.is_null]

theorem iterations_eq_zero {F : Type} (l : List (Event F))
    (h : ∀ e ∈ l, e.is_prediction = false) : iterations l = 0 := by
  simp only [iterations, List.countP_eq_zero]
  intro e he
  simp [h e he]

theorem tests_append {F : Type} (l1 l2 : List (Event F)) : ∀ k,
    tests_from_index_two k (l1 ++ l2)
      = (tests_from_index_two k l1 && tests_from_index_two (k + iterations l1) l2) := by
  induction l1 with
  | nil => intro k; simp [tests_from_index_two, iterations]
  | cons e l ih =>
    intro k
    by_cases hp : e.is_prediction = true
    · have hc : iterations (e :: l) = iterations l + 1 := List.countP_cons_of_pos _ _ hp
      have e2 : k + (iterations l + 1) = k + 1 + iterations l := by omega
      rw [List.cons_append, tests_from_index_two, tests_from_index_two]
      simp only [hp, if_true]
      rw [ih (k + 1), hc, e2]
    · have hp2 : e.is_prediction = false := by simpa using hp
      by_cases hr : e.is_readback_or_test = true
      · simp [tests_from_index_two, hp2, hr, ih, iterations, Bool.and_assoc]
      · have hr2 : e.is_readback_or_test = false := by simpa using hr
        simp [tests_from_index_two, hp2, hr2, ih, iterations]

theorem tests_of_quiet {F : Type} (l : List (Event F))
    (h : ∀ e ∈ l, e.is_prediction = false ∧ e.is_readback_or_test = false) : ∀ k,
    tests_from_index_two k l = true := by
  induction l with
  | nil => intro k; rfl
  | cons e l ih =>
    intro k
    have he := h e (List.mem_cons_self _ _)
    simp only [tests_from_index_two, he.1, he.2]
    exact ih (fun x hx => h x (List.mem_cons_of_mem _ hx)) k

theorem tests_pcisph_events {F : Type} (pb p : Simulation_Params F) (i k : Nat)
    (h : i ≤ k) : tests_from_index_two k (pcisph_events pb p i) = true := by
  by_cases hb : p.boundary_count > 0 <;> by_cases hi : i ≥ min_iterations <;>
    simp [tests_from_index_two, pcisph_events, hb, hi, prediction_event,
      boundary_pressure_event, fluid_pressure_event, read_event, pressure_force_event,
      Event.is_prediction, Event.is_readback_or_test, Arg.is_buffer, Arg.is_null]
  all_goals (simp only [min_iterations] at hi; omega)

theorem tests_loop_events {F : Type} (pb p : Simulation_Params F)
    (test : Nat → Option Bool) : ∀ (remaining i k : Nat), i ≤ k →
    tests_from_index_two k (loop_events pb p test remaining i) = true := by
  intro remaining
  induction remaining with
  | zero => intro i k _; rfl
  | succ n ih =>
    intro i k hik
    rw [loop_events, tests_append, tests_pcisph_events pb p i k hik,
      iterations_pcisph_events]
    by_cases hi : i ≥ min_iterations
    · have h3 : 3 ≤ k + 1 := by simp only [min_iterations] at hi; omega
      rcases ht : test i with _ | b
      · simp [hi, tests_from_index_two, Event.is_prediction, Event.is_readback_or_test, h3]
      · cases b
        · simp [hi, tests_from_index_two, Event.is_prediction,
            Event.is_readback_or_test, h3, ih (i + 1) (k + 1) (by omega)]
        · simp [hi, tests_from_index_two, Event.is_prediction,
            Event.is_readback_or_test, h3]
    · simp [hi, ih (i + 1) (k + 1) (by omega)]

theorem tests_split {F : Type} (pre post : List (Event F)) (e : Event F) (k : Nat)
    (h : tests_from_index_two k (pre ++ e :: post) = true)
    (he : e.is_readback_or_test = true) : 3 ≤ k + iterations pre := by
  rw [tests_append] at h
  have h2 := (Bool.and_eq_true _ _ ▸ h).2
  have hp : e.is_prediction = false := by
    cases e <;> simp_all [Event.is_prediction, Event.is_readback_or_test]
  simp [tests_from_index_two, hp, he] at h2
  exact h2.1

/-! ## Lemmas: the events of a whole step -/

theorem setup_events_quiet {F : Type} (p : Simulation_Params F) (bu : Bool) :
    ∀ e ∈ setup_events p bu, e.is_prediction = false ∧ e.is_readback_or_test = false ∧
      e.is_integration = false ∧
      e.is_kernel .pcisph_initialize_boundary_boundary_pred_densities = false ∧
      e.is_boundary_pressure = false := by
  cases bu <;> by_cases h2 : p.boundary_count > 0 <;>
  simp [setup_events, sort_boundary_events, sort_fluid_events, initialize_forces_events,
    h2, reset_offsets_event, hash_event, boundary_reorder_event, fluid_reorder_event,
    density_event, normal_event, boundary_pressure_initialization_event,
    force_initialization_event, Event.is_prediction, Event.is_readback_or_test,
    Event.is_integration, Event.is_kernel, Event.is_boundary_pressure]

theorem pcisph_events_facts {F : Type} (pb p : Simulation_Params F) (i : Nat) :
    ∀ e ∈ pcisph_events pb p i,
      (e.is_integration = true → e.is_prediction = true) ∧ e.is_committed = false ∧
      e.is_boundary_grid = false ∧ e.is_fluid_grid = false ∧
      e.is_kernel .pcisph_initialize_boundary_boundary_pred_densities = false ∧
      e.is_kernel .pcisph_boundary_pressure_initialization = false ∧
      (e.is_boundary_pressure = true → p.boundary_count > 0) := by
  intro e he
  rcases mem_pcisph_events pb p i e he with h | ⟨hb, h⟩ | h | ⟨_, h⟩ | h <;> subst h <;>
    simp [prediction_event, boundary_pressure_event, fluid_pressure_event, read_event,
      pressure_force_event, Event.is_integration, Event.is_prediction, Event.is_committed,
      Event.is_boundary_grid, Event.is_fluid_grid, Event.is_kernel,
      Event.is_boundary_pressure, Arg.is_buffer, Arg.is_null]
  exact hb

theorem loop_events_facts {F : Type} (pb p : Simulation_Params F)
    (test : Nat → Option Bool) (remaining i : Nat) :
    ∀ e ∈ loop_events pb p test remaining i,
      (e.is_integration = true → e.is_prediction = true) ∧ e.is_committed = false ∧
      e.is_boundary_grid = false ∧ e.is_fluid_grid = false ∧
      e.is_kernel .pcisph_initialize_boundary_boundary_pred_densities = false ∧
      e.is_kernel .pcisph_boundary_pressure_initialization = false ∧
      (e.is_boundary_pressure = true → p.boundary_count > 0) :=
  loop_events_forall pb p test _ (pcisph_events_facts pb p)
    (by simp [Event.is_integration, Event.is_committed, Event.is_boundary_grid,
      Event.is_fluid_grid, Event.is_kernel, Event.is_boundary_pressure]) remaining i

theorem iterations_loop_succ {F : Type} (pb p : Simulation_Params F)
    (test : Nat → Option Bool) (n i : Nat) :
    iterations (loop_events pb p test (n + 1) i) = 1 +
      (if i ≥ min_iterations then
        (match test i with
          | some false => iterations (loop_events pb p test n (i + 1))
          | _ => 0)
       else iterations (loop_events pb p test n (i + 1))) := by
  rw [loop_events, iterations_append, iterations_pcisph_events]
  by_cases hi : i ≥ min_iterations
  · rw [if_pos hi, if_pos hi]
    have hw : ∀ l : List (Event F), iterations (Event.wait :: l) = iterations l := by
      intro l
      simp [iterations, Event.is_prediction]
    rw [hw]
    rcases test i with _ | b
    · rfl
    · cases b <;> rfl
  · rw [if_neg hi, if_neg hi]

theorem step_events_iterations {F : Type} (p : Simulation_Params F) (bu : Bool)
    (test : Nat → Option Bool) :
    iterations (step_events p bu test) = iterations (loop_events p p test 7 0) := by
  rw [step_events, iterations_append, iterations_append,
    iterations_eq_zero _ (fun e he => (setup_events_quiet p bu e he).1)]
  simp [iterations, committed_event, Event.is_prediction, Arg.is_buffer]

theorem step_events_tests {F : Type} (p : Simulation_Params F) (bu : Bool)
    (test : Nat → Option Bool) (k : Nat) :
    tests_from_index_two k (step_events p bu test) = true := by
  rw [step_events, tests_append, tests_append,
    tests_of_quiet _ (fun e he => ⟨(setup_events_quiet p bu e he).1,
      (setup_events_quiet p bu e he).2.1⟩),
    tests_loop_events p p test 7 0 _ (Nat.zero_le _)]
  simp [tests_from_index_two, committed_event, Event.is_prediction,
    Event.is_readback_or_test, Arg.is_buffer]

theorem step_events_filter_boundary_grid {F : Type} (p : Simulation_Params F) (bu : Bool)
    (test : Nat → Option Bool) :
    (step_events p bu test).filter Event.is_boundary_grid
      = (if bu = true ∧ p.boundary_count > 0 then sort_boundary_events p p else []) := by
  have hl : (loop_events p p test 7 0).filter Event.is_boundary_grid = [] :=
    List.filter_eq_nil_iff.mpr (fun e he => by simp [(loop_events_facts p p test 7 0 e he).2.2.1])
  rw [step_events, List.filter_append, List.filter_append, hl]
  cases bu <;> by_cases h2 : p.boundary_count > 0 <;>
  simp [setup_events, sort_boundary_events, sort_fluid_events, initialize_forces_events,
    h2, reset_offsets_event, hash_event, boundary_reorder_event, fluid_reorder_event,
    density_event, normal_event, boundary_pressure_initialization_event,
    force_initialization_event, committed_event, Event.is_boundary_grid, Arg.is_buffer]

theorem converged_of_base {F : Type} (A : Arith F) (device : Nat → Nat → F) (s t : Fluid F)
    (hb : t.params.base = s.params.base)
    (ht : t.density_variation_threshold = s.density_variation_threshold) :
    t.converged A device = s.converged A device := by
  have h1 : t.params.rest_density = s.params.rest_density := congrArg (fun b => b.2.1) hb
  have h2 : t.params.fluid_count = s.params.fluid_count := congrArg (fun b => b.2.2.2.1) hb
  funext i
  simp [Fluid.converged, h1, h2, ht]

theorem consistent_of_base {F : Type} (s t : Fluid F)
    (hb : t.params.base = s.params.base)
    (hm : ∀ b : Buf, b.is_internal = false → t.mem_size b = s.mem_size b) :
    t.consistent ↔ s.consistent := by
  have h2 : t.params.fluid_count = s.params.fluid_count := congrArg (fun b => b.2.2.2.1) hb
  simp only [Fluid.consistent, Fluid.holds_buffers, Fluid.sizes_match, h2,
    hm _ (rfl : Buf.is_internal .fluid_positions = false),
    hm _ (rfl : Buf.is_internal .fluid_normals = false),
    hm _ (rfl : Buf.is_internal .fluid_predicted_positions = false),
    hm _ (rfl : Buf.is_internal .fluid_densities = false),
    hm _ (rfl : Buf.is_internal .fluid_other_forces = false),
    hm _ (rfl : Buf.is_internal .fluid_velocities = false),
    hm _ (rfl : Buf.is_internal .fluid_pressures = false),
    hm _ (rfl : Buf.is_internal .fluid_pressure_forces = false)]

theorem holds_buffers_of_mem {F : Type} (s t : Fluid F)
    (hm : ∀ b : Buf, b.is_internal = false → t.mem_size b = s.mem_size b) :
    t.holds_buffers ↔ s.holds_buffers := by
  simp only [Fluid.holds_buffers,
    hm _ (rfl : Buf.is_internal .fluid_positions = false),
    hm _ (rfl : Buf.is_internal .fluid_normals = false),
    hm _ (rfl : Buf.is_internal .fluid_predicted_positions = false),
    hm _ (rfl : Buf.is_internal .fluid_densities = false),
    hm _ (rfl : Buf.is_internal .fluid_other_forces = false),
    hm _ (rfl : Buf.is_internal .fluid_velocities = false),
    hm _ (rfl : Buf.is_internal .fluid_pressures = false),
    hm _ (rfl : Buf.is_internal .fluid_pressure_forces = false)]

/-- Consistent buffers belong to a positive number of particles: a buffer has a byte. -/
theorem consistent_pos {F : Type} (s : Fluid F) (h : s.consistent) :
    0 < s.params.fluid_count := by
  have h1 := h.1.1
  have h2 := h.2.1
  rw [h2] at h1
  omega

/-- From the consistency check on, `update` does not end by an error of the derivation. -/
theorem update_checked_not_refused {F : Type} (A : Arith F) (device : Nat → Nat → F)
    (t : Fluid F) : (Fluid.update_checked A device t).status.is_refused = false := by
  rcases hck : t.checkBuffersConsistent with e | u
  · rw [update_checked_thrown A device t e hck]
    rcases checkBuffersConsistent_error t e hck with ⟨name, size, he⟩ | ⟨he, _⟩ <;>
      · rw [he]
        rfl
  · cases u
    rcases Nat.eq_zero_or_pos t.params.fluid_count with hz | hpos
    · rw [update_checked_empty A device t hck hz]
      rfl
    · rw [(update_checked_runs A device t hck hpos).1]
      rfl

/-- Every way `update` can end, once the derivation has returned. -/
theorem update_spec {F : Type} (A : Arith F) (fuel : Nat) (device : Nat → Nat → F)
    (s : Fluid F) (o : Outcome F) (h : s.update A fuel device = some o)
    (h32 : s.params.fluid_count < 2 ^ 32) (hnr : o.status.is_refused = false) :
    o.state.params.base = s.params.base ∧
    (s.params_changed = false → o.state.params = s.params) ∧
    (s.params_changed = true → deduce_params A fuel s.params = some o.state.params) ∧
    (∃ fuel2, deduce_params A fuel2 o.state.params = some o.state.params ∨
      (s.params_changed = false ∧ o.state.params = s.params)) ∧
    o.state.params_changed = false ∧
    o.state.density_variation_threshold = s.density_variation_threshold ∧
    (∀ b : Buf, b.is_internal = false → o.state.mem_size b = s.mem_size b) ∧
    ((¬ s.consistent ∧
        (o.status.is_inconsistent = true ∨
          (o.status = .thrown (Error.cl .clGetMemObjectInfo) ∧ ¬ s.holds_buffers)) ∧
        o.state.queue = s.queue ++ s.entry_events ∧
        o.state.boundary_updated = s.entry_flag) ∨
     (s.consistent ∧ 0 < s.params.fluid_count ∧ o.status = .returned ∧
        o.state.queue = s.queue ++ (s.entry_events ++
          step_events o.state.params s.entry_flag (s.converged A device)) ∧
        o.state.boundary_updated
          = (s.entry_flag && decide (s.params.boundary_count = 0)))) := by
  rcases update_cases A fuel device s o h with ⟨hr, _⟩ | ⟨t, ho, t1, t2, t3, t4, t5, t6⟩
  · rw [hr] at hnr
    cases hnr
  have hfc : t.params.fluid_count = s.params.fluid_count := congrArg (fun b => b.2.2.2.1) t2
  have hbc : t.params.boundary_count = s.params.boundary_count :=
    congrArg (fun b => b.2.2.1) t2
  have hq : t.queue = s.queue ++ s.entry_events ∧ t.boundary_updated = s.entry_flag := by
    rcases t6 with ⟨hc, rfl⟩ | ⟨hc, _, hq, hb, _⟩
    · simp [Fluid.entry_events, Fluid.entry_flag, hc]
    · simp [Fluid.entry_events, Fluid.entry_flag, hc, hq, hb]
  have hcons := consistent_of_base s t t2 t4
  have hhold := holds_buffers_of_mem s t t4
  have hiff := checkBuffersConsistent_ok_iff t (by rw [hfc]; exact h32)
  have key : o.state.params = t.params ∧ o.state.params_changed = false ∧
      o.state.density_variation_threshold = t.density_variation_threshold ∧
      o.state.mem_size = t.mem_size ∧
      ((¬ s.consistent ∧
          (o.status.is_inconsistent = true ∨
            (o.status = .thrown (Error.cl .clGetMemObjectInfo) ∧ ¬ s.holds_buffers)) ∧
          o.state.queue = s.queue ++ s.entry_events ∧
          o.state.boundary_updated = s.entry_flag) ∨
       (s.consistent ∧ 0 < s.params.fluid_count ∧ o.status = .returned ∧
          o.state.queue = s.queue ++ (s.entry_events ++
            step_events t.params s.entry_flag (s.converged A device)) ∧
          o.state.boundary_updated
            = (s.entry_flag && decide (s.params.boundary_count = 0)))) := by
    rcases hck : t.checkBuffersConsistent with e | u
    · have hnot : ¬ s.consistent := by
        intro hs
        have := hiff.mpr (hcons.mpr hs)
        rw [hck] at this
        cases this
      rw [ho, update_checked_thrown A device t e hck]
      refine ⟨rfl, t1, rfl, rfl, Or.inl ⟨hnot, ?_, hq.1, hq.2⟩⟩
      rcases checkBuffersConsistent_error t e hck with ⟨name, size, he⟩ | ⟨he, hn⟩
      · left
        rw [he]
        rfl
      · right
        rw [he]
        exact ⟨rfl, fun c => hn (hhold.mpr c)⟩
    · cases u
      have hs : s.consistent := hcons.mp (hiff.mp hck)
      have hpos : 0 < t.params.fluid_count := by
        rw [hfc]
        exact consistent_pos s hs
      obtain ⟨r1, r2, r3⟩ := update_checked_runs A device t hck hpos
      rw [← ho] at r1 r2 r3
      refine ⟨r2.2.1, r2.2.2.2.2.trans t1, r2.2.2.2.1, r2.2.2.1,
        Or.inr ⟨hs, by omega, r1, ?_, ?_⟩⟩
      · rw [r2.1, hq.1, hq.2, converged_of_base A device s t t2 t3, List.append_assoc]
      · rw [r3, hq.2, hbc]
  obtain ⟨k1, k2, k3, k4, k5⟩ := key
  refine ⟨k1 ▸ t2, ?_, ?_, ?_, k2, k3.trans t3, fun b hb => (congrFun k4 b).trans (t4 b hb),
    ?_⟩
  · intro hc
    rcases t6 with ⟨_, rfl⟩ | ⟨hc2, _⟩
    · exact k1
    · rw [hc] at hc2
      cases hc2
  · intro hc
    rcases t6 with ⟨hc2, _⟩ | ⟨_, hd, _⟩
    · rw [hc] at hc2
      cases hc2
    · rw [k1]
      exact hd
  · obtain ⟨f2, hf⟩ := t5
    refine ⟨f2, ?_⟩
    rcases hf with hf | ⟨hc, rfl⟩
    · left
      rw [k1]
      exact hf
    · right
      exact ⟨hc, k1⟩
  · rw [k1]
    exact k5

/-- A derivation that finishes lets `update` come to an end. -/
theorem update_defined {F : Type} (A : Arith F) (fuel : Nat) (device : Nat → Nat → F)
    (s : Fluid F) (hd : s.derivation_finishes A fuel) :
    ∃ o, s.update A fuel device = some o ∧ o.status.is_refused = false := by
  rcases hc : s.params_changed with _ | _
  · exact ⟨_, update_clean A fuel device s hc, update_checked_not_refused A device s⟩
  · rcases hd with hd | ⟨t, hd⟩
    · rw [hc] at hd
      cases hd
    · refine ⟨_, ?_, update_checked_not_refused A device { t with params_changed := false }⟩
      simp only [Fluid.update, hc, hd, if_true]
      rfl

/-- An `update` which reaches the consistency check had a derivation that finishes. -/
theorem finishes_of_not_refused {F : Type} (A : Arith F) (fuel : Nat)
    (device : Nat → Nat → F) (s : Fluid F) (o : Outcome F)
    (h : s.update A fuel device = some o) (hnr : o.status.is_refused = false) :
    s.derivation_finishes A fuel := by
  rcases update_cases A fuel device s o h with ⟨hr, _⟩ | ⟨t, _, _, _, _, _, _, t6⟩
  · rw [hr] at hnr
    cases hnr
  · rcases t6 with ⟨hc, _⟩ | ⟨_, _, _, _, hu⟩
    · exact Or.inl hc
    · exact Or.inr hu

/-! ## Lemmas: the lattice loops in exact arithmetic -/

theorem foldlM_some {α σ : Type} (g : α → σ → σ) (l : List α) : ∀ acc : σ,
    l.foldlM (fun acc x => some (g x acc)) acc = some (l.foldl (fun acc x => g x acc) acc) := by
  induction l with
  | nil => intro acc; rfl
  | cons a l ih =>
    intro acc
    rw [List.foldlM_cons, List.foldl_cons]
    exact ih (g a acc)

/-- A loop whose condition holds and whose variable does not move never ends. -/
theorem for_le_stuck {F σ : Type} (A : Arith F) (x hi step : F) (body : F → σ → Option σ)
    (hle : A.le x hi = true) (hx : A.add x step = x) :
    ∀ (fuel : Nat) (acc : σ), for_le A fuel x hi step body acc = none := by
  intro fuel
  induction fuel with
  | zero => intro acc; rfl
  | succ n ih =>
    intro acc
    rw [for_le, if_pos hle]
    cases h : body x acc with
    | none => rfl
    | some acc1 =>
      simp only []
      rw [hx]
      exact ih acc1

/-- In exact arithmetic a loop with `n` values of its variable below the bound runs its
body on exactly these, in order. -/
theorem for_le_exact {F σ : Type} [LinearOrderedField F] (sqrt : F → F) (PI : F)
    (hi step : F) (body : F → σ → Option σ) : ∀ (n fuel : Nat) (x : F) (acc : σ),
    n < fuel → (∀ k : Nat, k < n → x + k * step ≤ hi) → hi < x + n * step →
    for_le (Arith.exact F sqrt PI) fuel x hi step body acc
      = ((List.range n).map (fun k : Nat => x + k * step)).foldlM
          (fun acc x => body x acc) acc := by
  intro n
  induction n with
  | zero =>
    intro fuel x acc hf _ hlt
    obtain ⟨m, rfl⟩ : ∃ m, fuel = m + 1 := ⟨fuel - 1, by omega⟩
    have hx : ¬ x ≤ hi := by
      have : hi < x := by simpa using hlt
      exact not_le.mpr this
    simp [for_le, Arith.exact, hx]
  | succ n ih =>
    intro fuel x acc hf hle hlt
    obtain ⟨m, rfl⟩ : ∃ m, fuel = m + 1 := ⟨fuel - 1, by omega⟩
    have hx : x ≤ hi := by simpa using hle 0 (Nat.succ_pos n)
    have hrec := fun acc1 => ih m (x + step) acc1 (by omega)
      (fun k hk => by
        have := hle (k + 1) (by omega)
        push_cast at this
        linarith)
      (by push_cast at hlt; linarith)
    have hmap : (List.range (n + 1)).map (fun k : Nat => x + k * step)
        = x :: (List.range n).map (fun k : Nat => x + step + k * step) := by
      rw [List.range_succ_eq_map, List.map_cons, List.map_map]
      congr 1
      · simp
      · apply List.map_congr_left
        intro k _
        simp only [Function.comp, Nat.succ_eq_add_one]
        push_cast
        ring
    rw [hmap, List.foldlM_cons]
    have hif : (Arith.exact F sqrt PI).le x hi = true := by simp [Arith.exact, hx]
    rw [for_le, if_pos hif]
    cases hb : body x acc with
    | none => rfl
    | some acc1 =>
      simp only [Option.some_bind, Option.bind_eq_bind]
      exact hrec acc1

/-- In exact arithmetic the three lattice loops finish for every non-zero radius: seven
values a coordinate when the radius is positive, none when it is negative. -/
theorem lattice_sums_exact {F : Type} [LinearOrderedField F] (sqrt : F → F) (PI : F)
    (fuel : Nat) (hfuel : 8 ≤ fuel) (r k2 N : F) (hr : r ≠ 0) :
    lattice_sums (Arith.exact F sqrt PI) fuel r (4 * r) k2 N
      = some ((axis_values (if 0 < r then 7 else 0) (-(4 * r) - 2 * r) (2 * r)).foldl
          (fun acc z => (axis_values (if 0 < r then 7 else 0) (-(4 * r) - 2 * r)
            (2 * r)).foldl
            (fun acc y => (axis_values (if 0 < r then 7 else 0) (-(4 * r) - 2 * r)
              (2 * r)).foldl
              (fun acc x => lattice_sample (Arith.exact F sqrt PI) k2 N x y z acc) acc)
              acc)
          { value_sum0 := 0, value_sum1 := 0, value_sum2 := 0,
            value_dot_value_sum := 0 }) := by
  have hloop : ∀ (σ : Type) (body : F → σ → Option σ) (acc : σ),
      for_le (Arith.exact F sqrt PI) fuel (-(4 * r) - 2 * r) (4 * r + 2 * r) (2 * r)
          body acc
        = (axis_values (if 0 < r then 7 else 0) (-(4 * r) - 2 * r) (2 * r)).foldlM
            (fun acc x => body x acc) acc := by
    intro σ body acc
    rcases lt_or_gt_of_ne hr with hneg | hpos
    · rw [if_neg (not_lt.mpr hneg.le)]
      exact for_le_exact sqrt PI _ _ body 0 fuel _ acc (by omega)
        (fun k hk => absurd hk (Nat.not_lt_zero k)) (by push_cast; linarith)
    · rw [if_pos hpos]
      refine for_le_exact sqrt PI _ _ body 7 fuel _ acc (by omega) (fun k hk => ?_)
        (by push_cast; linarith)
      have hk7 : (k : F) ≤ 6 := by exact_mod_cast Nat.lt_succ_iff.mp hk
      nlinarith
  have e : lattice_sums (Arith.exact F sqrt PI) fuel r (4 * r) k2 N
      = for_le (Arith.exact F sqrt PI) fuel (-(4 * r) - 2 * r) (4 * r + 2 * r) (2 * r)
        (fun z acc => for_le (Arith.exact F sqrt PI) fuel (-(4 * r) - 2 * r)
          (4 * r + 2 * r) (2 * r)
          (fun y acc => for_le (Arith.exact F sqrt PI) fuel (-(4 * r) - 2 * r)
            (4 * r + 2 * r) (2 * r)
            (fun x acc => some (lattice_sample (Arith.exact F sqrt PI) k2 N x y z acc))
            acc) acc)
        { value_sum0 := 0, value_sum1 := 0, value_sum2 := 0, value_dot_value_sum := 0 } := by
    simp [lattice_sums, Arith.exact]
  rw [e, hloop]
  simp only [hloop, foldlM_some]

theorem iterations_loop_le {F : Type} (pb p : Simulation_Params F)
    (test : Nat → Option Bool) : ∀ (n i : Nat),
    iterations (loop_events pb p test n i) ≤ n := by
  intro n
  induction n with
  | zero => intro i; simp [loop_events, iterations]
  | succ n ih =>
    intro i
    rw [iterations_loop_succ]
    have := ih (i + 1)
    split
    · split <;> omega
    · omega

theorem entry_events_quiet {F : Type} (s : Fluid F) :
    ∀ e ∈ s.entry_events, e.is_dispatch = false ∧ e.is_sort = false ∧
      e.is_prediction = false ∧ e.is_readback_or_test = false ∧
      e.is_integration = false ∧ e.is_committed = false ∧ e.is_boundary_grid = false ∧
      e.is_fluid_grid = false ∧ e.is_boundary_pressure = false ∧
      (∀ k, e.is_kernel k = false) ∧ (∀ p, e.sees_params p) := by
  intro e he
  unfold Fluid.entry_events at he
  split at he
  · rw [List.mem_singleton] at he
    subst he
    simp [Event.is_dispatch, Event.is_sort, Event.is_prediction, Event.is_readback_or_test,
      Event.is_integration, Event.is_committed, Event.is_boundary_grid,
      Event.is_fluid_grid, Event.is_boundary_pressure, Event.is_kernel, Event.sees_params]
  · cases he

theorem deduce_params_exact_isSome {F : Type} [LinearOrderedField F] (sqrt : F → F)
    (PI : F) (fuel : Nat) (hfuel : 8 ≤ fuel) (p : Simulation_Params F)
    (hr : p.particle_radius ≠ 0) :
    (deduce_params (Arith.exact F sqrt PI) fuel p).isSome = true := by
  have e : lattice_sums (Arith.exact F sqrt PI) fuel
      (deduce_kernel_constants (Arith.exact F sqrt PI) p).particle_radius
      (deduce_kernel_constants (Arith.exact F sqrt PI) p).kernel_radius
      (deduce_kernel_constants (Arith.exact F sqrt PI) p).kernel_radius2
      (deduce_kernel_constants (Arith.exact F sqrt PI) p).poly6_d1_normalization
      = lattice_sums (Arith.exact F sqrt PI) fuel p.particle_radius (4 * p.particle_radius)
        (deduce_kernel_constants (Arith.exact F sqrt PI) p).kernel_radius2
        (deduce_kernel_constants (Arith.exact F sqrt PI) p).poly6_d1_normalization := by
    simp [deduce_kernel_constants, Arith.exact]
  simp only [deduce_params]
  rw [e, lattice_sums_exact sqrt PI fuel hfuel _ _ _ hr]
  rfl

/-- A step which runs: the derivation finishes, the buffers are consistent and there is
a fluid particle. -/
theorem update_runs {F : Type} (A : Arith F) (fuel : Nat) (device : Nat → Nat → F)
    (s : Fluid F) (hn : 0 < s.params.fluid_count) (h32 : s.params.fluid_count < 2 ^ 32)
    (hc : s.consistent) (hd : s.derivation_finishes A fuel) :
    ∃ o, s.update A fuel device = some o ∧ o.status = .returned ∧
      o.state.params.base = s.params.base ∧
      o.state.queue = s.queue ++ (s.entry_events ++
        step_events o.state.params s.entry_flag (s.converged A device)) ∧
      o.state.boundary_updated = (s.entry_flag && decide (s.params.boundary_count = 0)) ∧
      o.state.params_changed = false ∧
      o.state.density_variation_threshold = s.density_variation_threshold ∧
      (∀ b : Buf, b.is_internal = false → o.state.mem_size b = s.mem_size b) := by
  have _ := hn
  obtain ⟨o, ho, hnr⟩ := update_defined A fuel device s hd
  obtain ⟨u1, _, _, _, u5, u6, u7, u8⟩ := update_spec A fuel device s o ho h32 hnr
  refine ⟨o, ho, ?_, u1, ?_, ?_, u5, u6, u7⟩
  · rcases u8 with ⟨h, _⟩ | ⟨_, _, h, _⟩
    · exact absurd hc h
    · exact h
  · rcases u8 with ⟨h, _⟩ | ⟨_, _, _, h, _⟩
    · exact absurd hc h
    · exact h
  · rcases u8 with ⟨h, _⟩ | ⟨_, _, _, _, h⟩
    · exact absurd hc h
    · exact h

theorem committed_event_facts {F : Type} (pb : Simulation_Params F) (n : Nat) :
    (committed_event pb n).is_committed = true ∧ (committed_event pb n).is_dispatch = true ∧
    (committed_event pb n).is_prediction = false ∧
    (committed_event pb n).is_readback_or_test = false ∧
    (committed_event pb n).is_boundary_grid = false ∧
    (committed_event pb n).is_boundary_pressure = false ∧
    (committed_event pb n).is_kernel .pcisph_boundary_pressure_initialization = false ∧
    (committed_event pb n).is_kernel
      .pcisph_initialize_boundary_boundary_pred_densities = false := by
  simp [committed_event, Event.is_committed, Event.is_dispatch, Event.is_prediction,
    Event.is_readback_or_test, Event.is_boundary_grid, Event.is_boundary_pressure,
    Event.is_kernel, Arg.is_buffer, Arg.is_null]

theorem setup_events_no_boundary {F : Type} (p : Simulation_Params F) (bu : Bool)
    (h : p.boundary_count = 0) :
    ∀ e ∈ setup_events p bu, e.is_boundary_grid = false ∧
      e.is_kernel .pcisph_boundary_pressure_initialization = false := by
  simp [setup_events, sort_fluid_events, initialize_forces_events, h,
    reset_offsets_event, hash_event, fluid_reorder_event, density_event, normal_event,
    force_initialization_event, Event.is_boundary_grid, Event.is_kernel, Arg.is_buffer]

theorem pcisph_events_sees_params {F : Type} (p q : Simulation_Params F) (i : Nat) :
    ∀ e ∈ pcisph_events p q i, e.sees_params p := by
  intro e he
  rcases mem_pcisph_events p q i e he with h | ⟨_, h⟩ | h | ⟨_, h⟩ | h <;> subst h <;>
    simp [prediction_event, boundary_pressure_event, fluid_pressure_event, read_event,
      pressure_force_event, Event.sees_params]

theorem setup_events_sees_params {F : Type} (p : Simulation_Params F) (bu : Bool) :
    ∀ e ∈ setup_events p bu, e.sees_params p := by
  cases bu <;> by_cases h2 : p.boundary_count > 0 <;>
    simp [setup_events, sort_boundary_events, sort_fluid_events,
      initialize_forces_events, h2, reset_offsets_event, hash_event,
      boundary_reorder_event, fluid_reorder_event, density_event, normal_event,
      boundary_pressure_initialization_event, force_initialization_event,
      Event.sees_params]

theorem step_events_sees_params {F : Type} (p : Simulation_Params F) (bu : Bool)
    (test : Nat → Option Bool) : ∀ e ∈ step_events p bu test, e.sees_params p := by
  intro e he
  rw [step_events] at he
  rcases List.mem_append.mp he with he | he
  · exact setup_events_sees_params p bu e he
  · rcases List.mem_append.mp he with he | he
    · exact loop_events_forall p p test _ (pcisph_events_sees_params p p)
        (by simp [Event.sees_params]) 7 0 e he
    · rw [List.mem_singleton] at he
      subst he
      simp [committed_event, Event.sees_params]

/-- With a radius of 0 the lattice loops of the derivation never end: the variable
starts at 0, the bound is 0 and the step is 0. -/
theorem deduce_params_exact_stuck {F : Type} [LinearOrderedField F] (sqrt : F → F)
    (PI : F) (p : Simulation_Params F) (hr : p.particle_radius = 0) (fuel : Nat) :
    deduce_params (Arith.exact F sqrt PI) fuel p = none := by
  have e : lattice_sums (Arith.exact F sqrt PI) fuel
      (deduce_kernel_constants (Arith.exact F sqrt PI) p).particle_radius
      (deduce_kernel_constants (Arith.exact F sqrt PI) p).kernel_radius
      (deduce_kernel_constants (Arith.exact F sqrt PI) p).kernel_radius2
      (deduce_kernel_constants (Arith.exact F sqrt PI) p).poly6_d1_normalization
      = none := by
    unfold lattice_sums
    apply for_le_stuck
    · simp [deduce_kernel_constants, Arith.exact, hr]
    · simp [deduce_kernel_constants, Arith.exact, hr]
  simp only [deduce_params]
  rw [e]

theorem update_exact_stuck {F : Type} [LinearOrderedField F] (sqrt : F → F)
    (PI : F) (s : Fluid F) (hc : s.params_changed = true)
    (hr : s.params.particle_radius = 0) :
    ¬ ∃ fuel device o, s.update (Arith.exact F sqrt PI) fuel device = some o := by
  rintro ⟨fuel, device, o, h⟩
  rw [update_hangs _ fuel device s hc (deduce_params_exact_stuck sqrt PI s.params hr fuel)]
    at h
  cases h

theorem new_events_filter_boundary_grid {F : Type} (s : Fluid F) (p : Simulation_Params F)
    (test : Nat → Option Bool) :
    (s.entry_events ++ step_events p s.entry_flag test).filter Event.is_boundary_grid
      = (if s.entry_flag = true ∧ p.boundary_count > 0 then sort_boundary_events p p
         else []) := by
  rw [List.filter_append, step_events_filter_boundary_grid,
    List.filter_eq_nil_iff.mpr
      (fun e he => by simp [(entry_events_quiet s e he).2.2.2.2.2.2.1]),
    List.nil_append]

/-- A step which rebuilds the boundary grid reads the cached boundary densities in its
first loop body and dispatches the kernel which computes them nowhere. -/
theorem step_events_boundary_cache {F : Type} (p : Simulation_Params F) (bu : Bool)
    (test : Nat → Option Bool) (hb : 0 < p.boundary_count) :
    (∀ e ∈ step_events p bu test,
      e.is_kernel .pcisph_initialize_boundary_boundary_pred_densities = false) ∧
    boundary_pressure_event p p.boundary_count ∈ step_events p bu test ∧
    (boundary_pressure_event p p.boundary_count).reads_boundary_init_pred_densities
      = true := by
  refine ⟨?_, ?_, ?_⟩
  · intro e he
    rw [step_events] at he
    rcases List.mem_append.mp he with he | he
    · exact (setup_events_quiet p bu e he).2.2.2.1
    · rcases List.mem_append.mp he with he | he
      · exact (loop_events_facts p p test 7 0 e he).2.2.2.2.1
      · rw [List.mem_singleton] at he
        subst he
        exact (committed_event_facts p p.fluid_count).2.2.2.2.2.2.2
  · rw [step_events]
    apply List.mem_append_right
    apply List.mem_append_left
    rw [loop_events]
    apply List.mem_append_left
    simp [pcisph_events, hb]
  · simp [boundary_pressure_event, Event.reads_boundary_init_pred_densities, Arg.is_buffer]

/-- With exact arithmetic, a radius other than 0, 32-bit counts, a fluid particle and
velocities which hold a buffer that the zeros fit in, the derivation returns. -/
theorem derivation_finishes_exact {F : Type} [LinearOrderedField F] (sqrt : F → F)
    (PI : F) (fuel : Nat) (hfuel : 8 ≤ fuel) (s : Fluid F)
    (hr : s.params.particle_radius ≠ 0) (hn : 0 < s.params.fluid_count)
    (h32 : s.params.fluid_count < 2 ^ 32) (hb : s.params.boundary_count < 2 ^ 32)
    (hv0 : s.mem_size .fluid_velocities ≠ 0)
    (hv : size_t (u32 (s.params.fluid_count * 3) * sizeof_cl_float)
      ≤ s.mem_size .fluid_velocities) :
    s.derivation_finishes (Arith.exact F sqrt PI) fuel := by
  have hs := deduce_params_exact_isSome sqrt PI fuel hfuel s.params hr
  obtain ⟨p, hp⟩ := Option.isSome_iff_exists.mp hs
  have hbase := deduce_params_base _ fuel s.params p hp
  have hf : p.fluid_count = s.params.fluid_count := congrArg (fun b => b.2.2.2.1) hbase
  have hbc : p.boundary_count = s.params.boundary_count :=
    congrArg (fun b => b.2.2.1) hbase
  have hret : (Fluid.reallocate { s with params := p }).status = .returned :=
    reallocate_returns { s with params := p } (by rw [hf]; exact hn) (by rw [hf]; exact h32)
      (by rw [hbc]; exact hb) hv0 (by rw [hf]; exact hv)
  refine Or.inr ⟨(Fluid.reallocate { s with params := p }).state, ?_⟩
  unfold Fluid.update_deduced_attributes
  rw [hp, ← hret]

theorem example_fluid_consistent : example_fluid.consistent :=
  ⟨⟨by decide, by decide, by decide, by decide, by decide, by decide, by decide, by decide⟩,
    ⟨rfl, rfl, rfl, rfl, rfl, rfl, rfl, rfl⟩⟩

theorem example_fluid_finishes : example_fluid.derivation_finishes rational_arith 8 :=
  derivation_finishes_exact _ _ 8 (le_refl 8) example_fluid
    (by simp [example_fluid, Fluid.assign_buffer, Fluid.construct, example_params])
    (by decide) (by decide) (by decide) (by decide) (by decide)

theorem reachable_invariant {F : Type} (A : Arith F) (s : Fluid F) (h : s.reachable A) :
    s.params.fluid_count < 2 ^ 32 ∧
    (s.params_changed = false → ∃ fuel, deduce_params A fuel s.params = some s.params) := by
  induction h with
  | construct thr params h => exact ⟨h, fun hc => by cases hc⟩
  | set_boundary_count s n _ ih => exact ⟨ih.1, fun hc => by cases hc⟩
  | set_fluid_count s n _ hn _ => exact ⟨hn, fun hc => by cases hc⟩
  | set_delta_t s x _ ih => exact ⟨ih.1, fun hc => by cases hc⟩
  | set_rest_density s x _ ih => exact ⟨ih.1, fun hc => by cases hc⟩
  | set_particle_radius s x _ ih => exact ⟨ih.1, fun hc => by cases hc⟩
  | set_gravity s x _ ih => exact ⟨ih.1, fun hc => by cases hc⟩
  | set_viscosity s x _ ih => exact ⟨ih.1, fun hc => by cases hc⟩
  | set_surface_tension s x _ ih => exact ⟨ih.1, fun hc => by cases hc⟩
  | set_density_variation_threshold s x _ ih => exact ih
  | assign_buffer s b n _ _ ih => exact ih
  | update s fuel device o _ ho ih =>
    rcases update_cases A fuel device s o ho with
      ⟨_, _, hpc, _, _, hb, _⟩ | ⟨t, ht, _⟩
    · have hfc : o.state.params.fluid_count = s.params.fluid_count :=
        congrArg (fun b => b.2.2.2.1) hb
      refine ⟨by rw [hfc]; exact ih.1, fun hc => ?_⟩
      rw [hpc] at hc
      cases hc
    · obtain ⟨u1, _, _, ⟨f2, u4⟩, _⟩ := update_spec A fuel device s o ho ih.1
        (by rw [ht]; exact update_checked_not_refused A device t)
      have hfc : o.state.params.fluid_count = s.params.fluid_count :=
        congrArg (fun b => b.2.2.2.1) u1
      refine ⟨by rw [hfc]; exact ih.1, fun _ => ?_⟩
      rcases u4 with u4 | ⟨hc, hp⟩
      · exact ⟨f2, u4⟩
      · rw [hp]
        exact ih.2 hc

/-- What `update` enqueues sees the parameter block it leaves. -/
theorem update_sees_params {F : Type} (A : Arith F) (fuel : Nat) (device : Nat → Nat → F)
    (s : Fluid F) (o : Outcome F) (h : s.update A fuel device = some o)
    (h32 : s.params.fluid_count < 2 ^ 32) :
    ∃ new, o.state.queue = s.queue ++ new ∧ ∀ e ∈ new, e.sees_params o.state.params := by
  rcases update_cases A fuel device s o h with ⟨_, _, _, hq, _⟩ | ⟨t, ht, _⟩
  · exact ⟨[], by rw [hq, List.append_nil], fun e he => by cases he⟩
  · obtain ⟨_, _, _, _, _, _, _, u8⟩ := update_spec A fuel device s o h h32
      (by rw [ht]; exact update_checked_not_refused A device t)
    rcases u8 with ⟨_, _, hq, _⟩ | ⟨_, _, _, hq, _⟩
    · exact ⟨_, hq, fun e he => (entry_events_quiet s e he).2.2.2.2.2.2.2.2.2.2 _⟩
    · refine ⟨_, hq, fun e he => ?_⟩
      rcases List.mem_append.mp he with he | he
      · exact (entry_events_quiet s e he).2.2.2.2.2.2.2.2.2.2 _
      · exact step_events_sees_params _ _ _ e he

/-- A consistent engine whose derivation finishes: `update` returns normally, and leaves
a consistent engine with the same base parameters and no derivation due. -/
theorem update_returns {F : Type} (A : Arith F) (fuel : Nat) (device : Nat → Nat → F)
    (s : Fluid F) (h32 : s.params.fluid_count < 2 ^ 32) (hc : s.consistent)
    (hd : s.derivation_finishes A fuel) :
    ∃ o, s.update A fuel device = some o ∧ o.status = .returned ∧
      o.state.params.base = s.params.base ∧ o.state.consistent ∧
      o.state.params_changed = false := by
  obtain ⟨o, ho, hnr⟩ := update_defined A fuel device s hd
  obtain ⟨u1, _, _, _, u5, _, u7, u8⟩ := update_spec A fuel device s o ho h32 hnr
  refine ⟨o, ho, ?_, u1, (consistent_of_base s o.state u1 u7).mpr hc, u5⟩
  rcases u8 with ⟨h, _⟩ | ⟨_, _, h, _⟩
  · exact absurd hc h
  · exact h

/-- Without a fluid particle an `update` which comes to an end does not return: the
creation of a buffer of 0 bytes is refused when the parameters are derived anew, and
`checkBuffersConsistent` throws otherwise. -/
theorem update_without_particles {F : Type} (A : Arith F) (fuel : Nat)
    (device : Nat → Nat → F) (s : Fluid F) (o : Outcome F)
    (h0 : s.params.fluid_count = 0) (h : s.update A fuel device = some o) :
    o.status ≠ .returned ∧
    (s.params_changed = true → o.status = .thrown (Error.cl .clCreateBuffer)) ∧
    (s.params_changed = false →
      o.status = .thrown (Error.cl .clGetMemObjectInfo) ∨
        o.status.is_inconsistent = true) ∧
    ∃ new, o.state.queue = s.queue ++ new ∧
      ∀ e ∈ new, e.is_dispatch = false ∧ e.is_sort = false := by
  have h32 : s.params.fluid_count < 2 ^ 32 := by rw [h0]; norm_num
  have hnc : ¬ s.consistent := fun hc => by
    have := consistent_pos s hc
    omega
  by_cases hpc : s.params_changed = true
  · rcases hp : deduce_params A fuel s.params with _ | p
    · rw [update_hangs A fuel device s hpc hp] at h
      cases h
    · have hfc : p.fluid_count = 0 := by
        rw [← h0]
        exact congrArg (fun b => b.2.2.2.1) (deduce_params_base A fuel s.params p hp)
      have hst := reallocate_empty { s with params := p } hfc
      have hq := (reallocate_spec { s with params := p }).2.2.2.2
      rw [update_dirty A fuel device s hpc p hp,
        andThen_of_refused _ _ (by rw [hst]; rfl)] at h
      have ho := Option.some.inj h
      subst ho
      refine ⟨(by rw [hst]; exact fun c => by cases c), fun _ => hst, fun c => ?_,
        [], ?_, fun e he => absurd he (List.not_mem_nil e)⟩
      · rw [hpc] at c
        cases c
      · rcases hq with ⟨hr, _⟩ | ⟨_, hq, _⟩
        · rw [hst] at hr
          cases hr
        · rw [hq, List.append_nil]
  · have hpc2 : s.params_changed = false := by simpa using hpc
    rw [update_clean A fuel device s hpc2] at h
    have ho := Option.some.inj h
    have hnr : o.status.is_refused = false := by
      rw [← ho]
      exact update_checked_not_refused A device s
    obtain ⟨_, _, _, _, _, _, _, u8⟩ := update_spec A fuel device s o
      (by rw [update_clean A fuel device s hpc2, ho]) h32 hnr
    rcases u8 with ⟨_, hs, hq, _⟩ | ⟨hc, _⟩
    · refine ⟨fun c => ?_, fun c => absurd c hpc, fun _ => ?_, _, hq, fun e he =>
        ⟨(entry_events_quiet s e he).1, (entry_events_quiet s e he).2.1⟩⟩
      · rcases hs with hs | ⟨hs, _⟩ <;>
          · rw [c] at hs
            cases hs
      · rcases hs with hs | ⟨hs, _⟩
        · exact Or.inr hs
        · exact Or.inl hs
    · exact absurd hc hnc

/-- An `update` comes to an end when the derivation is not due or its lattice loops
finish. -/
theorem update_comes_to_an_end {F : Type} (A : Arith F) (fuel : Nat)
    (device : Nat → Nat → F) (s : Fluid F)
    (hfin : s.params_changed = false ∨ (deduce_params A fuel s.params).isSome = true) :
    ∃ o, s.update A fuel device = some o := by
  by_cases hpc : s.params_changed = true
  · rcases hfin with hfin | hfin
    · rw [hpc] at hfin
      cases hfin
    · obtain ⟨p, hp⟩ := Option.isSome_iff_exists.mp hfin
      exact ⟨_, update_dirty A fuel device s hpc p hp⟩
  · exact ⟨_, update_clean A fuel device s (by simpa using hpc)⟩

/-- One pass of the loop of `main` when the update returns normally. -/
theorem simulate_pass {F : Type} (A : Arith F) (fuel steps : Nat)
    (devices : Nat → Nat → Nat → F) (m : Main_Loop F) (o : Outcome F)
    (ho : m.fluid.update A fuel (devices 0) = some o) (hs : o.status = .returned) :
    Main_Loop.simulate A fuel (steps + 1) devices m =
      if m.recording = true ∧
          A.le (A.sub (A.add m.simulation_time o.state.params.delta_t)
            m.last_recorded_frame_time) m.recording_interval = true then
        (Main_Loop.simulate A fuel steps (fun k => devices (k + 1))
          (Main_Loop.mk m.recording m.recording_interval
            (A.add m.simulation_time o.state.params.delta_t) m.last_recorded_frame_time
            o.state)).map
          fun f => Frame.mk f.status (f.updates + 1) f.state
      else some (Frame.mk .returned 1
        (Main_Loop.mk m.recording m.recording_interval
          (A.add m.simulation_time o.state.params.delta_t) m.last_recorded_frame_time
          o.state)) := by
  rw [Main_Loop.simulate]
  simp only [ho, hs, if_true]

/-- A frame of the loop of `main` which does not record: one update, one `delta_t`. -/
theorem simulate_once {F : Type} (A : Arith F) (fuel steps : Nat)
    (devices : Nat → Nat → Nat → F) (m : Main_Loop F)
    (h32 : m.fluid.params.fluid_count < 2 ^ 32) (hc : m.fluid.consistent)
    (hd : m.fluid.derivation_finishes A fuel) (hrec : m.recording = false) :
    ∃ f o, Main_Loop.simulate A fuel (steps + 1) devices m = some f ∧
      m.fluid.update A fuel (devices 0) = some o ∧ f.state.fluid = o.state ∧
      f.status = .returned ∧ f.updates = 1 ∧
      f.state.simulation_time = A.add m.simulation_time m.fluid.params.delta_t := by
  obtain ⟨o, ho, hs, hb, _, _⟩ := update_returns A fuel (devices 0) m.fluid h32 hc hd
  have hdt : o.state.params.delta_t = m.fluid.params.delta_t :=
    congrArg (fun b => b.2.2.2.2.2.2.2) hb
  refine ⟨Frame.mk .returned 1
    (Main_Loop.mk m.recording m.recording_interval
      (A.add m.simulation_time o.state.params.delta_t) m.last_recorded_frame_time
      o.state), o, ?_, ho, rfl, rfl, rfl, ?_⟩
  · rw [simulate_pass A fuel steps devices m o ho hs, if_neg]
    rw [hrec]
    simp
  · simp only [hdt]

/-- A recording frame in exact arithmetic: `n` updates when `n` is the least number of
time steps which carry the time since the last recorded frame over the interval. -/
theorem simulate_recording {F : Type} [LinearOrderedField F] (sqrt : F → F) (PI : F)
    (fuel : Nat) : ∀ (j steps : Nat) (devices : Nat → Nat → Nat → F) (m : Main_Loop F),
    j + 1 ≤ steps → m.recording = true → m.fluid.params.fluid_count < 2 ^ 32 →
    m.fluid.consistent → m.fluid.derivation_finishes (Arith.exact F sqrt PI) fuel →
    (∀ k : Nat, 1 ≤ k → k < j + 1 →
      m.simulation_time - m.last_recorded_frame_time + k * m.fluid.params.delta_t
        ≤ m.recording_interval) →
    m.recording_interval < m.simulation_time - m.last_recorded_frame_time
      + ((j + 1 : Nat) : F) * m.fluid.params.delta_t →
    ∃ f, Main_Loop.simulate (Arith.exact F sqrt PI) fuel steps devices m = some f ∧
      f.status = .returned ∧ f.updates = j + 1 ∧
      f.state.simulation_time
        = m.simulation_time + ((j + 1 : Nat) : F) * m.fluid.params.delta_t ∧
      f.state.last_recorded_frame_time = m.last_recorded_frame_time ∧
      f.state.recording_interval = m.recording_interval ∧
      f.state.recording = true := by
  intro j
  induction j with
  | zero =>
    intro steps devices m hsteps hrec h32 hc hd _ hlt
    obtain ⟨st, rfl⟩ : ∃ st, steps = st + 1 := ⟨steps - 1, by omega⟩
    obtain ⟨o, ho, hs, hb, _, _⟩ :=
      update_returns (Arith.exact F sqrt PI) fuel (devices 0) m.fluid h32 hc hd
    have hdt : o.state.params.delta_t = m.fluid.params.delta_t :=
      congrArg (fun b => b.2.2.2.2.2.2.2) hb
    have hcond : ¬ (m.recording = true ∧
        (Arith.exact F sqrt PI).le ((Arith.exact F sqrt PI).sub
          ((Arith.exact F sqrt PI).add m.simulation_time o.state.params.delta_t)
          m.last_recorded_frame_time) m.recording_interval = true) := by
      rintro ⟨_, h⟩
      simp only [Arith.exact, decide_eq_true_eq, hdt] at h
      push_cast at hlt
      linarith
    refine ⟨Frame.mk .returned 1
      (Main_Loop.mk m.recording m.recording_interval
        ((Arith.exact F sqrt PI).add m.simulation_time o.state.params.delta_t)
        m.last_recorded_frame_time o.state), ?_, rfl, rfl, ?_, rfl, rfl, hrec⟩
    · rw [simulate_pass _ fuel st devices m o ho hs, if_neg hcond]
    · simp only [Arith.exact, hdt]
      push_cast
      ring
  | succ j ih =>
    intro steps devices m hsteps hrec h32 hc hd hle hlt
    obtain ⟨st, rfl⟩ : ∃ st, steps = st + 1 := ⟨steps - 1, by omega⟩
    obtain ⟨o, ho, hs, hb, hc2, hpc⟩ :=
      update_returns (Arith.exact F sqrt PI) fuel (devices 0) m.fluid h32 hc hd
    have hdt : o.state.params.delta_t = m.fluid.params.delta_t :=
      congrArg (fun b => b.2.2.2.2.2.2.2) hb
    have hfc : o.state.params.fluid_count = m.fluid.params.fluid_count :=
      congrArg (fun b => b.2.2.2.1) hb
    have hcond : m.recording = true ∧
        (Arith.exact F sqrt PI).le ((Arith.exact F sqrt PI).sub
          ((Arith.exact F sqrt PI).add m.simulation_time o.state.params.delta_t)
          m.last_recorded_frame_time) m.recording_interval = true := by
      refine ⟨hrec, ?_⟩
      simp only [Arith.exact, decide_eq_true_eq, hdt]
      have := hle 1 (le_refl 1) (by omega)
      push_cast at this
      linarith
    obtain ⟨f, hf, f1, f2, f3, f4, f5, f6⟩ := ih st (fun k => devices (k + 1))
      (Main_Loop.mk m.recording m.recording_interval
        ((Arith.exact F sqrt PI).add m.simulation_time o.state.params.delta_t)
        m.last_recorded_frame_time o.state)
      (by omega) hrec (by rw [← hfc] at h32; exact h32) hc2 (Or.inl hpc)
      (fun k k1 kj => by
        have := hle (k + 1) (by omega) (by omega)
        simp only [Arith.exact, hdt]
        push_cast at this
        linarith)
      (by
        simp only [Arith.exact, hdt]
        push_cast at hlt ⊢
        linarith)
    refine ⟨Frame.mk f.status (f.updates + 1) f.state, ?_, f1, ?_, ?_, f4, f5, f6⟩
    · rw [simulate_pass _ fuel st devices m o ho hs, if_pos hcond, hf]
      rfl
    · simp only [f2]
    · simp only [f3, Arith.exact, hdt]
      push_cast
      ring

/-! ## Lemmas: the lattice sums in exact arithmetic -/

theorem lattice_sample_exact {F : Type} [LinearOrderedField F] (sqrt : F → F) (PI : F)
    (hs : ∀ x : F, 0 ≤ x → sqrt x * sqrt x = x) (N h x y z : F) (acc : Lattice_Sums F) :
    lattice_sample (Arith.exact F sqrt PI) (h ^ 2) N x y z acc
      = { value_sum0 := acc.value_sum0 + spec_sample_weight N h x y z * x,
          value_sum1 := acc.value_sum1 + spec_sample_weight N h x y z * y,
          value_sum2 := acc.value_sum2 + spec_sample_weight N h x y z * z,
          value_dot_value_sum := acc.value_dot_value_sum +
            ((spec_sample_weight N h x y z * x) ^ 2 + (spec_sample_weight N h x y z * y) ^ 2
              + (spec_sample_weight N h x y z * z) ^ 2) } := by
  have hsq : sqrt (x * x + y * y + z * z) * sqrt (x * x + y * y + z * z)
      = x * x + y * y + z * z :=
    hs _ (by nlinarith [mul_self_nonneg x, mul_self_nonneg y, mul_self_nonneg z])
  simp only [lattice_sample, Arith.exact, hsq, spec_sample_weight]
  by_cases hcond : x * x + y * y + z * z < h ^ 2
  · simp only [hcond, decide_True, if_true]
    congr 1 <;> ring
  · simp only [hcond, decide_False, if_false, Bool.false_eq_true]
    cases acc
    simp

theorem foldl_lattice {α F : Type} [LinearOrderedField F]
    (f : α → Lattice_Sums F → Lattice_Sums F) (c0 c1 c2 cd : α → F)
    (hf : ∀ a acc, f a acc
      = { value_sum0 := acc.value_sum0 + c0 a, value_sum1 := acc.value_sum1 + c1 a,
          value_sum2 := acc.value_sum2 + c2 a,
          value_dot_value_sum := acc.value_dot_value_sum + cd a })
    (l : List α) : ∀ acc : Lattice_Sums F,
    l.foldl (fun acc a => f a acc) acc
      = { value_sum0 := acc.value_sum0 + (l.map c0).sum,
          value_sum1 := acc.value_sum1 + (l.map c1).sum,
          value_sum2 := acc.value_sum2 + (l.map c2).sum,
          value_dot_value_sum := acc.value_dot_value_sum + (l.map cd).sum } := by
  induction l with
  | nil => intro acc; cases acc; simp
  | cons a l ih =>
    intro acc
    rw [List.foldl_cons, ih, hf]
    simp only [List.map_cons, List.sum_cons, add_assoc]

/-- The three nested folds of the lattice loops are the four lattice sums. -/
theorem lattice_fold_exact {F : Type} [LinearOrderedField F] (sqrt : F → F) (PI : F)
    (hs : ∀ x : F, 0 ≤ x → sqrt x * sqrt x = x) (N h : F) (axis : List F) :
    axis.foldl
      (fun acc z => axis.foldl
        (fun acc y => axis.foldl
          (fun acc x => lattice_sample (Arith.exact F sqrt PI) (h ^ 2) N x y z acc) acc)
          acc)
      { value_sum0 := 0, value_sum1 := 0, value_sum2 := 0, value_dot_value_sum := 0 }
      = { value_sum0 := 0 + spec_lattice_sum axis
            (fun x y z => spec_sample_weight N h x y z * x),
          value_sum1 := 0 + spec_lattice_sum axis
            (fun x y z => spec_sample_weight N h x y z * y),
          value_sum2 := 0 + spec_lattice_sum axis
            (fun x y z => spec_sample_weight N h x y z * z),
          value_dot_value_sum := 0 + spec_lattice_sum axis
            (fun x y z => (spec_sample_weight N h x y z * x) ^ 2
              + (spec_sample_weight N h x y z * y) ^ 2
              + (spec_sample_weight N h x y z * z) ^ 2) } := by
  have hx : ∀ (y z : F) (acc : Lattice_Sums F),
      axis.foldl
        (fun acc x => lattice_sample (Arith.exact F sqrt PI) (h ^ 2) N x y z acc) acc
      = _ := fun y z acc =>
    foldl_lattice (fun x acc => lattice_sample (Arith.exact F sqrt PI) (h ^ 2) N x y z acc)
      _ _ _ _ (fun x acc => lattice_sample_exact sqrt PI hs N h x y z acc) axis acc
  have hy : ∀ (z : F) (acc : Lattice_Sums F),
      axis.foldl
        (fun acc y => axis.foldl
          (fun acc x => lattice_sample (Arith.exact F sqrt PI) (h ^ 2) N x y z acc) acc)
        acc
      = _ := fun z acc =>
    foldl_lattice (fun y acc => axis.foldl
        (fun acc x => lattice_sample (Arith.exact F sqrt PI) (h ^ 2) N x y z acc) acc)
      _ _ _ _ (fun y acc => hx y z acc) axis acc
  exact foldl_lattice (fun z acc => axis.foldl
      (fun acc y => axis.foldl
        (fun acc x => lattice_sample (Arith.exact F sqrt PI) (h ^ 2) N x y z acc) acc)
        acc)
    _ _ _ _ (fun z acc => hy z acc) axis _

theorem scaling_factor_exact {F : Type} [LinearOrderedField F] (sqrt : F → F) (PI : F)
    (b S0 S1 S2 Q : F) :
    scaling_factor (Arith.exact F sqrt PI) b
      { value_sum0 := 0 + S0, value_sum1 := 0 + S1, value_sum2 := 0 + S2,
        value_dot_value_sum := 0 + Q }
      = (-1) / (b * (-(S0 ^ 2 + S1 ^ 2 + S2 ^ 2) - Q)) := by
  simp only [scaling_factor, Arith.exact, Nat.cast_zero, Nat.cast_one, zero_add]
  congr 1
  ring

theorem beta_exact {F : Type} [LinearOrderedField F] (sqrt : F → F) (PI : F)
    (dt m rd : F) :
    beta (Arith.exact F sqrt PI) dt m rd = dt ^ 2 * m ^ 2 * 2 / rd ^ 2 := by
  simp only [beta, Arith.exact, Nat.cast_ofNat]
  ring

/-- In exact arithmetic with an exact square root the derivation finishes for a positive
radius, with the scaling factor of the specification. -/
theorem deduce_params_exact_scaling {F : Type} [LinearOrderedField F] (sqrt : F → F)
    (PI : F) (hs : ∀ x : F, 0 ≤ x → sqrt x * sqrt x = x) (fuel : Nat) (hfuel : 8 ≤ fuel)
    (p : Simulation_Params F) (hr : 0 < p.particle_radius) :
    ∃ q, deduce_params (Arith.exact F sqrt PI) fuel p = some q ∧
      q.density_variation_scaling_factor
        = spec_scaling_factor PI p.particle_radius p.rest_density p.delta_t := by
  have e : lattice_sums (Arith.exact F sqrt PI) fuel
      (deduce_kernel_constants (Arith.exact F sqrt PI) p).particle_radius
      (deduce_kernel_constants (Arith.exact F sqrt PI) p).kernel_radius
      (deduce_kernel_constants (Arith.exact F sqrt PI) p).kernel_radius2
      (deduce_kernel_constants (Arith.exact F sqrt PI) p).poly6_d1_normalization
      = lattice_sums (Arith.exact F sqrt PI) fuel p.particle_radius (4 * p.particle_radius)
        ((4 * p.particle_radius) ^ 2)
        (-945 / (32 * PI * (4 * p.particle_radius) ^ 9)) := by
    simp [deduce_kernel_constants, Arith.exact]
  have hm : (deduce_kernel_constants (Arith.exact F sqrt PI) p).particle_mass
      = p.rest_density / (1 / (2 * p.particle_radius)) ^ 3 := by
    simp [deduce_kernel_constants, Arith.exact]
  have hrd : (deduce_kernel_constants (Arith.exact F sqrt PI) p).rest_density
      = p.rest_density := rfl
  have hdt : (deduce_kernel_constants (Arith.exact F sqrt PI) p).delta_t = p.delta_t := rfl
  simp only [deduce_params]
  rw [e, lattice_sums_exact sqrt PI fuel hfuel _ _ _ hr.ne.symm, if_pos hr,
    lattice_fold_exact sqrt PI hs]
  refine ⟨_, rfl, ?_⟩
  show scaling_factor (Arith.exact F sqrt PI)
    (beta (Arith.exact F sqrt PI)
      (deduce_kernel_constants (Arith.exact F sqrt PI) p).delta_t
      (deduce_kernel_constants (Arith.exact F sqrt PI) p).particle_mass
      (deduce_kernel_constants (Arith.exact F sqrt PI) p).rest_density) _ = _
  rw [scaling_factor_exact, beta_exact, hm, hrd, hdt]
  rfl

/-! ## Lemmas: the kernel constants in exact arithmetic -/

theorem kernel_constants_exact {F : Type} [LinearOrderedField F] (sqrt : F → F) (PI : F)
    (p : Simulation_Params F) :
    (deduce_kernel_constants (Arith.exact F sqrt PI) p).kernel_radius
      = 4 * p.particle_radius ∧
    (deduce_kernel_constants (Arith.exact F sqrt PI) p).kernel_radius2
      = (4 * p.particle_radius) ^ 2 ∧
    (deduce_kernel_constants (Arith.exact F sqrt PI) p).kernel_radius2
      = 16 * p.particle_radius ^ 2 ∧
    (deduce_kernel_constants (Arith.exact F sqrt PI) p).cell_size
      = (deduce_kernel_constants (Arith.exact F sqrt PI) p).kernel_radius ∧
    (deduce_kernel_constants (Arith.exact F sqrt PI) p).particle_mass
      = p.rest_density / (1 / (2 * p.particle_radius)) ^ 3 ∧
    (deduce_kernel_constants (Arith.exact F sqrt PI) p).particle_mass
      = p.rest_density * (2 * p.particle_radius) ^ 3 := by
  have h1 : (deduce_kernel_constants (Arith.exact F sqrt PI) p).kernel_radius
      = 4 * p.particle_radius := by
    simp [deduce_kernel_constants, Arith.exact]
  have h2 : (deduce_kernel_constants (Arith.exact F sqrt PI) p).kernel_radius2
      = (4 * p.particle_radius) ^ 2 := by
    simp [deduce_kernel_constants, Arith.exact]
  have h3 : (deduce_kernel_constants (Arith.exact F sqrt PI) p).particle_mass
      = p.rest_density / (1 / (2 * p.particle_radius)) ^ 3 := by
    simp [deduce_kernel_constants, Arith.exact]
  refine ⟨h1, h2, ?_, rfl, h3, ?_⟩
  · rw [h2]
    ring
  · rw [h3]
    field_simp

theorem normalization_constants_exact {F : Type} [LinearOrderedField F] (sqrt : F → F) (PI : F)
    (p : Simulation_Params F) :
    (deduce_kernel_constants (Arith.exact F sqrt PI) p).poly6_normalization
      = 315 / (64 * PI * (4 * p.particle_radius) ^ 9) ∧
    (deduce_kernel_constants (Arith.exact F sqrt PI) p).poly6_d1_normalization
      = -945 / (32 * PI * (4 * p.particle_radius) ^ 9) ∧
    (deduce_kernel_constants (Arith.exact F sqrt PI) p).viscosity_d2_normalization
      = 45 / (PI * (4 * p.particle_radius) ^ 6) ∧
    (deduce_kernel_constants (Arith.exact F sqrt PI) p).spiky_d1_normalization
      = -45 / (PI * (4 * p.particle_radius) ^ 6) ∧
    (deduce_kernel_constants (Arith.exact F sqrt PI) p).surface_tension_normalization
      = 32 / (PI * (4 * p.particle_radius) ^ 9) ∧
    (deduce_kernel_constants (Arith.exact F sqrt PI) p).surface_tension_term
      = (4 * p.particle_radius) ^ 6 / 64 ∧
    (deduce_kernel_constants (Arith.exact F sqrt PI) p).spiky_d1_normalization
      = -(deduce_kernel_constants (Arith.exact F sqrt PI) p).viscosity_d2_normalization ∧
    (deduce_kernel_constants (Arith.exact F sqrt PI) p).poly6_d1_normalization
      = -6 * (deduce_kernel_constants (Arith.exact F sqrt PI) p).poly6_normalization := by
  have h1 : (deduce_kernel_constants (Arith.exact F sqrt PI) p).poly6_normalization
      = 315 / (64 * PI * (4 * p.particle_radius) ^ 9) := by
    simp [deduce_kernel_constants, Arith.exact]
  have h2 : (deduce_kernel_constants (Arith.exact F sqrt PI) p).poly6_d1_normalization
      = -945 / (32 * PI * (4 * p.particle_radius) ^ 9) := by
    simp [deduce_kernel_constants, Arith.exact]
  have h3 : (deduce_kernel_constants (Arith.exact F sqrt PI) p).viscosity_d2_normalization
      = 45 / (PI * (4 * p.particle_radius) ^ 6) := by
    simp [deduce_kernel_constants, Arith.exact]
  have h4 : (deduce_kernel_constants (Arith.exact F sqrt PI) p).spiky_d1_normalization
      = -45 / (PI * (4 * p.particle_radius) ^ 6) := by
    simp [deduce_kernel_constants, Arith.exact]
  have h5 : (deduce_kernel_constants (Arith.exact F sqrt PI) p).surface_tension_normalization
      = 32 / (PI * (4 * p.particle_radius) ^ 9) := by
    simp [deduce_kernel_constants, Arith.exact]
  have h6 : (deduce_kernel_constants (Arith.exact F sqrt PI) p).surface_tension_term
      = (4 * p.particle_radius) ^ 6 / 64 := by
    simp [deduce_kernel_constants, Arith.exact]
  refine ⟨h1, h2, h3, h4, h5, h6, ?_, ?_⟩
  · rw [h4, h3, neg_div]
  · rw [h2, h1]
    rw [show (64 : F) * PI * (4 * p.particle_radius) ^ 9
      = 2 * (32 * PI * (4 * p.particle_radius) ^ 9) by ring]
    rw [show (-6 : F) * (315 / (2 * (32 * PI * (4 * p.particle_radius) ^ 9)))
      = (2 * (-945)) / (2 * (32 * PI * (4 * p.particle_radius) ^ 9)) by ring]
    rw [mul_div_mul_left _ _ (two_ne_zero)]

/-- In exact arithmetic the derivation finishes for a non-zero radius, and what it
returns has the kernel constants assigned before the lattice loops. -/
theorem deduce_params_exact_constants {F : Type} [LinearOrderedField F] (sqrt : F → F)
    (PI : F) (p : Simulation_Params F) (hr : p.particle_radius ≠ 0) :
    ∃ q v, deduce_params (Arith.exact F sqrt PI) 8 p = some q ∧
      q = { deduce_kernel_constants (Arith.exact F sqrt PI) p with
            density_variation_scaling_factor := v } := by
  have h := deduce_params_exact_isSome sqrt PI 8 (le_refl 8) p hr
  rcases hq : deduce_params (Arith.exact F sqrt PI) 8 p with _ | q
  · rw [hq] at h
    cases h
  · obtain ⟨v, hv⟩ := deduce_params_eq _ 8 p q hq
    exact ⟨q, v, rfl, hv⟩

/-! ## Lemmas: the spec-modelled sort and offset table -/

theorem mem_spec_insert (a x : Nat × Nat) : ∀ l : List (Nat × Nat),
    x ∈ spec_insert a l ↔ x = a ∨ x ∈ l := by
  intro l
  induction l with
  | nil => simp [spec_insert]
  | cons b t ih =>
    rw [spec_insert]
    split
    · simp
    · simp only [List.mem_cons, ih]
      tauto

theorem spec_insert_perm (a : Nat × Nat) : ∀ l : List (Nat × Nat),
    (spec_insert a l).Perm (a :: l) := by
  intro l
  induction l with
  | nil => exact List.Perm.refl _
  | cons b t ih =>
    rw [spec_insert]
    split
    · exact List.Perm.refl _
    · exact (List.Perm.cons b ih).trans (List.Perm.swap a b t)

theorem spec_radixsort_perm : ∀ l : List (Nat × Nat), (spec_radixsort l).Perm l := by
  intro l
  induction l with
  | nil => exact List.Perm.refl _
  | cons a t ih =>
    rw [spec_radixsort]
    exact (spec_insert_perm a _).trans (List.Perm.cons a ih)

/-- An inserted pair which precedes every pair of a stably sorted list in the input
keeps the list stably sorted. -/
theorem spec_insert_stable (a : Nat × Nat) : ∀ l : List (Nat × Nat),
    l.Pairwise (fun x y => x.1 < y.1 ∨ (x.1 = y.1 ∧ x.2 < y.2)) →
    (∀ b ∈ l, a.2 < b.2) →
    (spec_insert a l).Pairwise (fun x y => x.1 < y.1 ∨ (x.1 = y.1 ∧ x.2 < y.2)) := by
  intro l
  induction l with
  | nil => intro _ _; simp [spec_insert]
  | cons b t ih =>
    intro hp ha
    rw [List.pairwise_cons] at hp
    rw [spec_insert]
    split
    · rename_i hab
      rw [List.pairwise_cons]
      refine ⟨?_, List.pairwise_cons.mpr hp⟩
      intro x hx
      have hax := ha x hx
      have hbx : b.1 ≤ x.1 := by
        rcases List.mem_cons.mp hx with rfl | hx
        · exact le_refl _
        · rcases hp.1 x hx with h | h
          · exact h.le
          · exact h.1.le
      rcases Nat.lt_or_ge a.1 x.1 with h | h
      · exact Or.inl h
      · exact Or.inr ⟨by omega, hax⟩
    · rename_i hab
      rw [List.pairwise_cons]
      refine ⟨?_, ih hp.2 (fun x hx => ha x (List.mem_cons_of_mem _ hx))⟩
      intro x hx
      rcases (mem_spec_insert a x t).mp hx with rfl | hx
      · exact Or.inl (by omega)
      · exact hp.1 x hx

theorem spec_radixsort_stable : ∀ l : List (Nat × Nat),
    l.Pairwise (fun x y => x.2 < y.2) →
    (spec_radixsort l).Pairwise (fun x y => x.1 < y.1 ∨ (x.1 = y.1 ∧ x.2 < y.2)) := by
  intro l
  induction l with
  | nil => intro _; simp [spec_radixsort]
  | cons a t ih =>
    intro hp
    rw [List.pairwise_cons] at hp
    rw [spec_radixsort]
    exact spec_insert_stable a _ (ih hp.2)
      (fun b hb => hp.1 b ((spec_radixsort_perm t).mem_iff.mp hb))

theorem spec_initialize_keys_increasing (hash : Nat → Nat) (count : Nat) :
    (spec_initialize_keys hash count).Pairwise (fun x y => x.2 < y.2) := by
  rw [spec_initialize_keys, List.pairwise_map]
  exact List.pairwise_lt_range count

/-- In a sorted list the keys below `c` come first: index `i` is past them exactly when
its key is at least `c`. -/
theorem countP_lt_le_iff : ∀ (ks : List Nat), ks.Pairwise (fun x y => x ≤ y) →
    ∀ (c i : Nat) (hi : i < ks.length),
      (ks.countP (fun k => decide (k < c)) ≤ i ↔ c ≤ ks.get ⟨i, hi⟩) := by
  intro ks
  induction ks with
  | nil => intro _ c i hi; cases hi
  | cons a t ih =>
    intro hp c i hi
    rw [List.pairwise_cons] at hp
    rw [List.countP_cons]
    have hzero : c ≤ a → t.countP (fun k => decide (k < c)) = 0 := by
      intro hca
      rw [List.countP_eq_zero]
      intro b hb
      have := hp.1 b hb
      simp only [decide_eq_true_eq]
      omega
    cases i with
    | zero =>
      simp only [List.get_eq_getElem, List.getElem_cons_zero]
      by_cases hac : a < c
      · simp [hac]
      · simp only [hac, decide_False, Bool.false_eq_true, if_false, Nat.add_zero]
        rw [hzero (by omega)]
        constructor
        · intro _
          omega
        · intro _
          exact le_refl 0
    | succ j =>
      have hj : j < t.length := by simpa using hi
      have hget : (a :: t).get ⟨j + 1, hi⟩ = t.get ⟨j, hj⟩ := rfl
      rw [hget]
      by_cases hac : a < c
      · simp only [hac, decide_True, if_true]
        rw [← ih hp.2 c j hj]
        omega
      · simp only [hac, decide_False, Bool.false_eq_true, if_false, Nat.add_zero]
        rw [hzero (by omega)]
        have := hp.1 _ (List.get_mem t j hj)
        constructor
        · intro _
          omega
        · intro _
          omega

theorem countP_le_lt_iff (ks : List Nat) (hp : ks.Pairwise (fun x y => x ≤ y))
    (c i : Nat) (hi : i < ks.length) :
    (i < ks.countP (fun k => decide (k ≤ c)) ↔ ks.get ⟨i, hi⟩ ≤ c) := by
  have h := countP_lt_le_iff ks hp (c + 1) i hi
  have e : ks.countP (fun k => decide (k ≤ c)) = ks.countP (fun k => decide (k < c + 1)) := by
    congr 1
    funext k
    simp [Nat.lt_succ_iff]
  rw [e]
  constructor
  · intro h1
    by_contra h2
    have := h.mpr (by omega)
    omega
  · intro h1
    by_contra h2
    have := h.mp (by omega)
    omega

theorem spec_offsets_entries (bucket_count : Nat) (keys : List Nat) (c : Nat)
    (hc : c < bucket_count) :
    (spec_offsets bucket_count keys).getD (2 * c) 0
      = keys.countP (fun k => decide (k < c)) ∧
    (spec_offsets bucket_count keys).getD (2 * c + 1) 0
      = keys.countP (fun k => decide (k ≤ c)) ∧
    (spec_offsets bucket_count keys).length = 2 * bucket_count := by
  have h0 : 2 * c < ((List.range (2 * bucket_count)).map fun j =>
      if j % 2 = 0 then keys.countP (fun k => decide (k < j / 2))
      else keys.countP (fun k => decide (k ≤ j / 2))).length := by
    simp
    omega
  have h1 : 2 * c + 1 < ((List.range (2 * bucket_count)).map fun j =>
      if j % 2 = 0 then keys.countP (fun k => decide (k < j / 2))
      else keys.countP (fun k => decide (k ≤ j / 2))).length := by
    simp
    omega
  refine ⟨?_, ?_, by simp [spec_offsets]⟩
  · rw [spec_offsets, List.getD_eq_getElem _ _ h0, List.getElem_map, List.getElem_range]
    have e1 : 2 * c % 2 = 0 := by omega
    have e2 : 2 * c / 2 = c := by omega
    simp only [e1, e2, if_true]
  · rw [spec_offsets, List.getD_eq_getElem _ _ h1, List.getElem_map, List.getElem_range]
    have e1 : (2 * c + 1) % 2 = 1 := by omega
    have e2 : (2 * c + 1) / 2 = c := by omega
    simp only [e1, e2]
    simp

/-! ## The PCISPH loop (C1, C2, C3) -/

/-- C1. In every `update` with a fluid particle, whatever the device reads back, the
loop body runs at most 7 times, and every readback of the density variations and every
wait for the convergence test has at least three bodies begun before it: it belongs to
an iteration of index 2 or more. -/
theorem pcisph_loop_at_most_seven {F : Type} (A : Arith F) (fuel : Nat)
    (device : Nat → Nat → F) (s : Fluid F) (hn : 0 < s.params.fluid_count)
    (h32 : s.params.fluid_count < 2 ^ 32) (hd : s.derivation_finishes A fuel) :
    ∃ o new, s.update A fuel device = some o ∧ o.state.queue = s.queue ++ new ∧
      iterations new ≤ 7 ∧
      ∀ pre e post, new = pre ++ e :: post → e.is_readback_or_test = true →
        3 ≤ iterations pre := by
  have _ := hn
  obtain ⟨o, ho, hnr⟩ := update_defined A fuel device s hd
  obtain ⟨_, _, _, _, _, _, _, u8⟩ := update_spec A fuel device s o ho h32 hnr
  have hq0 : iterations s.entry_events = 0 :=
    iterations_eq_zero _ (fun e he => (entry_events_quiet s e he).2.2.1)
  have ht0 : ∀ k, tests_from_index_two k s.entry_events = true :=
    tests_of_quiet _ (fun e he => ⟨(entry_events_quiet s e he).2.2.1,
      (entry_events_quiet s e he).2.2.2.1⟩)
  have key : ∃ new, o.state.queue = s.queue ++ new ∧ iterations new ≤ 7 ∧
      tests_from_index_two 0 new = true := by
    rcases u8 with ⟨_, _, hq, _⟩ | ⟨_, _, _, hq, _⟩
    · exact ⟨_, hq, by omega, ht0 0⟩
    · refine ⟨_, hq, ?_, ?_⟩
      · rw [iterations_append, hq0, step_events_iterations]
        have := iterations_loop_le o.state.params o.state.params (s.converged A device) 7 0
        omega
      · rw [tests_append, ht0, step_events_tests]
        rfl
  obtain ⟨new, hq, hi, ht⟩ := key
  refine ⟨o, new, ho, hq, hi, ?_⟩
  intro pre e post hnew he
  subst hnew
  have := tests_split pre post e 0 ht he
  omega

/-- Witness of C1 on the example scene, whose derivation finishes within 8 checks. -/
theorem pcisph_loop_at_most_seven_witness :
    0 < example_fluid.params.fluid_count ∧
    ∃ o new, example_fluid.update rational_arith 8 example_device = some o ∧
      o.state.queue = example_fluid.queue ++ new ∧ iterations new ≤ 7 ∧
      ∀ pre e post, new = pre ++ e :: post → e.is_readback_or_test = true →
        3 ≤ iterations pre :=
  ⟨by decide, pcisph_loop_at_most_seven rational_arith 8 example_device example_fluid
    (by decide) (by decide) example_fluid_finishes⟩

/-- C5, the code without particles. For every engine state with `fluid_count = 0`, an
`update` which comes to an end does not return: when the parameters are derived anew,
the creation of the buffer `fluid_keys` of 0 bytes is refused (Fluid.cpp:455) and the
`cl::Error` leaves `update`; otherwise `checkBuffersConsistent` throws, the `cl::Error`
of the size query on a member which holds no buffer or its own error on a buffer, which
has more than `0` bytes. The early return of Fluid.cpp:116-117 is not reached. No kernel
dispatch and no sort is enqueued. The update comes to an end whenever the lattice loops
of a derivation which is due finish. No state without particles passes the check: a
buffer of 0 elements does not exist. -/
theorem empty_update_throws {F : Type} (A : Arith F) (fuel : Nat)
    (device : Nat → Nat → F) (s : Fluid F) (h0 : s.params.fluid_count = 0) :
    ¬ s.consistent ∧
    (∀ o, s.update A fuel device = some o →
      o.status ≠ .returned ∧
      (s.params_changed = true → o.status = .thrown (Error.cl .clCreateBuffer)) ∧
      (s.params_changed = false →
        o.status = .thrown (Error.cl .clGetMemObjectInfo) ∨
          o.status.is_inconsistent = true) ∧
      ∃ new, o.state.queue = s.queue ++ new ∧
        ∀ e ∈ new, e.is_dispatch = false ∧ e.is_sort = false) ∧
    ((s.params_changed = false ∨ (deduce_params A fuel s.params).isSome = true) →
      ∃ o, s.update A fuel device = some o) := by
  refine ⟨fun hc => ?_, fun o h => update_without_particles A fuel device s o h0 h,
    update_comes_to_an_end A fuel device s⟩
  have := consistent_pos s hc
  omega

/-- C5 on the engine without particles, no member of which holds a buffer: its update
ends by the `cl::Error` of the creation of a buffer, with nothing enqueued. -/
theorem empty_update_throws_witness :
    empty_fluid.params.fluid_count = 0 ∧ empty_fluid.sizes_match ∧
    ∃ o, empty_fluid.update rational_arith 8 example_device = some o ∧
      o.status = .thrown (Error.cl .clCreateBuffer) ∧
      ∃ new, o.state.queue = empty_fluid.queue ++ new ∧
        ∀ e ∈ new, e.is_dispatch = false ∧ e.is_sort = false := by
  have h := empty_update_throws rational_arith 8 example_device empty_fluid rfl
  obtain ⟨o, ho⟩ := h.2.2 (Or.inr (deduce_params_exact_isSome _ _ 8 (le_refl 8)
    empty_fluid.params
    (by simp [empty_fluid, Fluid.set_fluid_count, Fluid.construct, example_params])))
  exact ⟨rfl, ⟨rfl, rfl, rfl, rfl, rfl, rfl, rfl, rfl⟩, o, ho, (h.2.1 o ho).2.1 rfl,
    (h.2.1 o ho).2.2.2⟩

/-- C7, as amended. Whenever the parameter derivation of `update` returns, `update`
comes to an end, and when each of the eight fluid members holds a buffer it raises the
consistency error if and only if one of the buffers has a byte size other than
`fluid_count` times its element size (12 bytes a 3-vector, 4 bytes a scalar, no 32-bit
overflow in the product); when it raises, it has enqueued neither a kernel dispatch nor
a sort. A member which holds no buffer has no size: the check raises the consistency
error or the `cl::Error` of the size query exactly when the members are not consistent,
and the `cl::Error` only when a member holds no buffer. -/
theorem consistency_error_iff {F : Type} (A : Arith F) (fuel : Nat)
    (device : Nat → Nat → F) (s : Fluid F) (h32 : s.params.fluid_count < 2 ^ 32)
    (hd : s.derivation_finishes A fuel) :
    ∃ o new, s.update A fuel device = some o ∧ o.state.queue = s.queue ++ new ∧
      (s.holds_buffers → (o.status.is_inconsistent = true ↔ ¬ s.consistent)) ∧
      (o.status.is_inconsistent = true →
        ∀ e ∈ new, e.is_dispatch = false ∧ e.is_sort = false) ∧
      ((o.status.is_inconsistent = true ∨
          o.status = .thrown (Error.cl .clGetMemObjectInfo)) ↔ ¬ s.consistent) ∧
      (o.status = .thrown (Error.cl .clGetMemObjectInfo) →
        ¬ s.holds_buffers ∧ ∀ e ∈ new, e.is_dispatch = false ∧ e.is_sort = false) ∧
      (o.status.is_inconsistent = true → ¬ s.sizes_match ∨ ¬ s.holds_buffers) := by
  obtain ⟨o, ho, hnr⟩ := update_defined A fuel device s hd
  obtain ⟨_, _, _, _, _, _, _, u8⟩ := update_spec A fuel device s o ho h32 hnr
  rcases u8 with ⟨hc, hs, hq, _⟩ | ⟨hc, _, hs, hq, _⟩
  · have hquiet : ∀ e ∈ s.entry_events, e.is_dispatch = false ∧ e.is_sort = false :=
      fun e he => ⟨(entry_events_quiet s e he).1, (entry_events_quiet s e he).2.1⟩
    refine ⟨o, _, ho, hq, fun hb => ⟨fun _ => hc, fun _ => ?_⟩, fun _ => hquiet,
      ⟨fun _ => hc, fun _ => ?_⟩, fun h => ⟨?_, hquiet⟩, fun _ => ?_⟩
    · rcases hs with hs | ⟨_, hs⟩
      · exact hs
      · exact absurd hb hs
    · rcases hs with hs | ⟨hs, _⟩
      · exact Or.inl hs
      · exact Or.inr hs
    · rcases hs with hs | ⟨_, hs⟩
      · rw [h] at hs
        cases hs
      · exact hs
    · by_cases hb : s.holds_buffers
      · exact Or.inl (fun hm => hc ⟨hb, hm⟩)
      · exact Or.inr hb
  · refine ⟨o, _, ho, hq, fun _ => ⟨fun h => ?_, fun h => absurd hc h⟩, fun h => ?_,
      ⟨fun h => ?_, fun h => absurd hc h⟩, fun h => ?_, fun h => ?_⟩
    · rw [hs] at h
      cases h
    · rw [hs] at h
      cases h
    · rcases h with h | h <;>
        · rw [hs] at h
          cases h
    · rw [hs] at h
      cases h
    · rw [hs] at h
      cases h

/-- Witness of C7 (amended) on the example scene. -/
theorem consistency_error_iff_witness :
    example_fluid.params.fluid_count < 2 ^ 32 ∧ example_fluid.holds_buffers ∧
    ∃ o new, example_fluid.update rational_arith 8 example_device = some o ∧
      o.state.queue = example_fluid.queue ++ new ∧
      (o.status.is_inconsistent = true ↔ ¬ example_fluid.consistent) ∧
      (o.status.is_inconsistent = true →
        ∀ e ∈ new, e.is_dispatch = false ∧ e.is_sort = false) := by
  obtain ⟨o, new, h1, h2, h3, h4, _⟩ :=
    consistency_error_iff rational_arith 8 example_device example_fluid
      (by decide) example_fluid_finishes
  exact ⟨by decide, example_fluid_consistent.1, o, new, h1, h2,
    h3 example_fluid_consistent.1, h4⟩

/-- Counterexample to C7 as stated: an engine whose pressures hold 2 floats for 1000
particles, after `set_particle_radius(0)`: a buffer has the wrong size, and `update`
never raises, because its derivation never ends. -/
theorem inconsistent_update_can_hang :
    ¬ stuck_short_fluid.consistent ∧
    ¬ ∃ fuel device o, stuck_short_fluid.update rational_arith fuel device = some o :=
  ⟨fun h => absurd h.2.2.2.2.2.2.2.1 (by decide),
    update_exact_stuck _ _ stuck_short_fluid rfl rfl⟩

/-- C8. When the eight fluid buffers hold `fluid_count > 0` elements at the start of an
`update`, the update returns with every public buffer of the byte size it had and the
same `fluid_count`: the eight buffers hold `fluid_count` elements again, and
`checkBuffersConsistent` succeeds on the state left. -/
theorem fluid_buffers_preserved {F : Type} (A : Arith F) (fuel : Nat)
    (device : Nat → Nat → F) (s : Fluid F) (hn : 0 < s.params.fluid_count)
    (h32 : s.params.fluid_count < 2 ^ 32) (hc : s.consistent)
    (hd : s.derivation_finishes A fuel) :
    ∃ o, s.update A fuel device = some o ∧ o.status = .returned ∧
      (∀ b : Buf, b.is_internal = false → o.state.mem_size b = s.mem_size b) ∧
      o.state.params.fluid_count = s.params.fluid_count ∧
      o.state.consistent ∧ o.state.checkBuffersConsistent = .ok () := by
  obtain ⟨o, ho, hs, hb, _, _, _, _, hm⟩ := update_runs A fuel device s hn h32 hc hd
  have hfc : o.state.params.fluid_count = s.params.fluid_count :=
    congrArg (fun b => b.2.2.2.1) hb
  have hcons : o.state.consistent := (consistent_of_base s o.state hb hm).mpr hc
  exact ⟨o, ho, hs, hm, hfc, hcons,
    (checkBuffersConsistent_ok_iff o.state (by rw [hfc]; exact h32)).mpr hcons⟩

/-- Witness of C8 on the example scene. -/
theorem fluid_buffers_preserved_witness :
    0 < example_fluid.params.fluid_count ∧ example_fluid.consistent ∧
    ∃ o, example_fluid.update rational_arith 8 example_device = some o ∧
      o.status = .returned ∧
      (∀ b : Buf, b.is_internal = false → o.state.mem_size b = example_fluid.mem_size b) ∧
      o.state.params.fluid_count = example_fluid.params.fluid_count ∧
      o.state.consistent ∧ o.state.checkBuffersConsistent = .ok () :=
  ⟨by decide, example_fluid_consistent,
    fluid_buffers_preserved rational_arith 8 example_device example_fluid
      (by decide) (by decide) example_fluid_consistent example_fluid_finishes⟩

/-! ## The parameter derivation (C4, C10) -/

/-- C4: `update_deduced_attributes` sets `bucket_count = max(64, h - (h mod 64))` with
`h = fluid_count div 2`, for every `fluid_count`; the three `cl_uint` statements
(Fluid.cpp:387-389) cannot wrap, so for a 32-bit `fluid_count` the value is again a
32-bit value. It is a multiple of 64 and at least 64, and it is 448 for 1000 particles.
The same holds of every parameter block the whole function leaves, whether it returns
or the runtime refuses one of its calls. -/
theorem bucket_count_derivation {F : Type} (A : Arith F) (p : Simulation_Params F) :
    (deduce_kernel_constants A p).bucket_count
      = max 64 (p.fluid_count / 2 - (p.fluid_count / 2) % 64) ∧
    64 ∣ (deduce_kernel_constants A p).bucket_count ∧
    64 ≤ (deduce_kernel_constants A p).bucket_count ∧
    (p.fluid_count < 2 ^ 32 → (deduce_kernel_constants A p).bucket_count < 2 ^ 32) ∧
    (p.fluid_count = 1000 → (deduce_kernel_constants A p).bucket_count = 448) ∧
    (∀ fuel (s : Fluid F) (o : Outcome F), s.params = p →
      s.update_deduced_attributes A fuel = some o →
      o.state.params.bucket_count
        = max 64 (p.fluid_count / 2 - (p.fluid_count / 2) % 64)) := by
  have h0 : (deduce_kernel_constants A p).bucket_count
      = max 64 (p.fluid_count / 2 - (p.fluid_count / 2) % 64) := rfl
  refine ⟨h0, ?_, ?_, ?_, ?_, ?_⟩
  · rw [h0]
    rcases le_total 64 (p.fluid_count / 2 - (p.fluid_count / 2) % 64) with h | h
    · rw [max_eq_right h]
      exact (Nat.dvd_sub_mod _)
    · rw [max_eq_left h]
  · rw [h0]
    exact le_max_left _ _
  · intro h
    rw [h0]
    apply max_lt (by norm_num)
    omega
  · intro h
    rw [h0, h]
    rfl
  · intro fuel s o hs ht
    obtain ⟨v, hv⟩ := deduce_params_eq A fuel s.params o.state.params
      (update_deduced_attributes_params A fuel s o ht)
    rw [hv, ← hs]
    rfl

/-- C10: the parameter derivation is a function of the base inputs. Two parameter blocks
which agree on `particle_radius`, `rest_density`, `delta_t` and `fluid_count` get the
same value in every derived field (the scaling factor included), or the derivation
finishes for neither, whatever the derived fields held before; a block the derivation
returns has the base fields it was given and is a fixed point of the derivation. -/
theorem parameter_derivation_deterministic {F : Type} (A : Arith F) (fuel : Nat)
    (p q : Simulation_Params F)
    (hr : p.particle_radius = q.particle_radius) (hd : p.rest_density = q.rest_density)
    (ht : p.delta_t = q.delta_t) (hf : p.fluid_count = q.fluid_count) :
    (deduce_params A fuel p).map Simulation_Params.derived
      = (deduce_params A fuel q).map Simulation_Params.derived ∧
    (∀ r, deduce_params A fuel p = some r →
      r.base = p.base ∧ deduce_params A fuel r = some r) :=
  ⟨deduce_params_congr A fuel p q hr hd ht hf,
    fun r h => ⟨deduce_params_base A fuel p r h, deduce_params_idempotent A fuel p r h⟩⟩

/-! ## The dirty bit (C9, C10) -/

/-- C9. Each of the eight setters sets `params_changed`. In every state reachable from
the constructor by setters, buffer assignments and updates, a clear `params_changed`
means that the parameter block is the one the derivation returns on its own base
fields. An `update` which comes to an end runs the derivation exactly when
`params_changed` is set, and leaves the bit clear, the base fields as they were and a
parameter block which is the derivation of its base fields; every kernel it dispatches
is bound to that parameter block. The bit stays set in one case only: the runtime
refuses a call of the derivation, whose `cl::Error` leaves `update` before
Fluid.cpp:111; then nothing is enqueued, and the parameter block is still the
derivation of the base fields. -/
theorem dirty_bit_invariant {F : Type} (A : Arith F) (s : Fluid F) (hr : s.reachable A) :
    ((∀ n, (s.set_boundary_count n).params_changed = true) ∧
     (∀ n, (s.set_fluid_count n).params_changed = true) ∧
     (∀ x, (s.set_delta_t x).params_changed = true) ∧
     (∀ x, (s.set_rest_density x).params_changed = true) ∧
     (∀ x, (s.set_particle_radius x).params_changed = true) ∧
     (∀ x, (s.set_gravity x).params_changed = true) ∧
     (∀ x, (s.set_viscosity x).params_changed = true) ∧
     (∀ x, (s.set_surface_tension x).params_changed = true)) ∧
    (s.params_changed = false → ∃ fuel, deduce_params A fuel s.params = some s.params) ∧
    (∀ fuel device o, s.update A fuel device = some o →
      (o.status.is_refused = false → o.state.params_changed = false) ∧
      (s.params_changed = true → deduce_params A fuel s.params = some o.state.params) ∧
      (s.params_changed = false → o.state.params = s.params) ∧
      o.state.params.base = s.params.base ∧
      (∃ fuel2, deduce_params A fuel2 o.state.params = some o.state.params) ∧
      (∃ new, o.state.queue = s.queue ++ new ∧
        ∀ e ∈ new, e.sees_params o.state.params) ∧
      (o.status.is_refused = true →
        s.params_changed = true ∧ o.state.params_changed = true ∧
        o.state.queue = s.queue)) := by
  have hinv := reachable_invariant A s hr
  refine ⟨⟨fun _ => rfl, fun _ => rfl, fun _ => rfl, fun _ => rfl, fun _ => rfl,
    fun _ => rfl, fun _ => rfl, fun _ => rfl⟩, hinv.2, ?_⟩
  intro fuel device o ho
  rcases update_cases A fuel device s o ho with
    ⟨hrf, r1, r2, r3, _, r5, _, _, r8, r9⟩ | ⟨t, ht, _⟩
  · refine ⟨fun h => ?_, fun _ => r8, fun h => ?_, r5, ⟨fuel, r9⟩,
      update_sees_params A fuel device s o ho hinv.1, fun _ => ⟨r1, r2, r3⟩⟩
    · rw [hrf] at h
      cases h
    · rw [r1] at h
      cases h
  · have hnr : o.status.is_refused = false := by
      rw [ht]
      exact update_checked_not_refused A device t
    obtain ⟨u1, u2, u3, _, u5, _⟩ := update_spec A fuel device s o ho hinv.1 hnr
    refine ⟨fun _ => u5, u3, u2, u1,
      (reachable_invariant A o.state (Fluid.reachable.update s fuel device o hr ho)).2 u5,
      update_sees_params A fuel device s o ho hinv.1, fun h => ?_⟩
    rw [hnr] at h
    cases h

/-- Witness of C9: the engine of the example scene is reachable, by the constructor and
ten buffer assignments. -/
theorem dirty_bit_invariant_witness :
    example_fluid.reachable rational_arith ∧
    ∀ fuel device o, example_fluid.update rational_arith fuel device = some o →
      (o.status.is_refused = false → o.state.params_changed = false) ∧
      (∃ fuel2, deduce_params rational_arith fuel2 o.state.params = some o.state.params) ∧
      ∃ new, o.state.queue = example_fluid.queue ++ new ∧
        ∀ e ∈ new, e.sees_params o.state.params := by
  have hr : example_fluid.reachable rational_arith :=
    .assign_buffer _ _ _ (.assign_buffer _ _ _ (.assign_buffer _ _ _ (.assign_buffer _ _ _
      (.assign_buffer _ _ _ (.assign_buffer _ _ _ (.assign_buffer _ _ _
        (.assign_buffer _ _ _ (.assign_buffer _ _ _ (.assign_buffer _ _ _
          (.construct _ _ (by decide)) rfl) rfl) rfl) rfl) rfl) rfl) rfl) rfl) rfl) rfl
  refine ⟨hr, fun fuel device o ho => ?_⟩
  obtain ⟨h1, _, _, _, h5, h6, _⟩ :=
    (dirty_bit_invariant rational_arith example_fluid hr).2.2 fuel device o ho
  exact ⟨h1, h5, h6⟩

/-- Witness of C10: the example parameters, and the same with other derived fields. -/
theorem parameter_derivation_deterministic_witness :
    (deduce_params rational_arith 8 example_params).map Simulation_Params.derived
      = (deduce_params rational_arith 8
          { example_params with particle_mass := 1, bucket_count := 7 }).map
          Simulation_Params.derived ∧
    (∀ r, deduce_params rational_arith 8 example_params = some r →
      r.base = example_params.base ∧ deduce_params rational_arith 8 r = some r) :=
  parameter_derivation_deterministic rational_arith 8 example_params
    { example_params with particle_mass := 1, bucket_count := 7 } rfl rfl rfl rfl

/-! ## The main loop (C6, C17) -/

/-- C17. The loop `do ... while` of `main` in exact arithmetic, on an engine with
consistent buffers whose derivation finishes. Not recording: one call of `update` and
the simulation time advanced by `delta_t`. Recording: when `n ≥ 1` is the least number
with `elapsed + n delta_t > recording_interval`, where `elapsed` is the time since the
last recorded frame, the frame calls `update` exactly `n` times and advances the time by
`n delta_t`; on exit the time since the last recorded frame exceeds the interval, so the
frame is captured. After a recorded frame (`elapsed = 0`, interval not negative) that
`n` is `floor(recording_interval / delta_t) + 1`. -/
theorem main_loop_step_contract {F : Type} [LinearOrderedField F] [FloorRing F]
    (sqrt : F → F) (PI : F) (fuel n steps : Nat) (devices : Nat → Nat → Nat → F)
    (m : Main_Loop F) (hdt : 0 < m.fluid.params.delta_t)
    (h32 : m.fluid.params.fluid_count < 2 ^ 32) (hc : m.fluid.consistent)
    (hd : m.fluid.derivation_finishes (Arith.exact F sqrt PI) fuel)
    (h1 : 1 ≤ n) (hsteps : n ≤ steps)
    (hlt : m.recording_interval < m.simulation_time - m.last_recorded_frame_time
      + n * m.fluid.params.delta_t)
    (hleast : ∀ k : Nat, 1 ≤ k → k < n →
      m.simulation_time - m.last_recorded_frame_time + k * m.fluid.params.delta_t
        ≤ m.recording_interval) :
    (m.recording = false →
      ∃ f, Main_Loop.simulate (Arith.exact F sqrt PI) fuel steps devices m = some f ∧
        f.status = .returned ∧ f.updates = 1 ∧
        f.state.simulation_time = m.simulation_time + m.fluid.params.delta_t) ∧
    (m.recording = true →
      ∃ f, Main_Loop.simulate (Arith.exact F sqrt PI) fuel steps devices m = some f ∧
        f.status = .returned ∧ f.updates = n ∧
        f.state.simulation_time = m.simulation_time + n * m.fluid.params.delta_t ∧
        f.state.recording_interval
          < f.state.simulation_time - f.state.last_recorded_frame_time ∧
        Main_Loop.captures (Arith.exact F sqrt PI) f.state = true) ∧
    (m.simulation_time = m.last_recorded_frame_time → 0 ≤ m.recording_interval →
      n = Nat.floor (m.recording_interval / m.fluid.params.delta_t) + 1) := by
  obtain ⟨j, rfl⟩ : ∃ j, n = j + 1 := ⟨n - 1, by omega⟩
  obtain ⟨st, rfl⟩ : ∃ st, steps = st + 1 := ⟨steps - 1, by omega⟩
  refine ⟨fun hrec => ?_, fun hrec => ?_, fun ht hi => ?_⟩
  · obtain ⟨f, o, hf, _, _, f1, f2, f3⟩ :=
      simulate_once (Arith.exact F sqrt PI) fuel st devices m h32 hc hd hrec
    exact ⟨f, hf, f1, f2, f3⟩
  · obtain ⟨f, hf, f1, f2, f3, f4, f5, f6⟩ := simulate_recording sqrt PI fuel j (st + 1)
      devices m hsteps hrec h32 hc hd hleast hlt
    have hex : f.state.recording_interval
        < f.state.simulation_time - f.state.last_recorded_frame_time := by
      rw [f3, f4, f5]
      linarith
    refine ⟨f, hf, f1, f2, f3, hex, ?_⟩
    simp only [Main_Loop.captures, f6, Arith.exact, Bool.true_and, decide_eq_true_eq]
    exact hex.le
  · have hpos := hdt
    have e1 : Nat.floor (m.recording_interval / m.fluid.params.delta_t) = j := by
      rw [Nat.floor_eq_iff (div_nonneg hi hdt.le)]
      constructor
      · rw [le_div_iff₀ hpos]
        rcases Nat.eq_zero_or_pos j with hj | hj
        · subst hj
          simpa using hi
        · have := hleast j hj (by omega)
          rw [ht] at this
          linarith
      · rw [div_lt_iff₀ hpos]
        rw [ht] at hlt
        push_cast at hlt
        linarith
    rw [e1]

/-- Witness of C17: recording the example scene, 1/60 of a second takes 9 time steps of
1/500. -/
theorem main_loop_step_contract_witness :
    (0 : ℚ) < example_main.fluid.params.delta_t ∧ example_main.fluid.consistent ∧
    ∃ f, Main_Loop.simulate rational_arith 8 9 (fun _ => example_device) example_main
        = some f ∧ f.status = .returned ∧ f.updates = 9 ∧
      Main_Loop.captures rational_arith f.state = true := by
  have hdt : (0 : ℚ) < example_main.fluid.params.delta_t := by
    simp [example_main, example_fluid, Fluid.assign_buffer, Fluid.construct, example_params]
  have h := main_loop_step_contract (fun q => Rat.sqrt q) (355 / 113) 8 9 9
    (fun _ => example_device) example_main hdt (by decide) example_fluid_consistent
    example_fluid_finishes (by decide) (le_refl 9)
    (by simp [example_main, example_fluid, Fluid.assign_buffer, Fluid.construct,
          example_params]
        norm_num)
    (fun k _ hk => by
      have hk8 : (k : ℚ) ≤ 8 := by exact_mod_cast Nat.lt_succ_iff.mp hk
      simp [example_main, example_fluid, Fluid.assign_buffer, Fluid.construct,
        example_params]
      linarith)
  obtain ⟨f, hf, f1, f2, _, _, f5⟩ := h.2.1 rfl
  exact ⟨hdt, example_fluid_consistent, f, hf, f1, f2, f5⟩

/-! ## The derived constants in exact arithmetic (C11, C12, C13) -/

/-- C11. In exact arithmetic, for every `particle_radius = r ≠ 0` and every rest density
`ρ₀`, `update_deduced_attributes` finishes (8 condition checks a lattice loop suffice)
with `kernel_radius = 4r`, `kernel_radius2 = (4r)² = 16r²`, `cell_size = kernel_radius`
and `particle_mass = ρ₀ / (1/(2r))³ = ρ₀ (2r)³`. -/
theorem kernel_radius_and_mass {F : Type} [LinearOrderedField F] (sqrt : F → F) (PI : F)
    (p : Simulation_Params F) (hr : p.particle_radius ≠ 0) :
    ∃ q, deduce_params (Arith.exact F sqrt PI) 8 p = some q ∧
      q.kernel_radius = 4 * p.particle_radius ∧
      q.kernel_radius2 = (4 * p.particle_radius) ^ 2 ∧
      q.kernel_radius2 = 16 * p.particle_radius ^ 2 ∧
      q.cell_size = q.kernel_radius ∧
      q.particle_mass = p.rest_density / (1 / (2 * p.particle_radius)) ^ 3 ∧
      q.particle_mass = p.rest_density * (2 * p.particle_radius) ^ 3 := by
  obtain ⟨q, v, hq, rfl⟩ := deduce_params_exact_constants sqrt PI p hr
  exact ⟨_, hq, kernel_constants_exact sqrt PI p⟩

/-- Witness of C11 on the parameters of the example scene, `r = 7/60`. -/
theorem kernel_radius_and_mass_witness :
    example_params.particle_radius ≠ 0 ∧
    ∃ q, deduce_params rational_arith 8 example_params = some q ∧
      q.kernel_radius = 4 * example_params.particle_radius ∧
      q.kernel_radius2 = (4 * example_params.particle_radius) ^ 2 ∧
      q.kernel_radius2 = 16 * example_params.particle_radius ^ 2 ∧
      q.cell_size = q.kernel_radius ∧
      q.particle_mass
        = example_params.rest_density / (1 / (2 * example_params.particle_radius)) ^ 3 ∧
      q.particle_mass
        = example_params.rest_density * (2 * example_params.particle_radius) ^ 3 :=
  ⟨by simp [example_params],
    kernel_radius_and_mass (fun q => Rat.sqrt q) (355 / 113) example_params
      (by simp [example_params])⟩

/-- C12. In exact arithmetic, for every kernel radius `h = 4r ≠ 0`,
`update_deduced_attributes` finishes with poly6 = 315/(64 π h⁹), poly6 gradient =
-945/(32 π h⁹), viscosity Laplacian = 45/(π h⁶), spiky gradient = -45/(π h⁶), surface
tension = 32/(π h⁹) and the surface tension term h⁶/64; the spiky gradient constant is
the negated viscosity constant and the poly6 gradient constant is -6 times the poly6
constant. `PI` is the value of `utils::PI`. -/
theorem normalization_constants {F : Type} [LinearOrderedField F] (sqrt : F → F) (PI : F)
    (p : Simulation_Params F) (hr : 4 * p.particle_radius ≠ 0) :
    ∃ q, deduce_params (Arith.exact F sqrt PI) 8 p = some q ∧
      q.poly6_normalization = 315 / (64 * PI * (4 * p.particle_radius) ^ 9) ∧
      q.poly6_d1_normalization = -945 / (32 * PI * (4 * p.particle_radius) ^ 9) ∧
      q.viscosity_d2_normalization = 45 / (PI * (4 * p.particle_radius) ^ 6) ∧
      q.spiky_d1_normalization = -45 / (PI * (4 * p.particle_radius) ^ 6) ∧
      q.surface_tension_normalization = 32 / (PI * (4 * p.particle_radius) ^ 9) ∧
      q.surface_tension_term = (4 * p.particle_radius) ^ 6 / 64 ∧
      q.spiky_d1_normalization = -q.viscosity_d2_normalization ∧
      q.poly6_d1_normalization = -6 * q.poly6_normalization := by
  obtain ⟨q, v, hq, rfl⟩ := deduce_params_exact_constants sqrt PI p
    (fun h => hr (by rw [h, mul_zero]))
  exact ⟨_, hq, normalization_constants_exact sqrt PI p⟩

/-- Witness of C12 on the parameters of the example scene, `h = 7/15`. -/
theorem normalization_constants_witness :
    4 * example_params.particle_radius ≠ 0 ∧
    ∃ q, deduce_params rational_arith 8 example_params = some q ∧
      q.poly6_normalization
        = 315 / (64 * (355 / 113) * (4 * example_params.particle_radius) ^ 9) ∧
      q.spiky_d1_normalization = -q.viscosity_d2_normalization ∧
      q.poly6_d1_normalization = -6 * q.poly6_normalization := by
  have hr : 4 * example_params.particle_radius ≠ 0 := by simp [example_params]
  obtain ⟨q, hq, h1, _, _, _, _, _, h7, h8⟩ :=
    normalization_constants (fun q => Rat.sqrt q) (355 / 113) example_params hr
  exact ⟨hr, q, hq, h1, h7, h8⟩

/-- C13. In exact arithmetic with an exact square root, for every `r > 0`,
`update_deduced_attributes` finishes with `density_variation_scaling_factor =
-1 / (β (-|S|² - Q))`, `β = Δt² m² 2 / ρ₀²`, where `S` is the vector sum and `Q` the sum
of the squared magnitudes of the samples `g(p) = -N (h² - |p|²)² p` over the offsets `p`
whose coordinates each range over `-h - 2r, -h, ..., h + 2r` in steps of `2r` and which
satisfy `|p|² < h²`. (With `ρ₀ = 0` or `Δt = 0`, which the claim leaves out, `β = 0` and
both sides are 0 under the convention `x / 0 = 0`.) -/
theorem scaling_factor_formula {F : Type} [LinearOrderedField F] (sqrt : F → F) (PI : F)
    (hs : ∀ x : F, 0 ≤ x → sqrt x * sqrt x = x) (fuel : Nat) (hfuel : 8 ≤ fuel)
    (p : Simulation_Params F) (hr : 0 < p.particle_radius) :
    ∃ q, deduce_params (Arith.exact F sqrt PI) fuel p = some q ∧
      q.density_variation_scaling_factor
        = spec_scaling_factor PI p.particle_radius p.rest_density p.delta_t ∧
      axis_values 7 (-(4 * p.particle_radius) - 2 * p.particle_radius)
          (2 * p.particle_radius)
        = [-(4 * p.particle_radius) - 2 * p.particle_radius, -(4 * p.particle_radius),
           -(2 * p.particle_radius), 0, 2 * p.particle_radius, 4 * p.particle_radius,
           4 * p.particle_radius + 2 * p.particle_radius] := by
  obtain ⟨q, hq, hv⟩ := deduce_params_exact_scaling sqrt PI hs fuel hfuel p hr
  refine ⟨q, hq, hv, ?_⟩
  simp only [axis_values, List.range, List.range.loop, List.map_cons, List.map_nil,
    List.cons.injEq, and_true]
  refine ⟨?_, ?_, ?_, ?_, ?_, ?_, ?_⟩ <;> push_cast <;> ring

/-- Witness of C13 over the reals: radius 1, rest density 1, time step 1, with the real
square root and the real π. -/
theorem scaling_factor_formula_witness :
    ∃ q, deduce_params (Arith.exact ℝ Real.sqrt Real.pi) 8
        (Simulation_Params.mk 1 0 1 0 1 0 0 0 0 0 0 0 0 0 0 0 0 0 1 0) = some q ∧
      q.density_variation_scaling_factor = spec_scaling_factor Real.pi 1 1 1 := by
  obtain ⟨q, hq, hv, _⟩ := scaling_factor_formula Real.sqrt Real.pi
    (fun x hx => Real.mul_self_sqrt hx) 8 (le_refl 8)
    (Simulation_Params.mk 1 0 1 0 1 0 0 0 0 0 0 0 0 0 0 0 0 0 1 0) one_pos
  exact ⟨q, hq, hv⟩

/-! ## The grids (C14, C15, C16) -/

/-- C15. In every `update` that runs with `boundary_count = 0`, no call of the boundary
grid build is enqueued (no boundary sort among them),
`boundary_pressure_initialization` is not dispatched, and `update_pressure` is not
dispatched over the boundary particles. -/
theorem empty_boundary_skipped {F : Type} (A : Arith F) (fuel : Nat)
    (device : Nat → Nat → F) (s : Fluid F) (hb0 : s.params.boundary_count = 0)
    (hn : 0 < s.params.fluid_count) (h32 : s.params.fluid_count < 2 ^ 32)
    (hc : s.consistent) (hd : s.derivation_finishes A fuel) :
    ∃ o new, s.update A fuel device = some o ∧ o.status = .returned ∧
      o.state.queue = s.queue ++ new ∧
      ∀ e ∈ new, e.is_boundary_grid = false ∧
        e.is_kernel .pcisph_boundary_pressure_initialization = false ∧
        e.is_boundary_pressure = false := by
  obtain ⟨o, ho, hs, hb, hq, _⟩ := update_runs A fuel device s hn h32 hc hd
  have hbc : o.state.params.boundary_count = 0 :=
    (congrArg (fun b => b.2.2.1) hb).trans hb0
  refine ⟨o, _, ho, hs, hq, ?_⟩
  intro e he
  rcases List.mem_append.mp he with he | he
  · have := entry_events_quiet s e he
    exact ⟨this.2.2.2.2.2.2.1, this.2.2.2.2.2.2.2.2.2.1 _, this.2.2.2.2.2.2.2.2.1⟩
  · rw [step_events] at he
    rcases List.mem_append.mp he with he | he
    · exact ⟨(setup_events_no_boundary _ _ hbc e he).1,
        (setup_events_no_boundary _ _ hbc e he).2, (setup_events_quiet _ _ e he).2.2.2.2⟩
    · rcases List.mem_append.mp he with he | he
      · have := loop_events_facts _ _ _ _ _ e he
        refine ⟨this.2.2.1, this.2.2.2.2.2.1, ?_⟩
        by_contra h
        have := this.2.2.2.2.2.2 (by simpa using h)
        omega
      · rw [List.mem_singleton] at he
        subst he
        have := committed_event_facts o.state.params o.state.params.fluid_count
        exact ⟨this.2.2.2.2.1, this.2.2.2.2.2.2.1, this.2.2.2.2.2.1⟩

/-- Witness of C15: the example scene after `set_boundary_count(0)`. -/
theorem empty_boundary_skipped_witness :
    (example_fluid.set_boundary_count 0).params.boundary_count = 0 ∧
    ∃ o new, (example_fluid.set_boundary_count 0).update rational_arith 8 example_device
        = some o ∧ o.status = .returned ∧
      o.state.queue = (example_fluid.set_boundary_count 0).queue ++ new ∧
      ∀ e ∈ new, e.is_boundary_grid = false ∧
        e.is_kernel .pcisph_boundary_pressure_initialization = false ∧
        e.is_boundary_pressure = false :=
  ⟨rfl, empty_boundary_skipped rational_arith 8 example_device
    (example_fluid.set_boundary_count 0) rfl (by decide) (by decide)
    ⟨⟨by decide, by decide, by decide, by decide, by decide, by decide, by decide,
      by decide⟩, ⟨rfl, rfl, rfl, rfl, rfl, rfl, rfl, rfl⟩⟩
    (derivation_finishes_exact _ _ 8 (le_refl 8) _
      (by simp [example_fluid, Fluid.set_boundary_count, Fluid.assign_buffer,
        Fluid.construct, example_params])
      (by decide) (by decide) (by decide) (by decide) (by decide))⟩

/-- C16, the code at the failing input. The first `update` of the example scene (three
boundary particles, boundary bit set) rebuilds the boundary grid and dispatches
`update_pressure` with `boundary_init_pred_densities` as its argument 4, and it
dispatches `initialize_boundary_boundary_pred_densities` nowhere: Fluid.cpp:166-171
binds the four arguments of that kernel and no call enqueues it. -/
theorem boundary_pred_densities_never_dispatched :
    ∃ o new, example_fluid.update rational_arith 8 example_device = some o ∧
      o.status = .returned ∧ o.state.queue = example_fluid.queue ++ new ∧
      (∃ e ∈ new, e.is_boundary_grid = true) ∧
      (∃ e ∈ new, e.reads_boundary_init_pred_densities = true) ∧
      (∀ e ∈ new,
        e.is_kernel .pcisph_initialize_boundary_boundary_pred_densities = false) ∧
      (∀ pb (t : Fluid ℚ), (t.boundary_pred_densities pb).queue = t.queue ∧
        (t.boundary_pred_densities pb).args
          .pcisph_initialize_boundary_boundary_pred_densities 3
          = .buffer .boundary_init_pred_densities) := by
  obtain ⟨o, ho, hs, hb, hq, _⟩ := update_runs rational_arith 8 example_device
    example_fluid (by decide) (by decide) example_fluid_consistent example_fluid_finishes
  have hbc : 0 < o.state.params.boundary_count := by
    have e : o.state.params.boundary_count = example_fluid.params.boundary_count :=
      congrArg (fun b => b.2.2.1) hb
    rw [e]
    decide
  obtain ⟨c1, c2, c3⟩ := step_events_boundary_cache o.state.params example_fluid.entry_flag
    (example_fluid.converged rational_arith example_device) hbc
  have hfb := new_events_filter_boundary_grid example_fluid o.state.params
    (example_fluid.converged rational_arith example_device)
  rw [if_pos ⟨rfl, hbc⟩] at hfb
  have hmem : reset_offsets_event o.state.params .boundary_cell_offsets
      o.state.params.bucket_count
      ∈ (example_fluid.entry_events ++ step_events o.state.params example_fluid.entry_flag
        (example_fluid.converged rational_arith example_device)).filter
        Event.is_boundary_grid := by
    rw [hfb, sort_boundary_events]
    exact List.mem_cons_self _ _
  refine ⟨o, _, ho, hs, hq, ⟨_, (List.mem_filter.mp hmem).1, (List.mem_filter.mp hmem).2⟩,
    ⟨_, List.mem_append_right _ c2, c3⟩, ?_, ?_⟩
  · intro e he
    rcases List.mem_append.mp he with he | he
    · exact (entry_events_quiet example_fluid e he).2.2.2.2.2.2.2.2.2.1 _
    · exact c1 e he
  · intro pb t
    exact ⟨rfl, by simp [Fluid.boundary_pred_densities, Fluid.setArg]⟩

/-! ## The integer helpers (C18, C19) -/

theorem shift_or_one : ∀ i, i < 32 → u32 ((2 ^ i - 1) <<< 1) ||| 1 = 2 ^ (i + 1) - 1 := by
  decide

theorem sort_bit_count_loop_spec (elements : Nat) :
    ∀ (remaining i : Nat), i + remaining = 32 →
      (∀ c, 1 ≤ c → c ≤ i → ¬ u32 (elements + 2 ^ 32 - 1) ≤ 2 ^ c - 1) →
      ∃ bits, sort_bit_count_loop elements remaining i (2 ^ i - 1) = .ok bits ∧
        i + 1 ≤ bits ∧ bits ≤ 32 ∧ u32 (elements + 2 ^ 32 - 1) ≤ 2 ^ bits - 1 ∧
        ∀ c, 1 ≤ c → u32 (elements + 2 ^ 32 - 1) ≤ 2 ^ c - 1 → bits ≤ c := by
  have hx : u32 (elements + 2 ^ 32 - 1) ≤ 2 ^ 32 - 1 := by
    unfold u32
    omega
  intro remaining
  induction remaining with
  | zero =>
    intro i hi hno
    have : i = 32 := by omega
    subst this
    exact absurd hx (hno 32 (by norm_num) (le_refl _))
  | succ n ih =>
    intro i hi hno
    have hi32 : i < 32 := by omega
    rw [sort_bit_count_loop]
    simp only [shift_or_one i hi32]
    by_cases hc : 2 ^ (i + 1) - 1 ≥ u32 (elements + 2 ^ 32 - 1)
    · rw [if_pos hc]
      refine ⟨i + 1, rfl, le_refl _, by omega, hc, ?_⟩
      intro c hc1 hcx
      by_contra hlt
      exact hno c hc1 (by omega) hcx
    · rw [if_neg hc]
      obtain ⟨b, h1, h2, h3, h4, h5⟩ := ih (i + 1) (by omega) (by
        intro c hc1 hci
        rcases Nat.lt_or_ge c (i + 1) with h | h
        · exact hno c hc1 (by omega)
        · have : c = i + 1 := by omega
          subst this
          exact hc)
      exact ⟨b, h1, by omega, h3, h4, h5⟩

/-- C18: for every particle count `elements`, 0 and 1 included, `sort_bit_count` returns
normally a value `b` with `1 ≤ b ≤ 32`, the least such value with
`2^b - 1 ≥ (elements - 1) mod 2^32`; for a 32-bit `elements ≥ 2` it is the bit length of
`elements - 1`; the exception "sort_bit_count failed" is never thrown. -/
theorem sort_bit_count_least (elements : Nat) :
    ∃ bits, sort_bit_count elements = .ok bits ∧ 1 ≤ bits ∧ bits ≤ 32 ∧
      u32 (elements + 2 ^ 32 - 1) ≤ 2 ^ bits - 1 ∧
      (∀ c, 1 ≤ c → u32 (elements + 2 ^ 32 - 1) ≤ 2 ^ c - 1 → bits ≤ c) ∧
      (2 ≤ elements → elements < 2 ^ 32 →
        2 ^ (bits - 1) ≤ elements - 1 ∧ elements - 1 < 2 ^ bits) ∧
      sort_bit_count elements ≠ .error Error.sort_bit_count_failed := by
  obtain ⟨b, h1, h2, h3, h4, h5⟩ := sort_bit_count_loop_spec elements 32 0 rfl
    (by intro c h1 h2; omega)
  have e : sort_bit_count elements = .ok b := h1
  refine ⟨b, e, h2, h3, h4, h5, ?_, ?_⟩
  · intro he hlt
    have hu : u32 (elements + 2 ^ 32 - 1) = elements - 1 := by
      unfold u32
      omega
    rw [hu] at h4 h5
    have hpos : 0 < 2 ^ b := Nat.two_pow_pos b
    refine ⟨?_, by omega⟩
    by_contra hlt2
    rcases Nat.lt_or_ge b 2 with hb | hb
    · have hb1 : b = 1 := by omega
      subst hb1
      simp at hlt2
      omega
    · have := h5 (b - 1) (by omega) (by omega)
      omega
  · rw [e]
    exact fun h => Except.noConfusion h

/-- C19: for `local_size > 0` and a result which fits in 32 bits
(`actual + local_size ≤ 2^32`), `make_NDRange(actual, local_size)` is the least multiple
of `local_size` which is at least `actual`: it is `actual` when that is a multiple, it
exceeds `actual` by less than `local_size`, and rounding again changes nothing. -/
theorem make_NDRange_least_multiple (actual local_size : Nat) (hl : 0 < local_size)
    (hfit : actual + local_size ≤ 2 ^ 32) :
    local_size ∣ make_NDRange actual local_size ∧
    actual ≤ make_NDRange actual local_size ∧
    (∀ m, local_size ∣ m → actual ≤ m → make_NDRange actual local_size ≤ m) ∧
    (local_size ∣ actual → make_NDRange actual local_size = actual) ∧
    make_NDRange actual local_size < actual + local_size ∧
    make_NDRange (make_NDRange actual local_size) local_size
      = make_NDRange actual local_size := by
  have hdm := Nat.div_add_mod actual local_size
  have hml := Nat.mod_lt actual hl
  by_cases h0 : actual % local_size = 0
  · have e : make_NDRange actual local_size = actual := by
      simp [make_NDRange, h0]
    rw [e]
    exact ⟨Nat.dvd_of_mod_eq_zero h0, le_refl _, fun m _ hm => hm, fun _ => rfl,
      by omega, e⟩
  · have hpos : actual % local_size > 0 := Nat.pos_of_ne_zero h0
    have hval : (actual / local_size + 1) * local_size
        = actual - actual % local_size + local_size := by
      rw [Nat.add_mul, Nat.one_mul]
      have : actual / local_size * local_size = actual - actual % local_size := by
        rw [Nat.mul_comm]
        omega
      rw [this]
    have hlt : (actual / local_size + 1) * local_size < 2 ^ 32 := by
      rw [hval]
      omega
    have e : make_NDRange actual local_size = (actual / local_size + 1) * local_size := by
      simp only [make_NDRange, if_pos hpos, u32]
      exact Nat.mod_eq_of_lt hlt
    have hdvd : local_size ∣ (actual / local_size + 1) * local_size := Dvd.intro_left _ rfl
    rw [e]
    refine ⟨hdvd, by rw [hval]; omega, ?_, ?_, by rw [hval]; omega, ?_⟩
    · intro m hm ham
      obtain ⟨k, rfl⟩ := hm
      have hk : actual / local_size < k := by
        by_contra hle
        have hle2 : k ≤ actual / local_size := by omega
        have : local_size * k ≤ local_size * (actual / local_size) :=
          Nat.mul_le_mul_left _ hle2
        omega
      calc (actual / local_size + 1) * local_size ≤ k * local_size :=
            Nat.mul_le_mul_right _ hk
        _ = local_size * k := Nat.mul_comm _ _
    · intro hd
      exact absurd (Nat.mod_eq_zero_of_dvd hd) h0
    · have hm0 : (actual / local_size + 1) * local_size % local_size = 0 :=
        Nat.mul_mod_left _ _
      simp [make_NDRange, hm0]

/-- The witness of C19: 1000 work items in groups of 64 are rounded up to 1024. -/
theorem make_NDRange_least_multiple_witness :
    (0 < 64 ∧ 1000 + 64 ≤ 2 ^ 32) ∧ make_NDRange 1000 64 = 1024 ∧
    64 ∣ make_NDRange 1000 64 ∧ 1000 ≤ make_NDRange 1000 64 ∧
    make_NDRange 1000 64 < 1000 + 64 :=
  ⟨⟨by norm_num, by norm_num⟩, by decide,
    (make_NDRange_least_multiple 1000 64 (by norm_num) (by norm_num)).1,
    (make_NDRange_least_multiple 1000 64 (by norm_num) (by norm_num)).2.1,
    (make_NDRange_least_multiple 1000 64 (by norm_num) (by norm_num)).2.2.2.2.1⟩

/-! ## Lemmas: the fluid grid, spec-modelled -/

/-- The grid of a stable sort on the whole key. For `count` particles whose cell hashes
are below `bucket_count`, the sorted pairs are a permutation of the pairs of hash and
source location, ordered by hash and, among equal hashes, by source location. The offset
table has `2 * bucket_count` entries; an index `i < count` lies in the range
`[offsets[2c], offsets[2c+1])` of a cell `c` exactly when `c` is the hash of the particle
sorted to `i`, so it lies in the range of exactly one cell; every range lies within
`[0, count)`. -/
theorem spec_fluid_grid_partition (hash : Nat → Nat) (count bucket_count : Nat)
    (hhash : ∀ i, i < count → hash i < bucket_count) :
    (spec_fluid_grid hash count bucket_count).1.Perm (spec_initialize_keys hash count) ∧
    (spec_fluid_grid hash count bucket_count).1.Pairwise
      (fun x y => x.1 < y.1 ∨ (x.1 = y.1 ∧ x.2 < y.2)) ∧
    (spec_fluid_grid hash count bucket_count).1.length = count ∧
    (spec_fluid_grid hash count bucket_count).2.length = 2 * bucket_count ∧
    (∀ (i : Nat) (hi : i < (spec_fluid_grid hash count bucket_count).1.length),
      (∀ c, c < bucket_count →
        (((spec_fluid_grid hash count bucket_count).2.getD (2 * c) 0 ≤ i ∧
          i < (spec_fluid_grid hash count bucket_count).2.getD (2 * c + 1) 0) ↔
         ((spec_fluid_grid hash count bucket_count).1.get ⟨i, hi⟩).1 = c)) ∧
      ∃! c, c < bucket_count ∧
        (spec_fluid_grid hash count bucket_count).2.getD (2 * c) 0 ≤ i ∧
        i < (spec_fluid_grid hash count bucket_count).2.getD (2 * c + 1) 0) ∧
    (∀ c, c < bucket_count →
      (spec_fluid_grid hash count bucket_count).2.getD (2 * c) 0
        ≤ (spec_fluid_grid hash count bucket_count).2.getD (2 * c + 1) 0 ∧
      (spec_fluid_grid hash count bucket_count).2.getD (2 * c + 1) 0 ≤ count) := by
  have hperm := spec_radixsort_perm (spec_initialize_keys hash count)
  have hstable := spec_radixsort_stable _ (spec_initialize_keys_increasing hash count)
  have hlen : (spec_radixsort (spec_initialize_keys hash count)).length = count := by
    rw [hperm.length_eq, spec_initialize_keys, List.length_map, List.length_range]
  have hsorted : ((spec_radixsort (spec_initialize_keys hash count)).map Prod.fst).Pairwise
      (fun x y => x ≤ y) := by
    rw [List.pairwise_map]
    refine hstable.imp ?_
    intro x y h
    rcases h with h | h
    · exact h.le
    · exact h.1.le
  have hkey : ∀ x ∈ spec_radixsort (spec_initialize_keys hash count), x.1 < bucket_count := by
    intro x hx
    have := hperm.mem_iff.mp hx
    rw [spec_initialize_keys, List.mem_map] at this
    obtain ⟨j, hj, rfl⟩ := this
    exact hhash j (List.mem_range.mp hj)
  have hiff : ∀ (i : Nat) (hi : i < (spec_radixsort (spec_initialize_keys hash count)).length)
      (c : Nat), c < bucket_count →
      (((spec_offsets bucket_count
            ((spec_radixsort (spec_initialize_keys hash count)).map Prod.fst)).getD (2 * c) 0 ≤ i ∧
        i < (spec_offsets bucket_count
            ((spec_radixsort (spec_initialize_keys hash count)).map Prod.fst)).getD (2 * c + 1) 0)
        ↔ ((spec_radixsort (spec_initialize_keys hash count)).get ⟨i, hi⟩).1 = c) := by
    intro i hi c hc
    have hi2 : i < ((spec_radixsort (spec_initialize_keys hash count)).map Prod.fst).length := by
      rw [List.length_map]
      exact hi
    have hget : ((spec_radixsort (spec_initialize_keys hash count)).map Prod.fst).get ⟨i, hi2⟩
        = ((spec_radixsort (spec_initialize_keys hash count)).get ⟨i, hi⟩).1 := by
      simp
    obtain ⟨e1, e2, _⟩ := spec_offsets_entries bucket_count
      ((spec_radixsort (spec_initialize_keys hash count)).map Prod.fst) c hc
    rw [e1, e2, countP_lt_le_iff _ hsorted c i hi2, countP_le_lt_iff _ hsorted c i hi2, hget]
    omega
  refine ⟨hperm, hstable, hlen, ?_, ?_, ?_⟩
  · simp [spec_fluid_grid, spec_offsets]
  · intro i hi
    refine ⟨fun c hc => hiff i hi c hc, ?_⟩
    refine ⟨((spec_radixsort (spec_initialize_keys hash count)).get ⟨i, hi⟩).1,
      ⟨hkey _ (List.get_mem _ i hi), (hiff i hi _ (hkey _ (List.get_mem _ i hi))).mpr rfl⟩,
      ?_⟩
    rintro c ⟨hc, hr⟩
    exact ((hiff i hi c hc).mp hr).symm
  · intro c hc
    obtain ⟨e1, e2, _⟩ := spec_offsets_entries bucket_count
      ((spec_radixsort (spec_initialize_keys hash count)).map Prod.fst) c hc
    show (spec_offsets bucket_count
        ((spec_radixsort (spec_initialize_keys hash count)).map Prod.fst)).getD (2 * c) 0
      ≤ (spec_offsets bucket_count
        ((spec_radixsort (spec_initialize_keys hash count)).map Prod.fst)).getD (2 * c + 1) 0 ∧
      (spec_offsets bucket_count
        ((spec_radixsort (spec_initialize_keys hash count)).map Prod.fst)).getD (2 * c + 1) 0
        ≤ count
    rw [e1, e2]
    constructor
    · apply List.countP_mono_left
      intro k _ hk
      simp only [decide_eq_true_eq] at hk ⊢
      omega
    · calc _ ≤ ((spec_radixsort (spec_initialize_keys hash count)).map Prod.fst).length :=
            List.countP_le_length _
        _ = count := by rw [List.length_map, hlen]

/-! ## Lemmas: the lattice loops with an arbitrary body -/

theorem lattice_sums_eq_loops {F : Type} (A : Arith F) (fuel : Nat) (r h k2 N : F) :
    lattice_sums A fuel r h k2 N
      = lattice_loops A fuel r h (fun x y z acc => lattice_sample A k2 N x y z acc)
          { value_sum0 := A.lit 0, value_sum1 := A.lit 0, value_sum2 := A.lit 0,
            value_dot_value_sum := A.lit 0 } := rfl

/-- One lattice loop in exact arithmetic: seven values of its variable for a positive
radius, none for a negative radius. -/
theorem lattice_axis_exact {F σ : Type} [LinearOrderedField F] (sqrt : F → F) (PI : F)
    (fuel : Nat) (r : F) (body : F → σ → Option σ) (acc : σ) :
    (0 < r → 8 ≤ fuel →
      for_le (Arith.exact F sqrt PI) fuel (-(4 * r) - 2 * r) (4 * r + 2 * r) (2 * r)
          body acc
        = (axis_values 7 (-(4 * r) - 2 * r) (2 * r)).foldlM
            (fun acc x => body x acc) acc) ∧
    (r < 0 → 1 ≤ fuel →
      for_le (Arith.exact F sqrt PI) fuel (-(4 * r) - 2 * r) (4 * r + 2 * r) (2 * r)
          body acc = some acc) := by
  constructor
  · intro hpos hfuel
    refine for_le_exact sqrt PI _ _ body 7 fuel _ acc (by omega) (fun k hk => ?_)
      (by push_cast; linarith)
    have hk7 : (k : F) ≤ 6 := by exact_mod_cast Nat.lt_succ_iff.mp hk
    nlinarith
  · intro hneg hfuel
    exact for_le_exact sqrt PI _ _ body 0 fuel _ acc (by omega)
      (fun k hk => absurd hk (Nat.not_lt_zero k)) (by push_cast; linarith)

theorem lattice_loops_exact {F σ : Type} [LinearOrderedField F] (sqrt : F → F) (PI : F)
    (fuel : Nat) (r : F) (body : F → F → F → σ → σ) (init : σ) :
    (0 < r → 8 ≤ fuel →
      lattice_loops (Arith.exact F sqrt PI) fuel r (4 * r) body init
        = some ((axis_values 7 (-(4 * r) - 2 * r) (2 * r)).foldl
            (fun acc z => (axis_values 7 (-(4 * r) - 2 * r) (2 * r)).foldl
              (fun acc y => (axis_values 7 (-(4 * r) - 2 * r) (2 * r)).foldl
                (fun acc x => body x y z acc) acc) acc) init)) ∧
    (r < 0 → 1 ≤ fuel →
      lattice_loops (Arith.exact F sqrt PI) fuel r (4 * r) body init = some init) := by
  have e : lattice_loops (Arith.exact F sqrt PI) fuel r (4 * r) body init
      = for_le (Arith.exact F sqrt PI) fuel (-(4 * r) - 2 * r) (4 * r + 2 * r) (2 * r)
        (fun z acc => for_le (Arith.exact F sqrt PI) fuel (-(4 * r) - 2 * r)
          (4 * r + 2 * r) (2 * r)
          (fun y acc => for_le (Arith.exact F sqrt PI) fuel (-(4 * r) - 2 * r)
            (4 * r + 2 * r) (2 * r)
            (fun x acc => some (body x y z acc)) acc) acc) init := by
    simp [lattice_loops, Arith.exact]
  constructor
  · intro hpos hfuel
    have hloop : ∀ (b : F → σ → Option σ) (acc : σ),
        for_le (Arith.exact F sqrt PI) fuel (-(4 * r) - 2 * r) (4 * r + 2 * r) (2 * r) b acc
          = (axis_values 7 (-(4 * r) - 2 * r) (2 * r)).foldlM (fun acc x => b x acc) acc :=
      fun b acc => (lattice_axis_exact sqrt PI fuel r b acc).1 hpos hfuel
    rw [e, hloop]
    simp only [hloop, foldlM_some]
  · intro hneg hfuel
    rw [e]
    exact (lattice_axis_exact sqrt PI fuel r _ init).2 hneg hfuel

theorem lattice_loops_exact_stuck {F σ : Type} [LinearOrderedField F] (sqrt : F → F)
    (PI : F) (fuel : Nat) (body : F → F → F → σ → σ) (init : σ) :
    lattice_loops (Arith.exact F sqrt PI) fuel 0 (4 * 0) body init = none := by
  unfold lattice_loops
  apply for_le_stuck
  · simp [Arith.exact]
  · simp [Arith.exact]

theorem foldl_count {α : Type} (c : Nat) (l : List α) : ∀ n : Nat,
    l.foldl (fun acc _ => acc + c) n = n + c * l.length := by
  induction l with
  | nil => intro n; rfl
  | cons a t ih =>
    intro n
    rw [List.foldl_cons, ih, List.length_cons, Nat.mul_succ]
    omega

/-! ## Lemmas: termination, the zeroed velocities, the sorts of a step -/

theorem deduce_params_exact_isSome_iff {F : Type} [LinearOrderedField F] (sqrt : F → F)
    (PI : F) (fuel : Nat) (p : Simulation_Params F) :
    (deduce_params (Arith.exact F sqrt PI) fuel p).isSome
      = (lattice_loops (Arith.exact F sqrt PI) fuel p.particle_radius
          (4 * p.particle_radius)
          (fun x y z acc => lattice_sample (Arith.exact F sqrt PI)
            (deduce_kernel_constants (Arith.exact F sqrt PI) p).kernel_radius2
            (deduce_kernel_constants (Arith.exact F sqrt PI) p).poly6_d1_normalization
            x y z acc)
          { value_sum0 := 0, value_sum1 := 0, value_sum2 := 0,
            value_dot_value_sum := 0 }).isSome := by
  have e : lattice_sums (Arith.exact F sqrt PI) fuel
      (deduce_kernel_constants (Arith.exact F sqrt PI) p).particle_radius
      (deduce_kernel_constants (Arith.exact F sqrt PI) p).kernel_radius
      (deduce_kernel_constants (Arith.exact F sqrt PI) p).kernel_radius2
      (deduce_kernel_constants (Arith.exact F sqrt PI) p).poly6_d1_normalization
      = lattice_sums (Arith.exact F sqrt PI) fuel p.particle_radius (4 * p.particle_radius)
        (deduce_kernel_constants (Arith.exact F sqrt PI) p).kernel_radius2
        (deduce_kernel_constants (Arith.exact F sqrt PI) p).poly6_d1_normalization := by
    simp [deduce_kernel_constants, Arith.exact]
  have e2 : lattice_sums (Arith.exact F sqrt PI) fuel p.particle_radius
      (4 * p.particle_radius)
      (deduce_kernel_constants (Arith.exact F sqrt PI) p).kernel_radius2
      (deduce_kernel_constants (Arith.exact F sqrt PI) p).poly6_d1_normalization
      = lattice_loops (Arith.exact F sqrt PI) fuel p.particle_radius
          (4 * p.particle_radius)
          (fun x y z acc => lattice_sample (Arith.exact F sqrt PI)
            (deduce_kernel_constants (Arith.exact F sqrt PI) p).kernel_radius2
            (deduce_kernel_constants (Arith.exact F sqrt PI) p).poly6_d1_normalization
            x y z acc)
          { value_sum0 := 0, value_sum1 := 0, value_sum2 := 0,
            value_dot_value_sum := 0 } := by
    rw [lattice_sums_eq_loops]
    simp [Arith.exact]
  simp only [deduce_params]
  rw [e, e2]
  cases lattice_loops (Arith.exact F sqrt PI) fuel p.particle_radius
      (4 * p.particle_radius)
      (fun x y z acc => lattice_sample (Arith.exact F sqrt PI)
        (deduce_kernel_constants (Arith.exact F sqrt PI) p).kernel_radius2
        (deduce_kernel_constants (Arith.exact F sqrt PI) p).poly6_d1_normalization
        x y z acc)
      { value_sum0 := 0, value_sum1 := 0, value_sum2 := 0, value_dot_value_sum := 0 } <;> rfl

theorem axis_values_length {F : Type} [LinearOrderedField F] (n : Nat) (lo step : F) :
    (axis_values n lo step).length = n := by
  simp [axis_values]

/-- What `update_deduced_attributes` leaves when it comes to an end: it returns after
one write of zeros, or the runtime refuses a call and nothing is enqueued. -/
theorem update_deduced_attributes_spec {F : Type} (A : Arith F) (fuel : Nat)
    (s : Fluid F) (o : Outcome F) (h : s.update_deduced_attributes A fuel = some o) :
    deduce_params A fuel s.params = some o.state.params ∧
    o.state.params.fluid_count = s.params.fluid_count ∧
    o.state.params_changed = s.params_changed ∧
    o.state.density_variation_threshold = s.density_variation_threshold ∧
    ((o.status = .returned ∧
        o.state.queue = s.queue ++ [Event.write .fluid_velocities true
          (size_t (u32 (s.params.fluid_count * 3) * sizeof_cl_float))] ∧
        o.state.boundary_updated = true ∧
        s.mem_size .fluid_velocities ≠ 0 ∧
        size_t (u32 (s.params.fluid_count * 3) * sizeof_cl_float)
          ≤ s.mem_size .fluid_velocities ∧
        s.params.fluid_count ≠ 0) ∨
     (o.status.is_refused = true ∧ o.state.queue = s.queue ∧
        o.state.boundary_updated = s.boundary_updated)) := by
  have hp := update_deduced_attributes_params A fuel s o h
  have hfc : o.state.params.fluid_count = s.params.fluid_count :=
    congrArg (fun b => b.2.2.2.1) (deduce_params_base A fuel s.params o.state.params hp)
  rcases hq : deduce_params A fuel s.params with _ | p
  · rw [hq] at hp
    cases hp
  · simp only [Fluid.update_deduced_attributes, hq] at h
    have e := Option.some.inj h
    obtain ⟨_, r2, r3, _, r5⟩ := reallocate_spec { s with params := p }
    rw [hq] at hp
    have hpp : p.fluid_count = s.params.fluid_count := by
      rw [← hfc, ← Option.some.inj hp]
    have r5b : (Fluid.reallocate { s with params := p }).status = .returned ∧
        (Fluid.reallocate { s with params := p }).state.queue = s.queue ++
          [Event.write .fluid_velocities true
            (size_t (u32 (s.params.fluid_count * 3) * sizeof_cl_float))] ∧
        (Fluid.reallocate { s with params := p }).state.boundary_updated = true ∧
        s.mem_size .fluid_velocities ≠ 0 ∧
        size_t (u32 (s.params.fluid_count * 3) * sizeof_cl_float)
          ≤ s.mem_size .fluid_velocities ∧
        s.params.fluid_count ≠ 0 ∨
      (Fluid.reallocate { s with params := p }).status.is_refused = true ∧
        (Fluid.reallocate { s with params := p }).state.queue = s.queue ∧
        (Fluid.reallocate { s with params := p }).state.boundary_updated
          = s.boundary_updated := by
      rw [← hpp]
      exact r5
    subst e
    exact ⟨hp, hfc, r3, r2, r5b⟩

theorem pcisph_events_no_sort {F : Type} (pb p : Simulation_Params F) (i : Nat) :
    ∀ e ∈ pcisph_events pb p i, e.is_sort = false := by
  intro e he
  rcases mem_pcisph_events pb p i e he with h | ⟨_, h⟩ | h | ⟨_, h⟩ | h <;> subst h <;>
    simp [prediction_event, boundary_pressure_event, fluid_pressure_event, read_event,
      pressure_force_event, Event.is_sort]

/-- The sorts of a step: the boundary keys over `boundary_count > 0` elements, the fluid
keys over `fluid_count` elements, each with the bit count of its number of elements. -/
theorem step_events_sorts {F : Type} (p : Simulation_Params F) (bu : Bool)
    (test : Nat → Option Bool) (keys values : Buf) (elements maxBits : Nat)
    (h : Event.sort keys values elements maxBits ∈ step_events p bu test) :
    (keys = .boundary_keys ∧ elements = p.boundary_count ∧ 0 < p.boundary_count ∧
      maxBits = sort_bits p.boundary_count) ∨
    (keys = .fluid_keys ∧ elements = p.fluid_count ∧ maxBits = sort_bits p.fluid_count) := by
  rw [step_events] at h
  rcases List.mem_append.mp h with h | h
  · revert h
    cases bu <;> by_cases h2 : p.boundary_count > 0 <;>
      simp [setup_events, sort_boundary_events, sort_fluid_events,
        initialize_forces_events, h2, reset_offsets_event, hash_event,
        boundary_reorder_event, fluid_reorder_event, density_event, normal_event,
        boundary_pressure_initialization_event, force_initialization_event] <;>
      intro h <;> rcases h with h | h <;> simp_all
  · rcases List.mem_append.mp h with h | h
    · have := loop_events_forall p p test (fun e => e.is_sort = false)
        (pcisph_events_no_sort p p) (by simp [Event.is_sort]) 7 0 _ h
      simp [Event.is_sort] at this
    · rw [List.mem_singleton] at h
      simp [committed_event] at h

theorem sort_bits_bounds (n : Nat) :
    1 ≤ sort_bits n ∧ sort_bits n ≤ 32 ∧ u32 (n + 2 ^ 32 - 1) ≤ 2 ^ sort_bits n - 1 := by
  obtain ⟨b, h1, h2, h3, h4, _⟩ := sort_bit_count_loop_spec n 32 0 rfl
    (by intro c h1 h2; omega)
  have e : sort_bit_count n = .ok b := h1
  have hb : sort_bits n = b := by
    have := sort_bit_count_eq n
    rw [e] at this
    exact (Except.ok.inj this).symm
  rw [hb]
  exact ⟨h2, h3, h4⟩

/-- From 33 particles on, every cell hash below `bucket_count` is below
`2 ^ sort_bit_count(fluid_count)`. -/
theorem fluid_keys_fit (n : Nat) (h33 : 33 ≤ n) (h32 : n < 2 ^ 32) (k : Nat)
    (hk : k < max 64 (n / 2 - n / 2 % 64)) : k < 2 ^ sort_bits n := by
  obtain ⟨_, _, h3⟩ := sort_bits_bounds n
  have hu : u32 (n + 2 ^ 32 - 1) = n - 1 := by
    unfold u32
    omega
  rw [hu] at h3
  have hpos : 0 < 2 ^ sort_bits n := Nat.two_pow_pos _
  have hn : n ≤ 2 ^ sort_bits n := by omega
  have h64 : 64 ≤ 2 ^ sort_bits n := by
    by_contra hlt
    have hb : sort_bits n ≤ 5 := by
      by_contra h6
      have : 2 ^ 6 ≤ 2 ^ sort_bits n := Nat.pow_le_pow_right (by norm_num) (by omega)
      omega
    have : 2 ^ sort_bits n ≤ 2 ^ 5 := Nat.pow_le_pow_right (by norm_num) hb
    omega
  have hmax : max 64 (n / 2 - n / 2 % 64) ≤ 2 ^ sort_bits n := by
    apply max_le h64
    omega
  omega

theorem small_fluid_consistent : small_fluid.consistent :=
  ⟨⟨by decide, by decide, by decide, by decide, by decide, by decide, by decide, by decide⟩,
    ⟨rfl, rfl, rfl, rfl, rfl, rfl, rfl, rfl⟩⟩

theorem small_fluid_finishes : small_fluid.derivation_finishes rational_arith 8 :=
  derivation_finishes_exact _ _ 8 (le_refl 8) small_fluid
    (by simp [small_fluid, example_fluid, Fluid.set_fluid_count, Fluid.assign_buffer,
      Fluid.construct, example_params])
    (by decide) (by decide) (by decide) (by decide) (by decide)

theorem huge_fluid_consistent : huge_fluid.consistent :=
  ⟨⟨by decide, by decide, by decide, by decide, by decide, by decide, by decide, by decide⟩,
    ⟨rfl, rfl, rfl, rfl, rfl, rfl, rfl, rfl⟩⟩

theorem huge_fluid_finishes : huge_fluid.derivation_finishes rational_arith 8 :=
  derivation_finishes_exact _ _ 8 (le_refl 8) huge_fluid
    (by simp [huge_fluid, example_fluid, Fluid.set_fluid_count, Fluid.assign_buffer,
      Fluid.construct, example_params])
    (by decide) (by decide) (by decide) (by decide) (by decide)

/-- The first update of the engine with 10 fluid particles sorts the fluid keys with
`maxBits = 4`, and derives 64 cells. -/
theorem small_fluid_sorts :
    ∃ o new, small_fluid.update rational_arith 8 example_device = some o ∧
      o.state.queue = small_fluid.queue ++ new ∧
      Event.sort .fluid_keys .fluid_src_locations 10 4 ∈ new ∧
      o.state.params.bucket_count = 64 := by
  obtain ⟨o, ho, hs, hb, hq, _⟩ := update_runs rational_arith 8 example_device
    small_fluid (by decide) (by decide) small_fluid_consistent small_fluid_finishes
  obtain ⟨_, _, u3, _⟩ := update_spec rational_arith 8 example_device small_fluid o ho
    (by decide) (by rw [hs]; rfl)
  obtain ⟨v, hv⟩ := deduce_params_eq _ 8 _ _ (u3 rfl)
  have hfc : o.state.params.fluid_count = 10 := by rw [hv]; rfl
  have hbk : o.state.params.bucket_count = 64 := by rw [hv]; rfl
  refine ⟨o, _, ho, hq, ?_, hbk⟩
  apply List.mem_append_right
  rw [step_events]
  apply List.mem_append_left
  rw [setup_events]
  apply List.mem_append_right
  apply List.mem_append_left
  rw [sort_fluid_events, hfc]
  have e : sort_bits 10 = 4 := by decide
  rw [e]
  simp

/-! ## Termination of the derivation, the zeroed velocities, the sorts (C28, C29, C22, C24) -/

/-- C28. The lattice loops of `update_deduced_attributes` in exact arithmetic. For a
radius `r > 0` each loop runs its body on exactly the seven values `-6r, -4r, ..., 6r`
(8 condition checks), the three nested loops take 343 samples, and the derivation
finishes. For `r < 0` a loop runs its body not once, no sample is taken, and the
derivation finishes. For `r = 0` the loops end for no bound on their condition checks,
and the derivation does not finish. -/
theorem lattice_loops_termination {F : Type} [LinearOrderedField F] (sqrt : F → F) (PI : F)
    (p : Simulation_Params F) :
    (0 < p.particle_radius → ∀ fuel, 8 ≤ fuel →
      (∀ (σ : Type) (body : F → σ → Option σ) (acc : σ),
        for_le (Arith.exact F sqrt PI) fuel
            (-(4 * p.particle_radius) - 2 * p.particle_radius)
            (4 * p.particle_radius + 2 * p.particle_radius) (2 * p.particle_radius)
            body acc
          = (axis_values 7 (-(4 * p.particle_radius) - 2 * p.particle_radius)
              (2 * p.particle_radius)).foldlM (fun acc x => body x acc) acc) ∧
      (axis_values 7 (-(4 * p.particle_radius) - 2 * p.particle_radius)
        (2 * p.particle_radius)).length = 7 ∧
      lattice_loops (Arith.exact F sqrt PI) fuel p.particle_radius
        (4 * p.particle_radius) (fun _ _ _ (n : Nat) => n + 1) 0 = some 343 ∧
      (deduce_params (Arith.exact F sqrt PI) fuel p).isSome = true) ∧
    (p.particle_radius < 0 → ∀ fuel, 1 ≤ fuel →
      (∀ (σ : Type) (body : F → σ → Option σ) (acc : σ),
        for_le (Arith.exact F sqrt PI) fuel
            (-(4 * p.particle_radius) - 2 * p.particle_radius)
            (4 * p.particle_radius + 2 * p.particle_radius) (2 * p.particle_radius)
            body acc = some acc) ∧
      lattice_loops (Arith.exact F sqrt PI) fuel p.particle_radius
        (4 * p.particle_radius) (fun _ _ _ (n : Nat) => n + 1) 0 = some 0 ∧
      (deduce_params (Arith.exact F sqrt PI) fuel p).isSome = true) ∧
    (p.particle_radius = 0 → ∀ fuel,
      lattice_loops (Arith.exact F sqrt PI) fuel p.particle_radius
        (4 * p.particle_radius) (fun _ _ _ (n : Nat) => n + 1) 0 = none ∧
      deduce_params (Arith.exact F sqrt PI) fuel p = none) := by
  refine ⟨fun hpos fuel hfuel => ⟨?_, axis_values_length _ _ _, ?_, ?_⟩,
    fun hneg fuel hfuel => ⟨?_, ?_, ?_⟩, fun hz fuel => ⟨?_, ?_⟩⟩
  · intro σ body acc
    exact (lattice_axis_exact sqrt PI fuel _ body acc).1 hpos hfuel
  · rw [(lattice_loops_exact sqrt PI fuel _ _ _).1 hpos hfuel]
    simp only [foldl_count, axis_values_length, Nat.one_mul]
  · rw [deduce_params_exact_isSome_iff, (lattice_loops_exact sqrt PI fuel _ _ _).1 hpos hfuel]
    rfl
  · intro σ body acc
    exact (lattice_axis_exact sqrt PI fuel _ body acc).2 hneg hfuel
  · exact (lattice_loops_exact sqrt PI fuel _ _ _).2 hneg hfuel
  · rw [deduce_params_exact_isSome_iff, (lattice_loops_exact sqrt PI fuel _ _ _).2 hneg hfuel]
    rfl
  · rw [hz]
    exact lattice_loops_exact_stuck sqrt PI fuel _ _
  · exact deduce_params_exact_stuck sqrt PI p hz fuel

/-- C29. An `update` which comes to an end never dereferences `std::max_element` over an
empty range: its status is never `undefined`; the host vector `density_variations` has
`fluid_count` elements in every iteration; a readback or a wait for the convergence test
is enqueued only when `fluid_count ≥ 1`, and then the largest element exists. -/
theorem max_element_range_nonempty {F : Type} (A : Arith F) (fuel : Nat)
    (device : Nat → Nat → F) (s : Fluid F) (h32 : s.params.fluid_count < 2 ^ 32)
    (hd : s.derivation_finishes A fuel) :
    ∃ o new, s.update A fuel device = some o ∧ o.state.queue = s.queue ++ new ∧
      o.status ≠ .undefined ∧
      (∀ i, (density_variations device i s.params.fluid_count).length
        = s.params.fluid_count) ∧
      (∀ e ∈ new, e.is_readback_or_test = true → 1 ≤ s.params.fluid_count) ∧
      (1 ≤ s.params.fluid_count → ∀ i, ∃ m,
        max_element A.lt (density_variations device i s.params.fluid_count) = some m ∧
        s.converged A device i
          = some (A.lt (A.div m s.params.rest_density) s.density_variation_threshold)) := by
  obtain ⟨o, ho, hnr⟩ := update_defined A fuel device s hd
  obtain ⟨_, _, _, _, _, _, _, u8⟩ := update_spec A fuel device s o ho h32 hnr
  have hquiet : ∀ e ∈ s.entry_events, e.is_readback_or_test = true →
      1 ≤ s.params.fluid_count := by
    intro e he h
    rw [(entry_events_quiet s e he).2.2.2.1] at h
    cases h
  have hmax : 1 ≤ s.params.fluid_count → ∀ i, ∃ m,
      max_element A.lt (density_variations device i s.params.fluid_count) = some m ∧
      s.converged A device i
        = some (A.lt (A.div m s.params.rest_density) s.density_variation_threshold) := by
    intro hn i
    obtain ⟨b, hb⟩ := converged_some A device s i hn
    rcases hm : max_element A.lt (density_variations device i s.params.fluid_count)
      with _ | m
    · simp [Fluid.converged, hm] at hb
    · exact ⟨m, rfl, by simp [Fluid.converged, hm]⟩
  have hlen := fun i => density_variations_length device i s.params.fluid_count
  rcases u8 with ⟨_, hs, hq, _⟩ | ⟨_, hn, hs, hq, _⟩
  · refine ⟨o, _, ho, hq, ?_, hlen, hquiet, hmax⟩
    intro h
    rw [h] at hs
    rcases hs with hs | ⟨hs, _⟩ <;> cases hs
  · refine ⟨o, _, ho, hq, ?_, hlen, fun _ _ _ => hn, hmax⟩
    rw [hs]
    exact fun h => Status.noConfusion h

/-- Witness of C29 on the example scene. -/
theorem max_element_range_nonempty_witness :
    example_fluid.params.fluid_count < 2 ^ 32 ∧
    ∃ o new, example_fluid.update rational_arith 8 example_device = some o ∧
      o.state.queue = example_fluid.queue ++ new ∧ o.status ≠ .undefined ∧
      (∀ e ∈ new, e.is_readback_or_test = true → 1 ≤ example_fluid.params.fluid_count) := by
  obtain ⟨o, new, h1, h2, h3, _, h5, _⟩ :=
    max_element_range_nonempty rational_arith 8 example_device example_fluid
      (by decide) example_fluid_finishes
  exact ⟨by decide, o, new, h1, h2, h3, h5⟩

/-- C22, as amended. A re-derivation (`update_deduced_attributes`, which `update` runs
when a setter of a count or of a base parameter has set `params_changed`) which comes to
an end returns or is refused a call by the runtime. When it returns it has enqueued one
blocking write of zeros to `fluid_velocities`, of `(3 * fluid_count mod 2^32)` floats,
which fits in the buffer, and has set the boundary bit; the write covers all
`3 * fluid_count` components of the velocities exactly when `3 * fluid_count` fits in 32
bits, as it does for every count that `load_xraw` sets, a 32-bit size divided by 3. When
it is refused it has enqueued nothing and has left the boundary bit as it was.
`set_density_variation_threshold` changes the threshold and nothing else: it leaves
`params_changed`, the boundary bit, the parameter block, the buffers and the queue as
they are. -/
theorem rederivation_zeroes_velocities {F : Type} (A : Arith F) (fuel : Nat)
    (s : Fluid F) (o : Outcome F) (h : s.update_deduced_attributes A fuel = some o) :
    (o.status = .returned ∨ o.status.is_refused = true) ∧
    (o.status = .returned →
      o.state.queue = s.queue ++ [Event.write .fluid_velocities true
        (size_t (u32 (s.params.fluid_count * 3) * sizeof_cl_float))] ∧
      o.state.boundary_updated = true ∧
      size_t (u32 (s.params.fluid_count * 3) * sizeof_cl_float)
        ≤ s.mem_size .fluid_velocities ∧
      (∀ device, s.params_changed = true →
        s.update A fuel device
          = some (Fluid.update_checked A device
              { o.state with params_changed := false }))) ∧
    size_t (u32 (s.params.fluid_count * 3) * sizeof_cl_float)
      = (3 * s.params.fluid_count % 2 ^ 32) * sizeof_cl_float ∧
    (3 * s.params.fluid_count < 2 ^ 32 ↔
      size_t (u32 (s.params.fluid_count * 3) * sizeof_cl_float)
        = 3 * s.params.fluid_count * sizeof_cl_float) ∧
    (∀ size : Nat, 3 * (u32 size / 3) < 2 ^ 32) ∧
    (o.status.is_refused = true →
      o.state.queue = s.queue ∧ o.state.boundary_updated = s.boundary_updated) ∧
    ((∀ n, (s.set_boundary_count n).params_changed = true) ∧
     (∀ n, (s.set_fluid_count n).params_changed = true) ∧
     (∀ x, (s.set_delta_t x).params_changed = true) ∧
     (∀ x, (s.set_rest_density x).params_changed = true) ∧
     (∀ x, (s.set_particle_radius x).params_changed = true) ∧
     (∀ x, (s.set_gravity x).params_changed = true) ∧
     (∀ x, (s.set_viscosity x).params_changed = true) ∧
     (∀ x, (s.set_surface_tension x).params_changed = true)) ∧
    (∀ x, (s.set_density_variation_threshold x).density_variation_threshold = x ∧
      (s.set_density_variation_threshold x).params_changed = s.params_changed ∧
      (s.set_density_variation_threshold x).boundary_updated = s.boundary_updated ∧
      (s.set_density_variation_threshold x).params = s.params ∧
      (s.set_density_variation_threshold x).mem_size = s.mem_size ∧
      (s.set_density_variation_threshold x).queue = s.queue) := by
  obtain ⟨_, _, _, _, hcase⟩ := update_deduced_attributes_spec A fuel s o h
  have hsize : size_t (u32 (s.params.fluid_count * 3) * sizeof_cl_float)
      = (3 * s.params.fluid_count % 2 ^ 32) * sizeof_cl_float := by
    have hlt : 3 * s.params.fluid_count % 2 ^ 32 < 2 ^ 32 := Nat.mod_lt _ (by norm_num)
    unfold size_t u32 sizeof_cl_float
    rw [Nat.mul_comm s.params.fluid_count 3]
    generalize 3 * s.params.fluid_count % 2 ^ 32 = m at hlt
    omega
  refine ⟨?_, fun hr => ?_, hsize, ?_, ?_, fun hr => ?_,
    ⟨fun _ => rfl, fun _ => rfl, fun _ => rfl, fun _ => rfl,
      fun _ => rfl, fun _ => rfl, fun _ => rfl, fun _ => rfl⟩,
    fun _ => ⟨rfl, rfl, rfl, rfl, rfl, rfl⟩⟩
  · rcases hcase with ⟨hs, _⟩ | ⟨hs, _⟩
    · exact Or.inl hs
    · exact Or.inr hs
  · rcases hcase with ⟨_, hq, hb, _, hfit, _⟩ | ⟨hs, _⟩
    · refine ⟨hq, hb, hfit, fun device hc => ?_⟩
      simp only [Fluid.update, hc, h, if_true]
      rw [andThen_of_returned _ _ hr]
    · rw [hr] at hs
      cases hs
  · rw [hsize]
    unfold sizeof_cl_float
    constructor
    · intro hlt
      rw [Nat.mod_eq_of_lt hlt]
    · intro he
      by_contra hge
      have hlt : 3 * s.params.fluid_count % 2 ^ 32 < 2 ^ 32 := Nat.mod_lt _ (by norm_num)
      generalize 3 * s.params.fluid_count % 2 ^ 32 = m at he hlt
      omega
  · intro size
    have : u32 size < 2 ^ 32 := Nat.mod_lt _ (by norm_num)
    generalize u32 size = m at this
    omega
  · rcases hcase with ⟨hs, _⟩ | ⟨_, hq, hb⟩
    · rw [hs] at hr
      cases hr
    · exact ⟨hq, hb⟩

/-- Witness of C22 (amended) on the example scene: 12000 bytes of zeros. -/
theorem rederivation_zeroes_velocities_witness :
    3 * example_fluid.params.fluid_count < 2 ^ 32 ∧
    ∃ o, example_fluid.update_deduced_attributes rational_arith 8 = some o ∧
      o.status = .returned ∧
      o.state.queue = example_fluid.queue ++ [Event.write .fluid_velocities true 12000] ∧
      o.state.boundary_updated = true := by
  rcases example_fluid_finishes with hc | ⟨t, ht⟩
  · cases hc
  · obtain ⟨_, h2, _⟩ :=
      rederivation_zeroes_velocities rational_arith 8 example_fluid _ ht
    exact ⟨by decide, _, ht, rfl, (h2 rfl).1, (h2 rfl).2.1⟩

/-- Counterexample to C22 as stated: the engine with 1431655766 fluid particles, all of
whose fluid buffers hold that many elements, so that the velocities have 4294967298
components. Its re-derivation returns with one write of 8 bytes of zeros, two components
of the velocities: the length `fluid_count * 3` of the vector of zeros is taken in
`unsigned int` (Fluid.cpp:462). -/
theorem rederivation_zeroes_two_components :
    3 * huge_fluid.params.fluid_count = 4294967298 ∧ huge_fluid.consistent ∧
    huge_fluid.mem_size .fluid_velocities = 4294967298 * sizeof_cl_float ∧
    ∃ o, huge_fluid.update_deduced_attributes rational_arith 8 = some o ∧
      o.status = .returned ∧
      o.state.queue = huge_fluid.queue ++ [Event.write .fluid_velocities true 8] := by
  rcases huge_fluid_finishes with hc | ⟨t, ht⟩
  · cases hc
  · obtain ⟨_, _, _, _, hcase⟩ :=
      update_deduced_attributes_spec rational_arith 8 huge_fluid _ ht
    rcases hcase with ⟨_, hq, _⟩ | ⟨hs, _⟩
    · exact ⟨by decide, huge_fluid_consistent, by decide, _, ht, rfl, hq⟩
    · cases hs

/-- C24, the code at the failing inputs. The first `update` of the example scene (1000
fluid and 3 boundary particles) enqueues the sort of the boundary keys with
`maxBits = 2` while `bucket_count = 448`, so the cell hashes from 4 to 447 are not below
`2 ^ maxBits`; with 10 fluid particles the sort of the fluid keys has `maxBits = 4` and
`bucket_count = 64`. What holds of every `update` which comes to an end: a sort has at
least one element and a `maxBits` from 1 to 32, the bit count of its number of elements;
and from 33 fluid particles on the hashes below `bucket_count` are below `2 ^ maxBits`
at the sort of the fluid keys. -/
theorem radixsort_precondition_violated :
    (∃ o new, example_fluid.update rational_arith 8 example_device = some o ∧
      o.state.queue = example_fluid.queue ++ new ∧
      Event.sort .boundary_keys .boundary_src_locations 3 2 ∈ new ∧
      o.state.params.bucket_count = 448 ∧ ¬ (447 < 2 ^ 2)) ∧
    (∃ o new, small_fluid.update rational_arith 8 example_device = some o ∧
      o.state.queue = small_fluid.queue ++ new ∧
      Event.sort .fluid_keys .fluid_src_locations 10 4 ∈ new ∧
      o.state.params.bucket_count = 64 ∧ ¬ (63 < 2 ^ 4)) ∧
    (∀ (F : Type) (A : Arith F) (fuel : Nat) (device : Nat → Nat → F) (s : Fluid F)
      (o : Outcome F), s.update A fuel device = some o → s.params.fluid_count < 2 ^ 32 →
      ∃ new, o.state.queue = s.queue ++ new ∧
        ∀ keys values elements maxBits, Event.sort keys values elements maxBits ∈ new →
          1 ≤ elements ∧ 1 ≤ maxBits ∧ maxBits ≤ 32 ∧ maxBits = sort_bits elements ∧
          (elements = s.params.boundary_count ∨ elements = s.params.fluid_count)) ∧
    (∀ n k, 33 ≤ n → n < 2 ^ 32 → k < max 64 (n / 2 - n / 2 % 64) →
      k < 2 ^ sort_bits n) := by
  refine ⟨?_, ?_, ?_, fun n k h33 h32 hk => fluid_keys_fit n h33 h32 k hk⟩
  · obtain ⟨o, ho, hs, hb, hq, _⟩ := update_runs rational_arith 8 example_device
      example_fluid (by decide) (by decide) example_fluid_consistent example_fluid_finishes
    obtain ⟨_, _, u3, _⟩ := update_spec rational_arith 8 example_device example_fluid o ho
      (by decide) (by rw [hs]; rfl)
    obtain ⟨v, hv⟩ := deduce_params_eq _ 8 _ _ (u3 rfl)
    have hbc : o.state.params.boundary_count = 3 := by rw [hv]; rfl
    have hbk : o.state.params.bucket_count = 448 := by rw [hv]; rfl
    refine ⟨o, _, ho, hq, ?_, hbk, by decide⟩
    apply List.mem_append_right
    rw [step_events]
    apply List.mem_append_left
    rw [setup_events, if_pos ⟨rfl, by rw [hbc]; decide⟩]
    apply List.mem_append_left
    rw [sort_boundary_events, hbc]
    have e : sort_bits 3 = 2 := by decide
    rw [e]
    simp
  · obtain ⟨o, new, h1, h2, h3, h4⟩ := small_fluid_sorts
    exact ⟨o, new, h1, h2, h3, h4, by decide⟩
  · intro F A fuel device s o ho h32
    rcases update_cases A fuel device s o ho with ⟨_, _, _, hq, _⟩ | ⟨t, ht, _⟩
    · exact ⟨[], by rw [hq, List.append_nil], fun k v e m h => by cases h⟩
    obtain ⟨u1, _, _, _, _, _, _, u8⟩ := update_spec A fuel device s o ho h32
      (by rw [ht]; exact update_checked_not_refused A device t)
    have hfc : o.state.params.fluid_count = s.params.fluid_count :=
      congrArg (fun b => b.2.2.2.1) u1
    have hbc : o.state.params.boundary_count = s.params.boundary_count :=
      congrArg (fun b => b.2.2.1) u1
    have hentry : ∀ keys values elements maxBits,
        Event.sort keys values elements maxBits ∉ s.entry_events := by
      intro keys values elements maxBits he
      have := (entry_events_quiet s _ he).2.1
      simp [Event.is_sort] at this
    rcases u8 with ⟨_, _, hq, _⟩ | ⟨_, hn, _, hq, _⟩
    · exact ⟨_, hq, fun k v e m h => absurd h (hentry k v e m)⟩
    · refine ⟨_, hq, fun k v e m h => ?_⟩
      rcases List.mem_append.mp h with h | h
      · exact absurd h (hentry k v e m)
      · rcases step_events_sorts _ _ _ k v e m h with ⟨_, he, hpos, hm⟩ | ⟨_, he, hm⟩
        · rw [hbc] at he hpos hm
          rw [he, hm]
          exact ⟨hpos, (sort_bits_bounds _).1, (sort_bits_bounds _).2.1, rfl, Or.inl rfl⟩
        · rw [hfc] at he hm
          rw [he, hm]
          exact ⟨hn, (sort_bits_bounds _).1, (sort_bits_bounds _).2.1, rfl, Or.inr rfl⟩

/-! ## The fluid grid build of a step (C20) -/

/-- C20, the code at the failing input. The fluid grid build of `update` sorts the keys
with `maxBits = sort_bit_count(fluid_count)` (Fluid.cpp:193). Whenever every cell hash is
below `2 ^ maxBits`, the build for `count ≥ 1` particles with hashes below
`bucket_count` leaves a stable sort by hash and an offset table which partitions the
sorted array: the sorted pairs are a permutation of the pairs of hash and source
location, ordered by hash and among equal hashes by source location; an index
`i < count` lies in the range `[offsets[2c], offsets[2c+1])` of a cell `c` exactly when
`c` is the hash of the particle sorted to `i`, so in the range of exactly one cell; and
every range lies within `[0, count)`. From 33 particles on every hash below the derived
`bucket_count` is below `2 ^ maxBits`. With a hash which is not, the sort promises no
order and the build has no result: so for 10 particles, where `update` enqueues the sort
with `maxBits = 4` for 64 cells, and the fourth of the hashes 0, 6, 12, 18, ... is 18. -/
theorem fluid_grid_build_partition :
    (∀ (hash : Nat → Nat) (count bucket_count : Nat), 1 ≤ count →
      (∀ i, i < count → hash i < bucket_count) →
      (∀ i, i < count → hash i < 2 ^ sort_bits count) →
      ∃ g, fluid_grid_build hash count bucket_count = some g ∧
        g.1.Perm (spec_initialize_keys hash count) ∧
        g.1.Pairwise (fun x y => x.1 < y.1 ∨ (x.1 = y.1 ∧ x.2 < y.2)) ∧
        g.1.length = count ∧ g.2.length = 2 * bucket_count ∧
        (∀ (i : Nat) (hi : i < g.1.length),
          (∀ c, c < bucket_count →
            ((g.2.getD (2 * c) 0 ≤ i ∧ i < g.2.getD (2 * c + 1) 0) ↔
              (g.1.get ⟨i, hi⟩).1 = c)) ∧
          ∃! c, c < bucket_count ∧ g.2.getD (2 * c) 0 ≤ i ∧
            i < g.2.getD (2 * c + 1) 0) ∧
        (∀ c, c < bucket_count →
          g.2.getD (2 * c) 0 ≤ g.2.getD (2 * c + 1) 0 ∧ g.2.getD (2 * c + 1) 0 ≤ count)) ∧
    (∀ count k, 33 ≤ count → count < 2 ^ 32 →
      k < max 64 (count / 2 - count / 2 % 64) → k < 2 ^ sort_bits count) ∧
    (∀ (hash : Nat → Nat) (count bucket_count : Nat),
      (∃ i, i < count ∧ 2 ^ sort_bits count ≤ hash i) →
      fluid_grid_build hash count bucket_count = none) ∧
    ((∀ i, i < 10 → 6 * i < 64) ∧ sort_bits 10 = 4 ∧ ¬ (6 * 3 < 2 ^ 4) ∧
      fluid_grid_build (fun i => 6 * i) 10 64 = none ∧
      ∃ o new, small_fluid.update rational_arith 8 example_device = some o ∧
        o.state.queue = small_fluid.queue ++ new ∧
        Event.sort .fluid_keys .fluid_src_locations 10 4 ∈ new ∧
        o.state.params.bucket_count = 64) ∧
    (fluid_grid_build (fun i => 3 * i % 4) 6 64).map (fun g => (g.1, g.2.take 8))
      = some ([(0, 0), (0, 4), (1, 3), (2, 2), (3, 1), (3, 5)],
          [0, 2, 2, 3, 3, 4, 4, 6]) := by
  have hlen : ∀ (hash : Nat → Nat) (count : Nat),
      (spec_initialize_keys hash count).length = count := by
    intro hash count
    rw [spec_initialize_keys, List.length_map, List.length_range]
  have htake : ∀ (hash : Nat → Nat) (count : Nat),
      (spec_initialize_keys hash count).take count = spec_initialize_keys hash count :=
    fun hash count => List.take_of_length_le (le_of_eq (hlen hash count))
  have hdrop : ∀ (hash : Nat → Nat) (count : Nat),
      (spec_initialize_keys hash count).drop count = [] :=
    fun hash count => List.drop_of_length_le (le_of_eq (hlen hash count))
  have hnone : ∀ (hash : Nat → Nat) (count bucket_count : Nat),
      (∃ i, i < count ∧ 2 ^ sort_bits count ≤ hash i) →
      fluid_grid_build hash count bucket_count = none := by
    rintro hash count bucket_count ⟨i, hi, hge⟩
    have hbits := (sort_bits_bounds count).1
    have hcond : ¬ (sort_bits count = 0 ∨
        ∀ p ∈ (spec_initialize_keys hash count).take count, p.1 < 2 ^ sort_bits count) := by
      rintro (h | h)
      · omega
      · have := h (hash i, i) (by
          rw [htake, spec_initialize_keys, List.mem_map]
          exact ⟨i, List.mem_range.mpr hi, rfl⟩)
        exact absurd this (not_lt.mpr hge)
    unfold fluid_grid_build Radixsort.enqueue
    split_ifs <;> rfl
  refine ⟨?_, fun count k h33 h32 hk => fluid_keys_fit count h33 h32 k hk, hnone,
    ⟨fun i hi => by omega, by decide, by decide,
      hnone _ 10 64 ⟨3, by decide, by decide⟩, small_fluid_sorts⟩, by decide⟩
  intro hash count bucket_count h1 hhash hfit
  have hbits := sort_bits_bounds count
  have hcond : sort_bits count = 0 ∨
      ∀ p ∈ (spec_initialize_keys hash count).take count, p.1 < 2 ^ sort_bits count := by
    refine Or.inr fun p hp => ?_
    rw [htake, spec_initialize_keys, List.mem_map] at hp
    obtain ⟨i, hi, rfl⟩ := hp
    exact hfit i (List.mem_range.mp hi)
  have hbuild : fluid_grid_build hash count bucket_count
      = some (spec_fluid_grid hash count bucket_count) := by
    unfold fluid_grid_build Radixsort.enqueue
    rw [if_neg (by omega), if_pos hcond, htake, hdrop, List.append_nil]
    rfl
  exact ⟨_, hbuild, spec_fluid_grid_partition hash count bucket_count hhash⟩

/-! ## Lemmas: the lattice sums evaluated -/

theorem sum_map_scale {F : Type} [LinearOrderedField F] (c : F) (g : Nat → F)
    (G : Nat → Int) (h : ∀ i, g i = c * (G i : F)) (l : List Nat) :
    (l.map g).sum = c * (((l.map G).sum : Int) : F) := by
  induction l with
  | nil => simp
  | cons a t ih =>
    rw [List.map_cons, List.sum_cons, ih, h, List.map_cons, List.sum_cons]
    push_cast
    ring

theorem spec_lattice_sum_scale {F : Type} [LinearOrderedField F] (n : Nat) (lo step c : F)
    (f : F → F → F → F) (G : Nat → Nat → Nat → Int)
    (h : ∀ i j k : Nat, f (lo + i * step) (lo + j * step) (lo + k * step)
      = c * (G i j k : F)) :
    spec_lattice_sum (axis_values n lo step) f = c * ((int_lattice_sum n G : Int) : F) := by
  unfold spec_lattice_sum axis_values int_lattice_sum
  simp only [List.map_map]
  refine sum_map_scale c _ _ (fun k => ?_) _
  simp only [Function.comp]
  refine sum_map_scale c _ _ (fun j => ?_) _
  simp only [Function.comp]
  exact sum_map_scale c _ _ (fun i => h i j k) _

/-- The sample weight at the lattice offset with the indices `i, j, k`. -/
theorem spec_sample_weight_lattice {F : Type} [LinearOrderedField F] (N r : F) (hr : 0 < r)
    (i j k : Nat) :
    (-(4 * r) - 2 * r + i * (2 * r)) * (-(4 * r) - 2 * r + i * (2 * r))
      + (-(4 * r) - 2 * r + j * (2 * r)) * (-(4 * r) - 2 * r + j * (2 * r))
      + (-(4 * r) - 2 * r + k * (2 * r)) * (-(4 * r) - 2 * r + k * (2 * r))
      = 4 * r ^ 2 * (lattice_index_norm i j k : F) ∧
    ((-(4 * r) - 2 * r + i * (2 * r)) * (-(4 * r) - 2 * r + i * (2 * r))
      + (-(4 * r) - 2 * r + j * (2 * r)) * (-(4 * r) - 2 * r + j * (2 * r))
      + (-(4 * r) - 2 * r + k * (2 * r)) * (-(4 * r) - 2 * r + k * (2 * r))
      < (4 * r) ^ 2 ↔ lattice_index_norm i j k < 4) ∧
    spec_sample_weight N (4 * r) (-(4 * r) - 2 * r + i * (2 * r))
      (-(4 * r) - 2 * r + j * (2 * r)) (-(4 * r) - 2 * r + k * (2 * r))
      = (-N * 16 * r ^ 4) * (lattice_index_weight i j k : F) := by
  have h1 : (-(4 * r) - 2 * r + i * (2 * r)) * (-(4 * r) - 2 * r + i * (2 * r))
      + (-(4 * r) - 2 * r + j * (2 * r)) * (-(4 * r) - 2 * r + j * (2 * r))
      + (-(4 * r) - 2 * r + k * (2 * r)) * (-(4 * r) - 2 * r + k * (2 * r))
      = 4 * r ^ 2 * (lattice_index_norm i j k : F) := by
    unfold lattice_index_norm
    push_cast
    ring
  have hr2 : (0 : F) < 4 * r ^ 2 := by positivity
  have h2 : (4 * r ^ 2 * (lattice_index_norm i j k : F) < (4 * r) ^ 2)
      ↔ lattice_index_norm i j k < 4 := by
    rw [show (4 * r) ^ 2 = 4 * r ^ 2 * ((4 : Int) : F) by push_cast; ring,
      mul_lt_mul_left hr2, Int.cast_lt]
  refine ⟨h1, by rw [h1]; exact h2, ?_⟩
  unfold spec_sample_weight lattice_index_weight
  rw [h1]
  by_cases hS : lattice_index_norm i j k < 4
  · rw [if_pos (h2.mpr hS), if_pos hS]
    push_cast
    ring
  · rw [if_neg (fun h => hS (h2.mp h)), if_neg hS]
    simp

set_option maxRecDepth 100000 in
theorem int_lattice_sums_eval :
    int_lattice_sum 7 (fun i j k => if lattice_index_norm i j k < 4 then 1 else 0) = 27 ∧
    int_lattice_sum 7 (fun i j k => lattice_index_weight i j k * ((i : Int) - 3)) = 0 ∧
    int_lattice_sum 7 (fun i j k => lattice_index_weight i j k * ((j : Int) - 3)) = 0 ∧
    int_lattice_sum 7 (fun i j k => lattice_index_weight i j k * ((k : Int) - 3)) = 0 ∧
    int_lattice_sum 7
      (fun i j k => lattice_index_weight i j k ^ 2 * lattice_index_norm i j k) = 894 := by
  refine ⟨?_, ?_, ?_, ?_, ?_⟩ <;> decide

/-- The lattice sums for a positive radius. -/
theorem lattice_sums_values {F : Type} [LinearOrderedField F] (N r : F) (hr : 0 < r) :
    spec_lattice_sum (axis_values 7 (-(4 * r) - 2 * r) (2 * r))
      (fun x y z => if x * x + y * y + z * z < (4 * r) ^ 2 then 1 else 0) = 27 ∧
    spec_lattice_sum (axis_values 7 (-(4 * r) - 2 * r) (2 * r))
      (fun x y z => spec_sample_weight N (4 * r) x y z * x) = 0 ∧
    spec_lattice_sum (axis_values 7 (-(4 * r) - 2 * r) (2 * r))
      (fun x y z => spec_sample_weight N (4 * r) x y z * y) = 0 ∧
    spec_lattice_sum (axis_values 7 (-(4 * r) - 2 * r) (2 * r))
      (fun x y z => spec_sample_weight N (4 * r) x y z * z) = 0 ∧
    spec_lattice_sum (axis_values 7 (-(4 * r) - 2 * r) (2 * r))
      (fun x y z => (spec_sample_weight N (4 * r) x y z * x) ^ 2
        + (spec_sample_weight N (4 * r) x y z * y) ^ 2
        + (spec_sample_weight N (4 * r) x y z * z) ^ 2)
      = 1024 * 894 * N ^ 2 * r ^ 10 := by
  obtain ⟨e1, e2, e3, e4, e5⟩ := int_lattice_sums_eval
  refine ⟨?_, ?_, ?_, ?_, ?_⟩
  · rw [spec_lattice_sum_scale 7 _ _ 1 _
      (fun i j k => if lattice_index_norm i j k < 4 then 1 else 0) (fun i j k => ?_), e1]
    · norm_num
    · by_cases hS : lattice_index_norm i j k < 4
      · rw [if_pos ((spec_sample_weight_lattice N r hr i j k).2.1.mpr hS)]
        simp [hS]
      · rw [if_neg (fun h => hS ((spec_sample_weight_lattice N r hr i j k).2.1.mp h))]
        simp [hS]
  · rw [spec_lattice_sum_scale 7 _ _ (-N * 32 * r ^ 5) _
      (fun i j k => lattice_index_weight i j k * ((i : Int) - 3)) (fun i j k => ?_), e2]
    · simp
    · rw [(spec_sample_weight_lattice N r hr i j k).2.2]
      push_cast
      ring
  · rw [spec_lattice_sum_scale 7 _ _ (-N * 32 * r ^ 5) _
      (fun i j k => lattice_index_weight i j k * ((j : Int) - 3)) (fun i j k => ?_), e3]
    · simp
    · rw [(spec_sample_weight_lattice N r hr i j k).2.2]
      push_cast
      ring
  · rw [spec_lattice_sum_scale 7 _ _ (-N * 32 * r ^ 5) _
      (fun i j k => lattice_index_weight i j k * ((k : Int) - 3)) (fun i j k => ?_), e4]
    · simp
    · rw [(spec_sample_weight_lattice N r hr i j k).2.2]
      push_cast
      ring
  · rw [spec_lattice_sum_scale 7 _ _ (1024 * N ^ 2 * r ^ 10) _
      (fun i j k => lattice_index_weight i j k ^ 2 * lattice_index_norm i j k)
      (fun i j k => ?_), e5]
    · push_cast
      ring
    · have hn := (spec_sample_weight_lattice N r hr i j k).1
      rw [(spec_sample_weight_lattice N r hr i j k).2.2]
      push_cast
      have : (-N * 16 * r ^ 4 * (lattice_index_weight i j k : F)
            * (-(4 * r) - 2 * r + i * (2 * r))) ^ 2
          + (-N * 16 * r ^ 4 * (lattice_index_weight i j k : F)
            * (-(4 * r) - 2 * r + j * (2 * r))) ^ 2
          + (-N * 16 * r ^ 4 * (lattice_index_weight i j k : F)
            * (-(4 * r) - 2 * r + k * (2 * r))) ^ 2
          = (N * 16 * r ^ 4 * (lattice_index_weight i j k : F)) ^ 2
            * ((-(4 * r) - 2 * r + i * (2 * r)) * (-(4 * r) - 2 * r + i * (2 * r))
              + (-(4 * r) - 2 * r + j * (2 * r)) * (-(4 * r) - 2 * r + j * (2 * r))
              + (-(4 * r) - 2 * r + k * (2 * r)) * (-(4 * r) - 2 * r + k * (2 * r))) := by
        ring
      rw [this, hn]
      ring

/-! ## The scaling factor in closed form (C27) -/

/-- C27. In exact arithmetic with an exact square root and `utils::PI ≠ 0`, for every
`r > 0`: of the 7×7×7 lattice offsets 27 lie inside the kernel radius, the three
components of the sum of the gradient samples are 0, the sum of their squared magnitudes
is `1024 · 894 · N² · r¹⁰` with `N` the poly6 gradient normalization, and
`update_deduced_attributes` finishes with
`density_variation_scaling_factor = 1 / (β · 1024 · 894 · N² · r¹⁰)`, `β = Δt² m² 2 / ρ₀²`,
which is positive whenever `ρ₀ ≠ 0` and `Δt ≠ 0`. -/
theorem scaling_factor_closed_form {F : Type} [LinearOrderedField F] (sqrt : F → F) (PI : F)
    (hs : ∀ x : F, 0 ≤ x → sqrt x * sqrt x = x) (hPI : PI ≠ 0) (fuel : Nat)
    (hfuel : 8 ≤ fuel) (p : Simulation_Params F) (hr : 0 < p.particle_radius) :
    ∃ q, deduce_params (Arith.exact F sqrt PI) fuel p = some q ∧
      q.poly6_d1_normalization = -945 / (32 * PI * (4 * p.particle_radius) ^ 9) ∧
      q.particle_mass = p.rest_density / (1 / (2 * p.particle_radius)) ^ 3 ∧
      spec_lattice_sum
        (axis_values 7 (-(4 * p.particle_radius) - 2 * p.particle_radius)
          (2 * p.particle_radius))
        (fun x y z => if x * x + y * y + z * z < (4 * p.particle_radius) ^ 2 then 1 else 0)
        = 27 ∧
      spec_lattice_sum
        (axis_values 7 (-(4 * p.particle_radius) - 2 * p.particle_radius)
          (2 * p.particle_radius))
        (fun x y z => spec_sample_weight q.poly6_d1_normalization
          (4 * p.particle_radius) x y z * x) = 0 ∧
      spec_lattice_sum
        (axis_values 7 (-(4 * p.particle_radius) - 2 * p.particle_radius)
          (2 * p.particle_radius))
        (fun x y z => spec_sample_weight q.poly6_d1_normalization
          (4 * p.particle_radius) x y z * y) = 0 ∧
      spec_lattice_sum
        (axis_values 7 (-(4 * p.particle_radius) - 2 * p.particle_radius)
          (2 * p.particle_radius))
        (fun x y z => spec_sample_weight q.poly6_d1_normalization
          (4 * p.particle_radius) x y z * z) = 0 ∧
      spec_lattice_sum
        (axis_values 7 (-(4 * p.particle_radius) - 2 * p.particle_radius)
          (2 * p.particle_radius))
        (fun x y z =>
          (spec_sample_weight q.poly6_d1_normalization (4 * p.particle_radius) x y z * x) ^ 2
          + (spec_sample_weight q.poly6_d1_normalization (4 * p.particle_radius) x y z * y) ^ 2
          + (spec_sample_weight q.poly6_d1_normalization (4 * p.particle_radius) x y z * z) ^ 2)
        = 1024 * 894 * q.poly6_d1_normalization ^ 2 * p.particle_radius ^ 10 ∧
      q.density_variation_scaling_factor
        = 1 / (p.delta_t ^ 2 * q.particle_mass ^ 2 * 2 / p.rest_density ^ 2
            * (1024 * 894 * q.poly6_d1_normalization ^ 2 * p.particle_radius ^ 10)) ∧
      (p.rest_density ≠ 0 → p.delta_t ≠ 0 → 0 < q.density_variation_scaling_factor) := by
  obtain ⟨q, hq, hv⟩ := deduce_params_exact_scaling sqrt PI hs fuel hfuel p hr
  obtain ⟨v, hqv⟩ := deduce_params_eq _ fuel p q hq
  have hN : q.poly6_d1_normalization = -945 / (32 * PI * (4 * p.particle_radius) ^ 9) := by
    rw [hqv]
    exact (normalization_constants_exact sqrt PI p).2.1
  have hm : q.particle_mass = p.rest_density / (1 / (2 * p.particle_radius)) ^ 3 := by
    rw [hqv]
    exact (kernel_constants_exact sqrt PI p).2.2.2.2.1
  obtain ⟨s27, s0, s1, s2, sq⟩ :=
    lattice_sums_values (-945 / (32 * PI * (4 * p.particle_radius) ^ 9)) p.particle_radius hr
  have hval : q.density_variation_scaling_factor
      = 1 / (p.delta_t ^ 2 * q.particle_mass ^ 2 * 2 / p.rest_density ^ 2
          * (1024 * 894 * q.poly6_d1_normalization ^ 2 * p.particle_radius ^ 10)) := by
    rw [hv, hN, hm]
    simp only [spec_scaling_factor]
    rw [s0, s1, s2, sq]
    rw [show p.delta_t ^ 2 * (p.rest_density / (1 / (2 * p.particle_radius)) ^ 3) ^ 2 * 2
          / p.rest_density ^ 2
          * (-((0 : F) ^ 2 + 0 ^ 2 + 0 ^ 2)
            - 1024 * 894 * (-945 / (32 * PI * (4 * p.particle_radius) ^ 9)) ^ 2
              * p.particle_radius ^ 10)
        = -(p.delta_t ^ 2 * (p.rest_density / (1 / (2 * p.particle_radius)) ^ 3) ^ 2 * 2
          / p.rest_density ^ 2
          * (1024 * 894 * (-945 / (32 * PI * (4 * p.particle_radius) ^ 9)) ^ 2
              * p.particle_radius ^ 10)) by ring]
    rw [neg_div_neg_eq]
  refine ⟨q, hq, hN, hm, s27, ?_, ?_, ?_, ?_, hval, ?_⟩
  · rw [hN]; exact s0
  · rw [hN]; exact s1
  · rw [hN]; exact s2
  · rw [hN]; exact sq
  · intro hrd hdt
    rw [hval, hN, hm]
    have hr0 : p.particle_radius ≠ 0 := hr.ne.symm
    have hNne : (-945 : F) / (32 * PI * (4 * p.particle_radius) ^ 9) ≠ 0 := by
      apply div_ne_zero (by norm_num)
      exact mul_ne_zero (mul_ne_zero (by norm_num) hPI) (pow_ne_zero _ (by positivity))
    have hmne : p.rest_density / (1 / (2 * p.particle_radius)) ^ 3 ≠ 0 := by
      apply div_ne_zero hrd
      exact pow_ne_zero _ (div_ne_zero one_ne_zero (by positivity))
    have h1 : 0 < p.delta_t ^ 2 := by positivity
    have h2 : 0 < (p.rest_density / (1 / (2 * p.particle_radius)) ^ 3) ^ 2 := by positivity
    have h3 : 0 < p.rest_density ^ 2 := by positivity
    have h4 : 0 < ((-945 : F) / (32 * PI * (4 * p.particle_radius) ^ 9)) ^ 2 := by
      positivity
    have h5 : 0 < p.particle_radius ^ 10 := by positivity
    positivity

/-- Witness of C27 over the reals: radius 1, rest density 1, time step 1, with the real
square root and the real π. -/
theorem scaling_factor_closed_form_witness :
    Real.pi ≠ 0 ∧
    ∃ q, deduce_params (Arith.exact ℝ Real.sqrt Real.pi) 8
        (Simulation_Params.mk 1 0 1 0 1 0 0 0 0 0 0 0 0 0 0 0 0 0 1 0) = some q ∧
      q.poly6_d1_normalization = -945 / (32 * Real.pi * (4 * 1) ^ 9) ∧
      q.density_variation_scaling_factor
        = 1 / ((1 : ℝ) ^ 2 * q.particle_mass ^ 2 * 2 / 1 ^ 2
            * (1024 * 894 * q.poly6_d1_normalization ^ 2 * 1 ^ 10)) ∧
      0 < q.density_variation_scaling_factor := by
  obtain ⟨q, hq, hN, _, _, _, _, _, _, hv, hpos⟩ := scaling_factor_closed_form Real.sqrt
    Real.pi (fun x hx => Real.mul_self_sqrt hx) Real.pi_ne_zero 8 (le_refl 8)
    (Simulation_Params.mk 1 0 1 0 1 0 0 0 0 0 0 0 0 0 0 0 0 0 1 0) one_pos
  exact ⟨Real.pi_ne_zero, q, hq, hN, hv, hpos one_ne_zero one_ne_zero⟩

/-! ## Lemmas: the spec-modelled reorder -/

theorem spec_reorder_get {α : Type} (array : List α) : ∀ (src : List Nat),
    (∀ j ∈ src, j < array.length) → ∀ i : Nat,
    (spec_reorder src array)[i]? = (src[i]?).bind (fun (j : Nat) => array[j]?) := by
  intro src
  induction src with
  | nil => intro _ i; simp [spec_reorder]
  | cons a t ih =>
    intro h i
    have ha : a < array.length := h a (List.mem_cons_self _ _)
    have e : spec_reorder (a :: t) array = array[a] :: spec_reorder t array := by
      simp [spec_reorder, List.filterMap_cons, List.getElem?_eq_getElem ha]
    rw [e]
    cases i with
    | zero => simp [List.getElem?_eq_getElem ha]
    | succ i =>
      simp only [List.getElem?_cons_succ]
      exact ih (fun j hj => h j (List.mem_cons_of_mem _ hj)) i

theorem spec_reorder_length {α : Type} (array : List α) : ∀ (src : List Nat),
    (∀ j ∈ src, j < array.length) → (spec_reorder src array).length = src.length := by
  intro src
  induction src with
  | nil => intro _; rfl
  | cons a t ih =>
    intro h
    have ha : a < array.length := h a (List.mem_cons_self _ _)
    have e : spec_reorder (a :: t) array = array[a] :: spec_reorder t array := by
      simp [spec_reorder, List.filterMap_cons, List.getElem?_eq_getElem ha]
    rw [e, List.length_cons, List.length_cons,
      ih (fun j hj => h j (List.mem_cons_of_mem _ hj))]

theorem spec_reorder_range {α : Type} (array : List α) :
    spec_reorder (List.range array.length) array = array := by
  apply List.ext_getElem?
  intro i
  rw [spec_reorder_get array _ (fun j hj => List.mem_range.mp hj)]
  by_cases hi : i < array.length
  · rw [List.getElem?_range hi]
    rfl
  · have h1 : (List.range array.length)[i]? = none := by
      apply List.getElem?_eq_none
      simp
      omega
    rw [h1, List.getElem?_eq_none (by omega)]
    rfl

/-- Reordering by a permutation of the indices and then by its inverse gives the array
back. -/
theorem spec_reorder_round_trip {α : Type} (src : List Nat) (array : List α)
    (hperm : src.Perm (List.range array.length)) :
    spec_reorder (spec_inverse src) (spec_reorder src array) = array ∧
    (spec_reorder src array).Perm array := by
  have hmem : ∀ j, j ∈ src ↔ j < array.length := fun j =>
    (hperm.mem_iff).trans List.mem_range
  have hlen : src.length = array.length := by
    rw [hperm.length_eq, List.length_range]
  have hvalid : ∀ j ∈ src, j < array.length := fun j hj => (hmem j).mp hj
  have hlen2 : (spec_reorder src array).length = array.length := by
    rw [spec_reorder_length array src hvalid, hlen]
  have hinv : ∀ j ∈ spec_inverse src, j < (spec_reorder src array).length := by
    intro j hj
    rw [spec_inverse, List.mem_map] at hj
    obtain ⟨k, hk, rfl⟩ := hj
    rw [hlen2, ← hlen]
    apply List.indexOf_lt_length.mpr
    rw [hmem]
    have := List.mem_range.mp hk
    omega
  constructor
  · apply List.ext_getElem?
    intro i
    rw [spec_reorder_get _ _ hinv]
    by_cases hi : i < array.length
    · have h1 : (spec_inverse src)[i]? = some (src.indexOf i) := by
        rw [spec_inverse, List.getElem?_map, List.getElem?_range (by omega)]
        rfl
      have hidx : src.indexOf i < src.length :=
        List.indexOf_lt_length.mpr ((hmem i).mpr hi)
      rw [h1, Option.some_bind, spec_reorder_get _ _ hvalid,
        List.getElem?_eq_getElem hidx, Option.some_bind]
      have : src[src.indexOf i] = i := List.getElem_indexOf hidx
      rw [this]
    · have h1 : (spec_inverse src)[i]? = none := by
        apply List.getElem?_eq_none
        simp [spec_inverse]
        omega
      rw [h1, List.getElem?_eq_none (by omega)]
      rfl
  · have := List.Perm.filterMap (fun j => array[j]?) hperm
    have e := spec_reorder_range array
    unfold spec_reorder at e ⊢
    rw [e] at this
    exact this

theorem spec_src_locations_perm (hash : Nat → Nat) (count bucket_count : Nat) :
    (spec_src_locations hash count bucket_count).Perm (List.range count) := by
  have h := (spec_radixsort_perm (spec_initialize_keys hash count)).map Prod.snd
  have e : (spec_initialize_keys hash count).map Prod.snd = List.range count := by
    rw [spec_initialize_keys, List.map_map]
    exact List.map_id _
  rw [e] at h
  exact h

/-! ## The reorder of the grid build (C21), spec-modelled -/

/-- C21, spec-modelled. The source-location array which the grid build leaves for
`count` particles is a permutation of `0 .. count - 1`: it has no duplicates and every
index below `count` occurs in it. Reordering an array of `count` entries (the fluid
positions, the fluid velocities) by it and then by its inverse gives the array back, and
the reordered array is a permutation of the array: no particle is lost or duplicated. -/
theorem source_locations_round_trip {α : Type} (hash : Nat → Nat)
    (count bucket_count : Nat) (array : List α) (hlen : array.length = count) :
    (spec_src_locations hash count bucket_count).Perm (List.range count) ∧
    (spec_src_locations hash count bucket_count).Nodup ∧
    (∀ j, j ∈ spec_src_locations hash count bucket_count ↔ j < count) ∧
    spec_reorder (spec_inverse (spec_src_locations hash count bucket_count))
      (spec_reorder (spec_src_locations hash count bucket_count) array) = array ∧
    (spec_reorder (spec_src_locations hash count bucket_count) array).Perm array := by
  have hperm := spec_src_locations_perm hash count bucket_count
  have hperm2 : (spec_src_locations hash count bucket_count).Perm
      (List.range array.length) := by
    rw [hlen]
    exact hperm
  exact ⟨hperm, hperm.nodup_iff.mpr (List.nodup_range count),
    fun j => hperm.mem_iff.trans List.mem_range,
    (spec_reorder_round_trip _ array hperm2).1, (spec_reorder_round_trip _ array hperm2).2⟩

/-- Witness of C21: six particles hashed to the cells 0, 3, 2, 1, 0, 3; the source
locations, the reordered array and the round trip are evaluated. -/
theorem source_locations_round_trip_witness :
    [10, 11, 12, 13, 14, 15].length = 6 ∧
    spec_src_locations (fun i => 3 * i % 4) 6 64 = [0, 4, 3, 2, 1, 5] ∧
    spec_reorder (spec_src_locations (fun i => 3 * i % 4) 6 64) [10, 11, 12, 13, 14, 15]
      = [10, 14, 13, 12, 11, 15] ∧
    spec_reorder (spec_inverse (spec_src_locations (fun i => 3 * i % 4) 6 64))
      (spec_reorder (spec_src_locations (fun i => 3 * i % 4) 6 64)
        [10, 11, 12, 13, 14, 15]) = [10, 11, 12, 13, 14, 15] :=
  ⟨rfl, by decide, by decide,
    (source_locations_round_trip (fun i => 3 * i % 4) 6 64 [10, 11, 12, 13, 14, 15]
      rfl).2.2.2.1⟩

/-! ## The voxel reads of the scene loader -/

theorem voxel_type_outside (d : Data) (x y z : Nat)
    (h : x ≥ d.vol_size0 ∨ y ≥ d.vol_size1 ∨ z ≥ d.vol_size2) :
    d.voxel_type x y z = some Voxel_Type.EMPTY := by
  simp [Data.voxel_type, Data.voxel_value, h, Voxel_Type.of_value]

theorem voxel_type_inside (d : Data) (x y z : Nat)
    (hx : x < d.vol_size0) (hy : y < d.vol_size1) (hz : z < d.vol_size2) :
    d.voxel_type x y z = (d.voxels[d.voxel_index x y z]?).map Voxel_Type.of_value := by
  have h : ¬ (x ≥ d.vol_size0 ∨ y ≥ d.vol_size1 ∨ z ≥ d.vol_size2) := by
    intro h
    omega
  simp only [Data.voxel_type, Data.voxel_value, if_neg h]

theorem voxel_index_mod (d : Data) (x y z : Nat) :
    d.voxel_index x y z
      = (x + y * d.vol_size0 + z * d.vol_size0 * d.vol_size1) % 2 ^ 32 := by
  have ha : Nat.ModEq (2 ^ 32) (u32 (x + u32 (y * d.vol_size0))) (x + y * d.vol_size0) :=
    (Nat.mod_modEq _ _).trans (Nat.ModEq.add_left x (Nat.mod_modEq _ _))
  have hb : Nat.ModEq (2 ^ 32) (u32 (u32 (z * d.vol_size0) * d.vol_size1))
      (z * d.vol_size0 * d.vol_size1) :=
    (Nat.mod_modEq _ _).trans (Nat.ModEq.mul_right _ (Nat.mod_modEq _ _))
  exact Nat.ModEq.add ha hb

theorem voxel_sum_lt (s0 s1 s2 x y z : Nat) (hx : x < s0) (hy : y < s1) (hz : z < s2) :
    x + y * s0 + z * s0 * s1 < s0 * s1 * s2 := by
  have h1 : x + y * s0 < (y + 1) * s0 := by
    rw [Nat.add_mul]
    omega
  have h2 : (y + 1) * s0 ≤ s1 * s0 := Nat.mul_le_mul_right _ hy
  have h3 : x + y * s0 + z * (s0 * s1) < (z + 1) * (s0 * s1) := by
    rw [Nat.add_mul, Nat.mul_comm s0 s1]
    omega
  have h4 : (z + 1) * (s0 * s1) ≤ s2 * (s0 * s1) := Nat.mul_le_mul_right _ hz
  rw [Nat.mul_assoc, Nat.mul_comm (s0 * s1) s2]
  omega

theorem voxel_index_inside (d : Data) (x y z : Nat)
    (hfit : d.vol_size0 * d.vol_size1 * d.vol_size2 < 2 ^ 32)
    (hx : x < d.vol_size0) (hy : y < d.vol_size1) (hz : z < d.vol_size2) :
    d.voxel_index x y z = x + y * d.vol_size0 + z * d.vol_size0 * d.vol_size1 ∧
    d.voxel_index x y z < d.vol_size0 * d.vol_size1 * d.vol_size2 := by
  have h := voxel_sum_lt d.vol_size0 d.vol_size1 d.vol_size2 x y z hx hy hz
  rw [voxel_index_mod, Nat.mod_eq_of_lt (by omega)]
  exact ⟨rfl, h⟩

/-- A read at any coordinate triple is defined when the voxel data covers the volume
and the volume fits in 32 bits. -/
theorem voxel_type_defined (d : Data) (x y z : Nat)
    (hfit : d.vol_size0 * d.vol_size1 * d.vol_size2 < 2 ^ 32)
    (hlen : d.vol_size0 * d.vol_size1 * d.vol_size2 ≤ d.voxels.length) :
    (x ≥ d.vol_size0 ∨ y ≥ d.vol_size1 ∨ z ≥ d.vol_size2) ∧
      d.voxel_type x y z = some Voxel_Type.EMPTY ∨
    (x < d.vol_size0 ∧ y < d.vol_size1 ∧ z < d.vol_size2) ∧
      d.voxel_index x y z < d.vol_size0 * d.vol_size1 * d.vol_size2 ∧
      ∃ v, d.voxels[d.voxel_index x y z]? = some v ∧
        d.voxel_type x y z = some (Voxel_Type.of_value v) := by
  by_cases h : x ≥ d.vol_size0 ∨ y ≥ d.vol_size1 ∨ z ≥ d.vol_size2
  · exact Or.inl ⟨h, voxel_type_outside d x y z h⟩
  · have hx : x < d.vol_size0 := by omega
    have hy : y < d.vol_size1 := by omega
    have hz : z < d.vol_size2 := by omega
    have hi := (voxel_index_inside d x y z hfit hx hy hz).2
    have hl : d.voxel_index x y z < d.voxels.length := by omega
    refine Or.inr ⟨⟨hx, hy, hz⟩, hi, d.voxels[d.voxel_index x y z], ?_, ?_⟩
    · exact List.getElem?_eq_getElem hl
    · rw [voxel_type_inside d x y z hx hy hz, List.getElem?_eq_getElem hl]
      rfl

theorem of_value_other (v : Nat) (h1 : v ≠ 1) (h2 : v ≠ 2) (h3 : v ≠ 3) (h4 : v ≠ 4) :
    Voxel_Type.of_value v = Voxel_Type.EMPTY := by
  unfold Voxel_Type.of_value
  split <;> first | rfl | contradiction

/-- C30, as amended: for every volume with 32-bit sizes and every coordinate triple,
`voxel_type` returns EMPTY when a coordinate lies outside the volume, the wrapped
coordinate `0 - 1 = 2^32 - 1` included; inside the volume it reads the index
`x + y * size[0] + z * size[0] * size[1]` (computed modulo 2^32) and maps 1, 2, 3, 4 and
every other value to BOUNDARY_VISIBLE, BOUNDARY_INVISIBLE, BLOCKER, FLUID and EMPTY; and
when the volume fits in 32 bits the index is the exact sum, it lies below the volume,
and each of the six neighbour probes of `load_xraw_host` either returns EMPTY without a
read or reads below the volume, so every read lies within the voxel data when the file
holds a byte for every voxel of the volume its header announces. -/
theorem voxel_type_in_range (d : Data) (x y z : Nat)
    (hs0 : d.vol_size0 < 2 ^ 32) (hs1 : d.vol_size1 < 2 ^ 32)
    (hs2 : d.vol_size2 < 2 ^ 32) :
    (x ≥ d.vol_size0 ∨ y ≥ d.vol_size1 ∨ z ≥ d.vol_size2 →
      d.voxel_value x y z = some 0 ∧ d.voxel_type x y z = some Voxel_Type.EMPTY) ∧
    (u32 (0 + 2 ^ 32 - 1) = 2 ^ 32 - 1 ∧
      d.voxel_type (u32 (0 + 2 ^ 32 - 1)) y z = some Voxel_Type.EMPTY ∧
      d.voxel_type x (u32 (0 + 2 ^ 32 - 1)) z = some Voxel_Type.EMPTY ∧
      d.voxel_type x y (u32 (0 + 2 ^ 32 - 1)) = some Voxel_Type.EMPTY) ∧
    (x < d.vol_size0 → y < d.vol_size1 → z < d.vol_size2 →
      d.voxel_index x y z
        = (x + y * d.vol_size0 + z * d.vol_size0 * d.vol_size1) % 2 ^ 32 ∧
      d.voxel_value x y z = d.voxels[d.voxel_index x y z]? ∧
      d.voxel_type x y z
        = (d.voxels[d.voxel_index x y z]?).map Voxel_Type.of_value) ∧
    (Voxel_Type.of_value 1 = Voxel_Type.BOUNDARY_VISIBLE ∧
      Voxel_Type.of_value 2 = Voxel_Type.BOUNDARY_INVISIBLE ∧
      Voxel_Type.of_value 3 = Voxel_Type.BLOCKER ∧
      Voxel_Type.of_value 4 = Voxel_Type.FLUID ∧
      ∀ v, v ≠ 1 → v ≠ 2 → v ≠ 3 → v ≠ 4 →
        Voxel_Type.of_value v = Voxel_Type.EMPTY) ∧
    (d.vol_size0 * d.vol_size1 * d.vol_size2 < 2 ^ 32 →
      (x < d.vol_size0 → y < d.vol_size1 → z < d.vol_size2 →
        d.voxel_index x y z = x + y * d.vol_size0 + z * d.vol_size0 * d.vol_size1 ∧
        d.voxel_index x y z < d.vol_size0 * d.vol_size1 * d.vol_size2) ∧
      (∀ p ∈ neighbour_probes x y z,
        (p.1 ≥ d.vol_size0 ∨ p.2.1 ≥ d.vol_size1 ∨ p.2.2 ≥ d.vol_size2) ∧
          d.voxel_type p.1 p.2.1 p.2.2 = some Voxel_Type.EMPTY ∨
        (p.1 < d.vol_size0 ∧ p.2.1 < d.vol_size1 ∧ p.2.2 < d.vol_size2) ∧
          d.voxel_index p.1 p.2.1 p.2.2
            < d.vol_size0 * d.vol_size1 * d.vol_size2) ∧
      (d.vol_size0 * d.vol_size1 * d.vol_size2 ≤ d.voxels.length →
        ∀ p ∈ (x, y, z) :: neighbour_probes x y z,
          ∃ t, d.voxel_type p.1 p.2.1 p.2.2 = some t)) := by
  have hw : u32 (0 + 2 ^ 32 - 1) = 2 ^ 32 - 1 := by decide
  refine ⟨fun h => ⟨?_, voxel_type_outside d x y z h⟩, ⟨hw, ?_, ?_, ?_⟩, ?_,
    ⟨rfl, rfl, rfl, rfl, of_value_other⟩, ?_⟩
  · simp [Data.voxel_value, h]
  · exact voxel_type_outside d _ y z (Or.inl (by rw [hw]; omega))
  · exact voxel_type_outside d x _ z (Or.inr (Or.inl (by rw [hw]; omega)))
  · exact voxel_type_outside d x y _ (Or.inr (Or.inr (by rw [hw]; omega)))
  · intro h0 h1 h2
    refine ⟨voxel_index_mod d x y z, ?_, voxel_type_inside d x y z h0 h1 h2⟩
    have h : ¬ (x ≥ d.vol_size0 ∨ y ≥ d.vol_size1 ∨ z ≥ d.vol_size2) := by
      intro h
      omega
    simp only [Data.voxel_value, if_neg h]
  · intro hfit
    refine ⟨voxel_index_inside d x y z hfit, ?_, ?_⟩
    · intro p _
      by_cases h : p.1 ≥ d.vol_size0 ∨ p.2.1 ≥ d.vol_size1 ∨ p.2.2 ≥ d.vol_size2
      · exact Or.inl ⟨h, voxel_type_outside d _ _ _ h⟩
      · have h0 : p.1 < d.vol_size0 := by omega
        have h1 : p.2.1 < d.vol_size1 := by omega
        have h2 : p.2.2 < d.vol_size2 := by omega
        exact Or.inr ⟨⟨h0, h1, h2⟩, (voxel_index_inside d _ _ _ hfit h0 h1 h2).2⟩
    · intro hlen p _
      rcases voxel_type_defined d p.1 p.2.1 p.2.2 hfit hlen with h | h
      · exact ⟨_, h.2⟩
      · obtain ⟨_, _, v, _, hv⟩ := h
        exact ⟨_, hv⟩

/-- C30 at the fluid voxel of the example volume. -/
theorem voxel_type_in_range_witness :
    example_data.voxel_type 0 0 0 = some Voxel_Type.FLUID ∧
    example_data.voxel_type (u32 (0 + 2 ^ 32 - 1)) 0 0 = some Voxel_Type.EMPTY ∧
    example_data.voxel_index 1 0 0 < 2 :=
  have h := voxel_type_in_range example_data 0 0 0 (by decide) (by decide) (by decide)
  ⟨by decide, h.2.1.2.1, by decide⟩

/-- Counterexample to C30 as stated: a file whose header announces `3 x 1 x 1` voxels
and which holds one voxel byte is accepted (scenes.cpp:36-40 test only that the file is
not empty), and its volume fits in 32 bits. At the voxel `(1, 0, 0)` the neighbour probe
`(2, 0, 0)` lies inside the volume and reads the index 2, which is past the one byte of
voxel data and past the byte which ends the string after it. -/
theorem voxel_probe_past_data :
    short_data.vol_size0 * short_data.vol_size1 * short_data.vol_size2 < 2 ^ 32 ∧
    (2, 0, 0) ∈ neighbour_probes 1 0 0 ∧
    (2 < short_data.vol_size0 ∧ 0 < short_data.vol_size1 ∧ 0 < short_data.vol_size2) ∧
    short_data.voxel_index 2 0 0 = 2 ∧ short_data.voxels.length = 1 ∧
    short_data.voxel_value 2 0 0 = none ∧ short_data.voxel_type 2 0 0 = none := by
  decide

/-! ## The lattice of the scene loader -/

theorem foldlM_append_some {α β : Type} (g : α → List β) (l : List α) (acc : List β) :
    l.foldlM (fun acc z => (some (acc ++ g z) : Option (List β))) acc
      = some (acc ++ l.flatMap g) := by
  induction l generalizing acc with
  | nil => simp
  | cons a l ih =>
    rw [List.foldlM_cons]
    show l.foldlM (fun acc z => (some (acc ++ g z) : Option (List β))) (acc ++ g a) = _
    rw [ih, List.flatMap_cons, List.append_assoc]

theorem for_int32_append {β : Type} (lo hi : Int) (g : Int → List β) (acc : List β)
    (h : hi ≠ 2 ^ 31 - 1) :
    for_int32 lo hi (fun z acc => some (acc ++ g z)) acc
      = some (acc ++ (int_range lo hi).flatMap g) := by
  unfold for_int32
  rw [if_neg (fun c => h c.2)]
  exact foldlM_append_some g _ acc

theorem add_cube_eq {F : Type} (A : Arith F) (ps : F) (off : F × F × F)
    (lo hi : Int × Int × Int) (positions : List F)
    (hx : hi.1 ≠ 2 ^ 31 - 1) (hy : hi.2.1 ≠ 2 ^ 31 - 1) (hz : hi.2.2 ≠ 2 ^ 31 - 1) :
    add_cube A ps off lo hi positions = some (positions ++ cube_points A ps off lo hi) := by
  unfold add_cube cube_points
  simp only [for_int32_append _ _ _ _ hx, for_int32_append _ _ _ _ hy,
    for_int32_append _ _ _ _ hz]

theorem cube_points_length {F : Type} (A : Arith F) (ps : F) (off : F × F × F)
    (lo hi : Int × Int × Int) :
    (cube_points A ps off lo hi).length
      = 3 * ((int_range lo.2.2 hi.2.2).length * ((int_range lo.2.1 hi.2.1).length
          * (int_range lo.1 hi.1).length)) := by
  unfold cube_points
  simp only [List.length_flatMap, Function.comp_def, List.length_cons, List.length_nil,
    List.map_const', List.sum_replicate, smul_eq_mul]
  ring

theorem flatMap_map_eq {α β γ : Type} (f : α → β) (g : β → List γ) (l : List α) :
    (l.map f).flatMap g = l.flatMap fun a => g (f a) := by
  induction l with
  | nil => rfl
  | cons a l ih => simp [List.flatMap_cons, ih]

theorem int_range_lattice (n ppd : Nat) (h : 1 ≤ ppd) :
    int_range (n : Int) ((n : Int) + (ppd : Int) - 1)
      = (List.range ppd).map fun i => ((n + i : Nat) : Int) := by
  unfold int_range
  have e : ((n : Int) + (ppd : Int) - 1 + 1 - (n : Int)).toNat = ppd := by omega
  rw [e]
  apply List.map_congr_left
  intro i _
  push_cast
  rfl

theorem cube_points_lattice {F : Type} (A : Arith F) (ps : F) (off : F × F × F)
    (ppd x y z : Nat) (h : 1 ≤ ppd) :
    cube_points A ps off
        (((x * ppd : Nat) : Int), ((y * ppd : Nat) : Int), ((z * ppd : Nat) : Int))
        (((x * ppd : Nat) : Int) + (ppd : Int) - 1, ((y * ppd : Nat) : Int) + (ppd : Int) - 1,
          ((z * ppd : Nat) : Int) + (ppd : Int) - 1)
      = voxel_points A ppd ps off x y z := by
  unfold cube_points voxel_points
  simp only [int_range_lattice _ _ h, flatMap_map_eq]

theorem voxel_points_length {F : Type} (A : Arith F) (ppd : Nat) (ps : F)
    (off : F × F × F) (x y z : Nat) :
    (voxel_points A ppd ps off x y z).length = 3 * ppd ^ 3 := by
  unfold voxel_points
  simp only [List.length_flatMap, Function.comp_def, List.length_cons, List.length_nil,
    List.map_const', List.sum_replicate, smul_eq_mul, List.length_range]
  ring

theorem i32_small (n : Nat) (h : n < 2 ^ 31) : i32 n = (n : Int) := by
  unfold i32
  have e : n % 2 ^ 32 = n := Nat.mod_eq_of_lt (by omega)
  rw [e, if_pos h]

theorem to_u32_small (n : Nat) (h : n < 2 ^ 32) : to_u32 (n : Int) = n := by
  unfold to_u32
  omega

theorem bb_lower_axis_eq (ppd x : Nat) (t : Voxel_Type) (ht : t ≠ Voxel_Type.BLOCKER)
    (h : x * ppd < 2 ^ 31) : bb_lower_axis ppd x t = ((x * ppd : Nat) : Int) := by
  unfold bb_lower_axis
  rw [if_neg ht]
  have e : u32 (x * ppd) = x * ppd := Nat.mod_eq_of_lt (by omega)
  rw [e, i32_small _ h]

theorem bb_upper_axis_eq (ppd x : Nat) (t : Voxel_Type) (ht : t ≠ Voxel_Type.BLOCKER)
    (hp : 1 ≤ ppd) (h : x * ppd + ppd ≤ 2 ^ 31) :
    bb_upper_axis ppd x t = ((x * ppd : Nat) : Int) + (ppd : Int) - 1 := by
  unfold bb_upper_axis
  rw [if_neg ht]
  generalize x * ppd = n at h
  have e : u32 n = n := Nat.mod_eq_of_lt (by omega)
  rw [e, i32_small n (by omega), to_u32_small n (by omega)]
  have e2 : u32 (n + ppd) = n + ppd := Nat.mod_eq_of_lt (by omega)
  have e3 : u32 (n + ppd + 2 ^ 32 - 1) = n + ppd - 1 := by
    unfold u32
    omega
  rw [e2, e3, i32_small (n + ppd - 1) (by omega)]
  omega

theorem bb_upper_axis_lt (ppd x : Nat) (t : Voxel_Type) (hp : 1 ≤ ppd)
    (h : x * ppd + ppd + 3 < 2 ^ 31) : bb_upper_axis ppd x t ≠ 2 ^ 31 - 1 := by
  by_cases ht : t = Voxel_Type.BLOCKER
  · unfold bb_upper_axis
    rw [if_pos ht]
    generalize x * ppd = n at h
    have e : u32 n = n := Nat.mod_eq_of_lt (by omega)
    have e2 : u32 (n + 2) = n + 2 := Nat.mod_eq_of_lt (by omega)
    rw [e, e2, i32_small (n + 2) (by omega)]
    omega
  · rw [bb_upper_axis_eq ppd x t ht hp (by omega)]
    omega

theorem of_int_exact {F : Type} [LinearOrderedField F] (sqrt : F → F) (PI : F) (n : Nat) :
    (Arith.exact F sqrt PI).of_int ((n : Nat) : Int) = (n : F) := by
  unfold Arith.of_int
  rw [if_pos (Int.natCast_nonneg n)]
  rfl

/-- The result of the loop body at a voxel whose reads are defined and whose box has no
upper bound `INT32_MAX`. -/
theorem load_voxel_eq {F : Type} (A : Arith F) (d : Data) (ppd : Nat) (scaling ps : F)
    (off : F × F × F) (x y z : Nat) (v : Host_Vectors F)
    (t xa xb ya yb za zb : Voxel_Type)
    (ht : d.voxel_type x y z = some t)
    (hxa : d.voxel_type (u32 (x + 1)) y z = some xa)
    (hxb : d.voxel_type (u32 (x + 2 ^ 32 - 1)) y z = some xb)
    (hya : d.voxel_type x (u32 (y + 1)) z = some ya)
    (hyb : d.voxel_type x (u32 (y + 2 ^ 32 - 1)) z = some yb)
    (hza : d.voxel_type x y (u32 (z + 1)) = some za)
    (hzb : d.voxel_type x y (u32 (z + 2 ^ 32 - 1)) = some zb)
    (hx : bb_upper_axis ppd x xa ≠ 2 ^ 31 - 1) (hy : bb_upper_axis ppd y ya ≠ 2 ^ 31 - 1)
    (hz : bb_upper_axis ppd z za ≠ 2 ^ 31 - 1) :
    load_voxel A d ppd scaling ps off x y z v
      = some
        (match t with
        | .BOUNDARY_INVISIBLE =>
          Host_Vectors.mk v.fluid_positions
            (v.boundary_positions ++ cube_points A ps off
              (bb_lower_axis ppd x xb, bb_lower_axis ppd y yb, bb_lower_axis ppd z zb)
              (bb_upper_axis ppd x xa, bb_upper_axis ppd y ya, bb_upper_axis ppd z za))
            v.boundary_cubes
        | .BOUNDARY_VISIBLE =>
          Host_Vectors.mk v.fluid_positions
            (v.boundary_positions ++ cube_points A ps off
              (bb_lower_axis ppd x xb, bb_lower_axis ppd y yb, bb_lower_axis ppd z zb)
              (bb_upper_axis ppd x xa, bb_upper_axis ppd y ya, bb_upper_axis ppd z za))
            (v.boundary_cubes ++
              [A.add (A.mul (A.lit x) scaling) off.1,
               A.add (A.mul (A.lit z) scaling) off.2.1,
               A.add (A.mul (A.lit y) scaling) off.2.2])
        | .FLUID =>
          Host_Vectors.mk
            (v.fluid_positions ++ cube_points A ps off
              (bb_lower_axis ppd x xb, bb_lower_axis ppd y yb, bb_lower_axis ppd z zb)
              (bb_upper_axis ppd x xa, bb_upper_axis ppd y ya, bb_upper_axis ppd z za))
            v.boundary_positions v.boundary_cubes
        | _ => v) := by
  unfold load_voxel
  simp only [ht, hxa, hxb, hya, hyb, hza, hzb, Option.bind_eq_bind, Option.some_bind]
  have e := fun positions => add_cube_eq A ps off
    (bb_lower_axis ppd x xb, bb_lower_axis ppd y yb, bb_lower_axis ppd z zb)
    (bb_upper_axis ppd x xa, bb_upper_axis ppd y ya, bb_upper_axis ppd z za) positions
    hx hy hz
  cases t <;> simp [e]

theorem voxel_type_some (d : Data) (x y z : Nat)
    (hfit : d.vol_size0 * d.vol_size1 * d.vol_size2 < 2 ^ 32)
    (hlen : d.vol_size0 * d.vol_size1 * d.vol_size2 ≤ d.voxels.length) :
    ∃ t, d.voxel_type x y z = some t := by
  rcases voxel_type_defined d x y z hfit hlen with h | h
  · exact ⟨_, h.2⟩
  · obtain ⟨_, _, v, _, hv⟩ := h
    exact ⟨_, hv⟩

/-- The loop body returns at every voxel of a volume which fits, and keeps both position
vectors whole triples. -/
theorem load_voxel_total {F : Type} (A : Arith F) (d : Data) (ppd : Nat) (scaling ps : F)
    (off : F × F × F) (x y z : Nat) (v : Host_Vectors F)
    (hfit : d.vol_size0 * d.vol_size1 * d.vol_size2 < 2 ^ 32)
    (hlen : d.vol_size0 * d.vol_size1 * d.vol_size2 ≤ d.voxels.length)
    (hp : 1 ≤ ppd) (hx : x * ppd + ppd + 3 < 2 ^ 31) (hy : y * ppd + ppd + 3 < 2 ^ 31)
    (hz : z * ppd + ppd + 3 < 2 ^ 31)
    (hv : 3 ∣ v.fluid_positions.length ∧ 3 ∣ v.boundary_positions.length) :
    ∃ r, load_voxel A d ppd scaling ps off x y z v = some r ∧
      (3 ∣ r.fluid_positions.length ∧ 3 ∣ r.boundary_positions.length) := by
  obtain ⟨t, ht⟩ := voxel_type_some d x y z hfit hlen
  obtain ⟨xa, hxa⟩ := voxel_type_some d (u32 (x + 1)) y z hfit hlen
  obtain ⟨xb, hxb⟩ := voxel_type_some d (u32 (x + 2 ^ 32 - 1)) y z hfit hlen
  obtain ⟨ya, hya⟩ := voxel_type_some d x (u32 (y + 1)) z hfit hlen
  obtain ⟨yb, hyb⟩ := voxel_type_some d x (u32 (y + 2 ^ 32 - 1)) z hfit hlen
  obtain ⟨za, hza⟩ := voxel_type_some d x y (u32 (z + 1)) hfit hlen
  obtain ⟨zb, hzb⟩ := voxel_type_some d x y (u32 (z + 2 ^ 32 - 1)) hfit hlen
  refine ⟨_, load_voxel_eq A d ppd scaling ps off x y z v t xa xb ya yb za zb ht hxa hxb
    hya hyb hza hzb (bb_upper_axis_lt ppd x xa hp hx) (bb_upper_axis_lt ppd y ya hp hy)
    (bb_upper_axis_lt ppd z za hp hz), ?_⟩
  cases t
  · exact ⟨hv.1, by
      show 3 ∣ (v.boundary_positions ++ _).length
      rw [List.length_append, cube_points_length]
      exact Dvd.dvd.add hv.2 (Dvd.intro _ rfl)⟩
  · exact ⟨hv.1, by
      show 3 ∣ (v.boundary_positions ++ _).length
      rw [List.length_append, cube_points_length]
      exact Dvd.dvd.add hv.2 (Dvd.intro _ rfl)⟩
  · exact hv
  · exact ⟨by
      show 3 ∣ (v.fluid_positions ++ _).length
      rw [List.length_append, cube_points_length]
      exact Dvd.dvd.add hv.1 (Dvd.intro _ rfl), hv.2⟩
  · exact hv

theorem foldlM_total {α σ : Type} (P : σ → Prop) (f : σ → α → Option σ) (l : List α)
    (acc : σ) (h : ∀ a ∈ l, ∀ s, P s → ∃ r, f s a = some r ∧ P r) (h0 : P acc) :
    ∃ r, l.foldlM f acc = some r ∧ P r := by
  induction l generalizing acc with
  | nil => exact ⟨acc, rfl, h0⟩
  | cons a l ih =>
    obtain ⟨r, hr, hP⟩ := h a (List.mem_cons_self a l) acc h0
    rw [List.foldlM_cons, hr]
    exact ih r (fun b hb s hs => h b (List.mem_cons_of_mem a hb) s hs) hP

/-- The loader returns for a volume which fits, and both position vectors hold whole
triples. -/
theorem load_xraw_host_total {F : Type} (A : Arith F) (d : Data) (ppd : Nat) (scaling : F)
    (hfit : d.vol_size0 * d.vol_size1 * d.vol_size2 < 2 ^ 32)
    (hlen : d.vol_size0 * d.vol_size1 * d.vol_size2 ≤ d.voxels.length)
    (hp : 1 ≤ ppd) (h0 : d.vol_size0 * ppd + 3 < 2 ^ 31)
    (h1 : d.vol_size1 * ppd + 3 < 2 ^ 31) (h2 : d.vol_size2 * ppd + 3 < 2 ^ 31) :
    ∃ v, load_xraw_host A d ppd scaling = some v ∧
      (3 ∣ v.fluid_positions.length ∧ 3 ∣ v.boundary_positions.length) := by
  have hb : ∀ s x : Nat, x < s → s * ppd + 3 < 2 ^ 31 → x * ppd + ppd + 3 < 2 ^ 31 := by
    intro s x hx hs
    have h := Nat.mul_le_mul_right ppd (Nat.succ_le_of_lt hx)
    rw [Nat.succ_mul] at h
    omega
  unfold load_xraw_host
  refine foldlM_total _ _ _ _ (fun z hz s hs => ?_) ⟨Dvd.intro 0 rfl, Dvd.intro 0 rfl⟩
  refine foldlM_total _ _ _ _ (fun y hy s hs => ?_) hs
  refine foldlM_total _ _ _ _ (fun x hx s hs => ?_) hs
  exact load_voxel_total A d ppd scaling _ _ x y z s hfit hlen hp
    (hb _ x (List.mem_range.1 hx) h0) (hb _ y (List.mem_range.1 hy) h1)
    (hb _ z (List.mem_range.1 hz) h2) hs

theorem count_of_triples (n : Nat) (h : 3 * n < 2 ^ 32) : u32 (3 * n) / 3 = n := by
  unfold u32
  rw [Nat.mod_eq_of_lt h]
  omega

theorem long_data_last : long_data.voxels[2 ^ 30]? = some 4 := by
  show (List.replicate (2 ^ 30) 0 ++ [4])[2 ^ 30]? = some 4
  rw [List.getElem?_append_right (by rw [List.length_replicate])]
  simp only [List.length_replicate, Nat.sub_self]
  rfl

theorem long_data_before : long_data.voxels[2 ^ 30 - 1]? = some 0 := by
  show (List.replicate (2 ^ 30) 0 ++ [4])[2 ^ 30 - 1]? = some 0
  rw [List.getElem?_append_left (by rw [List.length_replicate]; decide)]
  rw [List.getElem?_replicate, if_pos (by decide)]

theorem long_data_fluid : long_data.voxel_type (2 ^ 30) 0 0 = some Voxel_Type.FLUID := by
  rw [voxel_type_inside long_data _ _ _ (by decide) (by decide) (by decide)]
  have e : long_data.voxel_index (2 ^ 30) 0 0 = 2 ^ 30 := by decide
  rw [e, long_data_last]
  rfl

theorem long_data_probes :
    ∀ p ∈ neighbour_probes (2 ^ 30) 0 0,
      long_data.voxel_type p.1 p.2.1 p.2.2 = some Voxel_Type.EMPTY := by
  intro p hp
  simp only [neighbour_probes, List.mem_cons, List.mem_singleton, List.not_mem_nil,
    or_false] at hp
  rcases hp with h | h | h | h | h | h <;> subst h
  · exact voxel_type_outside long_data _ _ _ (Or.inl (by decide))
  · show long_data.voxel_type (u32 (2 ^ 30 + 2 ^ 32 - 1)) 0 0 = _
    have e : u32 (2 ^ 30 + 2 ^ 32 - 1) = 2 ^ 30 - 1 := by decide
    rw [e, voxel_type_inside long_data _ _ _ (by decide) (by decide) (by decide)]
    have e2 : long_data.voxel_index (2 ^ 30 - 1) 0 0 = 2 ^ 30 - 1 := by decide
    rw [e2, long_data_before]
    rfl
  · exact voxel_type_outside long_data _ _ _ (Or.inr (Or.inl (by decide)))
  · exact voxel_type_outside long_data _ _ _ (Or.inr (Or.inl (by decide)))
  · exact voxel_type_outside long_data _ _ _ (Or.inr (Or.inr (by decide)))
  · exact voxel_type_outside long_data _ _ _ (Or.inr (Or.inr (by decide)))

/-- C26, for volumes whose lattice indices and vector sizes fit in 32 bits: in exact
arithmetic, for `ppd >= 1` and `scaling > 0`, on a volume of fewer than 2^32 voxels which
the voxel data covers and with `size[i] * ppd + 3 < 2^31` per axis, `load_xraw_host`
returns, and `load_xraw` sets `particle_radius = 0.5 * scaling / ppd > 0`, so that the
lattice spacing `scaling / ppd` is `2 * particle_radius` and two positions at consecutive
lattice indices are that far apart; both position vectors hold whole triples, and
`fluid_count` and `boundary_count` are the numbers of triples when the vector sizes are
below 2^32. A FLUID or BOUNDARY voxel `(x, y, z)` none of whose six neighbour probes
returns BLOCKER appends exactly `ppd^3` triples to its vector, those of the lattice
indices `x * ppd + i`, `z * ppd + k`, `y * ppd + j` with `i, j, k < ppd`, each component
`index * (scaling / ppd) + offset`. -/
theorem load_xraw_lattice {F : Type} [LinearOrderedField F] (sqrt : F → F) (PI : F)
    (d : Data) (ppd : Nat) (scaling : F) (fluid : Fluid F)
    (hp : 1 ≤ ppd) (hs : 0 < scaling)
    (hfit : d.vol_size0 * d.vol_size1 * d.vol_size2 < 2 ^ 32)
    (hlen : d.vol_size0 * d.vol_size1 * d.vol_size2 ≤ d.voxels.length)
    (h0 : d.vol_size0 * ppd + 3 < 2 ^ 31) (h1 : d.vol_size1 * ppd + 3 < 2 ^ 31)
    (h2 : d.vol_size2 * ppd + 3 < 2 ^ 31) :
    ∃ v fluid1, load_xraw_host (Arith.exact F sqrt PI) d ppd scaling = some v ∧
      load_xraw (Arith.exact F sqrt PI) d ppd scaling fluid = some fluid1 ∧
      fluid1.params.particle_radius = 1 / 2 * scaling / (ppd : F) ∧
      0 < fluid1.params.particle_radius ∧
      (Arith.exact F sqrt PI).div scaling ((Arith.exact F sqrt PI).lit ppd)
        = 2 * fluid1.params.particle_radius ∧
      (∀ (n : Nat) (o : F),
        (Arith.exact F sqrt PI).add ((Arith.exact F sqrt PI).mul
            ((Arith.exact F sqrt PI).of_int ((n + 1 : Nat) : Int))
            ((Arith.exact F sqrt PI).div scaling ((Arith.exact F sqrt PI).lit ppd))) o
          - (Arith.exact F sqrt PI).add ((Arith.exact F sqrt PI).mul
            ((Arith.exact F sqrt PI).of_int ((n : Nat) : Int))
            ((Arith.exact F sqrt PI).div scaling ((Arith.exact F sqrt PI).lit ppd))) o
          = 2 * fluid1.params.particle_radius) ∧
      (∃ nf nb, v.fluid_positions.length = 3 * nf ∧ v.boundary_positions.length = 3 * nb ∧
        (3 * nf < 2 ^ 32 → fluid1.params.fluid_count = nf) ∧
        (3 * nb < 2 ^ 32 → fluid1.params.boundary_count = nb)) ∧
      ∀ (x y z : Nat) (w : Host_Vectors F) (t : Voxel_Type),
        x < d.vol_size0 → y < d.vol_size1 → z < d.vol_size2 →
        d.voxel_type x y z = some t →
        (∀ p ∈ neighbour_probes x y z,
          d.voxel_type p.1 p.2.1 p.2.2 ≠ some Voxel_Type.BLOCKER) →
        (voxel_points (Arith.exact F sqrt PI) ppd (scaling / (ppd : F))
            (xraw_position_offset (Arith.exact F sqrt PI) d scaling) x y z).length
          = 3 * ppd ^ 3 ∧
        voxel_points (Arith.exact F sqrt PI) ppd (scaling / (ppd : F))
            (xraw_position_offset (Arith.exact F sqrt PI) d scaling) x y z
          = ((List.range ppd).flatMap fun k => (List.range ppd).flatMap fun j =>
              (List.range ppd).flatMap fun i =>
                [((x * ppd + i : Nat) : F) * (scaling / (ppd : F))
                    + -(1 / 2) * scaling * (d.vol_size0 : F),
                 ((z * ppd + k : Nat) : F) * (scaling / (ppd : F))
                    + -(1 / 2) * scaling * (d.vol_size2 : F),
                 ((y * ppd + j : Nat) : F) * (scaling / (ppd : F))
                    + -(1 / 2) * scaling * (d.vol_size1 : F)]) ∧
        (t = Voxel_Type.FLUID →
          load_voxel (Arith.exact F sqrt PI) d ppd scaling (scaling / (ppd : F))
              (xraw_position_offset (Arith.exact F sqrt PI) d scaling) x y z w
            = some (Host_Vectors.mk
                (w.fluid_positions ++ voxel_points (Arith.exact F sqrt PI) ppd
                  (scaling / (ppd : F))
                  (xraw_position_offset (Arith.exact F sqrt PI) d scaling) x y z)
                w.boundary_positions w.boundary_cubes)) ∧
        (t = Voxel_Type.BOUNDARY_INVISIBLE →
          load_voxel (Arith.exact F sqrt PI) d ppd scaling (scaling / (ppd : F))
              (xraw_position_offset (Arith.exact F sqrt PI) d scaling) x y z w
            = some (Host_Vectors.mk w.fluid_positions
                (w.boundary_positions ++ voxel_points (Arith.exact F sqrt PI) ppd
                  (scaling / (ppd : F))
                  (xraw_position_offset (Arith.exact F sqrt PI) d scaling) x y z)
                w.boundary_cubes)) ∧
        (t = Voxel_Type.BOUNDARY_VISIBLE →
          ∃ cubes, load_voxel (Arith.exact F sqrt PI) d ppd scaling (scaling / (ppd : F))
              (xraw_position_offset (Arith.exact F sqrt PI) d scaling) x y z w
            = some (Host_Vectors.mk w.fluid_positions
                (w.boundary_positions ++ voxel_points (Arith.exact F sqrt PI) ppd
                  (scaling / (ppd : F))
                  (xraw_position_offset (Arith.exact F sqrt PI) d scaling) x y z)
                cubes)) := by
  obtain ⟨v, hv, ⟨nf, hnf⟩, ⟨nb, hnb⟩⟩ :=
    load_xraw_host_total (Arith.exact F sqrt PI) d ppd scaling hfit hlen hp h0 h1 h2
  have hppd : (0 : F) < (ppd : F) := Nat.cast_pos.2 hp
  have hr : (Arith.exact F sqrt PI).div
      ((Arith.exact F sqrt PI).mul (Arith.exact F sqrt PI).half scaling)
      ((Arith.exact F sqrt PI).lit ppd) = 1 / 2 * scaling / (ppd : F) := by
    show ((1 : Nat) : F) / ((2 : Nat) : F) * scaling / (ppd : F) = _
    rw [Nat.cast_one, Nat.cast_ofNat]
  have hps : (Arith.exact F sqrt PI).div scaling ((Arith.exact F sqrt PI).lit ppd)
      = scaling / (ppd : F) := rfl
  have hoff : xraw_position_offset (Arith.exact F sqrt PI) d scaling
      = (-(1 / 2) * scaling * (d.vol_size0 : F), -(1 / 2) * scaling * (d.vol_size2 : F),
          -(1 / 2) * scaling * (d.vol_size1 : F)) := by
    show (-(((1 : Nat) : F) / ((2 : Nat) : F)) * scaling * (d.vol_size0 : F),
      -(((1 : Nat) : F) / ((2 : Nat) : F)) * scaling * (d.vol_size2 : F),
      -(((1 : Nat) : F) / ((2 : Nat) : F)) * scaling * (d.vol_size1 : F)) = _
    rw [Nat.cast_one, Nat.cast_ofNat]
  have hb : ∀ s x : Nat, x < s → s * ppd + 3 < 2 ^ 31 → x * ppd + ppd + 3 < 2 ^ 31 := by
    intro s x hx hs
    have h := Nat.mul_le_mul_right ppd (Nat.succ_le_of_lt hx)
    rw [Nat.succ_mul] at h
    omega
  refine ⟨v, ((fluid.set_particle_radius ((Arith.exact F sqrt PI).div
      ((Arith.exact F sqrt PI).mul (Arith.exact F sqrt PI).half scaling)
      ((Arith.exact F sqrt PI).lit ppd))).set_fluid_count
      (u32 v.fluid_positions.length / 3)).set_boundary_count
      (u32 v.boundary_positions.length / 3), hv, ?_,
    hr, ?_, ?_, ?_, ⟨nf, nb, hnf, hnb, ?_, ?_⟩, ?_⟩
  · unfold load_xraw
    rw [hv]
    rfl
  · show 0 < (Arith.exact F sqrt PI).div
      ((Arith.exact F sqrt PI).mul (Arith.exact F sqrt PI).half scaling)
      ((Arith.exact F sqrt PI).lit ppd)
    rw [hr]
    positivity
  · show _ = 2 * (Arith.exact F sqrt PI).div
      ((Arith.exact F sqrt PI).mul (Arith.exact F sqrt PI).half scaling)
      ((Arith.exact F sqrt PI).lit ppd)
    rw [hr, hps]
    ring
  · intro n o
    show _ = 2 * (Arith.exact F sqrt PI).div
      ((Arith.exact F sqrt PI).mul (Arith.exact F sqrt PI).half scaling)
      ((Arith.exact F sqrt PI).lit ppd)
    rw [hr, hps, of_int_exact, of_int_exact]
    show ((n + 1 : Nat) : F) * (scaling / (ppd : F)) + o
      - ((n : F) * (scaling / (ppd : F)) + o) = _
    push_cast
    ring
  · intro h
    show u32 v.fluid_positions.length / 3 = nf
    rw [hnf]
    exact count_of_triples nf h
  · intro h
    show u32 v.boundary_positions.length / 3 = nb
    rw [hnb]
    exact count_of_triples nb h
  · intro x y z w t hx hy hz ht hprobe
    obtain ⟨xa, hxa⟩ := voxel_type_some d (u32 (x + 1)) y z hfit hlen
    obtain ⟨xb, hxb⟩ := voxel_type_some d (u32 (x + 2 ^ 32 - 1)) y z hfit hlen
    obtain ⟨ya, hya⟩ := voxel_type_some d x (u32 (y + 1)) z hfit hlen
    obtain ⟨yb, hyb⟩ := voxel_type_some d x (u32 (y + 2 ^ 32 - 1)) z hfit hlen
    obtain ⟨za, hza⟩ := voxel_type_some d x y (u32 (z + 1)) hfit hlen
    obtain ⟨zb, hzb⟩ := voxel_type_some d x y (u32 (z + 2 ^ 32 - 1)) hfit hlen
    have nxa : xa ≠ Voxel_Type.BLOCKER := fun c =>
      hprobe (u32 (x + 1), y, z) (by simp [neighbour_probes]) (by rw [hxa, c])
    have nxb : xb ≠ Voxel_Type.BLOCKER := fun c =>
      hprobe (u32 (x + 2 ^ 32 - 1), y, z) (by simp [neighbour_probes]) (by rw [hxb, c])
    have nya : ya ≠ Voxel_Type.BLOCKER := fun c =>
      hprobe (x, u32 (y + 1), z) (by simp [neighbour_probes]) (by rw [hya, c])
    have nyb : yb ≠ Voxel_Type.BLOCKER := fun c =>
      hprobe (x, u32 (y + 2 ^ 32 - 1), z) (by simp [neighbour_probes]) (by rw [hyb, c])
    have nza : za ≠ Voxel_Type.BLOCKER := fun c =>
      hprobe (x, y, u32 (z + 1)) (by simp [neighbour_probes]) (by rw [hza, c])
    have nzb : zb ≠ Voxel_Type.BLOCKER := fun c =>
      hprobe (x, y, u32 (z + 2 ^ 32 - 1)) (by simp [neighbour_probes]) (by rw [hzb, c])
    have bx := hb _ x hx h0
    have by1 := hb _ y hy h1
    have bz := hb _ z hz h2
    have e := load_voxel_eq (Arith.exact F sqrt PI) d ppd scaling (scaling / (ppd : F))
      (xraw_position_offset (Arith.exact F sqrt PI) d scaling) x y z w t xa xb ya yb za zb
      ht hxa hxb hya hyb hza hzb (bb_upper_axis_lt ppd x xa hp bx)
      (bb_upper_axis_lt ppd y ya hp by1) (bb_upper_axis_lt ppd z za hp bz)
    rw [bb_lower_axis_eq ppd x xb nxb (by omega), bb_lower_axis_eq ppd y yb nyb (by omega),
      bb_lower_axis_eq ppd z zb nzb (by omega),
      bb_upper_axis_eq ppd x xa nxa hp (by omega),
      bb_upper_axis_eq ppd y ya nya hp (by omega),
      bb_upper_axis_eq ppd z za nza hp (by omega),
      cube_points_lattice _ _ _ ppd x y z hp] at e
    refine ⟨voxel_points_length _ _ _ _ _ _ _, ?_, ?_, ?_, ?_⟩
    · rw [hoff]
      unfold voxel_points
      simp only [of_int_exact]
      rfl
    · intro c
      rw [e, c]
    · intro c
      rw [e, c]
    · intro c
      rw [e, c]
      exact ⟨_, rfl⟩

/-- C26 on the example volume of two voxels, three particles per dimension. -/
theorem load_xraw_lattice_witness :
    ∃ v fluid1, load_xraw_host rational_arith example_data 3 (7 / 10) = some v ∧
      load_xraw rational_arith example_data 3 (7 / 10) example_fluid = some fluid1 ∧
      fluid1.params.particle_radius = 1 / 2 * (7 / 10) / ((3 : Nat) : ℚ) := by
  obtain ⟨v, fluid1, hv, hf, hr, _⟩ := load_xraw_lattice (fun q => Rat.sqrt q) (355 / 113)
    example_data 3 (7 / 10) example_fluid (by decide) (by norm_num) (by decide) (by decide)
    (by decide) (by decide) (by decide)
  exact ⟨v, fluid1, hv, hf, hr⟩

/-- C26 fails as written: in the volume of `2^30 + 1` voxels along `x` the last voxel is
FLUID and all six neighbour probes return EMPTY, and with two particles per dimension
its box starts at `int32(2^31) = -2^31`: the loop body appends 8 triples whose first
position is at lattice index `-2^31`, not at `2^30 * 2`. -/
theorem load_voxel_lattice_wraps :
    long_data.voxel_type (2 ^ 30) 0 0 = some Voxel_Type.FLUID ∧
    (∀ p ∈ neighbour_probes (2 ^ 30) 0 0,
      long_data.voxel_type p.1 p.2.1 p.2.2 = some Voxel_Type.EMPTY) ∧
    bb_lower_axis 2 (2 ^ 30) Voxel_Type.EMPTY = -2147483648 ∧
    bb_upper_axis 2 (2 ^ 30) Voxel_Type.EMPTY = -2147483647 ∧
    ∃ v, load_voxel rational_arith long_data 2 1
        (rational_arith.div 1 (rational_arith.lit 2))
        (xraw_position_offset rational_arith long_data 1) (2 ^ 30) 0 0
        (Host_Vectors.mk [] [] []) = some v ∧
      v.fluid_positions.length = 24 ∧
      v.fluid_positions[0]? = some (-3221225473 / 2 : ℚ) ∧
      (voxel_points rational_arith 2 (rational_arith.div 1 (rational_arith.lit 2))
        (xraw_position_offset rational_arith long_data 1) (2 ^ 30) 0 0)[0]?
        = some (1073741823 / 2 : ℚ) := by
  have hp := long_data_probes
  have e := load_voxel_eq rational_arith long_data 2 1
    (rational_arith.div 1 (rational_arith.lit 2))
    (xraw_position_offset rational_arith long_data 1) (2 ^ 30) 0 0
    (Host_Vectors.mk [] [] []) Voxel_Type.FLUID Voxel_Type.EMPTY Voxel_Type.EMPTY
    Voxel_Type.EMPTY Voxel_Type.EMPTY Voxel_Type.EMPTY Voxel_Type.EMPTY long_data_fluid
    (hp (u32 (2 ^ 30 + 1), 0, 0) (by simp [neighbour_probes]))
    (hp (u32 (2 ^ 30 + 2 ^ 32 - 1), 0, 0) (by simp [neighbour_probes]))
    (hp (2 ^ 30, u32 (0 + 1), 0) (by simp [neighbour_probes]))
    (hp (2 ^ 30, u32 (0 + 2 ^ 32 - 1), 0) (by simp [neighbour_probes]))
    (hp (2 ^ 30, 0, u32 (0 + 1)) (by simp [neighbour_probes]))
    (hp (2 ^ 30, 0, u32 (0 + 2 ^ 32 - 1)) (by simp [neighbour_probes]))
    (by decide) (by decide) (by decide)
  have hoff : xraw_position_offset rational_arith long_data 1
      = (-1073741825 / 2, -1 / 2, -1 / 2) := by
    show (-(((1 : Nat) : ℚ) / ((2 : Nat) : ℚ)) * 1 * ((2 ^ 30 + 1 : Nat) : ℚ),
      -(((1 : Nat) : ℚ) / ((2 : Nat) : ℚ)) * 1 * ((1 : Nat) : ℚ),
      -(((1 : Nat) : ℚ) / ((2 : Nat) : ℚ)) * 1 * ((1 : Nat) : ℚ)) = _
    norm_num
  have hps : rational_arith.div 1 (rational_arith.lit 2) = 1 / 2 := by
    show (1 : ℚ) / ((2 : Nat) : ℚ) = 1 / 2
    norm_num
  have hlo : bb_lower_axis 2 (2 ^ 30) Voxel_Type.EMPTY = -2147483648 := by decide
  have hhi : bb_upper_axis 2 (2 ^ 30) Voxel_Type.EMPTY = -2147483647 := by decide
  have hlo0 : bb_lower_axis 2 0 Voxel_Type.EMPTY = 0 := by decide
  have hhi0 : bb_upper_axis 2 0 Voxel_Type.EMPTY = 1 := by decide
  have hrx : int_range (-2147483648) (-2147483647) = [-2147483648, -2147483647] := by decide
  have hr0 : int_range 0 1 = [0, 1] := by decide
  refine ⟨long_data_fluid, hp, hlo, hhi, _, e, ?_, ?_, ?_⟩
  · show ([] ++ cube_points _ _ _ _ _).length = 24
    rw [List.nil_append, cube_points_length, hlo, hhi, hlo0, hhi0, hrx, hr0]
    rfl
  · show ([] ++ cube_points _ _ _ _ _)[0]? = _
    rw [List.nil_append, hlo, hhi, hlo0, hhi0, hoff, hps]
    unfold cube_points
    rw [hrx, hr0]
    simp only [List.flatMap_cons, List.flatMap_nil, List.append_nil, List.cons_append,
      List.nil_append, List.getElem?_cons_zero, Option.some.injEq]
    show ((-(((2147483648 : Nat) : ℚ))) * (1 / 2) + -1073741825 / 2 : ℚ) = _
    norm_num
  · rw [hoff, hps]
    unfold voxel_points
    have hr2 : List.range 2 = [0, 1] := by decide
    rw [hr2]
    simp only [List.flatMap_cons, List.flatMap_nil, List.append_nil, List.cons_append,
      List.nil_append, List.getElem?_cons_zero, Option.some.injEq]
    show (((2 ^ 30 * 2 + 0 : Nat) : ℚ) * (1 / 2) + -1073741825 / 2 : ℚ) = _
    norm_num

/-! ## The resource cache -/

theorem call_of_find {Key Value : Type} (lt : Key → Key → Bool)
    (create_entry : Nat → Key → Value) (c : Cache Key Value) (key : Key) (it : Key × Value)
    (h : c.find lt key = some it) : c.call lt create_entry key = (it.2, c) := by
  unfold Cache.call
  rw [h]

theorem call_of_not_find {Key Value : Type} (lt : Key → Key → Bool)
    (create_entry : Nat → Key → Value) (c : Cache Key Value) (key : Key)
    (h : c.find lt key = none) :
    c.call lt create_entry key
      = (create_entry c.created.length key,
          Cache.mk (c.data ++ [(key, create_entry c.created.length key)])
            (c.created ++ [key])) := by
  unfold Cache.call
  rw [h]

theorem call_data {Key Value : Type} (lt : Key → Key → Bool)
    (create_entry : Nat → Key → Value) (c : Cache Key Value) (key : Key) :
    ∃ l, (c.call lt create_entry key).2.data = c.data ++ l ∧
      ∀ e ∈ l, e.1 = key := by
  rcases h : c.find lt key with _ | it
  · rw [call_of_not_find lt create_entry c key h]
    exact ⟨_, rfl, fun e he => by rw [List.mem_singleton.1 he]⟩
  · rw [call_of_find lt create_entry c key it h]
    exact ⟨[], (List.append_nil _).symm, fun e he => absurd he (List.not_mem_nil e)⟩

theorem find_append {Key Value : Type} (lt : Key → Key → Bool) (c c2 : Cache Key Value)
    (l : List (Key × Value)) (h2 : c2.data = c.data ++ l) (key : Key) (it : Key × Value)
    (h : c.find lt key = some it) : c2.find lt key = some it := by
  unfold Cache.find at h ⊢
  rw [h2, List.find?_append, h]
  rfl

theorem call_find_stable {Key Value : Type} (lt : Key → Key → Bool)
    (create_entry : Nat → Key → Value) (c : Cache Key Value) (key other : Key)
    (it : Key × Value) (h : c.find lt other = some it) :
    (c.call lt create_entry key).2.find lt other = some it := by
  obtain ⟨l, hl, _⟩ := call_data lt create_entry c key
  exact find_append lt c _ l hl other it h

theorem run_calls_find_stable {Key Value : Type} (lt : Key → Key → Bool)
    (create_entry : Nat → Key → Value) (later : List Key) (c : Cache Key Value)
    (other : Key) (it : Key × Value) (h : c.find lt other = some it) :
    (Cache.run lt create_entry c (later.map Cache_Op.call)).find lt other = some it := by
  induction later generalizing c with
  | nil => exact h
  | cons k later ih =>
    exact ih _ (call_find_stable lt create_entry c k other it h)

theorem find_after_call {Key Value : Type} (lt : Key → Key → Bool)
    (create_entry : Nat → Key → Value) (hirr : ∀ k, lt k k = false) (c : Cache Key Value)
    (key : Key) :
    ∃ it, (c.call lt create_entry key).2.find lt key = some it ∧
      it.2 = (c.call lt create_entry key).1 := by
  rcases h : c.find lt key with _ | it
  · rw [call_of_not_find lt create_entry c key h]
    refine ⟨(key, create_entry c.created.length key), ?_, rfl⟩
    unfold Cache.find at h ⊢
    rw [List.find?_append, h]
    simp [hirr]
  · rw [call_of_find lt create_entry c key it h]
    exact ⟨it, h, rfl⟩

theorem find_none_of_fresh {Key Value : Type} (lt : Key → Key → Bool) (c : Cache Key Value)
    (key : Key) (h : ∀ e ∈ c.data, (lt e.1 key || lt key e.1) = true) :
    c.find lt key = none := by
  unfold Cache.find
  rw [List.find?_eq_none]
  intro e he
  have := h e he
  cases h1 : lt e.1 key <;> cases h2 : lt key e.1 <;> simp_all

theorem run_keys {Key Value : Type} (lt : Key → Key → Bool)
    (create_entry : Nat → Key → Value) (ops : List (Cache_Op Key)) (c : Cache Key Value)
    (keys : List Key) (h : ∀ e ∈ c.data, e.1 ∈ keys) :
    ∀ e ∈ (Cache.run lt create_entry c ops).data, e.1 ∈ keys_since_clear keys ops := by
  induction ops generalizing c keys with
  | nil => exact h
  | cons op ops ih =>
    cases op with
    | call key =>
      refine ih _ _ ?_
      obtain ⟨l, hl, hk⟩ := call_data lt create_entry c key
      intro e he
      rw [hl, List.mem_append] at he
      rcases he with he | he
      · exact List.mem_append_left _ (h e he)
      · rw [hk e he]
        exact List.mem_append_right _ (List.mem_singleton_self key)
    | clear =>
      refine ih _ _ ?_
      intro e he
      exact absurd he (List.not_mem_nil e)

theorem string_lt_irrefl (k : String) : string_lt k k = false :=
  decide_eq_false (lt_irrefl k)

/-- The order of `std::string` tells distinct strings apart. -/
theorem string_lt_total (a b : String) (h1 : string_lt a b = false)
    (h2 : string_lt b a = false) : a = b := by
  unfold string_lt at h1 h2
  exact le_antisymm (not_lt.mp (by simpa using h2)) (not_lt.mp (by simpa using h1))

/-- The lexicographic order of three strings tells distinct triples apart. -/
theorem tuple_lt_total (a b : String × String × String) (h1 : tuple_lt a b = false)
    (h2 : tuple_lt b a = false) : a = b := by
  obtain ⟨a1, a2, a3⟩ := a
  obtain ⟨b1, b2, b3⟩ := b
  unfold tuple_lt at h1 h2
  simp only [Bool.or_eq_false_iff, Bool.and_eq_false_iff, Bool.not_eq_false_eq_eq_true,
    Bool.not_eq_false'] at h1 h2
  obtain ⟨p1, p2⟩ := h1
  obtain ⟨q1, q2⟩ := h2
  have e1 : a1 = b1 := string_lt_total a1 b1 p1 q1
  subst e1
  rw [string_lt_irrefl a1] at p2 q2
  rcases p2 with p2 | ⟨p2, p3⟩
  · cases p2
  rcases q2 with q2 | ⟨q2, q3⟩
  · cases q2
  have e2 : a2 = b2 := string_lt_total a2 b2 p2 q2
  subst e2
  rw [string_lt_irrefl a2] at p3 q3
  rcases p3 with p3 | p3
  · cases p3
  rcases q3 with q3 | q3
  · cases q3
  rw [string_lt_total a3 b3 p3 q3]

theorem program_key_equivalent (a b : Program_Cache_Key)
    (hv : a.vertex_shader_path = b.vertex_shader_path)
    (hf : a.fragment_shader_path = b.fragment_shader_path) :
    Program_Cache_Key.lt a b = false := by
  unfold Program_Cache_Key.lt tuple_lt
  rw [hv, hf]
  simp [string_lt_irrefl]

/-- C23. For every cache and every key `k`, after any sequence of uses since
construction: the first lookup of `k` since construction or the last `clear` invokes
`create_entry(k)` exactly once, stores its result and returns it; any later lookup of
`k`, after any further lookups and before a `clear`, returns the same value and leaves
the cache as it is, without invoking `create_entry`; a lookup leaves the entry found
for every other key in place; and after `clear` the next lookup of `k` constructs the
entry again. The map of Cache.h:25 finds a key by its order, so "first" is taken by the
order: no key looked up before is equivalent to `k`. For an order which tells distinct
keys apart that is the first lookup of `k` itself; such are the order of `std::string`,
the key of the three shader caches, and the lexicographic order of three strings, the
order which `Program_Cache_Key::operator<` is written to be. -/
theorem cache_lookup_contract {Key Value : Type} (lt : Key → Key → Bool)
    (create_entry : Nat → Key → Value) (hirr : ∀ k, lt k k = false)
    (ops : List (Cache_Op Key)) (k : Key) :
    ((∀ k1 ∈ keys_since_clear [] ops, (lt k1 k || lt k k1) = true) →
      (Cache.run lt create_entry Cache.construct ops).call lt create_entry k
        = (create_entry (Cache.run lt create_entry Cache.construct ops).created.length k,
            Cache.mk
              ((Cache.run lt create_entry Cache.construct ops).data ++
                [(k, create_entry
                  (Cache.run lt create_entry Cache.construct ops).created.length k)])
              ((Cache.run lt create_entry Cache.construct ops).created ++ [k]))) ∧
    (∀ later : List Key,
      (Cache.run lt create_entry
          ((Cache.run lt create_entry Cache.construct ops).call lt create_entry k).2
          (later.map Cache_Op.call)).call lt create_entry k
        = (((Cache.run lt create_entry Cache.construct ops).call lt create_entry k).1,
            Cache.run lt create_entry
              ((Cache.run lt create_entry Cache.construct ops).call lt create_entry k).2
              (later.map Cache_Op.call))) ∧
    (∀ other it, (Cache.run lt create_entry Cache.construct ops).find lt other = some it →
      ((Cache.run lt create_entry Cache.construct ops).call lt create_entry k).2.find
        lt other = some it) ∧
    ((Cache.run lt create_entry Cache.construct ops).clear.call lt create_entry k
        = (create_entry (Cache.run lt create_entry Cache.construct ops).created.length k,
            Cache.mk
              [(k, create_entry
                  (Cache.run lt create_entry Cache.construct ops).created.length k)]
              ((Cache.run lt create_entry Cache.construct ops).created ++ [k]))) ∧
    ((∀ a b, lt a b = false → lt b a = false → a = b) →
      k ∉ keys_since_clear [] ops →
      (Cache.run lt create_entry Cache.construct ops).call lt create_entry k
        = (create_entry (Cache.run lt create_entry Cache.construct ops).created.length k,
            Cache.mk
              ((Cache.run lt create_entry Cache.construct ops).data ++
                [(k, create_entry
                  (Cache.run lt create_entry Cache.construct ops).created.length k)])
              ((Cache.run lt create_entry Cache.construct ops).created ++ [k]))) ∧
    (∀ a b : String, string_lt a b = false → string_lt b a = false → a = b) ∧
    (∀ a b : String × String × String, tuple_lt a b = false → tuple_lt b a = false →
      a = b) := by
  have hkeys := run_keys lt create_entry ops Cache.construct []
    (fun e he => absurd he (List.not_mem_nil e))
  have first : (∀ k1 ∈ keys_since_clear [] ops, (lt k1 k || lt k k1) = true) →
      (Cache.run lt create_entry Cache.construct ops).find lt k = none :=
    fun h => find_none_of_fresh lt _ k (fun e he => h e.1 (hkeys e he))
  refine ⟨fun h => call_of_not_find lt create_entry _ k (first h), ?_,
    fun other it h => call_find_stable lt create_entry _ k other it h, ?_, ?_,
    string_lt_total, tuple_lt_total⟩
  · intro later
    obtain ⟨it, hit, hv⟩ := find_after_call lt create_entry hirr
      (Cache.run lt create_entry Cache.construct ops) k
    rw [call_of_find lt create_entry _ k it
      (run_calls_find_stable lt create_entry later _ k it hit), hv]
  · exact call_of_not_find lt create_entry _ k rfl
  · intro htot hk
    refine call_of_not_find lt create_entry _ k (first ?_)
    intro k1 hk1
    cases h1 : lt k1 k <;> cases h2 : lt k k1 <;> simp
    exact hk (htot k1 k h1 h2 ▸ hk1)

/-- C23 on a cache keyed by numbers: after lookups of 1 and 2, a lookup of 3 makes the
third entry, and a later lookup of 3 returns it. -/
theorem cache_lookup_contract_witness :
    (Cache.run (fun a b : Nat => decide (a < b)) (fun n key => (n, key)) Cache.construct
        [Cache_Op.call 1, Cache_Op.call 2]).call (fun a b : Nat => decide (a < b))
        (fun n key => (n, key)) 3
      = ((2, 3), Cache.mk [(1, (0, 1)), (2, (1, 2)), (3, (2, 3))] [1, 2, 3]) ∧
    (Cache.run (fun a b : Nat => decide (a < b)) (fun n key => (n, key)) Cache.construct
        [Cache_Op.call 1, Cache_Op.call 2, Cache_Op.call 3, Cache_Op.call 1]).call
        (fun a b : Nat => decide (a < b)) (fun n key => (n, key)) 3
      = ((2, 3), Cache.mk [(1, (0, 1)), (2, (1, 2)), (3, (2, 3))] [1, 2, 3]) :=
  have h := cache_lookup_contract (fun a b : Nat => decide (a < b)) (fun n key => (n, key))
    (fun k => decide_eq_false (Nat.lt_irrefl k)) [Cache_Op.call 1, Cache_Op.call 2] 3
  ⟨(h.1 (by decide)).trans rfl, (h.2.1 [1]).trans rfl⟩

/-- C25: `Program_Cache_Key::operator<` never tells apart two keys with the same vertex
and fragment shader paths, whatever their compute shader paths: neither is less than
the other, so they are equivalent in the map. Hence, for any two compute shader paths,
after `get_cached_compute_program(p1)` on a new program cache,
`get_cached_compute_program(p2)` returns the program made for `p1`, to which the compute
shader of `p1` is attached when `p1` is not empty, and makes no program of its own. -/
theorem program_key_ignores_compute_path :
    (∀ a b : Program_Cache_Key, a.vertex_shader_path = b.vertex_shader_path →
      a.fragment_shader_path = b.fragment_shader_path →
      Program_Cache_Key.lt a b = false ∧ Program_Cache_Key.lt b a = false) ∧
    (∀ p1 p2 : String,
      (get_cached_compute_program (get_cached_compute_program Cache.construct p1).2 p2)
        = ((get_cached_compute_program Cache.construct p1).1,
            (get_cached_compute_program Cache.construct p1).2) ∧
      (get_cached_compute_program Cache.construct p1).1
        = Program_Cache.create_entry 0 (Program_Cache_Key.mk "" "" p1) ∧
      (get_cached_compute_program (get_cached_compute_program Cache.construct p1).2 p2).2.created
        = [Program_Cache_Key.mk "" "" p1] ∧
      (p1 ≠ "" →
        (get_cached_compute_program (get_cached_compute_program Cache.construct p1).2
          p2).1.attached = [(Shader_Kind.compute, p1)])) ∧
    (get_cached_compute_program (get_cached_compute_program Cache.construct "a.comp").2
        "b.comp").1
      = Program.mk 0 [(Shader_Kind.compute, "a.comp")] true := by
  have key : ∀ p1 p2 : String,
      get_cached_compute_program (get_cached_compute_program Cache.construct p1).2 p2
        = (Program_Cache.create_entry 0 (Program_Cache_Key.mk "" "" p1),
            (get_cached_compute_program Cache.construct p1).2) := by
    intro p1 p2
    unfold get_cached_compute_program
    apply call_of_find _ _ _ _ (Program_Cache_Key.mk "" "" p1,
      Program_Cache.create_entry 0 (Program_Cache_Key.mk "" "" p1))
    have e1 : Program_Cache_Key.lt (Program_Cache_Key.mk "" "" p1)
        (Program_Cache_Key.mk "" "" p2) = false := program_key_equivalent _ _ rfl rfl
    have e2 : Program_Cache_Key.lt (Program_Cache_Key.mk "" "" p2)
        (Program_Cache_Key.mk "" "" p1) = false := program_key_equivalent _ _ rfl rfl
    show List.find? (fun it => !Program_Cache_Key.lt it.1 (Program_Cache_Key.mk "" "" p2)
        && !Program_Cache_Key.lt (Program_Cache_Key.mk "" "" p2) it.1)
      [(Program_Cache_Key.mk "" "" p1,
        Program_Cache.create_entry 0 (Program_Cache_Key.mk "" "" p1))] = _
    simp only [List.find?, e1, e2, Bool.not_false, Bool.and_self]
  refine ⟨fun a b hv hf => ⟨program_key_equivalent a b hv hf,
    program_key_equivalent b a hv.symm hf.symm⟩, fun p1 p2 => ⟨?_, rfl, ?_, ?_⟩, ?_⟩
  · rw [key]
    rfl
  · rw [key]
    rfl
  · intro h
    rw [key]
    show (Program_Cache.create_entry 0 (Program_Cache_Key.mk "" "" p1)).attached = _
    simp [Program_Cache.create_entry, h]
  · rw [key]
    decide

end PCISPH
